import Mathlib

/-!
# LIM message deferral and the vOSS reentrant lock

A shallow embedding of

* `CORE/MAC/src/pe/lim/limProcessMessageQueue.c`: the deferral decision
  (`defMsgDecision`), the wrapper `limMessageProcessor`, the dispatcher
  `limProcessMessages` and the replay loop `limProcessDeferredMessageQueue`;
* `CORE/VOSS/src/vos_lock.c`: `vos_lock_init`, `vos_lock_acquire`,
  `vos_lock_release`, `vos_lock_destroy`.

Global variables of the driver become fields of an explicit state that is passed
through every function.  Calls that leave the two files (handlers, buffer
release, logging) are recorded, in order, in a ghost list `World.trace`; their
effect on the state is given by an environment `Env`, about which nothing is
assumed.
-/

namespace Lim

/-! ## Data model -/

/-- Modelled from the spec: the event-kind discriminant of a message (the
`SIR_*`, `WDA_*`, `eWNI_*` constants of `sirParams.h`, `wlan_qct_wda.h` and
`wniApi.h`, which are not among the sources).  One constructor for every kind
the embedded code names, `other` for all remaining 16-bit codes.  The kinds
`SIR_HAL_P2P_NOA_START_IND` and `SIR_HAL_P2P_NOA_ATTR_IND` are the kinds
`WDA_P2P_NOA_START_IND` and `WDA_P2P_NOA_ATTR_IND` under another name. -/
inductive MsgType where
  | WDA_ADD_BSS_RSP
  | WDA_DELETE_BSS_RSP
  | WDA_ADD_STA_RSP
  | WDA_ADD_STA_SELF_RSP
  | WDA_DEL_STA_SELF_RSP
  | WDA_DELETE_STA_RSP
  | WDA_SET_BSSKEY_RSP
  | WDA_SET_STAKEY_RSP
  | WDA_SET_STA_BCASTKEY_RSP
  | eWNI_SME_START_REQ
  | WDA_AGGR_QOS_RSP
  | WDA_REMOVE_BSSKEY_RSP
  | WDA_REMOVE_STAKEY_RSP
  | WDA_SET_MIMOPS_RSP
  | WDA_ADDBA_RSP
  | WDA_ENTER_BMPS_RSP
  | WDA_EXIT_BMPS_RSP
  | WDA_ENTER_IMPS_RSP
  | WDA_EXIT_IMPS_RSP
  | WDA_ENTER_UAPSD_RSP
  | WDA_EXIT_UAPSD_RSP
  | WDA_WOWL_ENTER_RSP
  | WDA_WOWL_EXIT_RSP
  | WDA_SWITCH_CHANNEL_RSP
  | WDA_P2P_NOA_ATTR_IND
  | WDA_P2P_NOA_START_IND
  | WDA_START_OEM_DATA_RSP
  | WDA_ADD_TS_RSP
  | SIR_BB_XPORT_MGMT_MSG
  | SIR_LIM_UPDATE_BEACON
  | SIR_CFG_PARAM_UPDATE_IND
  | SIR_LIM_HEART_BEAT_TIMEOUT
  | WDA_INIT_SCAN_RSP
  | WDA_START_SCAN_RSP
  | WDA_END_SCAN_RSP
  | WDA_FINISH_SCAN_RSP
  | WDA_IBSS_STA_ADD
  | eWNI_SME_SCAN_REQ
  | eWNI_SME_REMAIN_ON_CHANNEL_REQ
  | eWNI_SME_DISASSOC_REQ
  | eWNI_SME_DEAUTH_REQ
  | eWNI_SME_GET_SCANNED_CHANNEL_REQ
  | eWNI_SME_OEM_DATA_REQ
  | eWNI_SME_TDLS_SEND_MGMT_REQ
  | eWNI_SME_TDLS_ADD_STA_REQ
  | eWNI_SME_TDLS_DEL_STA_REQ
  | eWNI_SME_TDLS_LINK_ESTABLISH_REQ
  | eWNI_SME_RESET_AP_CAPS_CHANGED
  | eWNI_SME_SCAN_ABORT_IND
  | eWNI_SME_PDEV_SET_HT_VHT_IE
  | eWNI_SME_SYS_READY_IND
  | eWNI_SME_JOIN_REQ
  | eWNI_SME_REASSOC_REQ
  | eWNI_SME_START_BSS_REQ
  | eWNI_SME_STOP_BSS_REQ
  | eWNI_SME_SWITCH_CHL_REQ
  | eWNI_SME_SWITCH_CHL_CB_PRIMARY_REQ
  | eWNI_SME_SWITCH_CHL_CB_SECONDARY_REQ
  | eWNI_SME_SETCONTEXT_REQ
  | eWNI_SME_REMOVEKEY_REQ
  | eWNI_SME_DISASSOC_CNF
  | eWNI_SME_DEAUTH_CNF
  | eWNI_SME_ASSOC_CNF
  | eWNI_SME_REASSOC_CNF
  | eWNI_SME_ADDTS_REQ
  | eWNI_SME_DELTS_REQ
  | eWNI_SME_DEL_BA_PEER_IND
  | eWNI_SME_SET_TX_POWER_REQ
  | eWNI_SME_GET_TX_POWER_REQ
  | eWNI_SME_GET_NOISE_REQ
  | eWNI_SME_GET_ASSOC_STAS_REQ
  | eWNI_SME_TKIP_CNTR_MEAS_REQ
  | eWNI_SME_UPDATE_APWPSIE_REQ
  | eWNI_SME_HIDE_SSID_REQ
  | eWNI_SME_GET_WPSPBC_SESSION_REQ
  | eWNI_SME_SET_APWPARSNIEs_REQ
  | eWNI_SME_CHNG_MCC_BEACON_INTERVAL
  | eWNI_SME_NEIGHBOR_REPORT_REQ_IND
  | eWNI_SME_BEACON_REPORT_RESP_XMIT_IND
  | eWNI_SME_ESE_ADJACENT_AP_REPORT
  | eWNI_SME_FT_UPDATE_KEY
  | eWNI_SME_FT_PRE_AUTH_REQ
  | eWNI_SME_FT_AGGR_QOS_REQ
  | eWNI_SME_ADD_STA_SELF_REQ
  | eWNI_SME_DEL_STA_SELF_REQ
  | eWNI_SME_REGISTER_MGMT_FRAME_REQ
  | eWNI_SME_UPDATE_NOA
  | eWNI_SME_CLEAR_DFS_CHANNEL_LIST
  | eWNI_SME_CLEAR_LIM_SCAN_CACHE
  | eWNI_SME_STA_STAT_REQ
  | eWNI_SME_AGGR_STAT_REQ
  | eWNI_SME_GLOBAL_STAT_REQ
  | eWNI_SME_STAT_SUMM_REQ
  | eWNI_SME_GET_STATISTICS_REQ
  | eWNI_SME_GET_TSM_STATS_REQ
  | eWNI_SME_EXT_CHANGE_CHANNEL
  | eWNI_PMC_PWR_SAVE_CFG
  | eWNI_PMC_ENTER_BMPS_REQ
  | eWNI_PMC_EXIT_BMPS_REQ
  | eWNI_PMC_ENTER_IMPS_REQ
  | eWNI_PMC_EXIT_IMPS_REQ
  | eWNI_PMC_ENTER_UAPSD_REQ
  | eWNI_PMC_EXIT_UAPSD_REQ
  | eWNI_PMC_ENTER_WOWL_REQ
  | eWNI_PMC_EXIT_WOWL_REQ
  | eWNI_PMC_WOWL_ADD_BCAST_PTRN
  | eWNI_PMC_WOWL_DEL_BCAST_PTRN
  | eWNI_PMC_SMPS_STATE_IND
  | eWNI_SME_SEND_ACTION_FRAME_IND
  | eWNI_SME_ABORT_REMAIN_ON_CHAN_IND
  | SIR_HAL_TDLS_IND
  | eWNI_SME_PRE_CHANNEL_SWITCH_FULL_POWER
  | WDA_EXIT_BMPS_IND
  | WDA_MISSED_BEACON_IND
  | WDA_MIC_FAILURE_IND
  | WDA_ROAM_OFFLOAD_SYNCH_IND
  | SIR_LIM_ADDTS_RSP_TIMEOUT
  | SIR_LIM_ESE_TSM_TIMEOUT
  | WDA_TSM_STATS_RSP
  | SIR_LIM_DEL_TS_IND
  | SIR_LIM_ADD_BA_IND
  | SIR_LIM_DEL_BA_ALL_IND
  | SIR_LIM_DEL_BA_IND
  | SIR_LIM_BEACON_GEN_IND
  | SIR_LIM_DELETE_STA_CONTEXT_IND
  | SIR_LIM_MIN_CHANNEL_TIMEOUT
  | SIR_LIM_MAX_CHANNEL_TIMEOUT
  | SIR_LIM_PERIODIC_PROBE_REQ_TIMEOUT
  | SIR_LIM_JOIN_FAIL_TIMEOUT
  | SIR_LIM_PERIODIC_JOIN_PROBE_REQ_TIMEOUT
  | SIR_LIM_AUTH_FAIL_TIMEOUT
  | SIR_LIM_AUTH_RSP_TIMEOUT
  | SIR_LIM_ASSOC_FAIL_TIMEOUT
  | SIR_LIM_REASSOC_FAIL_TIMEOUT
  | SIR_LIM_FT_PREAUTH_RSP_TIMEOUT
  | SIR_LIM_REMAIN_CHN_TIMEOUT
  | SIR_LIM_INSERT_SINGLESHOT_NOA_TIMEOUT
  | SIR_LIM_DISASSOC_ACK_TIMEOUT
  | SIR_LIM_DEAUTH_ACK_TIMEOUT
  | SIR_LIM_CONVERT_ACTIVE_CHANNEL_TO_PASSIVE
  | SIR_LIM_AUTH_RETRY_TIMEOUT
  | SIR_LIM_PROBE_HB_FAILURE_TIMEOUT
  | SIR_LIM_CHANNEL_SCAN_TIMEOUT
  | SIR_LIM_HASH_MISS_THRES_TIMEOUT
  | SIR_LIM_CNF_WAIT_TIMEOUT
  | SIR_LIM_KEEPALIVE_TIMEOUT
  | SIR_LIM_RETRY_INTERRUPT_MSG
  | SIR_LIM_INV_KEY_INTERRUPT_MSG
  | SIR_LIM_KEY_ID_INTERRUPT_MSG
  | SIR_LIM_REPLAY_THRES_INTERRUPT_MSG
  | SIR_LIM_CHANNEL_SWITCH_TIMEOUT
  | SIR_LIM_QUIET_TIMEOUT
  | SIR_LIM_QUIET_BSS_TIMEOUT
  | SIR_LIM_UPDATE_OLBC_CACHEL_TIMEOUT
  | SIR_HAL_TDLS_SHOULD_DISCOVER
  | SIR_HAL_TDLS_SHOULD_TEARDOWN
  | SIR_HAL_TDLS_PEER_DISCONNECTED
  | WDA_UPDATE_Q2Q_IE_IND
  | WDA_CSA_OFFLOAD_EVENT
  | WDA_STA_STAT_RSP
  | WDA_AGGR_STAT_RSP
  | WDA_GLOBAL_STAT_RSP
  | WDA_STAT_SUMM_RSP
  | WDA_GET_STATISTICS_RSP
  | WDA_SET_TX_POWER_RSP
  | WDA_SET_MAX_TX_POWER_RSP
  | SIR_LIM_ADDR2_MISS_IND
  | WDA_SET_LINK_STATE_RSP
  | WDA_PACKET_COALESCING_FILTER_MATCH_COUNT_RSP
  | WDA_GTK_OFFLOAD_GETINFO_RSP
  | eWNI_SME_SET_BCN_FILTER_REQ
  | WDA_SET_TDLS_LINK_ESTABLISH_REQ_RSP
  | WDA_RX_SCAN_EVENT
  | WDA_IBSS_PEER_INACTIVITY_IND
  | WDA_DFS_RADAR_IND
  | WDA_DFS_BEACON_TX_SUCCESS_IND
  | WDA_DISASSOC_TX_COMP
  | WDA_DEAUTH_TX_COMP
  | eWNI_SME_DFS_BEACON_CHAN_SW_IE_REQ
  | eWNI_SME_CHANNEL_CHANGE_REQ
  | eWNI_SME_START_BEACON_REQ
  | eWNI_SME_UPDATE_ADDITIONAL_IES
  | eWNI_SME_MODIFY_ADDITIONAL_IES
  | eWNI_SME_SET_HT_2040_MODE
  | WDA_SAP_OFL_ADD_STA
  | WDA_SAP_OFL_DEL_STA
  | WDA_STOP_SCAN_OFFLOAD_REQ
  | LIM_MLM_OEM_DATA_CNF
  | other (code : Nat)
deriving Repr

namespace MsgType

/-- Position of a kind in the declaration above (not its numeric message code);
the codes of `other` come after the named kinds.  Used to decide equality of
kinds. -/
def index : MsgType → Nat
  | .WDA_ADD_BSS_RSP => 0
  | .WDA_DELETE_BSS_RSP => 1
  | .WDA_ADD_STA_RSP => 2
  | .WDA_ADD_STA_SELF_RSP => 3
  | .WDA_DEL_STA_SELF_RSP => 4
  | .WDA_DELETE_STA_RSP => 5
  | .WDA_SET_BSSKEY_RSP => 6
  | .WDA_SET_STAKEY_RSP => 7
  | .WDA_SET_STA_BCASTKEY_RSP => 8
  | .eWNI_SME_START_REQ => 9
  | .WDA_AGGR_QOS_RSP => 10
  | .WDA_REMOVE_BSSKEY_RSP => 11
  | .WDA_REMOVE_STAKEY_RSP => 12
  | .WDA_SET_MIMOPS_RSP => 13
  | .WDA_ADDBA_RSP => 14
  | .WDA_ENTER_BMPS_RSP => 15
  | .WDA_EXIT_BMPS_RSP => 16
  | .WDA_ENTER_IMPS_RSP => 17
  | .WDA_EXIT_IMPS_RSP => 18
  | .WDA_ENTER_UAPSD_RSP => 19
  | .WDA_EXIT_UAPSD_RSP => 20
  | .WDA_WOWL_ENTER_RSP => 21
  | .WDA_WOWL_EXIT_RSP => 22
  | .WDA_SWITCH_CHANNEL_RSP => 23
  | .WDA_P2P_NOA_ATTR_IND => 24
  | .WDA_P2P_NOA_START_IND => 25
  | .WDA_START_OEM_DATA_RSP => 26
  | .WDA_ADD_TS_RSP => 27
  | .SIR_BB_XPORT_MGMT_MSG => 28
  | .SIR_LIM_UPDATE_BEACON => 29
  | .SIR_CFG_PARAM_UPDATE_IND => 30
  | .SIR_LIM_HEART_BEAT_TIMEOUT => 31
  | .WDA_INIT_SCAN_RSP => 32
  | .WDA_START_SCAN_RSP => 33
  | .WDA_END_SCAN_RSP => 34
  | .WDA_FINISH_SCAN_RSP => 35
  | .WDA_IBSS_STA_ADD => 36
  | .eWNI_SME_SCAN_REQ => 37
  | .eWNI_SME_REMAIN_ON_CHANNEL_REQ => 38
  | .eWNI_SME_DISASSOC_REQ => 39
  | .eWNI_SME_DEAUTH_REQ => 40
  | .eWNI_SME_GET_SCANNED_CHANNEL_REQ => 41
  | .eWNI_SME_OEM_DATA_REQ => 42
  | .eWNI_SME_TDLS_SEND_MGMT_REQ => 43
  | .eWNI_SME_TDLS_ADD_STA_REQ => 44
  | .eWNI_SME_TDLS_DEL_STA_REQ => 45
  | .eWNI_SME_TDLS_LINK_ESTABLISH_REQ => 46
  | .eWNI_SME_RESET_AP_CAPS_CHANGED => 47
  | .eWNI_SME_SCAN_ABORT_IND => 48
  | .eWNI_SME_PDEV_SET_HT_VHT_IE => 49
  | .eWNI_SME_SYS_READY_IND => 50
  | .eWNI_SME_JOIN_REQ => 51
  | .eWNI_SME_REASSOC_REQ => 52
  | .eWNI_SME_START_BSS_REQ => 53
  | .eWNI_SME_STOP_BSS_REQ => 54
  | .eWNI_SME_SWITCH_CHL_REQ => 55
  | .eWNI_SME_SWITCH_CHL_CB_PRIMARY_REQ => 56
  | .eWNI_SME_SWITCH_CHL_CB_SECONDARY_REQ => 57
  | .eWNI_SME_SETCONTEXT_REQ => 58
  | .eWNI_SME_REMOVEKEY_REQ => 59
  | .eWNI_SME_DISASSOC_CNF => 60
  | .eWNI_SME_DEAUTH_CNF => 61
  | .eWNI_SME_ASSOC_CNF => 62
  | .eWNI_SME_REASSOC_CNF => 63
  | .eWNI_SME_ADDTS_REQ => 64
  | .eWNI_SME_DELTS_REQ => 65
  | .eWNI_SME_DEL_BA_PEER_IND => 66
  | .eWNI_SME_SET_TX_POWER_REQ => 67
  | .eWNI_SME_GET_TX_POWER_REQ => 68
  | .eWNI_SME_GET_NOISE_REQ => 69
  | .eWNI_SME_GET_ASSOC_STAS_REQ => 70
  | .eWNI_SME_TKIP_CNTR_MEAS_REQ => 71
  | .eWNI_SME_UPDATE_APWPSIE_REQ => 72
  | .eWNI_SME_HIDE_SSID_REQ => 73
  | .eWNI_SME_GET_WPSPBC_SESSION_REQ => 74
  | .eWNI_SME_SET_APWPARSNIEs_REQ => 75
  | .eWNI_SME_CHNG_MCC_BEACON_INTERVAL => 76
  | .eWNI_SME_NEIGHBOR_REPORT_REQ_IND => 77
  | .eWNI_SME_BEACON_REPORT_RESP_XMIT_IND => 78
  | .eWNI_SME_ESE_ADJACENT_AP_REPORT => 79
  | .eWNI_SME_FT_UPDATE_KEY => 80
  | .eWNI_SME_FT_PRE_AUTH_REQ => 81
  | .eWNI_SME_FT_AGGR_QOS_REQ => 82
  | .eWNI_SME_ADD_STA_SELF_REQ => 83
  | .eWNI_SME_DEL_STA_SELF_REQ => 84
  | .eWNI_SME_REGISTER_MGMT_FRAME_REQ => 85
  | .eWNI_SME_UPDATE_NOA => 86
  | .eWNI_SME_CLEAR_DFS_CHANNEL_LIST => 87
  | .eWNI_SME_CLEAR_LIM_SCAN_CACHE => 88
  | .eWNI_SME_STA_STAT_REQ => 89
  | .eWNI_SME_AGGR_STAT_REQ => 90
  | .eWNI_SME_GLOBAL_STAT_REQ => 91
  | .eWNI_SME_STAT_SUMM_REQ => 92
  | .eWNI_SME_GET_STATISTICS_REQ => 93
  | .eWNI_SME_GET_TSM_STATS_REQ => 94
  | .eWNI_SME_EXT_CHANGE_CHANNEL => 95
  | .eWNI_PMC_PWR_SAVE_CFG => 96
  | .eWNI_PMC_ENTER_BMPS_REQ => 97
  | .eWNI_PMC_EXIT_BMPS_REQ => 98
  | .eWNI_PMC_ENTER_IMPS_REQ => 99
  | .eWNI_PMC_EXIT_IMPS_REQ => 100
  | .eWNI_PMC_ENTER_UAPSD_REQ => 101
  | .eWNI_PMC_EXIT_UAPSD_REQ => 102
  | .eWNI_PMC_ENTER_WOWL_REQ => 103
  | .eWNI_PMC_EXIT_WOWL_REQ => 104
  | .eWNI_PMC_WOWL_ADD_BCAST_PTRN => 105
  | .eWNI_PMC_WOWL_DEL_BCAST_PTRN => 106
  | .eWNI_PMC_SMPS_STATE_IND => 107
  | .eWNI_SME_SEND_ACTION_FRAME_IND => 108
  | .eWNI_SME_ABORT_REMAIN_ON_CHAN_IND => 109
  | .SIR_HAL_TDLS_IND => 110
  | .eWNI_SME_PRE_CHANNEL_SWITCH_FULL_POWER => 111
  | .WDA_EXIT_BMPS_IND => 112
  | .WDA_MISSED_BEACON_IND => 113
  | .WDA_MIC_FAILURE_IND => 114
  | .WDA_ROAM_OFFLOAD_SYNCH_IND => 115
  | .SIR_LIM_ADDTS_RSP_TIMEOUT => 116
  | .SIR_LIM_ESE_TSM_TIMEOUT => 117
  | .WDA_TSM_STATS_RSP => 118
  | .SIR_LIM_DEL_TS_IND => 119
  | .SIR_LIM_ADD_BA_IND => 120
  | .SIR_LIM_DEL_BA_ALL_IND => 121
  | .SIR_LIM_DEL_BA_IND => 122
  | .SIR_LIM_BEACON_GEN_IND => 123
  | .SIR_LIM_DELETE_STA_CONTEXT_IND => 124
  | .SIR_LIM_MIN_CHANNEL_TIMEOUT => 125
  | .SIR_LIM_MAX_CHANNEL_TIMEOUT => 126
  | .SIR_LIM_PERIODIC_PROBE_REQ_TIMEOUT => 127
  | .SIR_LIM_JOIN_FAIL_TIMEOUT => 128
  | .SIR_LIM_PERIODIC_JOIN_PROBE_REQ_TIMEOUT => 129
  | .SIR_LIM_AUTH_FAIL_TIMEOUT => 130
  | .SIR_LIM_AUTH_RSP_TIMEOUT => 131
  | .SIR_LIM_ASSOC_FAIL_TIMEOUT => 132
  | .SIR_LIM_REASSOC_FAIL_TIMEOUT => 133
  | .SIR_LIM_FT_PREAUTH_RSP_TIMEOUT => 134
  | .SIR_LIM_REMAIN_CHN_TIMEOUT => 135
  | .SIR_LIM_INSERT_SINGLESHOT_NOA_TIMEOUT => 136
  | .SIR_LIM_DISASSOC_ACK_TIMEOUT => 137
  | .SIR_LIM_DEAUTH_ACK_TIMEOUT => 138
  | .SIR_LIM_CONVERT_ACTIVE_CHANNEL_TO_PASSIVE => 139
  | .SIR_LIM_AUTH_RETRY_TIMEOUT => 140
  | .SIR_LIM_PROBE_HB_FAILURE_TIMEOUT => 141
  | .SIR_LIM_CHANNEL_SCAN_TIMEOUT => 142
  | .SIR_LIM_HASH_MISS_THRES_TIMEOUT => 143
  | .SIR_LIM_CNF_WAIT_TIMEOUT => 144
  | .SIR_LIM_KEEPALIVE_TIMEOUT => 145
  | .SIR_LIM_RETRY_INTERRUPT_MSG => 146
  | .SIR_LIM_INV_KEY_INTERRUPT_MSG => 147
  | .SIR_LIM_KEY_ID_INTERRUPT_MSG => 148
  | .SIR_LIM_REPLAY_THRES_INTERRUPT_MSG => 149
  | .SIR_LIM_CHANNEL_SWITCH_TIMEOUT => 150
  | .SIR_LIM_QUIET_TIMEOUT => 151
  | .SIR_LIM_QUIET_BSS_TIMEOUT => 152
  | .SIR_LIM_UPDATE_OLBC_CACHEL_TIMEOUT => 153
  | .SIR_HAL_TDLS_SHOULD_DISCOVER => 154
  | .SIR_HAL_TDLS_SHOULD_TEARDOWN => 155
  | .SIR_HAL_TDLS_PEER_DISCONNECTED => 156
  | .WDA_UPDATE_Q2Q_IE_IND => 157
  | .WDA_CSA_OFFLOAD_EVENT => 158
  | .WDA_STA_STAT_RSP => 159
  | .WDA_AGGR_STAT_RSP => 160
  | .WDA_GLOBAL_STAT_RSP => 161
  | .WDA_STAT_SUMM_RSP => 162
  | .WDA_GET_STATISTICS_RSP => 163
  | .WDA_SET_TX_POWER_RSP => 164
  | .WDA_SET_MAX_TX_POWER_RSP => 165
  | .SIR_LIM_ADDR2_MISS_IND => 166
  | .WDA_SET_LINK_STATE_RSP => 167
  | .WDA_PACKET_COALESCING_FILTER_MATCH_COUNT_RSP => 168
  | .WDA_GTK_OFFLOAD_GETINFO_RSP => 169
  | .eWNI_SME_SET_BCN_FILTER_REQ => 170
  | .WDA_SET_TDLS_LINK_ESTABLISH_REQ_RSP => 171
  | .WDA_RX_SCAN_EVENT => 172
  | .WDA_IBSS_PEER_INACTIVITY_IND => 173
  | .WDA_DFS_RADAR_IND => 174
  | .WDA_DFS_BEACON_TX_SUCCESS_IND => 175
  | .WDA_DISASSOC_TX_COMP => 176
  | .WDA_DEAUTH_TX_COMP => 177
  | .eWNI_SME_DFS_BEACON_CHAN_SW_IE_REQ => 178
  | .eWNI_SME_CHANNEL_CHANGE_REQ => 179
  | .eWNI_SME_START_BEACON_REQ => 180
  | .eWNI_SME_UPDATE_ADDITIONAL_IES => 181
  | .eWNI_SME_MODIFY_ADDITIONAL_IES => 182
  | .eWNI_SME_SET_HT_2040_MODE => 183
  | .WDA_SAP_OFL_ADD_STA => 184
  | .WDA_SAP_OFL_DEL_STA => 185
  | .WDA_STOP_SCAN_OFFLOAD_REQ => 186
  | .LIM_MLM_OEM_DATA_CNF => 187
  | .other code => 188 + code

/-- The named kinds, in the order of their declaration. -/
def named : List MsgType :=
  [MsgType.WDA_ADD_BSS_RSP, MsgType.WDA_DELETE_BSS_RSP, MsgType.WDA_ADD_STA_RSP,
   MsgType.WDA_ADD_STA_SELF_RSP, MsgType.WDA_DEL_STA_SELF_RSP, MsgType.WDA_DELETE_STA_RSP,
   MsgType.WDA_SET_BSSKEY_RSP, MsgType.WDA_SET_STAKEY_RSP, MsgType.WDA_SET_STA_BCASTKEY_RSP,
   MsgType.eWNI_SME_START_REQ, MsgType.WDA_AGGR_QOS_RSP, MsgType.WDA_REMOVE_BSSKEY_RSP,
   MsgType.WDA_REMOVE_STAKEY_RSP, MsgType.WDA_SET_MIMOPS_RSP, MsgType.WDA_ADDBA_RSP,
   MsgType.WDA_ENTER_BMPS_RSP, MsgType.WDA_EXIT_BMPS_RSP, MsgType.WDA_ENTER_IMPS_RSP,
   MsgType.WDA_EXIT_IMPS_RSP, MsgType.WDA_ENTER_UAPSD_RSP, MsgType.WDA_EXIT_UAPSD_RSP,
   MsgType.WDA_WOWL_ENTER_RSP, MsgType.WDA_WOWL_EXIT_RSP, MsgType.WDA_SWITCH_CHANNEL_RSP,
   MsgType.WDA_P2P_NOA_ATTR_IND, MsgType.WDA_P2P_NOA_START_IND, MsgType.WDA_START_OEM_DATA_RSP,
   MsgType.WDA_ADD_TS_RSP, MsgType.SIR_BB_XPORT_MGMT_MSG, MsgType.SIR_LIM_UPDATE_BEACON,
   MsgType.SIR_CFG_PARAM_UPDATE_IND, MsgType.SIR_LIM_HEART_BEAT_TIMEOUT,
   MsgType.WDA_INIT_SCAN_RSP, MsgType.WDA_START_SCAN_RSP, MsgType.WDA_END_SCAN_RSP,
   MsgType.WDA_FINISH_SCAN_RSP, MsgType.WDA_IBSS_STA_ADD, MsgType.eWNI_SME_SCAN_REQ,
   MsgType.eWNI_SME_REMAIN_ON_CHANNEL_REQ, MsgType.eWNI_SME_DISASSOC_REQ,
   MsgType.eWNI_SME_DEAUTH_REQ, MsgType.eWNI_SME_GET_SCANNED_CHANNEL_REQ,
   MsgType.eWNI_SME_OEM_DATA_REQ, MsgType.eWNI_SME_TDLS_SEND_MGMT_REQ,
   MsgType.eWNI_SME_TDLS_ADD_STA_REQ, MsgType.eWNI_SME_TDLS_DEL_STA_REQ,
   MsgType.eWNI_SME_TDLS_LINK_ESTABLISH_REQ, MsgType.eWNI_SME_RESET_AP_CAPS_CHANGED,
   MsgType.eWNI_SME_SCAN_ABORT_IND, MsgType.eWNI_SME_PDEV_SET_HT_VHT_IE,
   MsgType.eWNI_SME_SYS_READY_IND, MsgType.eWNI_SME_JOIN_REQ, MsgType.eWNI_SME_REASSOC_REQ,
   MsgType.eWNI_SME_START_BSS_REQ, MsgType.eWNI_SME_STOP_BSS_REQ,
   MsgType.eWNI_SME_SWITCH_CHL_REQ, MsgType.eWNI_SME_SWITCH_CHL_CB_PRIMARY_REQ,
   MsgType.eWNI_SME_SWITCH_CHL_CB_SECONDARY_REQ, MsgType.eWNI_SME_SETCONTEXT_REQ,
   MsgType.eWNI_SME_REMOVEKEY_REQ, MsgType.eWNI_SME_DISASSOC_CNF, MsgType.eWNI_SME_DEAUTH_CNF,
   MsgType.eWNI_SME_ASSOC_CNF, MsgType.eWNI_SME_REASSOC_CNF, MsgType.eWNI_SME_ADDTS_REQ,
   MsgType.eWNI_SME_DELTS_REQ, MsgType.eWNI_SME_DEL_BA_PEER_IND,
   MsgType.eWNI_SME_SET_TX_POWER_REQ, MsgType.eWNI_SME_GET_TX_POWER_REQ,
   MsgType.eWNI_SME_GET_NOISE_REQ, MsgType.eWNI_SME_GET_ASSOC_STAS_REQ,
   MsgType.eWNI_SME_TKIP_CNTR_MEAS_REQ, MsgType.eWNI_SME_UPDATE_APWPSIE_REQ,
   MsgType.eWNI_SME_HIDE_SSID_REQ, MsgType.eWNI_SME_GET_WPSPBC_SESSION_REQ,
   MsgType.eWNI_SME_SET_APWPARSNIEs_REQ, MsgType.eWNI_SME_CHNG_MCC_BEACON_INTERVAL,
   MsgType.eWNI_SME_NEIGHBOR_REPORT_REQ_IND, MsgType.eWNI_SME_BEACON_REPORT_RESP_XMIT_IND,
   MsgType.eWNI_SME_ESE_ADJACENT_AP_REPORT, MsgType.eWNI_SME_FT_UPDATE_KEY,
   MsgType.eWNI_SME_FT_PRE_AUTH_REQ, MsgType.eWNI_SME_FT_AGGR_QOS_REQ,
   MsgType.eWNI_SME_ADD_STA_SELF_REQ, MsgType.eWNI_SME_DEL_STA_SELF_REQ,
   MsgType.eWNI_SME_REGISTER_MGMT_FRAME_REQ, MsgType.eWNI_SME_UPDATE_NOA,
   MsgType.eWNI_SME_CLEAR_DFS_CHANNEL_LIST, MsgType.eWNI_SME_CLEAR_LIM_SCAN_CACHE,
   MsgType.eWNI_SME_STA_STAT_REQ, MsgType.eWNI_SME_AGGR_STAT_REQ,
   MsgType.eWNI_SME_GLOBAL_STAT_REQ, MsgType.eWNI_SME_STAT_SUMM_REQ,
   MsgType.eWNI_SME_GET_STATISTICS_REQ, MsgType.eWNI_SME_GET_TSM_STATS_REQ,
   MsgType.eWNI_SME_EXT_CHANGE_CHANNEL, MsgType.eWNI_PMC_PWR_SAVE_CFG,
   MsgType.eWNI_PMC_ENTER_BMPS_REQ, MsgType.eWNI_PMC_EXIT_BMPS_REQ,
   MsgType.eWNI_PMC_ENTER_IMPS_REQ, MsgType.eWNI_PMC_EXIT_IMPS_REQ,
   MsgType.eWNI_PMC_ENTER_UAPSD_REQ, MsgType.eWNI_PMC_EXIT_UAPSD_REQ,
   MsgType.eWNI_PMC_ENTER_WOWL_REQ, MsgType.eWNI_PMC_EXIT_WOWL_REQ,
   MsgType.eWNI_PMC_WOWL_ADD_BCAST_PTRN, MsgType.eWNI_PMC_WOWL_DEL_BCAST_PTRN,
   MsgType.eWNI_PMC_SMPS_STATE_IND, MsgType.eWNI_SME_SEND_ACTION_FRAME_IND,
   MsgType.eWNI_SME_ABORT_REMAIN_ON_CHAN_IND, MsgType.SIR_HAL_TDLS_IND,
   MsgType.eWNI_SME_PRE_CHANNEL_SWITCH_FULL_POWER, MsgType.WDA_EXIT_BMPS_IND,
   MsgType.WDA_MISSED_BEACON_IND, MsgType.WDA_MIC_FAILURE_IND,
   MsgType.WDA_ROAM_OFFLOAD_SYNCH_IND, MsgType.SIR_LIM_ADDTS_RSP_TIMEOUT,
   MsgType.SIR_LIM_ESE_TSM_TIMEOUT, MsgType.WDA_TSM_STATS_RSP, MsgType.SIR_LIM_DEL_TS_IND,
   MsgType.SIR_LIM_ADD_BA_IND, MsgType.SIR_LIM_DEL_BA_ALL_IND, MsgType.SIR_LIM_DEL_BA_IND,
   MsgType.SIR_LIM_BEACON_GEN_IND, MsgType.SIR_LIM_DELETE_STA_CONTEXT_IND,
   MsgType.SIR_LIM_MIN_CHANNEL_TIMEOUT, MsgType.SIR_LIM_MAX_CHANNEL_TIMEOUT,
   MsgType.SIR_LIM_PERIODIC_PROBE_REQ_TIMEOUT, MsgType.SIR_LIM_JOIN_FAIL_TIMEOUT,
   MsgType.SIR_LIM_PERIODIC_JOIN_PROBE_REQ_TIMEOUT, MsgType.SIR_LIM_AUTH_FAIL_TIMEOUT,
   MsgType.SIR_LIM_AUTH_RSP_TIMEOUT, MsgType.SIR_LIM_ASSOC_FAIL_TIMEOUT,
   MsgType.SIR_LIM_REASSOC_FAIL_TIMEOUT, MsgType.SIR_LIM_FT_PREAUTH_RSP_TIMEOUT,
   MsgType.SIR_LIM_REMAIN_CHN_TIMEOUT, MsgType.SIR_LIM_INSERT_SINGLESHOT_NOA_TIMEOUT,
   MsgType.SIR_LIM_DISASSOC_ACK_TIMEOUT, MsgType.SIR_LIM_DEAUTH_ACK_TIMEOUT,
   MsgType.SIR_LIM_CONVERT_ACTIVE_CHANNEL_TO_PASSIVE, MsgType.SIR_LIM_AUTH_RETRY_TIMEOUT,
   MsgType.SIR_LIM_PROBE_HB_FAILURE_TIMEOUT, MsgType.SIR_LIM_CHANNEL_SCAN_TIMEOUT,
   MsgType.SIR_LIM_HASH_MISS_THRES_TIMEOUT, MsgType.SIR_LIM_CNF_WAIT_TIMEOUT,
   MsgType.SIR_LIM_KEEPALIVE_TIMEOUT, MsgType.SIR_LIM_RETRY_INTERRUPT_MSG,
   MsgType.SIR_LIM_INV_KEY_INTERRUPT_MSG, MsgType.SIR_LIM_KEY_ID_INTERRUPT_MSG,
   MsgType.SIR_LIM_REPLAY_THRES_INTERRUPT_MSG, MsgType.SIR_LIM_CHANNEL_SWITCH_TIMEOUT,
   MsgType.SIR_LIM_QUIET_TIMEOUT, MsgType.SIR_LIM_QUIET_BSS_TIMEOUT,
   MsgType.SIR_LIM_UPDATE_OLBC_CACHEL_TIMEOUT, MsgType.SIR_HAL_TDLS_SHOULD_DISCOVER,
   MsgType.SIR_HAL_TDLS_SHOULD_TEARDOWN, MsgType.SIR_HAL_TDLS_PEER_DISCONNECTED,
   MsgType.WDA_UPDATE_Q2Q_IE_IND, MsgType.WDA_CSA_OFFLOAD_EVENT, MsgType.WDA_STA_STAT_RSP,
   MsgType.WDA_AGGR_STAT_RSP, MsgType.WDA_GLOBAL_STAT_RSP, MsgType.WDA_STAT_SUMM_RSP,
   MsgType.WDA_GET_STATISTICS_RSP, MsgType.WDA_SET_TX_POWER_RSP,
   MsgType.WDA_SET_MAX_TX_POWER_RSP, MsgType.SIR_LIM_ADDR2_MISS_IND,
   MsgType.WDA_SET_LINK_STATE_RSP, MsgType.WDA_PACKET_COALESCING_FILTER_MATCH_COUNT_RSP,
   MsgType.WDA_GTK_OFFLOAD_GETINFO_RSP, MsgType.eWNI_SME_SET_BCN_FILTER_REQ,
   MsgType.WDA_SET_TDLS_LINK_ESTABLISH_REQ_RSP, MsgType.WDA_RX_SCAN_EVENT,
   MsgType.WDA_IBSS_PEER_INACTIVITY_IND, MsgType.WDA_DFS_RADAR_IND,
   MsgType.WDA_DFS_BEACON_TX_SUCCESS_IND, MsgType.WDA_DISASSOC_TX_COMP,
   MsgType.WDA_DEAUTH_TX_COMP, MsgType.eWNI_SME_DFS_BEACON_CHAN_SW_IE_REQ,
   MsgType.eWNI_SME_CHANNEL_CHANGE_REQ, MsgType.eWNI_SME_START_BEACON_REQ,
   MsgType.eWNI_SME_UPDATE_ADDITIONAL_IES, MsgType.eWNI_SME_MODIFY_ADDITIONAL_IES,
   MsgType.eWNI_SME_SET_HT_2040_MODE, MsgType.WDA_SAP_OFL_ADD_STA, MsgType.WDA_SAP_OFL_DEL_STA,
   MsgType.WDA_STOP_SCAN_OFFLOAD_REQ, MsgType.LIM_MLM_OEM_DATA_CNF]

/-- The kind at a position: the inverse of `index`. -/
def ofIndex (n : Nat) : MsgType :=
  if n < 188 then named.getD n (MsgType.other 0) else MsgType.other (n - 188)

end MsgType

set_option maxHeartbeats 4000000 in
/-- Equality of kinds is decided on their positions. -/
instance : DecidableEq MsgType := fun a b =>
  if h : MsgType.index a = MsgType.index b then
    isTrue (by
      have key : ∀ t : MsgType, MsgType.ofIndex (MsgType.index t) = t := by
        intro t
        cases t <;> first | rfl | simp [MsgType.index, MsgType.ofIndex]
      rw [← key a, ← key b, h])
  else
    isFalse (fun e => h (congrArg MsgType.index e))

/-- The message record `tSirMsgQ`.  `bodyptr` is an address, `0` being `NULL`. -/
structure tSirMsgQ where
  type : MsgType
  reserved : Nat
  bodyptr : Nat
  bodyval : Nat
deriving DecidableEq, Repr

/-- Modelled from the spec: the global SME state `tLimSmeStates` (declared in
`limGlobal.h`, not among the sources), used for the global state and for the
state of a session; only the states the embedded code names have a constructor
of their own. -/
inductive tLimSmeStates where
  | eLIM_SME_OFFLINE_STATE
  | eLIM_SME_LINK_EST_STATE
  | eLIM_SME_NORMAL_STATE
  | other (code : Nat)
deriving DecidableEq, Repr

/-- Modelled from the spec: the global MLM state `tLimMlmStates` (declared in
`limGlobal.h`, not among the sources); only the offline state is named by the
embedded code. -/
inductive tLimMlmStates where
  | eLIM_MLM_OFFLINE_STATE
  | other (code : Nat)
deriving DecidableEq, Repr

/-- Modelled from the spec: result of a write to the deferred queue
(`enqueue(event) -> Result<(), QueueFull>`); the `TX_*` codes are not among the
sources. -/
inductive TxStatus where
  | TX_SUCCESS
  | TX_QUEUE_FULL
deriving DecidableEq, Repr

/-! ### Received frames and sessions -/

/-- A MAC address (`tSirMacAddr`), its six bytes read as one number. -/
abbrev tSirMacAddr := Nat

/-- Modelled from the spec: the 802.11 frame type "management"
(`sirMacProtDef.h`, which names the codes, is not among the sources; the values
are those of IEEE 802.11). -/
def SIR_MAC_MGMT_FRAME : Nat := 0

/-- Modelled from the spec: the 802.11 frame type "data". -/
def SIR_MAC_DATA_FRAME : Nat := 2

/-- Modelled from the spec: 802.11 management subtype, association request. -/
def SIR_MAC_MGMT_ASSOC_REQ : Nat := 0

/-- Modelled from the spec: 802.11 management subtype, association response. -/
def SIR_MAC_MGMT_ASSOC_RSP : Nat := 1

/-- Modelled from the spec: 802.11 management subtype, reassociation request. -/
def SIR_MAC_MGMT_REASSOC_REQ : Nat := 2

/-- Modelled from the spec: 802.11 management subtype, reassociation response. -/
def SIR_MAC_MGMT_REASSOC_RSP : Nat := 3

/-- Modelled from the spec: 802.11 management subtype, probe request. -/
def SIR_MAC_MGMT_PROBE_REQ : Nat := 4

/-- Modelled from the spec: 802.11 management subtype, probe response. -/
def SIR_MAC_MGMT_PROBE_RSP : Nat := 5

/-- Modelled from the spec: 802.11 management subtype, beacon. -/
def SIR_MAC_MGMT_BEACON : Nat := 8

/-- Modelled from the spec: 802.11 management subtype, disassociation. -/
def SIR_MAC_MGMT_DISASSOC : Nat := 10

/-- Modelled from the spec: 802.11 management subtype, authentication. -/
def SIR_MAC_MGMT_AUTH : Nat := 11

/-- Modelled from the spec: 802.11 management subtype, deauthentication. -/
def SIR_MAC_MGMT_DEAUTH : Nat := 12

/-- Modelled from the spec: 802.11 management subtype, action. -/
def SIR_MAC_MGMT_ACTION : Nat := 13

/-- Modelled from the spec: 802.11 management subtype 15 (reserved). -/
def SIR_MAC_MGMT_RESERVED15 : Nat := 15

/-- Modelled from the spec: the 802.11 protocol version. -/
def SIR_MAC_PROTOCOL_VERSION : Nat := 0

/-- The frame-control field `tSirMacFrameCtl`, as far as the embedded code reads
it: protocol version (2 bits), type (2 bits), subtype (4 bits). -/
structure tSirMacFrameCtl where
  protVer : Nat
  type : Nat
  subType : Nat
deriving DecidableEq, Repr

/-- The management header `tSirMacMgmtHdr`: frame control, destination address,
source (peer) address, BSSID. -/
structure tSirMacMgmtHdr where
  fc : tSirMacFrameCtl
  da : tSirMacAddr
  sa : tSirMacAddr
  bssId : tSirMacAddr
deriving DecidableEq, Repr

/-- Modelled from the spec: what the `WDA_GET_RX_*` and `WMA_IS_*` macros (not
among the sources) read from the receive descriptor of a packet: its address
`addr` (the pointer `pRxPacketInfo`), the MAC header, the flags set by the
firmware, and the payload (`WDA_GET_RX_MPDU_DATA`, whose length is
`WDA_GET_RX_PAYLOAD_LEN`). -/
structure RxPacketInfo where
  addr : Nat
  hdr : tSirMacMgmtHdr
  ftDone : Bool
  extscanSrc : Bool
  epnoSrc : Bool
  roamCandidateInd : Nat
  offloadScanLearn : Nat
  sessionId : Nat
  unknownUcast : Nat
  channel : Nat
  payload : List Nat
deriving DecidableEq, Repr

/-- Modelled from the spec: the role of a session, `tLimSystemRole`
(`limGlobal.h`, not among the sources); one constructor for every role the
embedded code names. -/
inductive tLimSystemRole where
  | eLIM_UNKNOWN_ROLE
  | eLIM_AP_ROLE
  | eLIM_STA_ROLE
  | eLIM_BT_AMP_STA_ROLE
  | eLIM_BT_AMP_AP_ROLE
  | eLIM_P2P_DEVICE_ROLE
  | other (code : Nat)
deriving DecidableEq, Repr

/-- Modelled from the spec: the fields of a session record `tPESession`
(`limSession.h`, not among the sources) that the embedded code reads. -/
structure tPESession where
  peSessionId : Nat
  limSystemRole : tLimSystemRole
  limSmeState : tLimSmeStates
  isESEconnection : Bool
deriving DecidableEq, Repr

/-- Modelled from the spec: an entry of the list of frame registrations,
`tLimMgmtFrameRegistration` (`limGlobal.h`, not among the sources). -/
structure tLimMgmtFrameRegistration where
  frameType : Nat
  matchLen : Nat
  matchData : List Nat
  sessionId : Nat
deriving DecidableEq, Repr

/-- Modelled from the spec: the argument `LIM_ASSOC` / `LIM_REASSOC` of the
association handlers. -/
inductive tLimAssocKind where
  | LIM_ASSOC
  | LIM_REASSOC
deriving DecidableEq, Repr

/-- Modelled from the spec: the scan state of the HAL, `tLimLimHalScanState`
(`limGlobal.h`, not among the sources); the four waiting states are the ones
the embedded code names. -/
inductive tLimLimHalScanState where
  | eLIM_HAL_INIT_SCAN_WAIT_STATE
  | eLIM_HAL_START_SCAN_WAIT_STATE
  | eLIM_HAL_END_SCAN_WAIT_STATE
  | eLIM_HAL_FINISH_SCAN_WAIT_STATE
  | other (code : Nat)
deriving DecidableEq, Repr

/-- Modelled from the spec: the timers the embedded code stops
(`limTimerUtils.h`, not among the sources). -/
inductive tLimTimerId where
  | eLIM_MIN_CHANNEL_TIMER
  | eLIM_MAX_CHANNEL_TIMER
  | eLIM_INSERT_SINGLESHOT_NOA_TIMER
  | eLIM_BACKGROUND_SCAN_TIMER
deriving DecidableEq, Repr

/-- Modelled from the spec: the status type `eHalStatus` (`halTypes.h`, not among
the sources), as far as the embedded code returns it. -/
inductive eHalStatus where
  | eHAL_STATUS_SUCCESS
  | eHAL_STATUS_FAILURE
deriving DecidableEq, Repr

/-- The collaborators the dispatcher and its helpers call that have no entry of
their own in `Call`: handlers of other files, named as in the source.
`linkStateParams_callback` is the function pointer `linkStateParams->callback`;
`sap_advertise_avoid_ch_ie` stands for the assignment to that field of a
session record, which lives in collaborator memory. -/
inductive Handler where
  | limProcessInitScanRsp
  | limProcessStartScanRsp
  | limProcessEndScanRsp
  | limProcessFinishScanRsp
  | limProcessSwitchChannelRsp
  | limIbssStaAdd
  | limProcessSmeReqMessages
  | pmmProcessMessage
  | pmmOffloadProcessMessage
  | limSendP2PActionFrame
  | limAbortRemainOnChan
  | vos_mem_copy
  | limProcessRegdDefdSmeReqAfterNOAStart
  | limSendSmeTDLSDelStaInd
  | limProcessChannelSwitchTimeout
  | limPsOffloadHandleMissedBeaconInd
  | limHandleMissedBeaconInd
  | limMicFailureInd
  | limRoamOffloadSynchInd
  | limProcessTsmTimeoutHandler
  | limSendSmePEEseTsmRsp
  | limProcessHalEseTsmRsp
  | limProcessHalAddTsRsp
  | limProcessDelTsInd
  | limProcessAddBaInd
  | limDelAllBASessions
  | limProcessMlmHalBADeleteInd
  | schProcessPreBeaconInd
  | limDeleteStaContext
  | limProcessMlmReqMessages
  | limHandleHeartBeatFailureTimeout
  | limTriggerBackgroundScan
  | limHandleCnfWaitTimeout
  | limSendKeepAliveToPeer
  | limProcessQuietTimeout
  | limProcessQuietBssTimeout
  | limHandleUpdateOlbcCache
  | limSendSmeTdlsEventNotify
  | limProcessMlmAddBssRsp
  | limProcessAddStaRsp
  | limProcessMlmDelStaRsp
  | limProcessAddStaSelfRsp
  | limProcessDelStaSelfRsp
  | sap_advertise_avoid_ch_ie
  | schSetFixedBeaconFields
  | limSendBeaconParams
  | limHandleDeleteBssRsp
  | limHandleCSAoffloadMsg
  | limProcessMlmSetBssKeyRsp
  | limProcessMlmSetStaKeyRsp
  | limProcessMlmRemoveKeyRsp
  | limProcessMlmHalAddBARsp
  | limSendSmeStatsRsp
  | limSendSmePEStatisticsRsp
  | rrmSetMaxTxPowerRsp
  | limProcessFTAggrQoSRsp
  | limSendReassocReqWithFTIEsMgmtFrame
  | linkStateParams_callback
  | limSendBeaconFilterInfo
  | limSendSmeTdlsLinkEstablishReqRsp
  | limProcessRxScanEvent
  | limProcessIbssPeerInactivity
  | limSendSmeDfsEventNotify
  | limProcessBeaconTxSuccessInd
  | limDisassocTxCompleteCnf
  | limDeauthTxCompleteCnf
  | lim_sap_offload_add_sta
  | lim_sap_offload_del_sta
  | limDiagEventReport
  | limAbortBackgroundScan
  | peSetResumeChannel
  | limSendHalFinishScanReq
deriving DecidableEq, Repr

/-- The fields the dispatcher itself reads from the body of a message (the
structures `tSirMbMsg`, `tSirMbMsgP2p`, `tSirTdlsInd`, `tLinkStateParams`,
`tTdlsLinkEstablishParams` are not among the sources); `byte i` is the `i`-th
byte of the body. -/
inductive BodyField where
  | tSirMbMsg_data0
  | tSirMbMsgP2p_sessionId
  | tSirTdlsInd_staIdx
  | tSirTdlsInd_assocId
  | tLinkStateParams_ft
  | tLinkStateParams_bRoamSynchInProgress
  | tLinkStateParams_callback
  | tTdlsLinkEstablishParams_staIdx
  | byte (i : Nat)
deriving DecidableEq, Repr

/-- Value `eDRIVER_TYPE_MFG` of `tDriverType` (aniGlobal.h). -/
def eDRIVER_TYPE_MFG : Nat := 1

/-- The fields of `tAniSirGlobal` / `tAniSirLim` that the embedded functions
read or write.  `gLimDeferredMsgQ` holds the deferred messages, oldest first;
`gLimMgmtFrameRegistratinQueue` holds the frame registrations, front first.
`collab` is everything else: the memory owned by collaborators (sessions,
timers, packet buffers, heap). -/
structure LimState (σ : Type) where
  gDriverType : Nat
  gLimSmeState : tLimSmeStates
  gLimMlmState : tLimMlmStates
  gLimProcessDefdMsgs : Nat
  gLimSystemInScanLearnMode : Nat
  gLimAddtsSent : Nat
  psOffloadEnabled : Nat
  fScanOffload : Nat
  gLimSystemRole : tLimSystemRole
  gLimRspReqd : Nat
  gLimReportBackgroundScanResults : Nat
  gLimDisassocFrameCredit : Nat
  gLimHalScanState : tLimLimHalScanState
  abortScan : Nat
  maxBssId : Nat
  gLimMgmtFrameRegistratinQueue : List tLimMgmtFrameRegistration
  gLimDeferredMsgQ : List tSirMsgQ
  collab : σ
deriving DecidableEq

/-- An entry of the ghost call log.  A collaborator without an entry of its own
is recorded as `plain f` (called with `pMac` only), `fn f arg` (called with one
number: a pointer, a value, a session) or `handler f limMsg` (called while the
message `limMsg` is processed, with the message or with parts of it or of its
body).  `wdaPostCtrlMsg` carries the posted message and the `SessionId` written
to its body. -/
inductive Call where
  | limProcessMessages (limMsg : tSirMsgQ)
  | limProcessDeferredMessageQueue
  | limDeferMsg (limMsg : tSirMsgQ)
  | limLogSessionStates
  | limHandleDeferMsgError (limMsg : tSirMsgQ)
  | peFreeMsg (limMsg : tSirMsgQ)
  | vos_mem_free (ptr : Nat)
  | limUpdateBeacon
  | limHandleCFGparamUpdate (cfgId : Nat)
  | limResetHBPktCount (session : Nat)
  | limHandleHeartBeatTimeout
  | limHandleHeartBeatTimeoutForSession (session : Nat)
  | plain (f : Handler)
  | fn (f : Handler) (arg : Nat)
  | handler (f : Handler) (limMsg : tSirMsgQ)
  | vos_pkt_return_packet (pVosPkt : Nat)
  | vos_mem_malloc (result : Option Nat)
  | wdaPostCtrlMsg (type : MsgType) (bodyptr : Nat) (bodyval : Nat) (SessionId : Nat)
  | limPostSmeMessage (msgType : MsgType) (body : Nat)
  | limDeactivateAndChangeTimer (timer : tLimTimerId)
  | limPktFree (pRxPacketInfo : Nat) (body : Nat)
  | limProcessBeaconFrameNoSession (pRxPacketInfo : Nat)
  | limProcessBeaconFrame (pRxPacketInfo : Nat) (session : Nat)
  | limProcessProbeRspFrameNoSession (pRxPacketInfo : Nat)
  | limProcessProbeRspFrame (pRxPacketInfo : Nat) (session : Nat)
  | limProcessProbeReqFrame_multiple_BSS (pRxPacketInfo : Nat) (session : Option Nat)
  | limProcessActionFrameNoSession (pRxPacketInfo : Nat)
  | limProcessActionFrame (pRxPacketInfo : Nat) (session : Nat)
  | schBeaconProcess (pRxPacketInfo : Nat) (session : Option Nat)
  | limProcessExtScanBeaconProbeRsp (pRxPacketInfo : Nat) (subType : Nat)
  | limSendSmeCandidateFoundInd (sessionId : Nat)
  | limProcessAuthFrameNoSession (pRxPacketInfo : Nat) (body : Nat)
  | limSendSmeMgmtFrameInd (subType : Nat) (pRxPacketInfo : Nat) (len : Nat)
      (sessionId : Nat) (channel : Nat) (session : Option Nat)
  | limProcessAssocReqFrame (pRxPacketInfo : Nat) (kind : tLimAssocKind)
      (session : Option Nat)
  | limProcessAssocRspFrame (pRxPacketInfo : Nat) (kind : tLimAssocKind)
      (session : Option Nat)
  | limProcessDisassocFrame (pRxPacketInfo : Nat) (session : Option Nat)
  | limProcessAuthFrame (pRxPacketInfo : Nat) (session : Option Nat)
  | limProcessDeauthFrame (pRxPacketInfo : Nat) (session : Option Nat)
  | limProcessIappFrame (pRxPacketInfo : Nat) (session : Nat)
deriving DecidableEq, Repr

/-- The driver state together with the ghost log of calls made so far. -/
structure World (σ : Type) where
  st : LimState σ
  trace : List Call
deriving DecidableEq

/-- Everything the embedded code takes from outside the two source files.

* `FEATURE_OEM_DATA_SUPPORT`: the build switch of the same name.
* `scanSmeState`: the SME states in which `limIsSystemInScanState` (limUtils.c)
  answers true.
* `MAX_DEFERRED_QUEUE_LEN`, `writeRefused`: capacity of the deferred queue and
  any further reason for which a write to it is refused.
* `release`: effect of a buffer-release or logging collaborator; it acts on
  collaborator memory only.
* `handler`: effect of a domain handler; it may change any field, the mode flags
  and the deferred queue included.
* `msgHandler`: effect of a domain handler that is given the message itself;
  it may change the message and any field.
* `FEATURE_WLAN_EXTSCAN`, `WLAN_FEATURE_ROAM_SCAN_OFFLOAD`,
  `WLAN_FEATURE_VOWIFI_11R`, `FEATURE_WLAN_TDLS` and the other fields in capitals:
  the build switches of these names.
* `load`: the value of a field of the buffer at an address.
* `vos_mem_malloc`: the address the next allocation returns, `none` for NULL.
* `WDA_DS_PeekRxPacketInfo`: the receive descriptor of a packet, `none` when
  the peek fails.
* `peFindSessionByStaId`, `pe_find_session_by_sme_session_id`,
  `dphGetHashEntry`: further lookups, `none` for NULL; `staIsTdlsPeer`: the
  station entry has type `STA_ENTRY_TDLS_PEER`.
* `p2pGoSession`: the entry of the session table `gpSession` at the given index
  is valid and has persona `VOS_P2P_GO_MODE`.
* `tx_timer_running`: the channel-switch timer is running.
* `channelIsDfs`: the operating channel of a session is a DFS channel.
* `IS_ACTIVEMODE_OFFLOAD_FEATURE_ENABLE`: the macro of that name.
* `limGetBDfromRxPacket`: the receive descriptor of the packet a message body
  points to.
* `peFindSessionByBssid`, `peFindSessionByPeerSta`: the lookups of the session
  registry (limSession.c), `none` for NULL; `session` reads a session record.
* `succeeds`: whether a handler that reports a status returns its success value
  (`eSIR_SUCCESS`, or true for a handler that returns a boolean) when called in
  the given state.
* `limIsGroupAddr`: the utility of that name. -/
structure Env (σ : Type) where
  FEATURE_OEM_DATA_SUPPORT : Bool
  FEATURE_WLAN_EXTSCAN : Bool
  WLAN_FEATURE_ROAM_SCAN_OFFLOAD : Bool
  WLAN_FEATURE_VOWIFI_11R : Bool
  FEATURE_WLAN_ESE : Bool
  FEATURE_WLAN_ESE_UPLOAD : Bool
  FEATURE_WLAN_TDLS : Bool
  ANI_SIR_IBSS_PEER_CACHING : Bool
  WLAN_FEATURE_VOWIFI : Bool
  WLAN_FEATURE_ROAM_OFFLOAD : Bool
  FEATURE_AP_MCC_CH_AVOIDANCE : Bool
  WLAN_FEATURE_PACKET_FILTERING : Bool
  WLAN_FEATURE_GTK_OFFLOAD : Bool
  WLAN_ACTIVEMODE_OFFLOAD_FEATURE : Bool
  QCA_HT_2040_COEX : Bool
  SAP_AUTH_OFFLOAD : Bool
  FEATURE_WLAN_DIAG_SUPPORT_LIM : Bool
  limGetBDfromRxPacket : σ → Nat → RxPacketInfo
  peFindSessionByBssid : σ → tSirMacAddr → Option Nat
  peFindSessionByPeerSta : σ → tSirMacAddr → Option Nat
  session : σ → Nat → tPESession
  succeeds : Call → LimState σ → Bool
  limIsGroupAddr : tSirMacAddr → Bool
  scanSmeState : tLimSmeStates → Bool
  MAX_DEFERRED_QUEUE_LEN : Nat
  writeRefused : LimState σ → tSirMsgQ → Bool
  release : Call → σ → σ
  handler : Call → LimState σ → LimState σ
  msgHandler : Handler → tSirMsgQ → LimState σ → tSirMsgQ × LimState σ
  load : σ → Nat → BodyField → Nat
  vos_mem_malloc : σ → Option Nat
  WDA_DS_PeekRxPacketInfo : σ → Nat → Option Nat
  peFindSessionByStaId : σ → Nat → Option Nat
  pe_find_session_by_sme_session_id : σ → Nat → Option Nat
  dphGetHashEntry : σ → Nat → Nat → Option Nat
  staIsTdlsPeer : σ → Nat → Bool
  p2pGoSession : σ → Nat → Bool
  tx_timer_running : σ → Bool
  channelIsDfs : σ → Nat → Bool
  IS_ACTIVEMODE_OFFLOAD_FEATURE_ENABLE : σ → Bool

variable {σ : Type}

/-- The condition `defined(FEATURE_WLAN_ESE) && !defined(FEATURE_WLAN_ESE_UPLOAD)`
of the build. -/
def Env.FEATURE_WLAN_ESE_IAPP (env : Env σ) : Bool :=
  env.FEATURE_WLAN_ESE && !env.FEATURE_WLAN_ESE_UPLOAD

/-- Record a call that has no effect on the state (`limLogSessionStates` only
logs; entries of embedded functions are recorded the same way). -/
def note (c : Call) (w : World σ) : World σ :=
  { w with trace := w.trace ++ [c] }

/-- Modelled from the spec: a call of a buffer-release collaborator (`peFreeMsg`,
`limHandleDeferMsgError`, `vos_mem_free`; not among the sources).  The buffer is
released: collaborator memory changes, the mode flags and the deferred queue do
not. -/
def callRelease (env : Env σ) (c : Call) (w : World σ) : World σ :=
  { st := { w.st with collab := env.release c w.st.collab }, trace := w.trace ++ [c] }

/-- A call of a domain handler (an external collaborator): nothing is assumed
about what it does to the state. -/
def callHandler (env : Env σ) (c : Call) (w : World σ) : World σ :=
  { st := env.handler c w.st, trace := w.trace ++ [c] }

/-- Modelled from the spec: `limIsSystemInScanState` (limUtils.c, not among the
sources): the global mode is Scanning/Learning, a property of the global SME
state. -/
def limIsSystemInScanState (env : Env σ) (s : LimState σ) : Bool :=
  env.scanSmeState s.gLimSmeState

/-- Modelled from the spec: the macro `GET_LIM_PROCESS_DEFD_MESGS` (not among
the sources) reads the busy flag `gLimProcessDefdMsgs`, a `tANI_U8`; the code
compares it with `true`, which is 1. -/
def GET_LIM_PROCESS_DEFD_MESGS (s : LimState σ) : Nat :=
  s.gLimProcessDefdMsgs

/-- Modelled from the spec: `limWriteDeferredMsgQ` (limUtils.c, not among the
sources), the `enqueue` of the bounded FIFO: a copy of the message goes to the
tail; when the queue is full, or the write is refused for another reason, the
queue is left as it is and the failure is returned. -/
def limWriteDeferredMsgQ (env : Env σ) (limMsg : tSirMsgQ) (s : LimState σ) :
    TxStatus × LimState σ :=
  if env.MAX_DEFERRED_QUEUE_LEN ≤ s.gLimDeferredMsgQ.length ∨ env.writeRefused s limMsg = true then
    (.TX_QUEUE_FULL, s)
  else
    (.TX_SUCCESS, { s with gLimDeferredMsgQ := s.gLimDeferredMsgQ ++ [limMsg] })

/-- Modelled from the spec: `limReadDeferredMsgQ` (limUtils.c, not among the
sources), the `dequeue_one` of the FIFO: the oldest entry is removed and
returned, `none` (NULL) when the queue is empty. -/
def limReadDeferredMsgQ (s : LimState σ) : Option tSirMsgQ × LimState σ :=
  match s.gLimDeferredMsgQ with
  | [] => (none, s)
  | readMsg :: rest => (some readMsg, { s with gLimDeferredMsgQ := rest })

/-! ## limProcessMessageQueue.c -/

/-- `limDeferMsg`: write the message to the deferred queue and report the
result (the two branches only log). -/
def limDeferMsg (env : Env σ) (pMsg : tSirMsgQ) (w : World σ) : TxStatus × World σ :=
  let r := limWriteDeferredMsgQ env pMsg w.st
  (r.1, { st := r.2, trace := w.trace ++ [Call.limDeferMsg pMsg] })

/-- The test of `defMsgDecision` on the message kind: the kind is none of the
listed firmware responses and is not a received frame while an ADDTS request is
outstanding. -/
def notHalResponse (env : Env σ) (limMsg : tSirMsgQ) (s : LimState σ) : Bool :=
  (limMsg.type != .WDA_ADD_BSS_RSP) &&
  (limMsg.type != .WDA_DELETE_BSS_RSP) &&
  (limMsg.type != .WDA_ADD_STA_RSP) &&
  (limMsg.type != .WDA_ADD_STA_SELF_RSP) &&
  (limMsg.type != .WDA_DEL_STA_SELF_RSP) &&
  (limMsg.type != .WDA_DELETE_STA_RSP) &&
  (limMsg.type != .WDA_SET_BSSKEY_RSP) &&
  (limMsg.type != .WDA_SET_STAKEY_RSP) &&
  (limMsg.type != .WDA_SET_STA_BCASTKEY_RSP) &&
  (limMsg.type != .eWNI_SME_START_REQ) &&
  (limMsg.type != .WDA_AGGR_QOS_RSP) &&
  (limMsg.type != .WDA_REMOVE_BSSKEY_RSP) &&
  (limMsg.type != .WDA_REMOVE_STAKEY_RSP) &&
  (limMsg.type != .WDA_SET_MIMOPS_RSP) &&
  (limMsg.type != .WDA_ADDBA_RSP) &&
  (limMsg.type != .WDA_ENTER_BMPS_RSP) &&
  (limMsg.type != .WDA_EXIT_BMPS_RSP) &&
  (limMsg.type != .WDA_ENTER_IMPS_RSP) &&
  (limMsg.type != .WDA_EXIT_IMPS_RSP) &&
  (limMsg.type != .WDA_ENTER_UAPSD_RSP) &&
  (limMsg.type != .WDA_EXIT_UAPSD_RSP) &&
  (limMsg.type != .WDA_WOWL_ENTER_RSP) &&
  (limMsg.type != .WDA_WOWL_EXIT_RSP) &&
  (limMsg.type != .WDA_SWITCH_CHANNEL_RSP) &&
  (limMsg.type != .WDA_P2P_NOA_ATTR_IND) &&
  (limMsg.type != .WDA_P2P_NOA_START_IND) &&
  (!env.FEATURE_OEM_DATA_SUPPORT || limMsg.type != .WDA_START_OEM_DATA_RSP) &&
  (limMsg.type != .WDA_ADD_TS_RSP) &&
  !(limMsg.type == .SIR_BB_XPORT_MGMT_MSG && s.gLimAddtsSent != 0)

/-- The deferral common to both branches of `defMsgDecision`: defer the message;
when that fails, dump the session states and hand the message to
`limHandleDeferMsgError`. -/
def deferOrReport (env : Env σ) (limMsg : tSirMsgQ) (w : World σ) : World σ :=
  let r := limDeferMsg env limMsg w
  if r.1 ≠ TxStatus.TX_SUCCESS then
    callRelease env (Call.limHandleDeferMsgError limMsg) (note Call.limLogSessionStates r.2)
  else
    r.2

/-- `defMsgDecision`: decide whether the message is deferred; the result is the
returned flag and the state after the call. -/
def defMsgDecision (env : Env σ) (limMsg : tSirMsgQ) (w : World σ) : Bool × World σ :=
  if w.st.gLimSmeState = tLimSmeStates.eLIM_SME_OFFLINE_STATE then
    (true, deferOrReport env limMsg w)
  else if (!limIsSystemInScanState env w.st) && (1 != GET_LIM_PROCESS_DEFD_MESGS w.st) &&
      (w.st.gLimSystemInScanLearnMode == 0) then
    if notHalResponse env limMsg w.st then
      (true, deferOrReport env limMsg w)
    else
      (false, w)
  else
    (false, w)

/-! ### The frame classifier -/

/-- Modelled from the spec: the role test behind the macros `LIM_IS_AP_ROLE`,
`LIM_IS_BT_AMP_AP_ROLE`, `LIM_IS_P2P_DEVICE_ROLE` and `LIM_IS_STA_ROLE` (not
among the sources): the role of the session is the given one.  The macros
dereference the session; the embedded code applies them to a session that is
not NULL, and the test is given the value false for NULL. -/
def sessionRoleIs (env : Env σ) (c : σ) (psessionEntry : Option Nat) (r : tLimSystemRole) :
    Bool :=
  match psessionEntry with
  | none => false
  | some s => (env.session c s).limSystemRole == r

/-- The macro `LIM_IS_AP_ROLE`. -/
def LIM_IS_AP_ROLE (env : Env σ) (c : σ) (psessionEntry : Option Nat) : Bool :=
  sessionRoleIs env c psessionEntry tLimSystemRole.eLIM_AP_ROLE

/-- The macro `LIM_IS_BT_AMP_AP_ROLE`. -/
def LIM_IS_BT_AMP_AP_ROLE (env : Env σ) (c : σ) (psessionEntry : Option Nat) : Bool :=
  sessionRoleIs env c psessionEntry tLimSystemRole.eLIM_BT_AMP_AP_ROLE

/-- The macro `LIM_IS_P2P_DEVICE_ROLE`. -/
def LIM_IS_P2P_DEVICE_ROLE (env : Env σ) (c : σ) (psessionEntry : Option Nat) : Bool :=
  sessionRoleIs env c psessionEntry tLimSystemRole.eLIM_P2P_DEVICE_ROLE

/-- The macro `LIM_IS_STA_ROLE`. -/
def LIM_IS_STA_ROLE (env : Env σ) (c : σ) (psessionEntry : Option Nat) : Bool :=
  sessionRoleIs env c psessionEntry tLimSystemRole.eLIM_STA_ROLE

/-- The release of the frame buffer: `limPktFree(pMac, HAL_TXRX_FRM_802_11_MGMT,
pRxPacketInfo, limMsg->bodyptr)`. -/
def limPktFree (env : Env σ) (pRxPacketInfo : RxPacketInfo) (limMsg : tSirMsgQ)
    (w : World σ) : World σ :=
  callRelease env (Call.limPktFree pRxPacketInfo.addr limMsg.bodyptr) w

/-- `__limHandleBeacon`: a beacon received outside scan state goes to
`schBeaconProcess`, without session or with a session whose SME state is
link-established or normal, and to `limProcessBeaconFrame` otherwise. -/
def __limHandleBeacon (env : Env σ) (pMsg : tSirMsgQ) (psessionEntry : Option Nat)
    (w : World σ) : World σ :=
  let pRxPacketInfo := env.limGetBDfromRxPacket w.st.collab pMsg.bodyptr
  match psessionEntry with
  | none => callHandler env (Call.schBeaconProcess pRxPacketInfo.addr none) w
  | some s =>
    if (env.session w.st.collab s).limSmeState = tLimSmeStates.eLIM_SME_LINK_EST_STATE ∨
        (env.session w.st.collab s).limSmeState = tLimSmeStates.eLIM_SME_NORMAL_STATE then
      callHandler env (Call.schBeaconProcess pRxPacketInfo.addr (some s)) w
    else
      callHandler env (Call.limProcessBeaconFrame pRxPacketInfo.addr s) w

/-- `limHandleFramesInScanState`: the classifier used in scan state.  The
result is the value left in `*deferMsg` and the new state. -/
def limHandleFramesInScanState (env : Env σ) (limMsg : tSirMsgQ)
    (pRxPacketInfo : RxPacketInfo) (psessionEntry : Option Nat) (w : World σ) :
    Bool × World σ :=
  let fc := pRxPacketInfo.hdr.fc
  if fc.type = SIR_MAC_MGMT_FRAME ∧ fc.subType = SIR_MAC_MGMT_BEACON then
    (false, limPktFree env pRxPacketInfo limMsg
      (match psessionEntry with
       | none => callHandler env (Call.limProcessBeaconFrameNoSession pRxPacketInfo.addr) w
       | some s => callHandler env (Call.limProcessBeaconFrame pRxPacketInfo.addr s) w))
  else if fc.type = SIR_MAC_MGMT_FRAME ∧ fc.subType = SIR_MAC_MGMT_PROBE_RSP then
    (false, limPktFree env pRxPacketInfo limMsg
      (match psessionEntry with
       | none => callHandler env (Call.limProcessProbeRspFrameNoSession pRxPacketInfo.addr) w
       | some s => callHandler env (Call.limProcessProbeRspFrame pRxPacketInfo.addr s) w))
  else if fc.type = SIR_MAC_MGMT_FRAME ∧ fc.subType = SIR_MAC_MGMT_PROBE_REQ then
    (false, limPktFree env pRxPacketInfo limMsg
      (callHandler env
        (Call.limProcessProbeReqFrame_multiple_BSS pRxPacketInfo.addr psessionEntry) w))
  else if fc.type = SIR_MAC_MGMT_FRAME ∧ fc.subType = SIR_MAC_MGMT_ACTION then
    (false, limPktFree env pRxPacketInfo limMsg
      (callHandler env (Call.limProcessActionFrameNoSession pRxPacketInfo.addr) w))
  else
    (true, w)

/-- `limHandleUnknownA2IndexFrames`, called with a session that is not NULL. -/
def limHandleUnknownA2IndexFrames (env : Env σ) (pRxPacketInfo : RxPacketInfo)
    (psessionEntry : Nat) (w : World σ) : World σ :=
  let w1 :=
    if LIM_IS_P2P_DEVICE_ROLE env w.st.collab (some psessionEntry) then
      callHandler env (Call.limProcessActionFrameNoSession pRxPacketInfo.addr) w
    else w
  if env.FEATURE_WLAN_TDLS then
    if env.limIsGroupAddr pRxPacketInfo.hdr.sa then
      w1
    else if LIM_IS_STA_ROLE env w1.st.collab (some psessionEntry) then
      if pRxPacketInfo.hdr.fc.type = SIR_MAC_MGMT_FRAME ∧
          pRxPacketInfo.hdr.fc.subType = SIR_MAC_MGMT_ACTION then
        callHandler env (Call.limProcessActionFrame pRxPacketInfo.addr psessionEntry) w1
      else w1
    else w1
  else w1

/-- `vos_mem_compare(matchData, pBody, matchLen)`: the first `matchLen` bytes
are equal. -/
def vos_mem_compare (matchData pBody : List Nat) (matchLen : Nat) : Bool :=
  matchData.take matchLen == pBody.take matchLen

/-- The loop of `limCheckMgmtRegisteredFrames` over the registration list: the
entry at which the loop stops with `match = TRUE`, `none` if it runs to the end
of the list. -/
def matchRegistration (fc : tSirMacFrameCtl) (pBody : List Nat) (framelen : Nat) :
    List tLimMgmtFrameRegistration → Option tLimMgmtFrameRegistration
  | [] => none
  | r :: rest =>
    if ((r.frameType >>> 2) &&& 0x03) = SIR_MAC_MGMT_FRAME ∧ fc.type = SIR_MAC_MGMT_FRAME ∧
        ((r.frameType >>> 4) &&& 0x0f) = SIR_MAC_MGMT_RESERVED15 then
      some r
    else if r.frameType = ((fc.type <<< 2) ||| (fc.subType <<< 4)) then
      if r.matchLen > 0 then
        if r.matchLen ≤ framelen then
          if vos_mem_compare r.matchData pBody r.matchLen then some r
          else matchRegistration fc pBody framelen rest
        else matchRegistration fc pBody framelen rest
      else some r
    else matchRegistration fc pBody framelen rest

/-- Modelled from the spec: `sizeof(tSirMacMgmtHdr)` (the type is declared in
`sirMacProtDef.h`, not among the sources): the 24 bytes of an 802.11 management
header (frame control, duration, three addresses, sequence control). -/
def sizeof_tSirMacMgmtHdr : Nat := 24

/-- `limCheckMgmtRegisteredFrames`: if the frame matches a registration it is
indicated to SME; the result is TRUE unless the matching entry is the
management wildcard.  The payload length is held in the local `framelen`, a
`tANI_U16`: the loop compares `matchLen` with the length modulo `2 ^ 16`.  The
length handed to `limSendSmeMgmtFrameInd` is computed from the descriptor
again. -/
def limCheckMgmtRegisteredFrames (env : Env σ) (pBd : RxPacketInfo)
    (psessionEntry : Option Nat) (w : World σ) : Bool × World σ :=
  let fc := pBd.hdr.fc
  let framelen := pBd.payload.length % 2 ^ 16
  match matchRegistration fc pBd.payload framelen
      w.st.gLimMgmtFrameRegistratinQueue with
  | none => (false, w)
  | some r =>
    let w1 := callHandler env
      (Call.limSendSmeMgmtFrameInd fc.subType pBd.addr
        (pBd.payload.length + sizeof_tSirMacMgmtHdr) r.sessionId pBd.channel psessionEntry) w
    if ((r.frameType >>> 2) &&& 0x03) = SIR_MAC_MGMT_FRAME ∧ fc.type = SIR_MAC_MGMT_FRAME ∧
        ((r.frameType >>> 4) &&& 0x0f) = SIR_MAC_MGMT_RESERVED15 then
      (false, w1)
    else
      (true, w1)

/-- The session lookup of `limHandle80211Frames`.  The result is `none` when
the function leaves at `end` without a session (the frame is dropped), and
`some psessionEntry` when it goes on with that session, which may be NULL
(`some none`). -/
def limHandle80211Frames_session (env : Env σ) (limMsg : tSirMsgQ)
    (pRxPacketInfo : RxPacketInfo) (w : World σ) : Option (Option Nat) × World σ :=
  let pHdr := pRxPacketInfo.hdr
  let fc := pHdr.fc
  if env.FEATURE_WLAN_ESE_IAPP = true ∧ fc.type = SIR_MAC_DATA_FRAME ∧
      pRxPacketInfo.ftDone = true then
    (some none, w)
  else
    match env.peFindSessionByBssid w.st.collab pHdr.bssId with
    | some s => (some (some s), w)
    | none =>
      let auth := Call.limProcessAuthFrameNoSession pRxPacketInfo.addr limMsg.bodyptr
      let tried : Bool := env.WLAN_FEATURE_VOWIFI_11R && fc.subType == SIR_MAC_MGMT_AUTH
      if tried = true ∧ env.succeeds auth w.st = true then
        (none, callHandler env auth w)
      else
        let w1 := if tried then callHandler env auth w else w
        let afterPeer : Option (Option Nat) :=
          if fc.subType ≠ SIR_MAC_MGMT_PROBE_RSP ∧ fc.subType ≠ SIR_MAC_MGMT_BEACON ∧
              fc.subType ≠ SIR_MAC_MGMT_PROBE_REQ ∧ fc.subType ≠ SIR_MAC_MGMT_ACTION then
            match env.peFindSessionByPeerSta w1.st.collab pHdr.sa with
            | none => none
            | some s => some (some s)
          else some none
        match afterPeer with
        | none => (none, w1)
        | some psessionEntry =>
          if fc.subType = SIR_MAC_MGMT_ACTION then
            (some (env.peFindSessionByBssid w1.st.collab pHdr.da), w1)
          else
            (some psessionEntry, w1)

/-- The `switch` of `limHandle80211Frames` on frame type and subtype. -/
def limHandle80211Frames_switch (env : Env σ) (limMsg : tSirMsgQ)
    (pRxPacketInfo : RxPacketInfo) (psessionEntry : Option Nat) (w : World σ) : World σ :=
  let fc := pRxPacketInfo.hdr.fc
  let bd := pRxPacketInfo.addr
  if fc.type = SIR_MAC_MGMT_FRAME then
    if fc.subType = SIR_MAC_MGMT_ASSOC_REQ then
      if LIM_IS_BT_AMP_AP_ROLE env w.st.collab psessionEntry ||
          LIM_IS_AP_ROLE env w.st.collab psessionEntry then
        callHandler env (Call.limProcessAssocReqFrame bd tLimAssocKind.LIM_ASSOC psessionEntry) w
      else w
    else if fc.subType = SIR_MAC_MGMT_ASSOC_RSP then
      callHandler env (Call.limProcessAssocRspFrame bd tLimAssocKind.LIM_ASSOC psessionEntry) w
    else if fc.subType = SIR_MAC_MGMT_REASSOC_REQ then
      if LIM_IS_BT_AMP_AP_ROLE env w.st.collab psessionEntry ||
          LIM_IS_AP_ROLE env w.st.collab psessionEntry then
        callHandler env
          (Call.limProcessAssocReqFrame bd tLimAssocKind.LIM_REASSOC psessionEntry) w
      else w
    else if fc.subType = SIR_MAC_MGMT_REASSOC_RSP then
      callHandler env (Call.limProcessAssocRspFrame bd tLimAssocKind.LIM_REASSOC psessionEntry) w
    else if fc.subType = SIR_MAC_MGMT_PROBE_REQ then
      callHandler env (Call.limProcessProbeReqFrame_multiple_BSS bd psessionEntry) w
    else if fc.subType = SIR_MAC_MGMT_PROBE_RSP then
      match psessionEntry with
      | none => callHandler env (Call.limProcessProbeRspFrameNoSession bd) w
      | some s => callHandler env (Call.limProcessProbeRspFrame bd s) w
    else if fc.subType = SIR_MAC_MGMT_BEACON then
      __limHandleBeacon env limMsg psessionEntry w
    else if fc.subType = SIR_MAC_MGMT_DISASSOC then
      callHandler env (Call.limProcessDisassocFrame bd psessionEntry) w
    else if fc.subType = SIR_MAC_MGMT_AUTH then
      callHandler env (Call.limProcessAuthFrame bd psessionEntry) w
    else if fc.subType = SIR_MAC_MGMT_DEAUTH then
      callHandler env (Call.limProcessDeauthFrame bd psessionEntry) w
    else if fc.subType = SIR_MAC_MGMT_ACTION then
      match psessionEntry with
      | none => callHandler env (Call.limProcessActionFrameNoSession bd) w
      | some s =>
        if pRxPacketInfo.unknownUcast ≠ 0 then
          limHandleUnknownA2IndexFrames env pRxPacketInfo s w
        else
          callHandler env (Call.limProcessActionFrame bd s) w
    else w
  else if fc.type = SIR_MAC_DATA_FRAME then
    match psessionEntry with
    | none => w
    | some s =>
      if env.FEATURE_WLAN_ESE_IAPP = true ∧ (env.session w.st.collab s).isESEconnection = true then
        callHandler env (Call.limProcessIappFrame bd s) w
      else w
  else w

/-- The part of `limHandle80211Frames` after the session lookup: the check of
the registered frames, the check of the protocol version, the classifier for
scan state and the `switch`.  In scan state without scan offload the function
returns from `limHandleFramesInScanState`; on every other path it leaves through
`end`, where the buffer is released. -/
def limHandle80211Frames_dispatch (env : Env σ) (limMsg : tSirMsgQ)
    (pRxPacketInfo : RxPacketInfo) (psessionEntry : Option Nat) (w : World σ) :
    Bool × World σ :=
  let r := limCheckMgmtRegisteredFrames env pRxPacketInfo psessionEntry w
  if r.1 then
    (false, limPktFree env pRxPacketInfo limMsg r.2)
  else if pRxPacketInfo.hdr.fc.protVer ≠ SIR_MAC_PROTOCOL_VERSION then
    (false, limPktFree env pRxPacketInfo limMsg r.2)
  else if r.2.st.fScanOffload = 0 ∧ limIsSystemInScanState env r.2.st = true then
    limHandleFramesInScanState env limMsg pRxPacketInfo psessionEntry r.2
  else
    (false, limPktFree env pRxPacketInfo limMsg
      (limHandle80211Frames_switch env limMsg pRxPacketInfo psessionEntry r.2))

/-- `limHandle80211Frames`: the frame classifier.  The result is the value left
in `*pDeferMsg` and the new state.  The descriptor of the packet is read once,
at entry; the handlers are taken not to rewrite a frame they are given.  The
exits for frames marked by the firmware (ext-scan or ePNO source, roam
candidate, offload-scan-learn) exist only in builds with the respective
feature; `__limProcessExtScanBeaconProbeRsp` is recorded as one call. -/
def limHandle80211Frames (env : Env σ) (limMsg : tSirMsgQ) (w : World σ) : Bool × World σ :=
  let pRxPacketInfo := env.limGetBDfromRxPacket w.st.collab limMsg.bodyptr
  let fc := pRxPacketInfo.hdr.fc
  if env.FEATURE_WLAN_EXTSCAN = true ∧
      (pRxPacketInfo.extscanSrc = true ∨ pRxPacketInfo.epnoSrc = true) then
    if fc.subType = SIR_MAC_MGMT_BEACON ∨ fc.subType = SIR_MAC_MGMT_PROBE_RSP then
      (false, limPktFree env pRxPacketInfo limMsg
        (callHandler env (Call.limProcessExtScanBeaconProbeRsp pRxPacketInfo.addr fc.subType) w))
    else
      (false, limPktFree env pRxPacketInfo limMsg w)
  else if env.WLAN_FEATURE_ROAM_SCAN_OFFLOAD = true ∧ pRxPacketInfo.roamCandidateInd ≠ 0 then
    (false, limPktFree env pRxPacketInfo limMsg
      (callHandler env (Call.limSendSmeCandidateFoundInd pRxPacketInfo.sessionId) w))
  else if env.WLAN_FEATURE_ROAM_SCAN_OFFLOAD = true ∧ pRxPacketInfo.offloadScanLearn ≠ 0 then
    if fc.subType = SIR_MAC_MGMT_BEACON then
      (false, limPktFree env pRxPacketInfo limMsg (__limHandleBeacon env limMsg none w))
    else if fc.subType = SIR_MAC_MGMT_PROBE_RSP then
      (false, limPktFree env pRxPacketInfo limMsg
        (callHandler env (Call.limProcessProbeRspFrameNoSession pRxPacketInfo.addr) w))
    else
      (false, limPktFree env pRxPacketInfo limMsg w)
  else
    match limHandle80211Frames_session env limMsg pRxPacketInfo w with
    | (none, w1) => (false, limPktFree env pRxPacketInfo limMsg w1)
    | (some psessionEntry, w1) =>
      limHandle80211Frames_dispatch env limMsg pRxPacketInfo psessionEntry w1

/-! ### The dispatcher and its helpers -/

/-- A call of a handler that is given the message itself (`limMsg`, a pointer):
the handler may change the message as well as the state. -/
def callMsgHandler (env : Env σ) (f : Handler) (limMsg : tSirMsgQ) (w : World σ) :
    tSirMsgQ × World σ :=
  let r := env.msgHandler f limMsg w.st
  (r.1, { st := r.2, trace := w.trace ++ [Call.handler f limMsg] })

/-- The statements `vos_mem_free(limMsg->bodyptr); limMsg->bodyptr = NULL;`. -/
def freeBodyptr (env : Env σ) (limMsg : tSirMsgQ) (w : World σ) : tSirMsgQ × World σ :=
  ({ limMsg with bodyptr := 0 }, callRelease env (Call.vos_mem_free limMsg.bodyptr) w)

/-- A case of the form `f(pMac, limMsg->bodyptr); limMsg->bodyptr = NULL;`: the
body is handed to the handler. -/
def handOverBody (env : Env σ) (f : Handler) (limMsg : tSirMsgQ) (w : World σ) :
    tSirMsgQ × World σ :=
  ({ limMsg with bodyptr := 0 }, callHandler env (Call.fn f limMsg.bodyptr) w)

/-- Modelled from the spec: the macro `SET_LIM_PROCESS_DEFD_MESGS` (not among
the sources) writes the busy flag `gLimProcessDefdMsgs`; `true` is 1. -/
def SET_LIM_PROCESS_DEFD_MESGS (val : Nat) (w : World σ) : World σ :=
  { w with st := { w.st with gLimProcessDefdMsgs := val } }

/-- Modelled from the spec: the handlers of the firmware round-trip responses
named by the spec (`limProcessMlmAddBssRsp`, `limProcessAddStaRsp`,
`limProcessMlmDelStaRsp`, `limHandleDeleteBssRsp`, `limProcessMlmSetBssKeyRsp`,
`limProcessMlmSetStaKeyRsp`, `limProcessMlmRemoveKeyRsp`,
`limProcessMlmHalAddBARsp`; limProcessMlmRspMessages.c and limAssocUtils.c are
not among the sources).  "A firmware round-trip response always clears the busy
flag as part of being handled, regardless of success/failure status", and does
so "before delegation, not after": the handler sets `gLimProcessDefdMsgs` to true
and then does the rest of its work, about which nothing is assumed. -/
def halResponseHandler (env : Env σ) (f : Handler) (limMsg : tSirMsgQ) (w : World σ) :
    tSirMsgQ × World σ :=
  callMsgHandler env f limMsg (SET_LIM_PROCESS_DEFD_MESGS 1 w)

/-- `limSendStopScanOffloadReq`: allocate the parameters, post
`WDA_STOP_SCAN_OFFLOAD_REQ`, and free the parameters when the post fails.  The
result is the returned status and the new state. -/
def limSendStopScanOffloadReq (env : Env σ) (SessionId : Nat) (w : World σ) :
    eHalStatus × World σ :=
  let pAbortScanParams := env.vos_mem_malloc w.st.collab
  let w1 := callRelease env (Call.vos_mem_malloc pAbortScanParams) w
  match pAbortScanParams with
  | none => (eHalStatus.eHAL_STATUS_FAILURE, w1)
  | some p =>
    let post := Call.wdaPostCtrlMsg MsgType.WDA_STOP_SCAN_OFFLOAD_REQ p 0 SessionId
    if env.succeeds post w1.st = true then
      (eHalStatus.eHAL_STATUS_SUCCESS, callHandler env post w1)
    else
      (eHalStatus.eHAL_STATUS_FAILURE,
        callRelease env (Call.vos_mem_free p) (callHandler env post w1))

/-- `limProcessAbortScanInd`: abort the scan in progress.  The function returns
nothing. -/
def limProcessAbortScanInd (env : Env σ) (SessionId : Nat) (w : World σ) : World σ :=
  let w0 :=
    if env.FEATURE_WLAN_DIAG_SUPPORT_LIM then
      callRelease env (Call.plain Handler.limDiagEventReport) w
    else w
  let w1 := callHandler env (Call.plain Handler.limAbortBackgroundScan) w0
  if w1.st.fScanOffload ≠ 0 then
    (limSendStopScanOffloadReq env SessionId w1).2
  else if limIsSystemInScanState env w1.st = true then
    if w1.st.gLimHalScanState = tLimLimHalScanState.eLIM_HAL_INIT_SCAN_WAIT_STATE ∨
        w1.st.gLimHalScanState = tLimLimHalScanState.eLIM_HAL_START_SCAN_WAIT_STATE ∨
        w1.st.gLimHalScanState = tLimLimHalScanState.eLIM_HAL_END_SCAN_WAIT_STATE ∨
        w1.st.gLimHalScanState = tLimLimHalScanState.eLIM_HAL_FINISH_SCAN_WAIT_STATE then
      { w1 with st := { w1.st with abortScan := 1 } }
    else
      let w2 : World σ := { w1 with st := { w1.st with abortScan := 0 } }
      let w3 := callHandler env
        (Call.limDeactivateAndChangeTimer tLimTimerId.eLIM_MIN_CHANNEL_TIMER) w2
      let w4 := callHandler env
        (Call.limDeactivateAndChangeTimer tLimTimerId.eLIM_MAX_CHANNEL_TIMER) w3
      let w5 := callHandler env (Call.plain Handler.peSetResumeChannel) w4
      callHandler env (Call.plain Handler.limSendHalFinishScanReq) w5
  else
    w1

/-- `limProcessOemDataRsp` (built with `FEATURE_OEM_DATA_SUPPORT`): set the busy
flag, then post `LIM_MLM_OEM_DATA_CNF` with the body. -/
def limProcessOemDataRsp (env : Env σ) (body : Nat) (w : World σ) : World σ :=
  callHandler env (Call.limPostSmeMessage MsgType.LIM_MLM_OEM_DATA_CNF body)
    (SET_LIM_PROCESS_DEFD_MESGS 1 w)

/-- `limProcessNormalHddMsg`: defer a request of the upper layer while an ADDTS
request is outstanding or the system scans, unless the role and the kind exempt
it; otherwise hand it to `limProcessSmeReqMessages` and free the body when that
returns true.  The result is the message afterwards and the new state. -/
def limProcessNormalHddMsg (env : Env σ) (pLimMsg : tSirMsgQ) (fRspReqd : Bool)
    (w : World σ) : tSirMsgQ × World σ :=
  let fDeferMsg : Bool :=
    if (w.st.gLimSystemRole = tLimSystemRole.eLIM_AP_ROLE ∨
        w.st.gLimSystemRole = tLimSystemRole.eLIM_BT_AMP_AP_ROLE ∨
        w.st.gLimSystemRole = tLimSystemRole.eLIM_BT_AMP_STA_ROLE ∨
        w.st.gLimSystemRole = tLimSystemRole.eLIM_UNKNOWN_ROLE) ∧
       (pLimMsg.type = MsgType.eWNI_SME_START_BSS_REQ ∨
        pLimMsg.type = MsgType.eWNI_SME_STOP_BSS_REQ ∨
        pLimMsg.type = MsgType.eWNI_SME_SWITCH_CHL_REQ ∨
        pLimMsg.type = MsgType.eWNI_SME_SWITCH_CHL_CB_SECONDARY_REQ ∨
        pLimMsg.type = MsgType.eWNI_SME_SWITCH_CHL_CB_PRIMARY_REQ) then false
    else true
  if (w.st.gLimAddtsSent ≠ 0 ∨ limIsSystemInScanState env w.st = true) ∧ fDeferMsg = true then
    let r := limDeferMsg env pLimMsg w
    if r.1 ≠ TxStatus.TX_SUCCESS then
      freeBodyptr env pLimMsg (note Call.limLogSessionStates r.2)
    else
      (pLimMsg, r.2)
  else
    let w1 : World σ :=
      if fRspReqd then { w with st := { w.st with gLimRspReqd := 1 } } else w
    let r := callMsgHandler env Handler.limProcessSmeReqMessages pLimMsg w1
    if env.succeeds (Call.handler Handler.limProcessSmeReqMessages pLimMsg) w1.st = true then
      freeBodyptr env r.1 r.2
    else
      r

/-- The case `SIR_BB_XPORT_MGMT_MSG` of the dispatcher: a received frame.  The
body of the message is the packet; a copy of the message, its body replaced by
the receive descriptor of the packet, goes to the frame classifier.  With a NULL
body the case logs, asserts and leaves (the assertion only reports). -/
def limProcessMessages_frame (env : Env σ) (limMsg : tSirMsgQ) (w : World σ) :
    tSirMsgQ × World σ :=
  if limMsg.bodyptr = 0 then
    (limMsg, w)
  else
    let pVosPkt := limMsg.bodyptr
    match env.WDA_DS_PeekRxPacketInfo w.st.collab pVosPkt with
    | none => (limMsg, callRelease env (Call.vos_pkt_return_packet pVosPkt) w)
    | some bd =>
      let limMsgNew : tSirMsgQ := { limMsg with bodyptr := bd }
      let r := limHandle80211Frames env limMsgNew w
      if r.1 = true then
        let d := limDeferMsg env limMsg r.2
        if d.1 ≠ TxStatus.TX_SUCCESS then
          (limMsg, callRelease env (Call.vos_pkt_return_packet pVosPkt)
            (note Call.limLogSessionStates d.2))
        else
          (limMsg, d.2)
      else
        (limMsg, callRelease env (Call.vos_pkt_return_packet pVosPkt) r.2)

/-- The loop `for (i = 0; i < pMac->lim.maxBssId; i++)` of the cases
`SIR_HAL_P2P_NOA_START_IND` and `SIR_HAL_P2P_NOA_ATTR_IND`, from index `i` on.
The index is a `tANI_U8` and wraps at 256; `maxBssId` is a `tANI_U16`.  The
body calls nothing before it leaves by `break`.  The result is `some (some i)`
when the loop leaves by `break` at index `i`, the first whose session is valid
with persona `VOS_P2P_GO_MODE`; `some none` when it leaves because the index has
reached `maxBssId`; `none` when it has not left after `rounds` tests of its
condition. -/
def noaLoop (env : Env σ) (c : σ) (maxBssId : Nat) : Nat → Nat → Option (Option Nat)
  | 0, _ => none
  | rounds + 1, i =>
    if i < maxBssId then
      if env.p2pGoSession c i then some (some i)
      else noaLoop env c maxBssId rounds ((i + 1) % 2 ^ 8)
    else some none

/-- The loop `for (i = 0; i < pMac->lim.maxBssId; i++)` of the case
`WDA_UPDATE_Q2Q_IE_IND` (built with `FEATURE_AP_MCC_CH_AVOIDANCE`), from index
`i` on.  The index is a `uint8_t` and wraps at 256; `maxBssId`, a `tANI_U16`,
is read at every test.  The result is the state in which the loop leaves, and
`none` when it has not left after `rounds` tests of its condition. -/
def q2qLoop (env : Env σ) (limMsg : tSirMsgQ) : Nat → Nat → World σ → Option (World σ)
  | 0, _, _ => none
  | rounds + 1, i, w =>
    if i < w.st.maxBssId then
      let vdev_id := env.load w.st.collab limMsg.bodyptr (BodyField.byte i)
      match env.pe_find_session_by_sme_session_id w.st.collab vdev_id with
      | none => q2qLoop env limMsg rounds ((i + 1) % 2 ^ 8) w
      | some session_entry =>
        let w1 := callRelease env (Call.fn Handler.sap_advertise_avoid_ch_ie session_entry) w
        if env.channelIsDfs w1.st.collab session_entry then
          q2qLoop env limMsg rounds ((i + 1) % 2 ^ 8) w1
        else
          q2qLoop env limMsg rounds ((i + 1) % 2 ^ 8)
            (callHandler env (Call.fn Handler.limSendBeaconParams session_entry)
              (callHandler env (Call.fn Handler.schSetFixedBeaconFields session_entry) w1))
    else some w

/-- The `switch` of `limProcessMessages`.  A case that exists only in a build
with some feature falls to `default` without it.  Reads through pointers are
taken to succeed (`limProcessMessages_checked` tells when one does not).  The
loops over the session table are run for 256 tests of their condition, after
which their 8-bit index has wrapped: a loop that has not left by then does not
leave at all, unless a handler called in it lowers `maxBssId` later on.  The
dispatcher is taken not to return then (`limProcessMessages_returns` tells), and
the value given here for that case stands for no state of the program. -/
def limProcessMessages_switch (env : Env σ) (limMsg : tSirMsgQ) (w : World σ) :
    tSirMsgQ × World σ :=
  match limMsg.type with
  | .SIR_LIM_UPDATE_BEACON =>
    (limMsg, callHandler env Call.limUpdateBeacon w)
  | .SIR_CFG_PARAM_UPDATE_IND =>
    if limIsSystemInScanState env w.st then
      let r := limDeferMsg env limMsg w
      if r.1 ≠ TxStatus.TX_SUCCESS then
        (limMsg, note Call.limLogSessionStates r.2)
      else
        (limMsg, r.2)
    else
      (limMsg, callHandler env (Call.limHandleCFGparamUpdate limMsg.bodyval) w)
  | .WDA_INIT_SCAN_RSP => handOverBody env Handler.limProcessInitScanRsp limMsg w
  | .WDA_START_SCAN_RSP => handOverBody env Handler.limProcessStartScanRsp limMsg w
  | .WDA_END_SCAN_RSP => handOverBody env Handler.limProcessEndScanRsp limMsg w
  | .WDA_FINISH_SCAN_RSP => handOverBody env Handler.limProcessFinishScanRsp limMsg w
  | .WDA_START_OEM_DATA_RSP =>
    if env.FEATURE_OEM_DATA_SUPPORT then
      ({ limMsg with bodyptr := 0 }, limProcessOemDataRsp env limMsg.bodyptr w)
    else freeBodyptr env limMsg w
  | .WDA_SWITCH_CHANNEL_RSP => handOverBody env Handler.limProcessSwitchChannelRsp limMsg w
  | .WDA_IBSS_STA_ADD =>
    if env.ANI_SIR_IBSS_PEER_CACHING then
      (limMsg, callHandler env (Call.fn Handler.limIbssStaAdd limMsg.bodyptr) w)
    else freeBodyptr env limMsg w
  | .SIR_BB_XPORT_MGMT_MSG => limProcessMessages_frame env limMsg w
  | .eWNI_SME_SCAN_REQ | .eWNI_SME_REMAIN_ON_CHANNEL_REQ | .eWNI_SME_DISASSOC_REQ
  | .eWNI_SME_DEAUTH_REQ | .eWNI_SME_GET_SCANNED_CHANNEL_REQ
  | .eWNI_SME_RESET_AP_CAPS_CHANGED =>
    limProcessNormalHddMsg env limMsg true w
  | .eWNI_SME_OEM_DATA_REQ =>
    if env.FEATURE_OEM_DATA_SUPPORT then limProcessNormalHddMsg env limMsg true w
    else freeBodyptr env limMsg w
  | .eWNI_SME_TDLS_SEND_MGMT_REQ | .eWNI_SME_TDLS_ADD_STA_REQ | .eWNI_SME_TDLS_DEL_STA_REQ
  | .eWNI_SME_TDLS_LINK_ESTABLISH_REQ =>
    if env.FEATURE_WLAN_TDLS then limProcessNormalHddMsg env limMsg true w
    else freeBodyptr env limMsg w
  | .eWNI_SME_SCAN_ABORT_IND =>
    if limMsg.bodyptr ≠ 0 then
      let sessionId := env.load w.st.collab limMsg.bodyptr BodyField.tSirMbMsg_data0 % 256
      freeBodyptr env limMsg (limProcessAbortScanInd env sessionId w)
    else
      (limMsg, w)
  | .eWNI_SME_PDEV_SET_HT_VHT_IE | .eWNI_SME_START_REQ | .eWNI_SME_SYS_READY_IND
  | .eWNI_SME_JOIN_REQ | .eWNI_SME_REASSOC_REQ | .eWNI_SME_START_BSS_REQ
  | .eWNI_SME_STOP_BSS_REQ | .eWNI_SME_SWITCH_CHL_REQ | .eWNI_SME_SWITCH_CHL_CB_PRIMARY_REQ
  | .eWNI_SME_SWITCH_CHL_CB_SECONDARY_REQ | .eWNI_SME_SETCONTEXT_REQ
  | .eWNI_SME_REMOVEKEY_REQ | .eWNI_SME_DISASSOC_CNF | .eWNI_SME_DEAUTH_CNF
  | .eWNI_SME_ASSOC_CNF | .eWNI_SME_REASSOC_CNF | .eWNI_SME_ADDTS_REQ | .eWNI_SME_DELTS_REQ
  | .eWNI_SME_DEL_BA_PEER_IND | .eWNI_SME_SET_TX_POWER_REQ | .eWNI_SME_GET_TX_POWER_REQ
  | .eWNI_SME_GET_NOISE_REQ | .eWNI_SME_GET_ASSOC_STAS_REQ | .eWNI_SME_TKIP_CNTR_MEAS_REQ
  | .eWNI_SME_UPDATE_APWPSIE_REQ | .eWNI_SME_HIDE_SSID_REQ
  | .eWNI_SME_GET_WPSPBC_SESSION_REQ | .eWNI_SME_SET_APWPARSNIEs_REQ
  | .eWNI_SME_CHNG_MCC_BEACON_INTERVAL | .eWNI_SME_ADD_STA_SELF_REQ
  | .eWNI_SME_DEL_STA_SELF_REQ | .eWNI_SME_REGISTER_MGMT_FRAME_REQ | .eWNI_SME_UPDATE_NOA
  | .eWNI_SME_CLEAR_DFS_CHANNEL_LIST | .eWNI_SME_CLEAR_LIM_SCAN_CACHE
  | .eWNI_SME_STA_STAT_REQ | .eWNI_SME_AGGR_STAT_REQ | .eWNI_SME_GLOBAL_STAT_REQ
  | .eWNI_SME_STAT_SUMM_REQ | .eWNI_SME_GET_STATISTICS_REQ | .eWNI_SME_EXT_CHANGE_CHANNEL =>
    limProcessNormalHddMsg env limMsg false w
  | .eWNI_SME_NEIGHBOR_REPORT_REQ_IND | .eWNI_SME_BEACON_REPORT_RESP_XMIT_IND =>
    if env.WLAN_FEATURE_VOWIFI then limProcessNormalHddMsg env limMsg false w
    else freeBodyptr env limMsg w
  | .eWNI_SME_ESE_ADJACENT_AP_REPORT =>
    if env.FEATURE_WLAN_ESE then limProcessNormalHddMsg env limMsg false w
    else freeBodyptr env limMsg w
  | .eWNI_SME_FT_UPDATE_KEY | .eWNI_SME_FT_PRE_AUTH_REQ | .eWNI_SME_FT_AGGR_QOS_REQ =>
    if env.WLAN_FEATURE_VOWIFI_11R then limProcessNormalHddMsg env limMsg false w
    else freeBodyptr env limMsg w
  | .eWNI_SME_GET_TSM_STATS_REQ =>
    if env.FEATURE_WLAN_ESE && env.FEATURE_WLAN_ESE_UPLOAD then
      limProcessNormalHddMsg env limMsg false w
    else freeBodyptr env limMsg w
  | .eWNI_PMC_PWR_SAVE_CFG | .eWNI_PMC_ENTER_BMPS_REQ | .eWNI_PMC_EXIT_BMPS_REQ
  | .eWNI_PMC_ENTER_IMPS_REQ | .eWNI_PMC_EXIT_IMPS_REQ | .eWNI_PMC_ENTER_UAPSD_REQ
  | .eWNI_PMC_EXIT_UAPSD_REQ | .eWNI_PMC_ENTER_WOWL_REQ | .eWNI_PMC_EXIT_WOWL_REQ
  | .eWNI_PMC_WOWL_ADD_BCAST_PTRN | .eWNI_PMC_WOWL_DEL_BCAST_PTRN =>
    if w.st.psOffloadEnabled = 0 then callMsgHandler env Handler.pmmProcessMessage limMsg w
    else callMsgHandler env Handler.pmmOffloadProcessMessage limMsg w
  | .eWNI_PMC_SMPS_STATE_IND =>
    if limMsg.bodyptr ≠ 0 then freeBodyptr env limMsg w else (limMsg, w)
  | .eWNI_SME_SEND_ACTION_FRAME_IND =>
    let r := callMsgHandler env Handler.limSendP2PActionFrame limMsg w
    freeBodyptr env r.1 r.2
  | .eWNI_SME_ABORT_REMAIN_ON_CHAN_IND =>
    let sessionId := env.load w.st.collab limMsg.bodyptr BodyField.tSirMbMsgP2p_sessionId
    freeBodyptr env limMsg (callHandler env (Call.fn Handler.limAbortRemainOnChan sessionId) w)
  | .WDA_P2P_NOA_START_IND =>
    let w1 := callHandler env
      (Call.limDeactivateAndChangeTimer tLimTimerId.eLIM_INSERT_SINGLESHOT_NOA_TIMER) w
    let w2 :=
      match noaLoop env w1.st.collab w1.st.maxBssId 256 0 with
      | some (some _) => callRelease env (Call.handler Handler.vos_mem_copy limMsg) w1
      | _ => w1
    let w3 := callHandler env (Call.plain Handler.limProcessRegdDefdSmeReqAfterNOAStart) w2
    freeBodyptr env limMsg w3
  | .SIR_HAL_TDLS_IND =>
    if env.FEATURE_WLAN_TDLS then
      match env.peFindSessionByStaId w.st.collab
          (env.load w.st.collab limMsg.bodyptr BodyField.tSirTdlsInd_staIdx) with
      | none => freeBodyptr env limMsg w
      | some psessionEntry =>
        match env.dphGetHashEntry w.st.collab
            (env.load w.st.collab limMsg.bodyptr BodyField.tSirTdlsInd_assocId)
            psessionEntry with
        | none => freeBodyptr env limMsg w
        | some pStaDs =>
          if env.staIsTdlsPeer w.st.collab pStaDs then
            freeBodyptr env limMsg
              (callHandler env (Call.handler Handler.limSendSmeTDLSDelStaInd limMsg) w)
          else
            freeBodyptr env limMsg w
    else freeBodyptr env limMsg w
  | .WDA_P2P_NOA_ATTR_IND =>
    let w1 :=
      match noaLoop env w.st.collab w.st.maxBssId 256 0 with
      | some (some _) => callRelease env (Call.handler Handler.vos_mem_copy limMsg) w
      | _ => w
    freeBodyptr env limMsg w1
  | .eWNI_SME_PRE_CHANNEL_SWITCH_FULL_POWER =>
    let w1 :=
      if env.tx_timer_running w.st.collab then w
      else callHandler env (Call.plain Handler.limProcessChannelSwitchTimeout) w
    freeBodyptr env limMsg w1
  | .WDA_ENTER_BMPS_RSP | .WDA_EXIT_BMPS_RSP | .WDA_EXIT_BMPS_IND | .WDA_ENTER_IMPS_RSP
  | .WDA_EXIT_IMPS_RSP | .WDA_ENTER_UAPSD_RSP | .WDA_EXIT_UAPSD_RSP | .WDA_WOWL_ENTER_RSP
  | .WDA_WOWL_EXIT_RSP =>
    if w.st.psOffloadEnabled = 0 then callMsgHandler env Handler.pmmProcessMessage limMsg w
    else callMsgHandler env Handler.pmmOffloadProcessMessage limMsg w
  | .WDA_MISSED_BEACON_IND =>
    let r :=
      if w.st.psOffloadEnabled ≠ 0 then
        callMsgHandler env Handler.limPsOffloadHandleMissedBeaconInd limMsg w
      else
        callMsgHandler env Handler.limHandleMissedBeaconInd limMsg w
    freeBodyptr env r.1 r.2
  | .WDA_MIC_FAILURE_IND =>
    let r := callMsgHandler env Handler.limMicFailureInd limMsg w
    freeBodyptr env r.1 r.2
  | .WDA_ROAM_OFFLOAD_SYNCH_IND =>
    if env.WLAN_FEATURE_ROAM_OFFLOAD then
      callMsgHandler env Handler.limRoamOffloadSynchInd limMsg w
    else freeBodyptr env limMsg w
  | .SIR_LIM_ADDTS_RSP_TIMEOUT =>
    callMsgHandler env Handler.limProcessSmeReqMessages limMsg w
  | .SIR_LIM_ESE_TSM_TIMEOUT =>
    if env.FEATURE_WLAN_ESE then
      if env.FEATURE_WLAN_ESE_UPLOAD then (limMsg, w)
      else callMsgHandler env Handler.limProcessTsmTimeoutHandler limMsg w
    else freeBodyptr env limMsg w
  | .WDA_TSM_STATS_RSP =>
    if env.FEATURE_WLAN_ESE then
      if env.FEATURE_WLAN_ESE_UPLOAD then
        (limMsg, callHandler env (Call.fn Handler.limSendSmePEEseTsmRsp limMsg.bodyptr) w)
      else callMsgHandler env Handler.limProcessHalEseTsmRsp limMsg w
    else freeBodyptr env limMsg w
  | .WDA_ADD_TS_RSP => callMsgHandler env Handler.limProcessHalAddTsRsp limMsg w
  | .SIR_LIM_DEL_TS_IND => callMsgHandler env Handler.limProcessDelTsInd limMsg w
  | .SIR_LIM_ADD_BA_IND => callMsgHandler env Handler.limProcessAddBaInd limMsg w
  | .SIR_LIM_DEL_BA_ALL_IND =>
    (limMsg, callHandler env (Call.plain Handler.limDelAllBASessions) w)
  | .SIR_LIM_DEL_BA_IND => callMsgHandler env Handler.limProcessMlmHalBADeleteInd limMsg w
  | .SIR_LIM_BEACON_GEN_IND =>
    if w.st.gLimSystemRole ≠ tLimSystemRole.eLIM_AP_ROLE then
      callMsgHandler env Handler.schProcessPreBeaconInd limMsg w
    else (limMsg, w)
  | .SIR_LIM_DELETE_STA_CONTEXT_IND =>
    callMsgHandler env Handler.limDeleteStaContext limMsg w
  | .SIR_LIM_MIN_CHANNEL_TIMEOUT | .SIR_LIM_MAX_CHANNEL_TIMEOUT
  | .SIR_LIM_PERIODIC_PROBE_REQ_TIMEOUT | .SIR_LIM_JOIN_FAIL_TIMEOUT
  | .SIR_LIM_PERIODIC_JOIN_PROBE_REQ_TIMEOUT | .SIR_LIM_AUTH_FAIL_TIMEOUT
  | .SIR_LIM_AUTH_RSP_TIMEOUT | .SIR_LIM_ASSOC_FAIL_TIMEOUT | .SIR_LIM_REASSOC_FAIL_TIMEOUT
  | .SIR_LIM_REMAIN_CHN_TIMEOUT | .SIR_LIM_INSERT_SINGLESHOT_NOA_TIMEOUT
  | .SIR_LIM_DISASSOC_ACK_TIMEOUT | .SIR_LIM_DEAUTH_ACK_TIMEOUT
  | .SIR_LIM_CONVERT_ACTIVE_CHANNEL_TO_PASSIVE | .SIR_LIM_AUTH_RETRY_TIMEOUT =>
    callMsgHandler env Handler.limProcessMlmReqMessages limMsg w
  | .SIR_LIM_FT_PREAUTH_RSP_TIMEOUT =>
    if env.WLAN_FEATURE_VOWIFI_11R then
      callMsgHandler env Handler.limProcessMlmReqMessages limMsg w
    else freeBodyptr env limMsg w
  | .SIR_LIM_HEART_BEAT_TIMEOUT =>
    if w.st.psOffloadEnabled ≠ 0 then
      if limMsg.bodyptr = 0 then
        (limMsg, w)
      else
        (limMsg, callHandler env (Call.limHandleHeartBeatTimeoutForSession limMsg.bodyptr)
          (callHandler env (Call.limResetHBPktCount limMsg.bodyptr) w))
    else if limIsSystemInScanState env w.st then
      let r := limDeferMsg env limMsg w
      if r.1 ≠ TxStatus.TX_SUCCESS then
        (limMsg, note Call.limLogSessionStates r.2)
      else
        (limMsg, r.2)
    else if limMsg.bodyptr = 0 then
      (limMsg, callHandler env Call.limHandleHeartBeatTimeout w)
    else
      (limMsg, callHandler env (Call.limHandleHeartBeatTimeoutForSession limMsg.bodyptr) w)
  | .SIR_LIM_PROBE_HB_FAILURE_TIMEOUT =>
    (limMsg, callHandler env (Call.plain Handler.limHandleHeartBeatFailureTimeout) w)
  | .SIR_LIM_CHANNEL_SCAN_TIMEOUT =>
    let w1 := callHandler env
      (Call.limDeactivateAndChangeTimer tLimTimerId.eLIM_BACKGROUND_SCAN_TIMER) w
    let w2 : World σ := { w1 with st := { w1.st with gLimReportBackgroundScanResults := 0 } }
    (limMsg, callHandler env (Call.plain Handler.limTriggerBackgroundScan) w2)
  | .SIR_LIM_HASH_MISS_THRES_TIMEOUT =>
    (limMsg, { w with st := { w.st with gLimDisassocFrameCredit := 0 } })
  | .SIR_LIM_CNF_WAIT_TIMEOUT =>
    (limMsg, callHandler env
      (Call.fn Handler.limHandleCnfWaitTimeout (limMsg.bodyval % 2 ^ 16)) w)
  | .SIR_LIM_KEEPALIVE_TIMEOUT =>
    (limMsg, callHandler env (Call.plain Handler.limSendKeepAliveToPeer) w)
  | .SIR_LIM_RETRY_INTERRUPT_MSG | .SIR_LIM_INV_KEY_INTERRUPT_MSG
  | .SIR_LIM_KEY_ID_INTERRUPT_MSG | .SIR_LIM_REPLAY_THRES_INTERRUPT_MSG =>
    (limMsg, w)
  | .SIR_LIM_CHANNEL_SWITCH_TIMEOUT =>
    (limMsg, callHandler env (Call.plain Handler.limProcessChannelSwitchTimeout) w)
  | .SIR_LIM_QUIET_TIMEOUT =>
    (limMsg, callHandler env (Call.plain Handler.limProcessQuietTimeout) w)
  | .SIR_LIM_QUIET_BSS_TIMEOUT =>
    (limMsg, callHandler env (Call.plain Handler.limProcessQuietBssTimeout) w)
  | .SIR_LIM_UPDATE_OLBC_CACHEL_TIMEOUT =>
    (limMsg, callHandler env (Call.plain Handler.limHandleUpdateOlbcCache) w)
  | .SIR_HAL_TDLS_SHOULD_DISCOVER | .SIR_HAL_TDLS_SHOULD_TEARDOWN
  | .SIR_HAL_TDLS_PEER_DISCONNECTED =>
    if env.FEATURE_WLAN_TDLS then
      (limMsg, callHandler env (Call.handler Handler.limSendSmeTdlsEventNotify limMsg) w)
    else freeBodyptr env limMsg w
  | .WDA_ADD_BSS_RSP => halResponseHandler env Handler.limProcessMlmAddBssRsp limMsg w
  | .WDA_ADD_STA_RSP => halResponseHandler env Handler.limProcessAddStaRsp limMsg w
  | .WDA_DELETE_STA_RSP => halResponseHandler env Handler.limProcessMlmDelStaRsp limMsg w
  | .WDA_ADD_STA_SELF_RSP => callMsgHandler env Handler.limProcessAddStaSelfRsp limMsg w
  | .WDA_DEL_STA_SELF_RSP => callMsgHandler env Handler.limProcessDelStaSelfRsp limMsg w
  | .WDA_UPDATE_Q2Q_IE_IND =>
    if env.FEATURE_AP_MCC_CH_AVOIDANCE then
      match q2qLoop env limMsg 256 0 w with
      | some w1 => (limMsg, callRelease env (Call.vos_mem_free limMsg.bodyptr) w1)
      | none => (limMsg, w)
    else freeBodyptr env limMsg w
  | .WDA_DELETE_BSS_RSP => halResponseHandler env Handler.limHandleDeleteBssRsp limMsg w
  | .WDA_CSA_OFFLOAD_EVENT => callMsgHandler env Handler.limHandleCSAoffloadMsg limMsg w
  | .WDA_SET_BSSKEY_RSP | .WDA_SET_STA_BCASTKEY_RSP =>
    halResponseHandler env Handler.limProcessMlmSetBssKeyRsp limMsg w
  | .WDA_SET_STAKEY_RSP => halResponseHandler env Handler.limProcessMlmSetStaKeyRsp limMsg w
  | .WDA_REMOVE_BSSKEY_RSP | .WDA_REMOVE_STAKEY_RSP =>
    halResponseHandler env Handler.limProcessMlmRemoveKeyRsp limMsg w
  | .WDA_ADDBA_RSP => halResponseHandler env Handler.limProcessMlmHalAddBARsp limMsg w
  | .WDA_STA_STAT_RSP | .WDA_AGGR_STAT_RSP | .WDA_GLOBAL_STAT_RSP | .WDA_STAT_SUMM_RSP =>
    (limMsg, callHandler env (Call.handler Handler.limSendSmeStatsRsp limMsg) w)
  | .WDA_GET_STATISTICS_RSP =>
    (limMsg, callHandler env (Call.handler Handler.limSendSmePEStatisticsRsp limMsg) w)
  | .WDA_SET_MIMOPS_RSP | .WDA_SET_TX_POWER_RSP => freeBodyptr env limMsg w
  | .WDA_SET_MAX_TX_POWER_RSP =>
    let r :=
      if env.WLAN_FEATURE_VOWIFI then callMsgHandler env Handler.rrmSetMaxTxPowerRsp limMsg w
      else (limMsg, w)
    if r.1.bodyptr ≠ 0 then freeBodyptr env r.1 r.2 else r
  | .SIR_LIM_ADDR2_MISS_IND => freeBodyptr env limMsg w
  | .WDA_AGGR_QOS_RSP =>
    if env.WLAN_FEATURE_VOWIFI_11R then
      callMsgHandler env Handler.limProcessFTAggrQoSRsp limMsg w
    else freeBodyptr env limMsg w
  | .WDA_SET_LINK_STATE_RSP =>
    let w1 :=
      if env.WLAN_FEATURE_VOWIFI_11R = true ∧
          env.load w.st.collab limMsg.bodyptr BodyField.tLinkStateParams_ft ≠ 0 ∧
          (env.WLAN_FEATURE_ROAM_OFFLOAD = true →
            env.load w.st.collab limMsg.bodyptr
              BodyField.tLinkStateParams_bRoamSynchInProgress = 0) then
        callHandler env (Call.handler Handler.limSendReassocReqWithFTIEsMgmtFrame limMsg) w
      else w
    let w2 :=
      if env.load w1.st.collab limMsg.bodyptr BodyField.tLinkStateParams_callback ≠ 0 then
        callHandler env (Call.handler Handler.linkStateParams_callback limMsg) w1
      else w1
    freeBodyptr env limMsg w2
  | .WDA_PACKET_COALESCING_FILTER_MATCH_COUNT_RSP =>
    if env.WLAN_FEATURE_PACKET_FILTERING then
      callMsgHandler env Handler.pmmProcessMessage limMsg w
    else freeBodyptr env limMsg w
  | .WDA_GTK_OFFLOAD_GETINFO_RSP =>
    if env.WLAN_FEATURE_GTK_OFFLOAD then
      callMsgHandler env Handler.pmmProcessMessage limMsg w
    else freeBodyptr env limMsg w
  | .eWNI_SME_SET_BCN_FILTER_REQ =>
    if env.WLAN_ACTIVEMODE_OFFLOAD_FEATURE then
      let w1 :=
        if env.IS_ACTIVEMODE_OFFLOAD_FEATURE_ENABLE w.st.collab then
          callHandler env (Call.fn Handler.limSendBeaconFilterInfo (limMsg.bodyval % 256)) w
        else w
      freeBodyptr env limMsg w1
    else
      (limMsg, w)
  | .WDA_SET_TDLS_LINK_ESTABLISH_REQ_RSP =>
    if env.FEATURE_WLAN_TDLS then
      freeBodyptr env limMsg
        (callHandler env (Call.handler Handler.limSendSmeTdlsLinkEstablishReqRsp limMsg) w)
    else freeBodyptr env limMsg w
  | .WDA_RX_SCAN_EVENT =>
    (limMsg, callHandler env (Call.fn Handler.limProcessRxScanEvent limMsg.bodyptr) w)
  | .WDA_IBSS_PEER_INACTIVITY_IND =>
    freeBodyptr env limMsg
      (callHandler env (Call.fn Handler.limProcessIbssPeerInactivity limMsg.bodyptr) w)
  | .WDA_DFS_RADAR_IND =>
    (limMsg, callHandler env (Call.handler Handler.limSendSmeDfsEventNotify limMsg) w)
  | .WDA_DFS_BEACON_TX_SUCCESS_IND =>
    freeBodyptr env limMsg
      (callHandler env (Call.handler Handler.limProcessBeaconTxSuccessInd limMsg) w)
  | .WDA_DISASSOC_TX_COMP =>
    (limMsg, callHandler env (Call.fn Handler.limDisassocTxCompleteCnf limMsg.bodyval) w)
  | .WDA_DEAUTH_TX_COMP =>
    (limMsg, callHandler env (Call.fn Handler.limDeauthTxCompleteCnf limMsg.bodyval) w)
  | .eWNI_SME_DFS_BEACON_CHAN_SW_IE_REQ | .eWNI_SME_CHANNEL_CHANGE_REQ
  | .eWNI_SME_START_BEACON_REQ | .eWNI_SME_UPDATE_ADDITIONAL_IES
  | .eWNI_SME_MODIFY_ADDITIONAL_IES =>
    let r := callMsgHandler env Handler.limProcessSmeReqMessages limMsg w
    freeBodyptr env r.1 r.2
  | .eWNI_SME_SET_HT_2040_MODE =>
    if env.QCA_HT_2040_COEX then
      let r := callMsgHandler env Handler.limProcessSmeReqMessages limMsg w
      freeBodyptr env r.1 r.2
    else freeBodyptr env limMsg w
  | .WDA_SAP_OFL_ADD_STA =>
    if env.SAP_AUTH_OFFLOAD then callMsgHandler env Handler.lim_sap_offload_add_sta limMsg w
    else freeBodyptr env limMsg w
  | .WDA_SAP_OFL_DEL_STA =>
    if env.SAP_AUTH_OFFLOAD then callMsgHandler env Handler.lim_sap_offload_del_sta limMsg w
    else freeBodyptr env limMsg w
  | _ => freeBodyptr env limMsg w

/-- `limProcessMessages`: the dispatcher.  The entry is recorded in the log.
With the manufacturing driver the body is freed and nothing else is done;
otherwise the `switch` on the kind runs.  The result is the message as the
caller sees it afterwards and the new state.  The message pointer is the address
of a message in every caller, so the `limMsg == NULL` exit does not arise. -/
def limProcessMessages (env : Env σ) (limMsg : tSirMsgQ) (w0 : World σ) :
    tSirMsgQ × World σ :=
  let w := note (Call.limProcessMessages limMsg) w0
  if w.st.gDriverType = eDRIVER_TYPE_MFG then
    ({ limMsg with bodyptr := 0 }, callRelease env (Call.vos_mem_free limMsg.bodyptr) w)
  else
    limProcessMessages_switch env limMsg w

/-- The dispatcher reads a field of the body of this message through
`limMsg->bodyptr` without testing the pointer: the cases
`eWNI_SME_ABORT_REMAIN_ON_CHAN_IND` (`pMbMsg->sessionId`), `SIR_HAL_TDLS_IND`
(`pTdlsInd->staIdx`), `WDA_SET_LINK_STATE_RSP` (`linkStateParams->session`),
`WDA_SET_TDLS_LINK_ESTABLISH_REQ_RSP` (`->staIdx`) and `WDA_UPDATE_Q2Q_IE_IND`
(`bodyptr[i]`, when the session table is not empty). -/
def readsBody (env : Env σ) (limMsg : tSirMsgQ) (s : LimState σ) : Bool :=
  match limMsg.type with
  | .eWNI_SME_ABORT_REMAIN_ON_CHAN_IND => true
  | .SIR_HAL_TDLS_IND => env.FEATURE_WLAN_TDLS
  | .WDA_SET_LINK_STATE_RSP => true
  | .WDA_SET_TDLS_LINK_ESTABLISH_REQ_RSP => env.FEATURE_WLAN_TDLS
  | .WDA_UPDATE_Q2Q_IE_IND => env.FEATURE_AP_MCC_CH_AVOIDANCE && decide (0 < s.maxBssId)
  | _ => false

/-- `limProcessMessages` with the reads through the body pointer checked: the
result is `none` when the dispatcher reads through a NULL `bodyptr` (the access
faults and the function does not return). -/
def limProcessMessages_checked (env : Env σ) (limMsg : tSirMsgQ) (w : World σ) :
    Option (tSirMsgQ × World σ) :=
  if w.st.gDriverType ≠ eDRIVER_TYPE_MFG ∧ limMsg.bodyptr = 0 ∧
      readsBody env limMsg w.st = true then
    none
  else
    some (limProcessMessages env limMsg w)

/-- The dispatcher returns from the loops over the session table that it runs
for this message: the loop of `SIR_HAL_P2P_NOA_START_IND`, of
`SIR_HAL_P2P_NOA_ATTR_IND` or of `WDA_UPDATE_Q2Q_IE_IND` leaves within 256 tests
of its condition.  The other cases have no loop over the session table, and
with the manufacturing driver the `switch` is not reached. -/
def limProcessMessages_returns (env : Env σ) (limMsg : tSirMsgQ) (w0 : World σ) : Bool :=
  let w := note (Call.limProcessMessages limMsg) w0
  if w.st.gDriverType = eDRIVER_TYPE_MFG then
    true
  else
    match limMsg.type with
    | .WDA_P2P_NOA_START_IND =>
      let w1 := callHandler env
        (Call.limDeactivateAndChangeTimer tLimTimerId.eLIM_INSERT_SINGLESHOT_NOA_TIMER) w
      (noaLoop env w1.st.collab w1.st.maxBssId 256 0).isSome
    | .WDA_P2P_NOA_ATTR_IND => (noaLoop env w.st.collab w.st.maxBssId 256 0).isSome
    | .WDA_UPDATE_Q2Q_IE_IND =>
      if env.FEATURE_AP_MCC_CH_AVOIDANCE then (q2qLoop env limMsg 256 0 w).isSome else true
    | _ => true

/-- The condition under which the replay loop stops after an entry. -/
def drainStops (env : Env σ) (s : LimState σ) : Bool :=
  limIsSystemInScanState env s || (1 != GET_LIM_PROCESS_DEFD_MESGS s) ||
    (s.gLimSystemInScanLearnMode != 0) || (s.gLimAddtsSent != 0)

/-- The `while` loop of `limProcessDeferredMessageQueue`.  `fuel` bounds the
number of entries replayed; `none` means the bound was reached with entries
still to replay. -/
def drainLoop (env : Env σ) : Nat → World σ → Option (World σ)
  | 0, w =>
    match limReadDeferredMsgQ w.st with
    | (none, s1) => some { w with st := s1 }
    | (some _, _) => none
  | fuel + 1, w =>
    match limReadDeferredMsgQ w.st with
    | (none, s1) => some { w with st := s1 }
    | (some readMsg, s1) =>
      let w1 := (limProcessMessages env readMsg { w with st := s1 }).2
      if drainStops env w1.st then some w1 else drainLoop env fuel w1

/-- `limProcessDeferredMessageQueue`: replay deferred messages (`size > 0`
guards the loop). -/
def limProcessDeferredMessageQueue (env : Env σ) (fuel : Nat) (w : World σ) :
    Option (World σ) :=
  if w.st.gLimDeferredMsgQ.length > 0 then drainLoop env fuel w else some w

/-- The `while` loop of `limProcessDeferredMessageQueue`, strict about the
return of each replay: as `drainLoop`, and `none` as well when the dispatcher
does not return from the replay of an entry (`limProcessMessages_returns`). -/
def drainLoop_strict (env : Env σ) : Nat → World σ → Option (World σ)
  | 0, w =>
    match limReadDeferredMsgQ w.st with
    | (none, s1) => some { w with st := s1 }
    | (some _, _) => none
  | fuel + 1, w =>
    match limReadDeferredMsgQ w.st with
    | (none, s1) => some { w with st := s1 }
    | (some readMsg, s1) =>
      if limProcessMessages_returns env readMsg { w with st := s1 } then
        let w1 := (limProcessMessages env readMsg { w with st := s1 }).2
        if drainStops env w1.st then some w1 else drainLoop_strict env fuel w1
      else
        none

/-- `limProcessDeferredMessageQueue`, strict about the return of each replay. -/
def limProcessDeferredMessageQueue_strict (env : Env σ) (fuel : Nat) (w : World σ) :
    Option (World σ) :=
  if w.st.gLimDeferredMsgQ.length > 0 then drainLoop_strict env fuel w else some w

/-- `limMessageProcessor`: drop the message when MLM is offline; otherwise defer
it or process it, and after processing replay the deferred queue when the mode
flags allow.  The call of `limProcessDeferredMessageQueue` is recorded in the
log. -/
def limMessageProcessor (env : Env σ) (fuel : Nat) (limMsg : tSirMsgQ) (w : World σ) :
    Option (World σ) :=
  if tLimMlmStates.eLIM_MLM_OFFLINE_STATE = w.st.gLimMlmState then
    some (callRelease env (Call.peFreeMsg limMsg) w)
  else
    let d := defMsgDecision env limMsg w
    if !d.1 then
      let w2 := (limProcessMessages env limMsg d.2).2
      if w2.st.gLimAddtsSent = 0 ∧ limIsSystemInScanState env w2.st = false then
        if 1 = GET_LIM_PROCESS_DEFD_MESGS w2.st then
          limProcessDeferredMessageQueue env fuel (note Call.limProcessDeferredMessageQueue w2)
        else
          some w2
      else
        some w2
    else
      some d.2

end Lim

namespace Lim

variable {σ : Type}

/-! ## Reading the call log -/

/-- Replaying one entry, as the body of the replay loop does before its stop
test: take the oldest entry off the deferred queue and hand a copy to
`limProcessMessages`.  With an empty queue nothing happens. -/
def replayOne (env : Env σ) (w : World σ) : World σ :=
  match limReadDeferredMsgQ w.st with
  | (none, _) => w
  | (some readMsg, s1) => (limProcessMessages env readMsg { w with st := s1 }).2

/-- The messages handed to `limProcessMessages`, in call order. -/
def processed : List Call → List tSirMsgQ
  | [] => []
  | Call.limProcessMessages m :: rest => m :: processed rest
  | _ :: rest => processed rest

/-- The messages handed to `limDeferMsg`, in call order. -/
def deferCalls : List Call → List tSirMsgQ
  | [] => []
  | Call.limDeferMsg m :: rest => m :: deferCalls rest
  | _ :: rest => deferCalls rest

/-- Number of calls of `limProcessDeferredMessageQueue` in a log. -/
def drainCalls (tr : List Call) : Nat :=
  tr.count Call.limProcessDeferredMessageQueue

/-- The packets handed to `vos_pkt_return_packet`, in call order. -/
def returned : List Call → List Nat
  | [] => []
  | Call.vos_pkt_return_packet p :: rest => p :: returned rest
  | _ :: rest => returned rest

/-- The addresses handed to `vos_mem_free`, in call order. -/
def freed : List Call → List Nat
  | [] => []
  | Call.vos_mem_free p :: rest => p :: freed rest
  | _ :: rest => freed rest

/-- The entry is the record of an entry into the dispatcher or into the replay
loop. -/
def Call.isEntry : Call → Bool
  | Call.limProcessMessages _ => true
  | Call.limProcessDeferredMessageQueue => true
  | _ => false

/-- The entry is a call made by the frame classifier: a frame handler, an
indication to SME, or `limPktFree`. -/
def Call.isFrameCall : Call → Bool
  | Call.limPktFree _ _ => true
  | Call.limProcessBeaconFrameNoSession _ => true
  | Call.limProcessBeaconFrame _ _ => true
  | Call.limProcessProbeRspFrameNoSession _ => true
  | Call.limProcessProbeRspFrame _ _ => true
  | Call.limProcessProbeReqFrame_multiple_BSS _ _ => true
  | Call.limProcessActionFrameNoSession _ => true
  | Call.limProcessActionFrame _ _ => true
  | Call.schBeaconProcess _ _ => true
  | Call.limProcessExtScanBeaconProbeRsp _ _ => true
  | Call.limSendSmeCandidateFoundInd _ => true
  | Call.limProcessAuthFrameNoSession _ _ => true
  | Call.limSendSmeMgmtFrameInd _ _ _ _ _ _ => true
  | Call.limProcessAssocReqFrame _ _ _ => true
  | Call.limProcessAssocRspFrame _ _ _ => true
  | Call.limProcessDisassocFrame _ _ => true
  | Call.limProcessAuthFrame _ _ => true
  | Call.limProcessDeauthFrame _ _ => true
  | Call.limProcessIappFrame _ _ => true
  | _ => false

/-- The entry is a call of a collaborator or of a helper, not the record of an
entry into the dispatcher or the replay loop. -/
def Call.notEntry (c : Call) : Bool :=
  !c.isEntry

/-- The log `tr1` is the log `tr` followed by entries that all satisfy `P`. -/
def grows (P : Call → Bool) (tr tr1 : List Call) : Prop :=
  ∃ more : List Call, tr1 = tr ++ more ∧ ∀ c ∈ more, P c = true

/-- The kinds that the claim about the busy-flag rule lists as exempt from
deferral. -/
def listedResponses : List MsgType :=
  [.WDA_ADD_BSS_RSP, .WDA_DELETE_BSS_RSP, .WDA_ADD_STA_RSP, .WDA_ADD_STA_SELF_RSP,
   .WDA_DEL_STA_SELF_RSP, .WDA_DELETE_STA_RSP, .WDA_SET_BSSKEY_RSP, .WDA_SET_STAKEY_RSP,
   .WDA_SET_STA_BCASTKEY_RSP, .eWNI_SME_START_REQ, .WDA_AGGR_QOS_RSP, .WDA_REMOVE_BSSKEY_RSP,
   .WDA_REMOVE_STAKEY_RSP, .WDA_SET_MIMOPS_RSP, .WDA_ADDBA_RSP, .WDA_ENTER_BMPS_RSP,
   .WDA_EXIT_BMPS_RSP, .WDA_ENTER_IMPS_RSP, .WDA_EXIT_IMPS_RSP, .WDA_ENTER_UAPSD_RSP,
   .WDA_EXIT_UAPSD_RSP, .WDA_WOWL_ENTER_RSP, .WDA_WOWL_EXIT_RSP, .WDA_SWITCH_CHANNEL_RSP,
   .WDA_P2P_NOA_ATTR_IND, .WDA_P2P_NOA_START_IND, .WDA_ADD_TS_RSP]

/-! ## Concrete environments and states used as test inputs -/

/-- A receive descriptor used as a test input: the descriptor at address `p` of
a frame of the given type and subtype, protocol version 0, sent by station 200
to station 300 in BSS 100, with no firmware flag set and an empty payload. -/
def rxFrame (p type subType : Nat) : RxPacketInfo where
  addr := p
  hdr := { fc := { protVer := 0, type := type, subType := subType },
           da := 300, sa := 200, bssId := 100 }
  ftDone := false
  extscanSrc := false
  epnoSrc := false
  roamCandidateInd := 0
  offloadScanLearn := 0
  sessionId := 0
  unknownUcast := 0
  channel := 1
  payload := []

/-- An environment whose collaborators change nothing: OEM-data support built
in, the other optional features left out, no SME state counts as scanning,
eight queue slots, an empty session registry, an allocator that returns address
4096, packets that are their own receive descriptors. -/
def envQuiet : Env Unit where
  FEATURE_OEM_DATA_SUPPORT := true
  FEATURE_WLAN_EXTSCAN := false
  WLAN_FEATURE_ROAM_SCAN_OFFLOAD := false
  WLAN_FEATURE_VOWIFI_11R := false
  FEATURE_WLAN_ESE := false
  FEATURE_WLAN_ESE_UPLOAD := false
  FEATURE_WLAN_TDLS := false
  ANI_SIR_IBSS_PEER_CACHING := false
  WLAN_FEATURE_VOWIFI := false
  WLAN_FEATURE_ROAM_OFFLOAD := false
  FEATURE_AP_MCC_CH_AVOIDANCE := false
  WLAN_FEATURE_PACKET_FILTERING := false
  WLAN_FEATURE_GTK_OFFLOAD := false
  WLAN_ACTIVEMODE_OFFLOAD_FEATURE := false
  QCA_HT_2040_COEX := false
  SAP_AUTH_OFFLOAD := false
  FEATURE_WLAN_DIAG_SUPPORT_LIM := false
  limGetBDfromRxPacket := fun _ p => rxFrame p 0 0
  peFindSessionByBssid := fun _ _ => none
  peFindSessionByPeerSta := fun _ _ => none
  session := fun _ i => ⟨i, tLimSystemRole.eLIM_STA_ROLE, tLimSmeStates.other 1, false⟩
  succeeds := fun _ _ => false
  limIsGroupAddr := fun a => a % 2 == 1
  scanSmeState := fun _ => false
  MAX_DEFERRED_QUEUE_LEN := 8
  writeRefused := fun _ _ => false
  release := fun _ u => u
  handler := fun _ s => s
  msgHandler := fun _ m s => (m, s)
  load := fun _ _ _ => 0
  vos_mem_malloc := fun _ => some 4096
  WDA_DS_PeekRxPacketInfo := fun _ p => some p
  peFindSessionByStaId := fun _ _ => none
  pe_find_session_by_sme_session_id := fun _ _ => none
  dphGetHashEntry := fun _ _ _ => none
  staIsTdlsPeer := fun _ _ => false
  p2pGoSession := fun _ _ => false
  tx_timer_running := fun _ => false
  channelIsDfs := fun _ _ => false
  IS_ACTIVEMODE_OFFLOAD_FEATURE_ENABLE := fun _ => false

/-- As `envQuiet`, but SME state code 3 is a scan state. -/
def envScan : Env Unit :=
  { envQuiet with scanSmeState := fun s => decide (s = tLimSmeStates.other 3) }

/-- As `envQuiet`; the handlers of firmware responses set the busy flag
`gLimProcessDefdMsgs` to true themselves, and do nothing else here. -/
def envRsp : Env Unit :=
  envQuiet

/-- As `envQuiet`, but the handler of an ADDTS request sends the request: it
sets `gLimAddtsSent`. -/
def envAddts : Env Unit :=
  { envQuiet with
    msgHandler := fun f m s =>
      (m, if f = Handler.limProcessSmeReqMessages ∧ m.type = MsgType.eWNI_SME_ADDTS_REQ then
            { s with gLimAddtsSent := 1 }
          else s) }

/-- A state in Normal mode: production driver, SME and MLM states not offline,
busy flag true, nothing outstanding, empty deferred queue. -/
def stNormal : LimState Unit where
  gDriverType := 0
  gLimSmeState := tLimSmeStates.other 1
  gLimMlmState := tLimMlmStates.other 1
  gLimProcessDefdMsgs := 1
  gLimSystemInScanLearnMode := 0
  gLimAddtsSent := 0
  psOffloadEnabled := 0
  fScanOffload := 0
  gLimSystemRole := tLimSystemRole.eLIM_STA_ROLE
  gLimRspReqd := 0
  gLimReportBackgroundScanResults := 0
  gLimDisassocFrameCredit := 0
  gLimHalScanState := tLimLimHalScanState.other 0
  abortScan := 0
  maxBssId := 4
  gLimMgmtFrameRegistratinQueue := []
  gLimDeferredMsgQ := []
  collab := ()

/-- A message of the given kind with no body. -/
def msgOf (t : MsgType) : tSirMsgQ :=
  { type := t, reserved := 0, bodyptr := 0, bodyval := 0 }

/-- The handler the dispatcher calls for a firmware round-trip response of the
kinds the spec names (add or delete station, add or delete BSS, set or remove
key, ADDBA), as the `switch` of `limProcessMessages` has it. -/
def responseHandlerOf : MsgType → Option Handler
  | .WDA_ADD_BSS_RSP => some Handler.limProcessMlmAddBssRsp
  | .WDA_ADD_STA_RSP => some Handler.limProcessAddStaRsp
  | .WDA_DELETE_STA_RSP => some Handler.limProcessMlmDelStaRsp
  | .WDA_DELETE_BSS_RSP => some Handler.limHandleDeleteBssRsp
  | .WDA_SET_BSSKEY_RSP => some Handler.limProcessMlmSetBssKeyRsp
  | .WDA_SET_STA_BCASTKEY_RSP => some Handler.limProcessMlmSetBssKeyRsp
  | .WDA_SET_STAKEY_RSP => some Handler.limProcessMlmSetStaKeyRsp
  | .WDA_REMOVE_BSSKEY_RSP => some Handler.limProcessMlmRemoveKeyRsp
  | .WDA_REMOVE_STAKEY_RSP => some Handler.limProcessMlmRemoveKeyRsp
  | .WDA_ADDBA_RSP => some Handler.limProcessMlmHalAddBARsp
  | _ => none

/-- The kind has no case in the `switch` of `limProcessMessages` in this build:
its code is none of the named ones, or its case is compiled only with a feature
that is left out. -/
def noCase (env : Env σ) : MsgType → Bool
  | .other _ => true
  | .WDA_STOP_SCAN_OFFLOAD_REQ => true
  | .LIM_MLM_OEM_DATA_CNF => true
  | .WDA_START_OEM_DATA_RSP => !env.FEATURE_OEM_DATA_SUPPORT
  | .eWNI_SME_OEM_DATA_REQ => !env.FEATURE_OEM_DATA_SUPPORT
  | .WDA_IBSS_STA_ADD => !env.ANI_SIR_IBSS_PEER_CACHING
  | .eWNI_SME_TDLS_SEND_MGMT_REQ => !env.FEATURE_WLAN_TDLS
  | .eWNI_SME_TDLS_ADD_STA_REQ => !env.FEATURE_WLAN_TDLS
  | .eWNI_SME_TDLS_DEL_STA_REQ => !env.FEATURE_WLAN_TDLS
  | .eWNI_SME_TDLS_LINK_ESTABLISH_REQ => !env.FEATURE_WLAN_TDLS
  | .SIR_HAL_TDLS_IND => !env.FEATURE_WLAN_TDLS
  | .SIR_HAL_TDLS_SHOULD_DISCOVER => !env.FEATURE_WLAN_TDLS
  | .SIR_HAL_TDLS_SHOULD_TEARDOWN => !env.FEATURE_WLAN_TDLS
  | .SIR_HAL_TDLS_PEER_DISCONNECTED => !env.FEATURE_WLAN_TDLS
  | .WDA_SET_TDLS_LINK_ESTABLISH_REQ_RSP => !env.FEATURE_WLAN_TDLS
  | .eWNI_SME_NEIGHBOR_REPORT_REQ_IND => !env.WLAN_FEATURE_VOWIFI
  | .eWNI_SME_BEACON_REPORT_RESP_XMIT_IND => !env.WLAN_FEATURE_VOWIFI
  | .eWNI_SME_ESE_ADJACENT_AP_REPORT => !env.FEATURE_WLAN_ESE
  | .SIR_LIM_ESE_TSM_TIMEOUT => !env.FEATURE_WLAN_ESE
  | .WDA_TSM_STATS_RSP => !env.FEATURE_WLAN_ESE
  | .eWNI_SME_GET_TSM_STATS_REQ => !(env.FEATURE_WLAN_ESE && env.FEATURE_WLAN_ESE_UPLOAD)
  | .eWNI_SME_FT_UPDATE_KEY => !env.WLAN_FEATURE_VOWIFI_11R
  | .eWNI_SME_FT_PRE_AUTH_REQ => !env.WLAN_FEATURE_VOWIFI_11R
  | .eWNI_SME_FT_AGGR_QOS_REQ => !env.WLAN_FEATURE_VOWIFI_11R
  | .SIR_LIM_FT_PREAUTH_RSP_TIMEOUT => !env.WLAN_FEATURE_VOWIFI_11R
  | .WDA_AGGR_QOS_RSP => !env.WLAN_FEATURE_VOWIFI_11R
  | .WDA_ROAM_OFFLOAD_SYNCH_IND => !env.WLAN_FEATURE_ROAM_OFFLOAD
  | .WDA_UPDATE_Q2Q_IE_IND => !env.FEATURE_AP_MCC_CH_AVOIDANCE
  | .WDA_PACKET_COALESCING_FILTER_MATCH_COUNT_RSP => !env.WLAN_FEATURE_PACKET_FILTERING
  | .WDA_GTK_OFFLOAD_GETINFO_RSP => !env.WLAN_FEATURE_GTK_OFFLOAD
  | .eWNI_SME_SET_HT_2040_MODE => !env.QCA_HT_2040_COEX
  | .WDA_SAP_OFL_ADD_STA => !env.SAP_AUTH_OFFLOAD
  | .WDA_SAP_OFL_DEL_STA => !env.SAP_AUTH_OFFLOAD
  | _ => false

/-- As `envQuiet`, but `wdaPostCtrlMsg` succeeds. -/
def envPostOk : Env Unit :=
  { envQuiet with
    succeeds := fun c _ =>
      match c with
      | Call.wdaPostCtrlMsg _ _ _ _ => true
      | _ => false }

/-- The entry is not a call of `limDeferMsg`. -/
def Call.notDefer : Call → Bool
  | Call.limDeferMsg _ => false
  | _ => true

/-- A state as `stNormal` in which scans are offloaded to the firmware. -/
def stOffload : LimState Unit :=
  { stNormal with fScanOffload := 1 }

/-- The management wildcard, in the words of the claim about registered frames:
the registration is for type MGMT with subtype RESERVED15, and the frame is a
management frame. -/
def isMgmtWildcard (fc : tSirMacFrameCtl) (r : tLimMgmtFrameRegistration) : Bool :=
  decide (((r.frameType >>> 2) &&& 0x03) = SIR_MAC_MGMT_FRAME) &&
    decide (fc.type = SIR_MAC_MGMT_FRAME) &&
    decide (((r.frameType >>> 4) &&& 0x0f) = SIR_MAC_MGMT_RESERVED15)

/-- The match rule of the registered-frame filter, in the words of the claim:
the entry is a management wildcard, or its `frameType` equals
`(fc.type << 2) | (fc.subType << 4)` and (`matchLen == 0`, or `matchLen` is at
most the payload length and the first `matchLen` payload bytes equal
`matchData`). -/
def registrationMatches (fc : tSirMacFrameCtl) (pBody : List Nat) (framelen : Nat)
    (r : tLimMgmtFrameRegistration) : Bool :=
  isMgmtWildcard fc r ||
    (decide (r.frameType = ((fc.type <<< 2) ||| (fc.subType <<< 4))) &&
      (decide (r.matchLen = 0) ||
        (decide (r.matchLen ≤ framelen) &&
          (r.matchData.take r.matchLen == pBody.take r.matchLen))))

/-- Submit the messages one after the other to `limMessageProcessor`; `none`
when one of the calls runs out of fuel. -/
def submitAll (env : Env σ) (fuel : Nat) : List tSirMsgQ → World σ → Option (World σ)
  | [], w => some w
  | m :: rest, w =>
    match limMessageProcessor env fuel m w with
    | none => none
    | some w1 => submitAll env fuel rest w1

/-- The external handlers do not themselves enqueue: no collaborator lengthens
the deferred queue. -/
def noEnqueue (env : Env σ) : Prop :=
  (∀ (c : Call) (s : LimState σ),
    (env.handler c s).gLimDeferredMsgQ.length ≤ s.gLimDeferredMsgQ.length) ∧
  (∀ (f : Handler) (m : tSirMsgQ) (s : LimState σ),
    (env.msgHandler f m s).2.gLimDeferredMsgQ.length ≤ s.gLimDeferredMsgQ.length)

/-- The external handlers do not raise `maxBssId`, the size of the session
table. -/
def keepsTable (env : Env σ) : Prop :=
  (∀ (c : Call) (s : LimState σ), (env.handler c s).maxBssId ≤ s.maxBssId) ∧
  (∀ (f : Handler) (m : tSirMsgQ) (s : LimState σ),
    (env.msgHandler f m s).2.maxBssId ≤ s.maxBssId)

/-- The run that led from a log `tr` to the state `w` made no call of
`limDeferMsg`; when the handlers do not enqueue, it left at most `q.1` entries
in the deferred queue; and when the handlers do not raise `maxBssId`, it left
`maxBssId` at most `q.2`. -/
def quiet (env : Env σ) (tr : List Call) (q : Nat × Nat) (w : World σ) : Prop :=
  grows Call.notDefer tr w.trace ∧ (noEnqueue env → w.st.gLimDeferredMsgQ.length ≤ q.1) ∧
    (keepsTable env → w.st.maxBssId ≤ q.2)

/-- What one pass of the dispatcher does with respect to the replay loop: it is
quiet, or it ends in a state in which the loop stops. -/
def stepRule (env : Env σ) (tr : List Call) (q : Nat × Nat) (r : tSirMsgQ × World σ) : Prop :=
  quiet env tr q r.2 ∨ drainStops env r.2.st = true

/-- The frame buffers released with `limPktFree`, in call order: receive
descriptor and message body. -/
def pktFrees : List Call → List (Nat × Nat)
  | [] => []
  | Call.limPktFree bd body :: rest => (bd, body) :: pktFrees rest
  | _ :: rest => pktFrees rest

/-- The entry is not a call of `limPktFree`. -/
def Call.notPktFree : Call → Bool
  | Call.limPktFree _ _ => false
  | _ => true

/-- A received-frame message whose body is the packet at address `p`. -/
def frameMsg (p : Nat) : tSirMsgQ :=
  { type := MsgType.SIR_BB_XPORT_MGMT_MSG, reserved := 0, bodyptr := p, bodyval := 0 }

/-- As `envQuiet`, but the packet at address `p` holds a management frame whose
subtype is `p % 16`. -/
def envMgmt : Env Unit :=
  { envQuiet with
    limGetBDfromRxPacket := fun _ p => rxFrame p SIR_MAC_MGMT_FRAME (p % 16) }

/-- As `envMgmt`, but the session registry holds session 7 for peer station
200; no session has BSSID 100 or 300. -/
def envPeer : Env Unit :=
  { envMgmt with
    peFindSessionByPeerSta := fun _ a => if a = 200 then some 7 else none }

/-- As `envMgmt`, in a build with `FEATURE_WLAN_EXTSCAN`, every packet marked by
the firmware as coming from an ext-scan. -/
def envExtscan : Env Unit :=
  { envMgmt with
    FEATURE_WLAN_EXTSCAN := true,
    limGetBDfromRxPacket := fun _ p =>
      { rxFrame p SIR_MAC_MGMT_FRAME (p % 16) with extscanSrc := true } }

/-- As `envMgmt`, in a build with `WLAN_FEATURE_ROAM_SCAN_OFFLOAD`, every packet
marked by the firmware as offload-scan-learn. -/
def envLfr : Env Unit :=
  { envMgmt with
    WLAN_FEATURE_ROAM_SCAN_OFFLOAD := true,
    limGetBDfromRxPacket := fun _ p =>
      { rxFrame p SIR_MAC_MGMT_FRAME (p % 16) with offloadScanLearn := 1 } }

/-- As `envLfr`, but every BSSID belongs to session 7, and every session is in
SME state normal. -/
def envLfrSession : Env Unit :=
  { envLfr with
    peFindSessionByBssid := fun _ _ => some 7,
    session := fun _ i =>
      ⟨i, tLimSystemRole.eLIM_STA_ROLE, tLimSmeStates.eLIM_SME_NORMAL_STATE, false⟩ }

/-- As `envScan`, in a build with `FEATURE_WLAN_ESE` and without
`FEATURE_WLAN_ESE_UPLOAD`: the packet at address `p` holds a data frame of
subtype `p % 16` that the firmware marks as FT-done. -/
def envIapp : Env Unit :=
  { envScan with
    FEATURE_WLAN_ESE := true,
    limGetBDfromRxPacket := fun _ p =>
      { rxFrame p SIR_MAC_DATA_FRAME (p % 16) with ftDone := true } }

/-- The receive descriptor of a management frame of the given subtype whose
protocol version is 1. -/
def rxFrameV1 (p subType : Nat) : RxPacketInfo :=
  { rxFrame p SIR_MAC_MGMT_FRAME subType with
    hdr := { fc := { protVer := 1, type := SIR_MAC_MGMT_FRAME, subType := subType },
             da := 300, sa := 200, bssId := 100 } }

/-- As `envMgmt`, but every frame has protocol version 1. -/
def envV1 : Env Unit :=
  { envMgmt with limGetBDfromRxPacket := fun _ p => rxFrameV1 p (p % 16) }

/-- As `envV1`, in a build with `WLAN_FEATURE_ROAM_SCAN_OFFLOAD`, every packet
marked by the firmware as offload-scan-learn. -/
def envLfrV1 : Env Unit :=
  { envMgmt with
    WLAN_FEATURE_ROAM_SCAN_OFFLOAD := true,
    limGetBDfromRxPacket := fun _ p => { rxFrameV1 p (p % 16) with offloadScanLearn := 1 } }

end Lim

namespace VosLock

/-! ## vos_lock.c -/

/-- `LINUX_LOCK_COOKIE`. -/
def LINUX_LOCK_COOKIE : Nat := 0x12345678

/-- `LOCK_RELEASED`. -/
def LOCK_RELEASED : Nat := 0x11223344

/-- `LOCK_ACQUIRED`, the enumerator after `LOCK_RELEASED`. -/
def LOCK_ACQUIRED : Nat := 0x11223345

/-- `LOCK_DESTROYED`, the enumerator after `LOCK_ACQUIRED`. -/
def LOCK_DESTROYED : Nat := 0x11223346

/-- Modelled from the spec: the status codes `VOS_STATUS` that vos_lock.c
returns (declared in `vos_status.h`, not among the sources). -/
inductive VOS_STATUS where
  | VOS_STATUS_SUCCESS
  | VOS_STATUS_E_FAULT
  | VOS_STATUS_E_INVAL
  | VOS_STATUS_E_BUSY
  | VOS_STATUS_E_PERM
  | VOS_STATUS_E_FAILURE
deriving DecidableEq, Repr

/-- An operation on the underlying kernel mutex. -/
inductive MutexOp where
  | mutex_init
  | mutex_lock
  | mutex_is_locked
  | mutex_trylock
  | mutex_unlock
deriving DecidableEq, Repr

/-- Modelled from the spec: the underlying primitive `struct mutex` of the
kernel, as far as one thread of control can observe it: whether it is locked,
and (ghost) the operations applied to it so far. -/
structure Mutex where
  locked : Bool
  ops : List MutexOp
deriving DecidableEq, Repr

/-- Kernel `mutex_init`: the mutex becomes unlocked. -/
def mutex_init (m : Mutex) : Mutex :=
  { locked := false, ops := m.ops ++ [MutexOp.mutex_init] }

/-- Kernel `mutex_lock`: locks a free mutex; on a locked mutex the caller
blocks, so the call does not return (`none`). -/
def mutex_lock (m : Mutex) : Option Mutex :=
  if m.locked then none else some { locked := true, ops := m.ops ++ [MutexOp.mutex_lock] }

/-- Kernel `mutex_is_locked`: 1 if locked, 0 otherwise. -/
def mutex_is_locked (m : Mutex) : Nat × Mutex :=
  (if m.locked then 1 else 0, { m with ops := m.ops ++ [MutexOp.mutex_is_locked] })

/-- Kernel `mutex_trylock`: 1 and the mutex locked if it was free, 0 and no
change of the lock bit otherwise. -/
def mutex_trylock (m : Mutex) : Nat × Mutex :=
  if m.locked then (0, { m with ops := m.ops ++ [MutexOp.mutex_trylock] })
  else (1, { locked := true, ops := m.ops ++ [MutexOp.mutex_trylock] })

/-- Kernel `mutex_unlock`: the mutex becomes unlocked. -/
def mutex_unlock (m : Mutex) : Mutex :=
  { locked := false, ops := m.ops ++ [MutexOp.mutex_unlock] }

/-- Modelled from the spec: the lock object `vos_lock_t` (declared in
`i_vos_lock.h`, not among the sources): cookie (liveness marker), state, owner
identity and nesting reference count, on top of the underlying mutex. -/
structure vos_lock_t where
  m_lock : Mutex
  cookie : Nat
  processID : Nat
  state : Nat
  refcount : Nat
deriving DecidableEq, Repr

/-- The calling context: `current->pid` and `in_interrupt()`. -/
structure Task where
  pid : Nat
  in_interrupt : Bool
deriving DecidableEq, Repr

/-- `vos_lock_init`.  The argument is `none` for a NULL pointer. -/
def vos_lock_init (t : Task) : Option vos_lock_t → VOS_STATUS × Option vos_lock_t
  | none => (.VOS_STATUS_E_FAULT, none)
  | some lock =>
    if LINUX_LOCK_COOKIE = lock.cookie then
      (.VOS_STATUS_E_BUSY, some lock)
    else if t.in_interrupt then
      (.VOS_STATUS_E_FAULT, some lock)
    else
      (.VOS_STATUS_SUCCESS,
        some { m_lock := mutex_init lock.m_lock, cookie := LINUX_LOCK_COOKIE,
               state := LOCK_RELEASED, processID := 0, refcount := 0 })

/-- `vos_lock_acquire`.  `bits` is the width of the `refcount` field, whose
increment wraps.  The result is `none` when the call blocks on the underlying
mutex. -/
def vos_lock_acquire (bits : Nat) (t : Task) :
    Option vos_lock_t → Option (VOS_STATUS × Option vos_lock_t)
  | none => some (.VOS_STATUS_E_FAULT, none)
  | some lock =>
    if LINUX_LOCK_COOKIE ≠ lock.cookie then
      some (.VOS_STATUS_E_INVAL, some lock)
    else if t.in_interrupt then
      some (.VOS_STATUS_E_FAULT, some lock)
    else if lock.processID = t.pid ∧ lock.state = LOCK_ACQUIRED then
      some (.VOS_STATUS_SUCCESS, some { lock with refcount := (lock.refcount + 1) % 2 ^ bits })
    else
      match mutex_lock lock.m_lock with
      | none => none
      | some m1 =>
        let rc := mutex_is_locked m1
        if rc.1 = 0 then
          some (.VOS_STATUS_E_FAILURE, some { lock with m_lock := rc.2 })
        else if LOCK_DESTROYED ≠ lock.state then
          some (.VOS_STATUS_SUCCESS,
            some { lock with m_lock := rc.2, processID := t.pid,
                             refcount := (lock.refcount + 1) % 2 ^ bits,
                             state := LOCK_ACQUIRED })
        else
          some (.VOS_STATUS_E_FAILURE, some { lock with m_lock := mutex_unlock rc.2 })

/-- `vos_lock_release`. -/
def vos_lock_release (t : Task) : Option vos_lock_t → VOS_STATUS × Option vos_lock_t
  | none => (.VOS_STATUS_E_FAULT, none)
  | some lock =>
    if LINUX_LOCK_COOKIE ≠ lock.cookie then
      (.VOS_STATUS_E_INVAL, some lock)
    else if t.in_interrupt then
      (.VOS_STATUS_E_FAULT, some lock)
    else if lock.processID ≠ t.pid then
      (.VOS_STATUS_E_PERM, some lock)
    else
      let lock1 : vos_lock_t :=
        if lock.processID = t.pid ∧ lock.state = LOCK_ACQUIRED then
          (if lock.refcount > 0 then { lock with refcount := lock.refcount - 1 } else lock)
        else lock
      if lock1.refcount ≠ 0 then
        (.VOS_STATUS_SUCCESS, some lock1)
      else
        (.VOS_STATUS_SUCCESS,
          some { lock1 with processID := 0, refcount := 0, state := LOCK_RELEASED,
                            m_lock := mutex_unlock lock1.m_lock })

/-- `vos_lock_destroy`. -/
def vos_lock_destroy (t : Task) : Option vos_lock_t → VOS_STATUS × Option vos_lock_t
  | none => (.VOS_STATUS_E_FAULT, none)
  | some lock =>
    if LINUX_LOCK_COOKIE ≠ lock.cookie then
      (.VOS_STATUS_E_INVAL, some lock)
    else if t.in_interrupt then
      (.VOS_STATUS_E_FAULT, some lock)
    else
      let r := mutex_trylock lock.m_lock
      if r.1 = 0 then
        (.VOS_STATUS_E_BUSY, some { lock with m_lock := r.2 })
      else
        (.VOS_STATUS_SUCCESS,
          some { m_lock := mutex_unlock r.2, cookie := 0, state := LOCK_DESTROYED,
                 processID := 0, refcount := 0 })

/-! ## Sequences of lock calls -/

/-- One of the four lock operations. -/
inductive LockOp where
  | init
  | acquire
  | release
  | destroy
deriving DecidableEq, Repr

/-- Perform one lock operation in the given calling context; `none` when the
call blocks. -/
def callOp (bits : Nat) (t : Task) (op : LockOp) (lock : Option vos_lock_t) :
    Option (VOS_STATUS × Option vos_lock_t) :=
  match op with
  | .init => some (vos_lock_init t lock)
  | .acquire => vos_lock_acquire bits t lock
  | .release => some (vos_lock_release t lock)
  | .destroy => some (vos_lock_destroy t lock)

/-- Perform a sequence of lock calls on one lock object, one after the other;
the result lists the status of every call, in order, and the final lock.
`none` when one of the calls blocks. -/
def runCalls (bits : Nat) : List (Task × LockOp) → Option vos_lock_t →
    Option (List VOS_STATUS × Option vos_lock_t)
  | [], lock => some ([], lock)
  | (t, op) :: rest, lock =>
    match callOp bits t op lock with
    | none => none
    | some (status, lock1) =>
      match runCalls bits rest lock1 with
      | none => none
      | some (statuses, lock2) => some (status :: statuses, lock2)

/-- The lock as `vos_lock_init` leaves it: unlocked mutex, valid cookie,
Released, no owner, reference count 0. -/
def freshLock (ops : List MutexOp) : vos_lock_t :=
  { m_lock := { locked := false, ops := ops }, cookie := LINUX_LOCK_COOKIE,
    state := LOCK_RELEASED, processID := 0, refcount := 0 }

/-- The lock while owner `p` holds it `n` times: mutex locked, Acquired. -/
def heldLock (ops : List MutexOp) (p n : Nat) : vos_lock_t :=
  { m_lock := { locked := true, ops := ops }, cookie := LINUX_LOCK_COOKIE,
    state := LOCK_ACQUIRED, processID := p, refcount := n }

/-- Uninitialised memory used as a test input: all fields zero. -/
def rawLock : vos_lock_t :=
  { m_lock := { locked := false, ops := [] }, cookie := 0, state := 0,
    processID := 0, refcount := 0 }

/-- Every `vos_lock_acquire` of the run finds a reference count whose increment
does not wrap: the run nests fewer than `2^bits` acquisitions. -/
def staysBelow (bits : Nat) : List (Task × LockOp) → Option vos_lock_t → Bool
  | [], _ => true
  | (t, op) :: rest, lock =>
    (match op, lock with
     | .acquire, some l => decide (l.refcount + 1 < 2 ^ bits)
     | _, _ => true) &&
    (match callOp bits t op lock with
     | none => true
     | some (_, lock1) => staysBelow bits rest lock1)

/-- The state invariant of a lock: a valid cookie goes with state Released or
Acquired; Released goes with reference count 0 and no owner; Acquired goes with
a reference count of at least 1 and a locked mutex; Destroyed goes with cookie
0. -/
def lockInv (l : vos_lock_t) : Prop :=
  (l.cookie = LINUX_LOCK_COOKIE → l.state = LOCK_RELEASED ∨ l.state = LOCK_ACQUIRED) ∧
  (l.state = LOCK_RELEASED → l.refcount = 0 ∧ l.processID = 0) ∧
  (l.state = LOCK_ACQUIRED → 1 ≤ l.refcount ∧ l.m_lock.locked = true) ∧
  (l.state = LOCK_DESTROYED → l.cookie = 0)

end VosLock

namespace aniGlobal

/-! ## aniGlobal.h: the NSS configuration macros -/

/-- `CFG_STA_NSS(_x)`. -/
def CFG_STA_NSS (x : Nat) : Nat :=
  if ((x >>> 0) &&& 0x3) ≠ 0 then (x >>> 0) &&& 0x3 else 1

/-- `CFG_SAP_NSS(_x)`. -/
def CFG_SAP_NSS (x : Nat) : Nat :=
  if ((x >>> 2) &&& 0x3) ≠ 0 then (x >>> 2) &&& 0x3 else 1

/-- `CFG_P2P_GO_NSS(_x)`. -/
def CFG_P2P_GO_NSS (x : Nat) : Nat :=
  if ((x >>> 4) &&& 0x3) ≠ 0 then (x >>> 4) &&& 0x3 else 1

/-- `CFG_P2P_CLI_NSS(_x)`. -/
def CFG_P2P_CLI_NSS (x : Nat) : Nat :=
  if ((x >>> 6) &&& 0x3) ≠ 0 then (x >>> 6) &&& 0x3 else 1

/-- `CFG_P2P_DEV_NSS(_x)`. -/
def CFG_P2P_DEV_NSS (x : Nat) : Nat :=
  if ((x >>> 8) &&& 0x3) ≠ 0 then (x >>> 8) &&& 0x3 else 1

/-- `CFG_IBSS_NSS(_x)`. -/
def CFG_IBSS_NSS (x : Nat) : Nat :=
  if ((x >>> 10) &&& 0x3) ≠ 0 then (x >>> 10) &&& 0x3 else 1

/-- `CFG_TDLS_NSS(_x)`. -/
def CFG_TDLS_NSS (x : Nat) : Nat :=
  if ((x >>> 12) &&& 0x3) ≠ 0 then (x >>> 12) &&& 0x3 else 1

/-- `CFG_OCB_NSS(_x)`. -/
def CFG_OCB_NSS (x : Nat) : Nat :=
  if ((x >>> 14) &&& 0x3) ≠ 0 then (x >>> 14) &&& 0x3 else 1

/-- The personas of the comment `NSS cfg bit definition`. -/
inductive Persona where
  | STA
  | SAP
  | P2P_GO
  | P2P_CLIENT
  | IBSS
  | TDLS
  | P2P_DEVICE
  | OCB
deriving DecidableEq, Repr

/-- The lower bit of the field of a persona, as the comment
`NSS cfg bit definition` documents it: STA `BIT[0:1]`, SAP `BIT[2:3]`, P2P_GO
`BIT[4:5]`, P2P_CLIENT `BIT[6:7]`, IBSS `BIT[8:9]`, TDLS `BIT[10:11]`,
P2P_DEVICE `BIT[12:13]`, OCB `BIT[14:15]`. -/
def documentedBit : Persona → Nat
  | .STA => 0
  | .SAP => 2
  | .P2P_GO => 4
  | .P2P_CLIENT => 6
  | .IBSS => 8
  | .TDLS => 10
  | .P2P_DEVICE => 12
  | .OCB => 14

/-- The macro of a persona. -/
def nssMacro : Persona → Nat → Nat
  | .STA => CFG_STA_NSS
  | .SAP => CFG_SAP_NSS
  | .P2P_GO => CFG_P2P_GO_NSS
  | .P2P_CLIENT => CFG_P2P_CLI_NSS
  | .IBSS => CFG_IBSS_NSS
  | .TDLS => CFG_TDLS_NSS
  | .P2P_DEVICE => CFG_P2P_DEV_NSS
  | .OCB => CFG_OCB_NSS

/-- The value the claim about the NSS fields asks of a macro: the two-bit field
at bit `pos` of `x` when that field is not zero, and 1 when it is. -/
def nssAt (pos x : Nat) : Nat :=
  if (x / 2 ^ pos) % 4 ≠ 0 then (x / 2 ^ pos) % 4 else 1

end aniGlobal

namespace Lim

variable {σ : Type}

/-! ## Lemmas on the call log -/

theorem processed_append (a b : List Call) : processed (a ++ b) = processed a ++ processed b := by
  induction a with
  | nil => rfl
  | cons c rest ih =>
    cases c <;> first
      | exact ih
      | exact congrArg (List.cons _) ih

theorem deferCalls_append (a b : List Call) :
    deferCalls (a ++ b) = deferCalls a ++ deferCalls b := by
  induction a with
  | nil => rfl
  | cons c rest ih =>
    cases c <;> first
      | exact ih
      | exact congrArg (List.cons _) ih

theorem drainCalls_append (a b : List Call) : drainCalls (a ++ b) = drainCalls a + drainCalls b := by
  simp [drainCalls]

/-! ### How the log grows -/

theorem grows_refl (P : Call → Bool) (tr : List Call) : grows P tr tr :=
  ⟨[], by simp, by simp⟩

theorem grows_snoc (P : Call → Bool) (tr tr1 : List Call) (c : Call) (hc : P c = true)
    (h : grows P tr tr1) : grows P tr (tr1 ++ [c]) := by
  obtain ⟨more, rfl, hm⟩ := h
  refine ⟨more ++ [c], by simp, ?_⟩
  intro d hd
  rcases List.mem_append.mp hd with h1 | h1
  · exact hm d h1
  · rw [List.mem_singleton.mp h1]
    exact hc

theorem grows_trans (P : Call → Bool) (a b c : List Call) (h1 : grows P a b)
    (h2 : grows P b c) : grows P a c := by
  obtain ⟨m1, rfl, hm1⟩ := h1
  obtain ⟨m2, rfl, hm2⟩ := h2
  refine ⟨m1 ++ m2, by simp, ?_⟩
  intro d hd
  rcases List.mem_append.mp hd with h | h
  · exact hm1 d h
  · exact hm2 d h

theorem grows_mono (P Q : Call → Bool) (tr tr1 : List Call) (hPQ : ∀ c, P c = true → Q c = true)
    (h : grows P tr tr1) : grows Q tr tr1 := by
  obtain ⟨more, rfl, hm⟩ := h
  exact ⟨more, rfl, fun c hc => hPQ c (hm c hc)⟩

theorem grows_callHandler (P : Call → Bool) (env : Env σ) (tr : List Call) (c : Call)
    (w : World σ) (hc : P c = true) (h : grows P tr w.trace) :
    grows P tr (callHandler env c w).trace :=
  grows_snoc P tr w.trace c hc h

theorem grows_callRelease (P : Call → Bool) (env : Env σ) (tr : List Call) (c : Call)
    (w : World σ) (hc : P c = true) (h : grows P tr w.trace) :
    grows P tr (callRelease env c w).trace :=
  grows_snoc P tr w.trace c hc h

theorem grows_note (P : Call → Bool) (tr : List Call) (c : Call)
    (w : World σ) (hc : P c = true) (h : grows P tr w.trace) :
    grows P tr (note c w).trace :=
  grows_snoc P tr w.trace c hc h

theorem grows_limDeferMsg (P : Call → Bool) (env : Env σ) (tr : List Call) (m : tSirMsgQ)
    (w : World σ) (hc : P (Call.limDeferMsg m) = true) (h : grows P tr w.trace) :
    grows P tr (limDeferMsg env m w).2.trace :=
  grows_snoc P tr w.trace _ hc h

theorem grows_callMsgHandler (P : Call → Bool) (env : Env σ) (tr : List Call) (f : Handler)
    (m : tSirMsgQ) (w : World σ) (hc : P (Call.handler f m) = true) (h : grows P tr w.trace) :
    grows P tr (callMsgHandler env f m w).2.trace :=
  grows_snoc P tr w.trace _ hc h

/-- A reader of the log that skips every entry satisfying `P` does not see what
a run adds when the run only adds such entries. -/
theorem reader_of_grows {α : Type} (F : List Call → List α) (P : Call → Bool)
    (happ : ∀ a b, F (a ++ b) = F a ++ F b) (hnil : F [] = [])
    (hskip : ∀ c rest, P c = true → F (c :: rest) = F rest)
    (tr tr1 : List Call) (h : grows P tr tr1) : F tr1 = F tr := by
  obtain ⟨more, rfl, hm⟩ := h
  rw [happ]
  suffices hs : F more = [] by rw [hs, List.append_nil]
  clear tr
  induction more with
  | nil => exact hnil
  | cons c rest ih =>
    rw [hskip c rest (hm c (List.mem_cons_self _ _))]
    exact ih (fun d hd => hm d (List.mem_cons_of_mem _ hd))

theorem processed_skip (c : Call) (rest : List Call) (h : c.notEntry = true) :
    processed (c :: rest) = processed rest := by
  cases c <;> first | rfl | exact absurd h Bool.false_ne_true

theorem processed_of_grows (tr tr1 : List Call)
    (h : grows Call.notEntry tr tr1) : processed tr1 = processed tr :=
  reader_of_grows processed Call.notEntry processed_append rfl processed_skip tr tr1 h

theorem drainCalls_of_grows (tr tr1 : List Call)
    (h : grows Call.notEntry tr tr1) : drainCalls tr1 = drainCalls tr := by
  obtain ⟨more, rfl, hm⟩ := h
  rw [drainCalls_append]
  suffices hs : drainCalls more = 0 by rw [hs, Nat.add_zero]
  unfold drainCalls
  rw [List.count_eq_zero]
  intro hmem
  exact absurd (hm _ hmem) Bool.false_ne_true

theorem returned_append (a b : List Call) : returned (a ++ b) = returned a ++ returned b := by
  induction a with
  | nil => rfl
  | cons c rest ih =>
    cases c <;> first
      | exact ih
      | exact congrArg (List.cons _) ih

theorem freed_append (a b : List Call) : freed (a ++ b) = freed a ++ freed b := by
  induction a with
  | nil => rfl
  | cons c rest ih =>
    cases c <;> first
      | exact ih
      | exact congrArg (List.cons _) ih

theorem returned_skip (c : Call) (rest : List Call) (h : c.isFrameCall = true) :
    returned (c :: rest) = returned rest := by
  cases c <;> first | rfl | exact absurd h Bool.false_ne_true

theorem deferCalls_skip (c : Call) (rest : List Call) (h : c.isFrameCall = true) :
    deferCalls (c :: rest) = deferCalls rest := by
  cases c <;> first | rfl | exact absurd h Bool.false_ne_true

theorem returned_of_grows (tr tr1 : List Call) (h : grows Call.isFrameCall tr tr1) :
    returned tr1 = returned tr :=
  reader_of_grows returned Call.isFrameCall returned_append rfl returned_skip tr tr1 h

theorem deferCalls_of_grows (tr tr1 : List Call) (h : grows Call.isFrameCall tr tr1) :
    deferCalls tr1 = deferCalls tr :=
  reader_of_grows deferCalls Call.isFrameCall deferCalls_append rfl deferCalls_skip tr tr1 h

theorem grows_limPktFree (env : Env σ) (tr : List Call) (pkt : RxPacketInfo) (m : tSirMsgQ)
    (w : World σ) (h : grows Call.isFrameCall tr w.trace) :
    grows Call.isFrameCall tr (limPktFree env pkt m w).trace :=
  grows_callRelease _ env tr _ w rfl h

theorem grows___limHandleBeacon (env : Env σ) (tr : List Call) (m : tSirMsgQ)
    (psessionEntry : Option Nat) (w : World σ) (h : grows Call.isFrameCall tr w.trace) :
    grows Call.isFrameCall tr (__limHandleBeacon env m psessionEntry w).trace := by
  unfold __limHandleBeacon
  dsimp only
  repeat' split
  all_goals exact grows_callHandler _ env tr _ w rfl h

theorem grows_limHandleFramesInScanState (env : Env σ) (tr : List Call) (m : tSirMsgQ)
    (pkt : RxPacketInfo) (psessionEntry : Option Nat) (w : World σ)
    (h : grows Call.isFrameCall tr w.trace) :
    grows Call.isFrameCall tr (limHandleFramesInScanState env m pkt psessionEntry w).2.trace := by
  unfold limHandleFramesInScanState
  dsimp only
  repeat' split
  all_goals first
    | exact h
    | exact grows_limPktFree env tr _ _ _ (grows_callHandler _ env tr _ w rfl h)

theorem grows_limHandleUnknownA2IndexFrames (env : Env σ) (tr : List Call)
    (pkt : RxPacketInfo) (psessionEntry : Nat) (w : World σ)
    (h : grows Call.isFrameCall tr w.trace) :
    grows Call.isFrameCall tr (limHandleUnknownA2IndexFrames env pkt psessionEntry w).trace := by
  unfold limHandleUnknownA2IndexFrames
  dsimp only
  repeat' split
  all_goals repeat' first
    | exact h
    | refine grows_callHandler _ env tr _ _ rfl ?_

theorem grows_limCheckMgmtRegisteredFrames (env : Env σ) (tr : List Call)
    (pkt : RxPacketInfo) (psessionEntry : Option Nat) (w : World σ)
    (h : grows Call.isFrameCall tr w.trace) :
    grows Call.isFrameCall tr (limCheckMgmtRegisteredFrames env pkt psessionEntry w).2.trace := by
  unfold limCheckMgmtRegisteredFrames
  dsimp only
  repeat' split
  all_goals first
    | exact h
    | exact grows_callHandler _ env tr _ w rfl h

theorem grows_limHandle80211Frames_session (env : Env σ) (tr : List Call) (m : tSirMsgQ)
    (pkt : RxPacketInfo) (w : World σ) (h : grows Call.isFrameCall tr w.trace) :
    grows Call.isFrameCall tr (limHandle80211Frames_session env m pkt w).2.trace := by
  unfold limHandle80211Frames_session
  dsimp only
  repeat' split
  all_goals repeat' first
    | exact h
    | refine grows_callHandler _ env tr _ _ rfl ?_

theorem grows_ite (P : Call → Bool) (tr : List Call) (c : Prop) [Decidable c] (a b : World σ)
    (ha : grows P tr a.trace) (hb : grows P tr b.trace) :
    grows P tr (if c then a else b).trace := by
  split <;> assumption

theorem grows_ite_snd {α : Type} (P : Call → Bool) (tr : List Call) (c : Prop) [Decidable c]
    (a b : α × World σ) (ha : grows P tr a.2.trace) (hb : grows P tr b.2.trace) :
    grows P tr (if c then a else b).2.trace := by
  split <;> assumption

theorem grows_limHandle80211Frames_switch (env : Env σ) (tr : List Call) (m : tSirMsgQ)
    (pkt : RxPacketInfo) (psessionEntry : Option Nat) (w : World σ)
    (h : grows Call.isFrameCall tr w.trace) :
    grows Call.isFrameCall tr (limHandle80211Frames_switch env m pkt psessionEntry w).trace := by
  cases psessionEntry <;> unfold limHandle80211Frames_switch <;> dsimp only <;>
    repeat' first
      | exact h
      | exact grows___limHandleBeacon env tr _ _ w h
      | exact grows_limHandleUnknownA2IndexFrames env tr _ _ w h
      | refine grows_callHandler _ env tr _ _ rfl ?_
      | refine grows_ite _ tr _ _ _ ?_ ?_

theorem grows_limHandle80211Frames_dispatch (env : Env σ) (tr : List Call) (m : tSirMsgQ)
    (pkt : RxPacketInfo) (psessionEntry : Option Nat) (w : World σ)
    (h : grows Call.isFrameCall tr w.trace) :
    grows Call.isFrameCall tr
      (limHandle80211Frames_dispatch env m pkt psessionEntry w).2.trace := by
  have hr := grows_limCheckMgmtRegisteredFrames env tr pkt psessionEntry w h
  unfold limHandle80211Frames_dispatch
  dsimp only
  repeat' split
  all_goals first
    | exact grows_limPktFree env tr _ _ _ hr
    | exact grows_limHandleFramesInScanState env tr _ _ _ _ hr
    | exact grows_limPktFree env tr _ _ _ (grows_limHandle80211Frames_switch env tr _ _ _ _ hr)

theorem grows_limHandle80211Frames (env : Env σ) (tr : List Call) (m : tSirMsgQ)
    (w : World σ) (h : grows Call.isFrameCall tr w.trace) :
    grows Call.isFrameCall tr (limHandle80211Frames env m w).2.trace := by
  have hs := grows_limHandle80211Frames_session env tr m
    (env.limGetBDfromRxPacket w.st.collab m.bodyptr) w h
  unfold limHandle80211Frames
  dsimp only
  repeat' split
  all_goals first
    | exact grows_limPktFree env tr _ _ _ h
    | exact grows_limPktFree env tr _ _ _ (grows_callHandler _ env tr _ w rfl h)
    | exact grows_limPktFree env tr _ _ _ (grows___limHandleBeacon env tr _ _ w h)
    | (rename_i heq
       rw [heq] at hs
       first
         | exact grows_limPktFree env tr _ _ _ hs
         | exact grows_limHandle80211Frames_dispatch env tr _ _ _ _ hs)

theorem isFrameCall_notEntry (c : Call) (h : c.isFrameCall = true) : c.notEntry = true := by
  cases c <;> first | rfl | exact absurd h Bool.false_ne_true

theorem grows_freeBodyptr (env : Env σ) (tr : List Call) (m : tSirMsgQ) (w : World σ)
    (h : grows Call.notEntry tr w.trace) :
    grows Call.notEntry tr (freeBodyptr env m w).2.trace :=
  grows_callRelease _ env tr _ w rfl h

theorem grows_handOverBody (env : Env σ) (tr : List Call) (f : Handler) (m : tSirMsgQ)
    (w : World σ) (h : grows Call.notEntry tr w.trace) :
    grows Call.notEntry tr (handOverBody env f m w).2.trace :=
  grows_callHandler _ env tr _ w rfl h

theorem grows_halResponseHandler (env : Env σ) (tr : List Call) (f : Handler) (m : tSirMsgQ)
    (w : World σ) (h : grows Call.notEntry tr w.trace) :
    grows Call.notEntry tr (halResponseHandler env f m w).2.trace :=
  grows_callMsgHandler _ env tr f m (SET_LIM_PROCESS_DEFD_MESGS 1 w) rfl h

theorem grows_limProcessOemDataRsp (env : Env σ) (tr : List Call) (body : Nat)
    (w : World σ) (h : grows Call.notEntry tr w.trace) :
    grows Call.notEntry tr (limProcessOemDataRsp env body w).trace :=
  grows_callHandler _ env tr _ (SET_LIM_PROCESS_DEFD_MESGS 1 w) rfl h

theorem grows_limSendStopScanOffloadReq (env : Env σ) (tr : List Call) (SessionId : Nat)
    (w : World σ) (h : grows Call.notEntry tr w.trace) :
    grows Call.notEntry tr (limSendStopScanOffloadReq env SessionId w).2.trace := by
  unfold limSendStopScanOffloadReq
  dsimp only
  cases env.vos_mem_malloc w.st.collab <;> dsimp only <;>
    repeat' first
      | exact h
      | refine grows_callHandler _ env tr _ _ rfl ?_
      | refine grows_callRelease _ env tr _ _ rfl ?_
      | refine grows_ite_snd _ tr _ _ _ ?_ ?_

theorem grows_limProcessAbortScanInd (env : Env σ) (tr : List Call) (SessionId : Nat)
    (w : World σ) (h : grows Call.notEntry tr w.trace) :
    grows Call.notEntry tr (limProcessAbortScanInd env SessionId w).trace := by
  unfold limProcessAbortScanInd
  dsimp only
  repeat' first
    | exact h
    | refine grows_limSendStopScanOffloadReq env tr _ _ ?_
    | refine grows_callHandler _ env tr _ _ rfl ?_
    | refine grows_callRelease _ env tr _ _ rfl ?_
    | refine grows_ite _ tr _ _ _ ?_ ?_

theorem grows_limProcessNormalHddMsg (env : Env σ) (tr : List Call) (m : tSirMsgQ)
    (fRspReqd : Bool) (w : World σ) (h : grows Call.notEntry tr w.trace) :
    grows Call.notEntry tr (limProcessNormalHddMsg env m fRspReqd w).2.trace := by
  unfold limProcessNormalHddMsg
  dsimp only
  repeat' first
    | exact h
    | refine grows_freeBodyptr env tr _ _ ?_
    | refine grows_callMsgHandler _ env tr _ _ _ rfl ?_
    | refine grows_limDeferMsg _ env tr _ _ rfl ?_
    | refine grows_note _ tr _ _ rfl ?_
    | refine grows_ite_snd _ tr _ _ _ ?_ ?_
    | refine grows_ite _ tr _ _ _ ?_ ?_

theorem grows_limProcessMessages_frame (env : Env σ) (tr : List Call) (m : tSirMsgQ)
    (w : World σ) (h : grows Call.notEntry tr w.trace) :
    grows Call.notEntry tr (limProcessMessages_frame env m w).2.trace := by
  unfold limProcessMessages_frame
  dsimp only
  refine grows_ite_snd _ tr _ _ _ h ?_
  cases env.WDA_DS_PeekRxPacketInfo w.st.collab m.bodyptr with
  | none => exact grows_callRelease _ env tr _ w rfl h
  | some bd =>
    dsimp only
    have hf : grows Call.notEntry tr
        (limHandle80211Frames env { m with bodyptr := bd } w).2.trace :=
      grows_trans _ _ _ _ h
        (grows_mono _ _ _ _ isFrameCall_notEntry
          (grows_limHandle80211Frames env w.trace _ w (grows_refl _ _)))
    repeat' first
      | exact hf
      | refine grows_callRelease _ env tr _ _ rfl ?_
      | refine grows_limDeferMsg _ env tr _ _ rfl ?_
      | refine grows_note _ tr _ _ rfl ?_
      | refine grows_ite_snd _ tr _ _ _ ?_ ?_

theorem q2qLoop_zero (env : Env σ) (m : tSirMsgQ) (i : Nat) (w : World σ) :
    q2qLoop env m 0 i w = none := rfl

/-- The calls of the loop of `WDA_UPDATE_Q2Q_IE_IND` are calls of functions with
one argument: a property of the log that such calls keep is kept by the loop. -/
theorem grows_q2qLoop (P : Call → Bool) (hP : ∀ (f : Handler) (a : Nat), P (Call.fn f a) = true)
    (env : Env σ) (tr : List Call) (m : tSirMsgQ) :
    ∀ (rounds i : Nat) (w w1 : World σ), q2qLoop env m rounds i w = some w1 →
      grows P tr w.trace → grows P tr w1.trace := by
  intro rounds
  induction rounds with
  | zero =>
    intro i w w1 hl
    rw [q2qLoop_zero] at hl
    cases hl
  | succ n ih =>
    intro i w w1 hl h
    unfold q2qLoop at hl
    dsimp only at hl
    by_cases hi : i < w.st.maxBssId
    · rw [if_pos hi] at hl
      cases hf : env.pe_find_session_by_sme_session_id w.st.collab
          (env.load w.st.collab m.bodyptr (BodyField.byte i)) with
      | none =>
        rw [hf] at hl
        exact ih _ _ _ hl h
      | some session_entry =>
        rw [hf] at hl
        dsimp only at hl
        by_cases hd : env.channelIsDfs
            (callRelease env (Call.fn Handler.sap_advertise_avoid_ch_ie session_entry)
              w).st.collab session_entry = true
        · rw [if_pos hd] at hl
          exact ih _ _ _ hl (grows_callRelease _ env tr _ _ (hP _ _) h)
        · rw [if_neg hd] at hl
          exact ih _ _ _ hl (grows_callHandler _ env tr _ _ (hP _ _)
            (grows_callHandler _ env tr _ _ (hP _ _)
              (grows_callRelease _ env tr _ _ (hP _ _) h)))
    · rw [if_neg hi] at hl
      cases hl
      exact h

set_option maxHeartbeats 4000000 in
theorem grows_limProcessMessages_switch (env : Env σ) (tr : List Call) (m : tSirMsgQ)
    (w : World σ) (h : grows Call.notEntry tr w.trace) :
    grows Call.notEntry tr (limProcessMessages_switch env m w).2.trace := by
  obtain ⟨type, reserved, bodyptr, bodyval⟩ := m
  cases type
  all_goals unfold limProcessMessages_switch
  all_goals dsimp only
  all_goals repeat' first
    | exact h
    | exact grows_q2qLoop Call.notEntry (fun _ _ => rfl) env tr _ _ _ w _ (by assumption) h
    | refine grows_freeBodyptr env tr _ _ ?_
    | refine grows_handOverBody env tr _ _ _ ?_
    | refine grows_halResponseHandler env tr _ _ _ ?_
    | refine grows_limProcessOemDataRsp env tr _ _ ?_
    | refine grows_limProcessNormalHddMsg env tr _ _ _ ?_
    | refine grows_limProcessMessages_frame env tr _ _ ?_
    | refine grows_limProcessAbortScanInd env tr _ _ ?_
    | refine grows_callMsgHandler _ env tr _ _ _ rfl ?_
    | refine grows_callHandler _ env tr _ _ rfl ?_
    | refine grows_callRelease _ env tr _ _ rfl ?_
    | refine grows_limDeferMsg _ env tr _ _ rfl ?_
    | refine grows_note _ tr _ _ rfl ?_
    | refine grows_ite_snd _ tr _ _ _ ?_ ?_
    | refine grows_ite _ tr _ _ _ ?_ ?_
    | split

theorem grows_limProcessMessages (env : Env σ) (m : tSirMsgQ) (w : World σ) :
    grows Call.notEntry (w.trace ++ [Call.limProcessMessages m])
      (limProcessMessages env m w).2.trace := by
  unfold limProcessMessages
  dsimp only
  refine grows_ite_snd _ _ _ _ _ ?_ ?_
  · exact grows_callRelease _ env _ _ _ rfl (grows_refl _ _)
  · exact grows_limProcessMessages_switch env _ m _ (grows_refl _ _)

/-- The kind test of `defMsgDecision`, spelled out. -/
theorem notHalResponse_iff (env : Env σ) (limMsg : tSirMsgQ) (s : LimState σ) :
    notHalResponse env limMsg s = true ↔
      (limMsg.type ∉ listedResponses ∧
       ¬ (env.FEATURE_OEM_DATA_SUPPORT = true ∧ limMsg.type = MsgType.WDA_START_OEM_DATA_RSP) ∧
       ¬ (limMsg.type = MsgType.SIR_BB_XPORT_MGMT_MSG ∧ s.gLimAddtsSent ≠ 0)) := by
  simp only [notHalResponse, listedResponses, Bool.and_eq_true, bne_iff_ne, ne_eq,
    List.mem_cons, List.mem_singleton, not_or, Bool.or_eq_true, Bool.not_eq_true',
    beq_iff_eq, Bool.not_eq_eq_eq_not, Bool.not_true, List.not_mem_nil, not_false_eq_true,
    and_true, Bool.and_eq_false_imp, and_assoc]
  have e1 : (env.FEATURE_OEM_DATA_SUPPORT = false ∨
      ¬limMsg.type = MsgType.WDA_START_OEM_DATA_RSP) ↔
      ¬(env.FEATURE_OEM_DATA_SUPPORT = true ∧
        limMsg.type = MsgType.WDA_START_OEM_DATA_RSP) := by
    cases env.FEATURE_OEM_DATA_SUPPORT <;> simp
  have e2 : (limMsg.type = MsgType.SIR_BB_XPORT_MGMT_MSG → (s.gLimAddtsSent != 0) = false) ↔
      ¬(limMsg.type = MsgType.SIR_BB_XPORT_MGMT_MSG ∧ ¬s.gLimAddtsSent = 0) := by
    simp
  rw [e1, e2]
  constructor <;> intro h <;> simp only [h, not_false_eq_true, and_self]

theorem deferOrReport_deferCalls (env : Env σ) (limMsg : tSirMsgQ) (w : World σ) :
    deferCalls (deferOrReport env limMsg w).trace = deferCalls w.trace ++ [limMsg] := by
  unfold deferOrReport
  dsimp only
  split <;> simp [limDeferMsg, callRelease, note, deferCalls_append, deferCalls]

theorem defMsgDecision_not_deferred (env : Env σ) (limMsg : tSirMsgQ) (w : World σ)
    (hsme : w.st.gLimSmeState ≠ tLimSmeStates.eLIM_SME_OFFLINE_STATE)
    (h : limIsSystemInScanState env w.st = true ∨ w.st.gLimProcessDefdMsgs = 1 ∨
      w.st.gLimSystemInScanLearnMode ≠ 0 ∨ notHalResponse env limMsg w.st = false) :
    defMsgDecision env limMsg w = (false, w) := by
  unfold defMsgDecision GET_LIM_PROCESS_DEFD_MESGS
  rw [if_neg hsme]
  rcases h with h | h | h | h
  · simp [h]
  · simp [h]
  · simp [h]
  · simp [h]

theorem deferOrReport_processed (env : Env σ) (limMsg : tSirMsgQ) (w : World σ) :
    processed (deferOrReport env limMsg w).trace = processed w.trace := by
  unfold deferOrReport
  dsimp only
  split <;> simp [limDeferMsg, callRelease, note, processed_append, processed]

theorem deferOrReport_drainCalls (env : Env σ) (limMsg : tSirMsgQ) (w : World σ) :
    drainCalls (deferOrReport env limMsg w).trace = drainCalls w.trace := by
  unfold deferOrReport
  dsimp only
  split <;> simp [limDeferMsg, callRelease, note, drainCalls]

theorem defMsgDecision_snd_of_false (env : Env σ) (limMsg : tSirMsgQ) (w : World σ)
    (h : (defMsgDecision env limMsg w).1 = false) : (defMsgDecision env limMsg w).2 = w := by
  unfold defMsgDecision at h ⊢
  split_ifs at h ⊢ <;> simp_all

theorem defMsgDecision_snd_of_true (env : Env σ) (limMsg : tSirMsgQ) (w : World σ)
    (h : (defMsgDecision env limMsg w).1 = true) :
    (defMsgDecision env limMsg w).2 = deferOrReport env limMsg w := by
  unfold defMsgDecision at h ⊢
  split_ifs at h ⊢ <;> simp_all

theorem limProcessMessages_processed (env : Env σ) (limMsg : tSirMsgQ) (w : World σ) :
    processed (limProcessMessages env limMsg w).2.trace = processed w.trace ++ [limMsg] := by
  rw [processed_of_grows _ _ (grows_limProcessMessages env limMsg w), processed_append]
  rfl

theorem limProcessMessages_drainCalls (env : Env σ) (limMsg : tSirMsgQ) (w : World σ) :
    drainCalls (limProcessMessages env limMsg w).2.trace = drainCalls w.trace := by
  rw [drainCalls_of_grows _ _ (grows_limProcessMessages env limMsg w), drainCalls_append]
  simp [drainCalls]

/-! ## Lemmas on the replay loop -/

theorem replayOne_cons (env : Env σ) (w : World σ) (m : tSirMsgQ) (rest : List tSirMsgQ)
    (hq : w.st.gLimDeferredMsgQ = m :: rest) :
    replayOne env w =
      (limProcessMessages env m { w with st := { w.st with gLimDeferredMsgQ := rest } }).2 := by
  simp [replayOne, limReadDeferredMsgQ, hq]

theorem replayOne_processed (env : Env σ) (w : World σ) (m : tSirMsgQ) (rest : List tSirMsgQ)
    (hq : w.st.gLimDeferredMsgQ = m :: rest) :
    processed (replayOne env w).trace = processed w.trace ++ [m] := by
  rw [replayOne_cons env w m rest hq, limProcessMessages_processed]

theorem replayOne_drainCalls (env : Env σ) (w : World σ) :
    drainCalls (replayOne env w).trace = drainCalls w.trace := by
  unfold replayOne limReadDeferredMsgQ
  split
  · rfl
  · rw [limProcessMessages_drainCalls]

theorem drainLoop_nil (env : Env σ) (fuel : Nat) (w : World σ)
    (hq : w.st.gLimDeferredMsgQ = []) : drainLoop env fuel w = some w := by
  cases fuel <;> simp [drainLoop, limReadDeferredMsgQ, hq]

theorem drainLoop_succ (env : Env σ) (fuel : Nat) (w : World σ)
    (hq : w.st.gLimDeferredMsgQ ≠ []) :
    drainLoop env (fuel + 1) w =
      if drainStops env (replayOne env w).st then some (replayOne env w)
      else drainLoop env fuel (replayOne env w) := by
  cases hl : w.st.gLimDeferredMsgQ with
  | nil => exact absurd hl hq
  | cons m rest => simp [drainLoop, replayOne, limReadDeferredMsgQ, hl]

/-- The loop run to its `k+1`-st entry: if the queue is not empty, the loop did
not stop after any of the first `k` entries and entries remained each time, and
after entry `k+1` it stops or the queue is empty, the loop ends in the state
reached right after entry `k+1`. -/
theorem drainLoop_run (env : Env σ) :
    ∀ (k fuel : Nat) (w : World σ), k + 1 ≤ fuel → w.st.gLimDeferredMsgQ ≠ [] →
      (∀ j, j < k → drainStops env ((replayOne env)^[j + 1] w).st = false ∧
        ((replayOne env)^[j + 1] w).st.gLimDeferredMsgQ ≠ []) →
      (drainStops env ((replayOne env)^[k + 1] w).st = true ∨
        ((replayOne env)^[k + 1] w).st.gLimDeferredMsgQ = []) →
      drainLoop env fuel w = some ((replayOne env)^[k + 1] w) := by
  intro k
  induction k with
  | zero =>
    intro fuel w hfuel hq _ hend
    obtain ⟨f, rfl⟩ : ∃ f, fuel = f + 1 := ⟨fuel - 1, by omega⟩
    rw [drainLoop_succ env f w hq]
    simp only [Function.iterate_succ, Function.iterate_zero, Function.comp_apply, id_eq] at hend
    rcases hend with h | h
    · rw [if_pos h]
      rfl
    · by_cases hs : drainStops env (replayOne env w).st = true
      · rw [if_pos hs]
        rfl
      · rw [if_neg hs, drainLoop_nil env f _ h]
        rfl
  | succ k ih =>
    intro fuel w hfuel hq hgo hend
    obtain ⟨f, rfl⟩ : ∃ f, fuel = f + 1 := ⟨fuel - 1, by omega⟩
    rw [drainLoop_succ env f w hq]
    have h0 := hgo 0 (by omega)
    simp only [Function.iterate_succ, Function.iterate_zero, Function.comp_apply, id_eq] at h0
    rw [if_neg (by simp [h0.1])]
    have := ih f (replayOne env w) (by omega) h0.2
      (fun j hj => by
        have := hgo (j + 1) (by omega)
        simpa [Function.iterate_succ_apply] using this)
      (by simpa [Function.iterate_succ_apply] using hend)
    rw [this]
    simp [Function.iterate_succ_apply]

/-- The messages replayed by the first `k` passes, when each pass only takes the
head off the queue. -/
theorem iterate_replayOne_processed (env : Env σ) (w : World σ) (ms : List tSirMsgQ)
    (hq : w.st.gLimDeferredMsgQ = ms) :
    ∀ k, k ≤ ms.length →
      (∀ j, j + 1 < k → ((replayOne env)^[j + 1] w).st.gLimDeferredMsgQ = ms.drop (j + 1)) →
      processed ((replayOne env)^[k] w).trace = processed w.trace ++ ms.take k := by
  intro k
  induction k with
  | zero => intro _ _; simp
  | succ k ih =>
    intro hk hrun
    have ihk := ih (by omega) (fun j hj => hrun j (by omega))
    have hqk : ((replayOne env)^[k] w).st.gLimDeferredMsgQ = ms.drop k := by
      cases k with
      | zero => simpa using hq
      | succ k => exact hrun k (by omega)
    have hlt : k < ms.length := by omega
    have hcons : ms.drop k = ms[k] :: ms.drop (k + 1) := List.drop_eq_getElem_cons hlt
    rw [Function.iterate_succ_apply', replayOne_processed env _ ms[k] (ms.drop (k + 1))
      (by rw [hqk, hcons]), ihk, List.append_assoc]
    congr 1
    rw [List.take_succ, List.getElem?_eq_getElem hlt]
    rfl

theorem drainLoop_drainCalls (env : Env σ) :
    ∀ (fuel : Nat) (w w1 : World σ), drainLoop env fuel w = some w1 →
      drainCalls w1.trace = drainCalls w.trace := by
  intro fuel
  induction fuel with
  | zero =>
    intro w w1 h
    cases hl : w.st.gLimDeferredMsgQ with
    | nil =>
      rw [drainLoop_nil env 0 w hl] at h
      cases h
      rfl
    | cons m rest => simp [drainLoop, limReadDeferredMsgQ, hl] at h
  | succ f ih =>
    intro w w1 h
    cases hl : w.st.gLimDeferredMsgQ with
    | nil =>
      rw [drainLoop_nil env (f + 1) w hl] at h
      cases h
      rfl
    | cons m rest =>
      rw [drainLoop_succ env f w (by simp [hl])] at h
      split_ifs at h
      · cases h
        exact replayOne_drainCalls env w
      · rw [ih _ _ h, replayOne_drainCalls]

theorem drainStops_of (env : Env σ) (s : LimState σ)
    (h : limIsSystemInScanState env s = true ∨ s.gLimProcessDefdMsgs ≠ 1 ∨ s.gLimAddtsSent ≠ 0) :
    drainStops env s = true := by
  unfold drainStops GET_LIM_PROCESS_DEFD_MESGS
  rcases h with h | h | h
  · simp [h]
  · have : (1 != s.gLimProcessDefdMsgs) = true := by
      simpa [bne_iff_ne] using fun e : 1 = s.gLimProcessDefdMsgs => h e.symm
    simp [this]
  · have : (s.gLimAddtsSent != 0) = true := by
      simpa [bne_iff_ne] using h
    simp [this]

/-! ## C1: the busy-flag rule of `defMsgDecision` -/

/-- C1, counterexample: with OEM-data support built in, a
`WDA_START_OEM_DATA_RSP` message arriving with SME not offline, outside scan
state, busy flag false and scan-learn mode 0 is none of the kinds the claim
lists and is not a received frame, yet `defMsgDecision` returns false and does
not pass it to `limDeferMsg`. -/
theorem defMsgDecision_oem_response_counterexample :
    ((({ stNormal with gLimProcessDefdMsgs := 0 } : LimState Unit).gLimSmeState ≠
        tLimSmeStates.eLIM_SME_OFFLINE_STATE) ∧
      limIsSystemInScanState envQuiet { stNormal with gLimProcessDefdMsgs := 0 } = false ∧
      ({ stNormal with gLimProcessDefdMsgs := 0 } : LimState Unit).gLimProcessDefdMsgs ≠ 1 ∧
      ({ stNormal with gLimProcessDefdMsgs := 0 } : LimState Unit).gLimSystemInScanLearnMode = 0) ∧
    ((msgOf MsgType.WDA_START_OEM_DATA_RSP).type ∉ listedResponses ∧
      (msgOf MsgType.WDA_START_OEM_DATA_RSP).type ≠ MsgType.SIR_BB_XPORT_MGMT_MSG) ∧
    (defMsgDecision envQuiet (msgOf MsgType.WDA_START_OEM_DATA_RSP)
        ⟨{ stNormal with gLimProcessDefdMsgs := 0 }, []⟩).1 = false ∧
    deferCalls (defMsgDecision envQuiet (msgOf MsgType.WDA_START_OEM_DATA_RSP)
        ⟨{ stNormal with gLimProcessDefdMsgs := 0 }, []⟩).2.trace = [] := by
  decide

/-- C1, amended: with SME not offline, outside scan state, busy flag not true
and scan-learn mode 0, `defMsgDecision` returns true and passes the message to
`limDeferMsg` exactly once if and only if the kind is none of the listed
firmware responses, is not `WDA_START_OEM_DATA_RSP` in a build with OEM-data
support, and is not a received frame while an ADDTS request is outstanding;
otherwise it returns false and changes nothing (the deferred queue included). -/
theorem defMsgDecision_busy_flag_rule (env : Env σ) (limMsg : tSirMsgQ) (w : World σ)
    (hsme : w.st.gLimSmeState ≠ tLimSmeStates.eLIM_SME_OFFLINE_STATE)
    (hscan : limIsSystemInScanState env w.st = false)
    (hflag : w.st.gLimProcessDefdMsgs ≠ 1)
    (hlearn : w.st.gLimSystemInScanLearnMode = 0) :
    (((defMsgDecision env limMsg w).1 = true ∧
        deferCalls (defMsgDecision env limMsg w).2.trace = deferCalls w.trace ++ [limMsg]) ↔
      (limMsg.type ∉ listedResponses ∧
        ¬ (env.FEATURE_OEM_DATA_SUPPORT = true ∧
            limMsg.type = MsgType.WDA_START_OEM_DATA_RSP) ∧
        ¬ (limMsg.type = MsgType.SIR_BB_XPORT_MGMT_MSG ∧ w.st.gLimAddtsSent ≠ 0))) ∧
    (¬ (limMsg.type ∉ listedResponses ∧
        ¬ (env.FEATURE_OEM_DATA_SUPPORT = true ∧
            limMsg.type = MsgType.WDA_START_OEM_DATA_RSP) ∧
        ¬ (limMsg.type = MsgType.SIR_BB_XPORT_MGMT_MSG ∧ w.st.gLimAddtsSent ≠ 0)) →
      defMsgDecision env limMsg w = (false, w)) := by
  rw [← notHalResponse_iff env limMsg w.st]
  have hne : (1 != w.st.gLimProcessDefdMsgs) = true := by
    simpa [bne_iff_ne] using fun h : 1 = w.st.gLimProcessDefdMsgs => hflag h.symm
  by_cases hk : notHalResponse env limMsg w.st = true
  · have hd : defMsgDecision env limMsg w = (true, deferOrReport env limMsg w) := by
      unfold defMsgDecision GET_LIM_PROCESS_DEFD_MESGS
      rw [if_neg hsme]
      simp [hscan, hne, hlearn, hk]
    refine ⟨⟨fun _ => hk, fun _ => ?_⟩, fun h => absurd hk h⟩
    rw [hd]
    exact ⟨rfl, deferOrReport_deferCalls env limMsg w⟩
  · have hf : notHalResponse env limMsg w.st = false := by simpa using hk
    have hd := defMsgDecision_not_deferred env limMsg w hsme (Or.inr (Or.inr (Or.inr hf)))
    refine ⟨⟨fun h => ?_, fun h => absurd h hk⟩, fun _ => hd⟩
    rw [hd] at h
    exact absurd h.1 (by simp)

/-- C1, amended, at a concrete input: with the busy flag false an unlisted kind
(code 100) is deferred once. -/
theorem defMsgDecision_busy_flag_rule_witness :
    (defMsgDecision envQuiet (msgOf (MsgType.other 100))
        ⟨{ stNormal with gLimProcessDefdMsgs := 0 }, []⟩).1 = true ∧
    deferCalls (defMsgDecision envQuiet (msgOf (MsgType.other 100))
        ⟨{ stNormal with gLimProcessDefdMsgs := 0 }, []⟩).2.trace
      = [msgOf (MsgType.other 100)] :=
  (defMsgDecision_busy_flag_rule envQuiet (msgOf (MsgType.other 100))
      ⟨{ stNormal with gLimProcessDefdMsgs := 0 }, []⟩
      (by decide) (by decide) (by decide) (by decide)).1.2 (by decide)

/-! ## C4: no deferral while the busy flag is true -/

/-- C4: with SME not offline and `gLimProcessDefdMsgs == true`, `defMsgDecision`
returns false for every message and leaves the state, the deferred queue
included, as it was; no call of `limDeferMsg` is made. -/
theorem defMsgDecision_flag_true (env : Env σ) (limMsg : tSirMsgQ) (w : World σ)
    (hsme : w.st.gLimSmeState ≠ tLimSmeStates.eLIM_SME_OFFLINE_STATE)
    (hflag : w.st.gLimProcessDefdMsgs = 1) :
    (defMsgDecision env limMsg w).1 = false ∧
    (defMsgDecision env limMsg w).2.st.gLimDeferredMsgQ = w.st.gLimDeferredMsgQ ∧
    (defMsgDecision env limMsg w).2 = w := by
  rw [defMsgDecision_not_deferred env limMsg w hsme (Or.inr (Or.inl hflag))]
  exact ⟨rfl, rfl, rfl⟩

/-- C4 at a concrete input: a join-like request (code 100) in Normal mode. -/
theorem defMsgDecision_flag_true_witness :
    (defMsgDecision envQuiet (msgOf (MsgType.other 100)) ⟨stNormal, []⟩).1 = false ∧
    (defMsgDecision envQuiet (msgOf (MsgType.other 100)) ⟨stNormal, []⟩).2.st.gLimDeferredMsgQ
      = stNormal.gLimDeferredMsgQ ∧
    (defMsgDecision envQuiet (msgOf (MsgType.other 100)) ⟨stNormal, []⟩).2 = ⟨stNormal, []⟩ :=
  defMsgDecision_flag_true envQuiet (msgOf (MsgType.other 100)) ⟨stNormal, []⟩
    (by decide) (by decide)

/-! ## C2: messages are dropped while MLM is offline -/

/-- C2: while the global MLM state is offline, `limMessageProcessor` returns
after exactly one call, `peFreeMsg` on the message: nothing is passed to
`limDeferMsg` or `limProcessMessages`, the deferred queue is not drained and
keeps its contents, and no field other than collaborator memory changes. -/
theorem limMessageProcessor_offline_drop (env : Env σ) (fuel : Nat) (limMsg : tSirMsgQ)
    (w : World σ) (hoff : w.st.gLimMlmState = tLimMlmStates.eLIM_MLM_OFFLINE_STATE) :
    ∃ w1 : World σ, limMessageProcessor env fuel limMsg w = some w1 ∧
      w1.trace = w.trace ++ [Call.peFreeMsg limMsg] ∧
      deferCalls w1.trace = deferCalls w.trace ∧
      processed w1.trace = processed w.trace ∧
      drainCalls w1.trace = drainCalls w.trace ∧
      w1.st.gLimDeferredMsgQ = w.st.gLimDeferredMsgQ ∧
      { w1.st with collab := w.st.collab } = w.st := by
  refine ⟨callRelease env (Call.peFreeMsg limMsg) w, ?_, rfl, ?_, ?_, ?_, rfl, rfl⟩
  · unfold limMessageProcessor
    rw [if_pos hoff.symm]
  · simp [callRelease, deferCalls_append, deferCalls]
  · simp [callRelease, processed_append, processed]
  · simp [callRelease, drainCalls]

/-- C2 at a concrete input: a request (code 100) arriving while MLM is offline
and three messages are queued. -/
theorem limMessageProcessor_offline_drop_witness :
    ∃ w1 : World Unit,
      limMessageProcessor envQuiet 5 (msgOf (MsgType.other 100))
        ⟨{ stNormal with gLimMlmState := tLimMlmStates.eLIM_MLM_OFFLINE_STATE,
                         gLimDeferredMsgQ := [msgOf (MsgType.other 1), msgOf (MsgType.other 2),
                                              msgOf (MsgType.other 3)] }, []⟩ = some w1 ∧
      w1.trace = [] ++ [Call.peFreeMsg (msgOf (MsgType.other 100))] ∧
      deferCalls w1.trace = deferCalls [] ∧
      processed w1.trace = processed [] ∧
      drainCalls w1.trace = drainCalls [] ∧
      w1.st.gLimDeferredMsgQ =
        [msgOf (MsgType.other 1), msgOf (MsgType.other 2), msgOf (MsgType.other 3)] ∧
      { w1.st with collab := () } =
        { stNormal with gLimMlmState := tLimMlmStates.eLIM_MLM_OFFLINE_STATE,
                        gLimDeferredMsgQ := [msgOf (MsgType.other 1), msgOf (MsgType.other 2),
                                             msgOf (MsgType.other 3)] } :=
  limMessageProcessor_offline_drop envQuiet 5 (msgOf (MsgType.other 100))
    ⟨{ stNormal with gLimMlmState := tLimMlmStates.eLIM_MLM_OFFLINE_STATE,
                     gLimDeferredMsgQ := [msgOf (MsgType.other 1), msgOf (MsgType.other 2),
                                          msgOf (MsgType.other 3)] }, []⟩ rfl

/-! ## C3: events submitted in scan state -/

/-- C3, counterexample: a `SIR_LIM_UPDATE_BEACON` event, whose kind is not on
the allow-list, submitted through `limMessageProcessor` in scan state with MLM
and SME not offline is not enqueued: its handler `limUpdateBeacon` runs at once
and the deferred queue stays empty. -/
theorem limMessageProcessor_scan_counterexample :
    (msgOf MsgType.SIR_LIM_UPDATE_BEACON).type ∉
      MsgType.WDA_START_OEM_DATA_RSP :: MsgType.SIR_BB_XPORT_MGMT_MSG :: listedResponses ∧
    limIsSystemInScanState envScan { stNormal with gLimSmeState := tLimSmeStates.other 3 } = true ∧
    ({ stNormal with gLimSmeState := tLimSmeStates.other 3 } : LimState Unit).gLimMlmState ≠
      tLimMlmStates.eLIM_MLM_OFFLINE_STATE ∧
    limMessageProcessor envScan 1 (msgOf MsgType.SIR_LIM_UPDATE_BEACON)
        ⟨{ stNormal with gLimSmeState := tLimSmeStates.other 3 }, []⟩ =
      some ⟨{ stNormal with gLimSmeState := tLimSmeStates.other 3 },
            [Call.limProcessMessages (msgOf MsgType.SIR_LIM_UPDATE_BEACON),
             Call.limUpdateBeacon]⟩ := by
  decide

/-- C3, amended: in scan state with MLM and SME not offline, `defMsgDecision`
defers nothing (it returns false and changes nothing), whatever the kind; the
event goes to `limProcessMessages`, which decides by kind.  With a
non-manufacturing driver, an event of kind `SIR_CFG_PARAM_UPDATE_IND`, or of
kind `SIR_LIM_HEART_BEAT_TIMEOUT` with power-save offload off, is passed to
`limDeferMsg` exactly once, no handler runs and no replay follows: when the
queue accepts the write the event is appended at the tail of the deferred
queue, otherwise the session states are logged and the queue is unchanged. -/
theorem limMessageProcessor_scan_defers (env : Env σ) (fuel : Nat) (limMsg : tSirMsgQ)
    (w : World σ)
    (hmlm : w.st.gLimMlmState ≠ tLimMlmStates.eLIM_MLM_OFFLINE_STATE)
    (hsme : w.st.gLimSmeState ≠ tLimSmeStates.eLIM_SME_OFFLINE_STATE)
    (hscan : limIsSystemInScanState env w.st = true) :
    defMsgDecision env limMsg w = (false, w) ∧
    (w.st.gDriverType ≠ eDRIVER_TYPE_MFG →
      (limMsg.type = MsgType.SIR_CFG_PARAM_UPDATE_IND ∨
        (limMsg.type = MsgType.SIR_LIM_HEART_BEAT_TIMEOUT ∧ w.st.psOffloadEnabled = 0)) →
      ((w.st.gLimDeferredMsgQ.length < env.MAX_DEFERRED_QUEUE_LEN ∧
          env.writeRefused w.st limMsg = false) →
        limMessageProcessor env fuel limMsg w =
          some ⟨{ w.st with gLimDeferredMsgQ := w.st.gLimDeferredMsgQ ++ [limMsg] },
                w.trace ++ [Call.limProcessMessages limMsg, Call.limDeferMsg limMsg]⟩) ∧
      (¬ (w.st.gLimDeferredMsgQ.length < env.MAX_DEFERRED_QUEUE_LEN ∧
          env.writeRefused w.st limMsg = false) →
        limMessageProcessor env fuel limMsg w =
          some ⟨w.st, w.trace ++ [Call.limProcessMessages limMsg, Call.limDeferMsg limMsg,
                                  Call.limLogSessionStates]⟩)) := by
  have hd := defMsgDecision_not_deferred env limMsg w hsme (Or.inl hscan)
  refine ⟨hd, fun hmfg hkind => ?_⟩
  have hscan1 : env.scanSmeState w.st.gLimSmeState = true := hscan
  have hmlm1 : ¬ (tLimMlmStates.eLIM_MLM_OFFLINE_STATE = w.st.gLimMlmState) :=
    fun h => hmlm h.symm
  constructor
  · rintro ⟨hlen, href⟩
    have hw : ¬ (env.MAX_DEFERRED_QUEUE_LEN ≤ w.st.gLimDeferredMsgQ.length ∨
        env.writeRefused w.st limMsg = true) := by
      rintro (h | h)
      · omega
      · simp [href] at h
    rcases hkind with hk | ⟨hk, hps⟩
    · simp [limMessageProcessor, hmlm1, hd, limProcessMessages, limProcessMessages_switch, note,
        hmfg, hk,
        limIsSystemInScanState, hscan1, limDeferMsg, limWriteDeferredMsgQ, hw]
    · simp [limMessageProcessor, hmlm1, hd, limProcessMessages, limProcessMessages_switch, note,
        hmfg, hk, hps,
        limIsSystemInScanState, hscan1, limDeferMsg, limWriteDeferredMsgQ, hw]
  · intro hno
    have hw : (env.MAX_DEFERRED_QUEUE_LEN ≤ w.st.gLimDeferredMsgQ.length ∨
        env.writeRefused w.st limMsg = true) := by
      by_cases hlen : w.st.gLimDeferredMsgQ.length < env.MAX_DEFERRED_QUEUE_LEN
      · right
        cases href : env.writeRefused w.st limMsg
        · exact absurd ⟨hlen, href⟩ hno
        · rfl
      · left
        omega
    rcases hkind with hk | ⟨hk, hps⟩
    · simp [limMessageProcessor, hmlm1, hd, limProcessMessages, limProcessMessages_switch, note,
        hmfg, hk,
        limIsSystemInScanState, hscan1, limDeferMsg, limWriteDeferredMsgQ, hw]
    · simp [limMessageProcessor, hmlm1, hd, limProcessMessages, limProcessMessages_switch, note,
        hmfg, hk, hps,
        limIsSystemInScanState, hscan1, limDeferMsg, limWriteDeferredMsgQ, hw]

/-- C3, amended, at a concrete input: a configuration update submitted in scan
state is appended to the empty deferred queue. -/
theorem limMessageProcessor_scan_defers_witness :
    limMessageProcessor envScan 1 (msgOf MsgType.SIR_CFG_PARAM_UPDATE_IND)
        ⟨{ stNormal with gLimSmeState := tLimSmeStates.other 3 }, []⟩ =
      some ⟨{ stNormal with gLimSmeState := tLimSmeStates.other 3,
                            gLimDeferredMsgQ := [msgOf MsgType.SIR_CFG_PARAM_UPDATE_IND] },
            [Call.limProcessMessages (msgOf MsgType.SIR_CFG_PARAM_UPDATE_IND),
             Call.limDeferMsg (msgOf MsgType.SIR_CFG_PARAM_UPDATE_IND)]⟩ :=
  ((limMessageProcessor_scan_defers envScan 1 (msgOf MsgType.SIR_CFG_PARAM_UPDATE_IND)
      ⟨{ stNormal with gLimSmeState := tLimSmeStates.other 3 }, []⟩
      (by decide) (by decide) (by decide)).2 (by decide) (Or.inl rfl)).1
    ⟨by decide, by decide⟩

/-! ## C5: replay is first-in first-out -/

/-- Replay of the whole queue: if the loop does not stop after any entry and
each pass only takes the head off the queue, the call replays every entry, in
queue order, and leaves the queue empty. -/
theorem drain_replays_all (env : Env σ) (w : World σ) (ms : List tSirMsgQ) (fuel : Nat)
    (hq : w.st.gLimDeferredMsgQ = ms) (hfuel : ms.length ≤ fuel)
    (hrun : ∀ k, k < ms.length →
      drainStops env ((replayOne env)^[k + 1] w).st = false ∧
      ((replayOne env)^[k + 1] w).st.gLimDeferredMsgQ = ms.drop (k + 1)) :
    ∃ w1 : World σ, limProcessDeferredMessageQueue env fuel w = some w1 ∧
      processed w1.trace = processed w.trace ++ ms ∧
      w1.st.gLimDeferredMsgQ = [] := by
  unfold limProcessDeferredMessageQueue
  cases hn : ms.length with
  | zero =>
    have hnil : ms = [] := List.length_eq_zero.mp hn
    subst hnil
    refine ⟨w, ?_, by simp, hq⟩
    simp [hq]
  | succ n =>
    have hne : w.st.gLimDeferredMsgQ ≠ [] := by
      rw [hq]
      intro h
      simp [h] at hn
    have hlen : w.st.gLimDeferredMsgQ.length > 0 := by
      rw [hq, hn]
      omega
    refine ⟨(replayOne env)^[n + 1] w, ?_, ?_, ?_⟩
    · rw [if_pos hlen]
      refine drainLoop_run env n fuel w (by omega) hne (fun j hj => ?_) (Or.inr ?_)
      · have h := hrun j (by omega)
        refine ⟨h.1, ?_⟩
        rw [h.2]
        intro h0
        have := congrArg List.length h0
        simp at this
        omega
      · rw [(hrun n (by omega)).2]
        simp [hn]
    · have h := iterate_replayOne_processed env w ms hq (n + 1) (by omega)
        (fun j hj => (hrun j (by omega)).2)
      rw [h, ← hn, List.take_length]
    · rw [(hrun n (by omega)).2]
      simp [hn]

/-- C5: with the deferred queue holding `ms` (oldest first), if after the replay
of each entry no stop condition holds, and the replay of an entry takes exactly
that entry off the queue, one call of `limProcessDeferredMessageQueue` (with
fuel for `ms.length` entries) returns, has handed to `limProcessMessages`
exactly the entries of `ms`, each once and in queue order, and leaves the queue
empty. -/
theorem limProcessDeferredMessageQueue_fifo (env : Env σ) (w : World σ)
    (ms : List tSirMsgQ) (fuel : Nat)
    (hq : w.st.gLimDeferredMsgQ = ms) (hfuel : ms.length ≤ fuel)
    (hrun : ∀ k, k < ms.length →
      drainStops env ((replayOne env)^[k + 1] w).st = false ∧
      ((replayOne env)^[k + 1] w).st.gLimDeferredMsgQ = ms.drop (k + 1)) :
    ∃ w1 : World σ, limProcessDeferredMessageQueue env fuel w = some w1 ∧
      processed w1.trace = processed w.trace ++ ms ∧
      w1.st.gLimDeferredMsgQ = [] :=
  drain_replays_all env w ms fuel hq hfuel hrun

/-- C5 at a concrete input: three queued requests are replayed in order. -/
theorem limProcessDeferredMessageQueue_fifo_witness :
    ∃ w1 : World Unit,
      limProcessDeferredMessageQueue envQuiet 3
        ⟨{ stNormal with gLimDeferredMsgQ :=
            [msgOf (MsgType.other 1), msgOf (MsgType.other 2), msgOf (MsgType.other 3)] }, []⟩
        = some w1 ∧
      processed w1.trace = processed [] ++
        [msgOf (MsgType.other 1), msgOf (MsgType.other 2), msgOf (MsgType.other 3)] ∧
      w1.st.gLimDeferredMsgQ = [] :=
  limProcessDeferredMessageQueue_fifo envQuiet
    ⟨{ stNormal with gLimDeferredMsgQ :=
        [msgOf (MsgType.other 1), msgOf (MsgType.other 2), msgOf (MsgType.other 3)] }, []⟩
    [msgOf (MsgType.other 1), msgOf (MsgType.other 2), msgOf (MsgType.other 3)] 3
    rfl (by decide) (by decide)

/-! ## C6: the stop conditions of the replay loop -/

/-- C6: let the deferred queue hold `ms`, let the loop run without stopping
through the first `k` entries, and let one of the three conditions hold right
after entry `k+1` was replayed: the system is in scan state, or
`gLimProcessDefdMsgs` is not true, or `gLimAddtsSent` is set.  Then the call
returns in the state reached right after that entry: exactly the first `k+1`
entries were handed to `limProcessMessages`, no further entry is dequeued, and
the remaining entries `ms.drop (k+1)` are at the head of the queue in their
original order (followed by whatever the replay of entry `k+1` itself
appended). -/
theorem limProcessDeferredMessageQueue_stops (env : Env σ) (w : World σ)
    (ms extra : List tSirMsgQ) (k fuel : Nat)
    (hq : w.st.gLimDeferredMsgQ = ms) (hk : k < ms.length) (hfuel : k + 1 ≤ fuel)
    (hgo : ∀ j, j < k →
      drainStops env ((replayOne env)^[j + 1] w).st = false ∧
      ((replayOne env)^[j + 1] w).st.gLimDeferredMsgQ = ms.drop (j + 1))
    (hlast : ((replayOne env)^[k + 1] w).st.gLimDeferredMsgQ = ms.drop (k + 1) ++ extra)
    (hstop : limIsSystemInScanState env ((replayOne env)^[k + 1] w).st = true ∨
      ((replayOne env)^[k + 1] w).st.gLimProcessDefdMsgs ≠ 1 ∨
      ((replayOne env)^[k + 1] w).st.gLimAddtsSent ≠ 0) :
    ∃ w1 : World σ, limProcessDeferredMessageQueue env fuel w = some w1 ∧
      w1 = (replayOne env)^[k + 1] w ∧
      processed w1.trace = processed w.trace ++ ms.take (k + 1) ∧
      w1.st.gLimDeferredMsgQ = ms.drop (k + 1) ++ extra := by
  have hne : w.st.gLimDeferredMsgQ ≠ [] := by
    rw [hq]
    intro h
    simp [h] at hk
  have hlen : w.st.gLimDeferredMsgQ.length > 0 := by
    rw [hq]
    omega
  have hs : drainStops env ((replayOne env)^[k + 1] w).st = true :=
    drainStops_of env _ hstop
  refine ⟨(replayOne env)^[k + 1] w, ?_, rfl, ?_, hlast⟩
  · unfold limProcessDeferredMessageQueue
    rw [if_pos hlen]
    refine drainLoop_run env k fuel w hfuel hne (fun j hj => ?_) (Or.inl hs)
    have h := hgo j hj
    refine ⟨h.1, ?_⟩
    rw [h.2]
    intro h0
    have := congrArg List.length h0
    simp at this
    omega
  · exact iterate_replayOne_processed env w ms hq (k + 1) (by omega)
      (fun j hj => (hgo j (by omega)).2)

/-- C6 at a concrete input: of three queued entries the second one, an ADDTS
request, sets `gLimAddtsSent`; the third stays in the queue. -/
theorem limProcessDeferredMessageQueue_stops_witness :
    ∃ w1 : World Unit,
      limProcessDeferredMessageQueue envAddts 3
        ⟨{ stNormal with gLimDeferredMsgQ :=
            [msgOf (MsgType.other 1), msgOf MsgType.eWNI_SME_ADDTS_REQ, msgOf (MsgType.other 3)] }, []⟩
        = some w1 ∧
      w1 = (replayOne envAddts)^[1 + 1]
        ⟨{ stNormal with gLimDeferredMsgQ :=
            [msgOf (MsgType.other 1), msgOf MsgType.eWNI_SME_ADDTS_REQ, msgOf (MsgType.other 3)] }, []⟩ ∧
      processed w1.trace = processed [] ++
        [msgOf (MsgType.other 1), msgOf MsgType.eWNI_SME_ADDTS_REQ, msgOf (MsgType.other 3)].take (1 + 1) ∧
      w1.st.gLimDeferredMsgQ =
        [msgOf (MsgType.other 1), msgOf MsgType.eWNI_SME_ADDTS_REQ, msgOf (MsgType.other 3)].drop (1 + 1)
          ++ [] :=
  limProcessDeferredMessageQueue_stops envAddts
    ⟨{ stNormal with gLimDeferredMsgQ :=
        [msgOf (MsgType.other 1), msgOf MsgType.eWNI_SME_ADDTS_REQ, msgOf (MsgType.other 3)] }, []⟩
    [msgOf (MsgType.other 1), msgOf MsgType.eWNI_SME_ADDTS_REQ, msgOf (MsgType.other 3)] [] 1 3
    rfl (by decide) (by decide) (by decide) (by decide) (by decide)

/-! ## C7: what triggers the replay -/

/-- C7 fails as stated: a `WDA_DELETE_STA_RSP` that arrives with the busy flag
false while the SME state is offline (MLM not offline) is not processed:
`defMsgDecision` defers it, the three queued requests are not replayed, and the
response is appended to the deferred queue behind them. -/
theorem limMessageProcessor_response_offline_counterexample :
    limMessageProcessor envRsp 3 (msgOf MsgType.WDA_DELETE_STA_RSP)
        ⟨{ stNormal with
            gLimSmeState := tLimSmeStates.eLIM_SME_OFFLINE_STATE
            gLimProcessDefdMsgs := 0
            gLimDeferredMsgQ :=
              [msgOf (MsgType.other 1), msgOf (MsgType.other 2), msgOf (MsgType.other 3)] },
          []⟩ =
      some ⟨{ stNormal with
            gLimSmeState := tLimSmeStates.eLIM_SME_OFFLINE_STATE
            gLimProcessDefdMsgs := 0
            gLimDeferredMsgQ :=
              [msgOf (MsgType.other 1), msgOf (MsgType.other 2), msgOf (MsgType.other 3),
               msgOf MsgType.WDA_DELETE_STA_RSP] },
          [Call.limDeferMsg (msgOf MsgType.WDA_DELETE_STA_RSP)]⟩ := by
  decide

/-- C7, amended: for a message that `limMessageProcessor` does not drop (MLM not
offline):

* if `defMsgDecision` returns true, the call ends in the state `defMsgDecision`
  left; neither `limProcessMessages` nor `limProcessDeferredMessageQueue` was
  called;
* if it returns false, `limProcessMessages` is called exactly once, on the
  message, without any call of the replay; afterwards, in the state the handler
  left, `limProcessDeferredMessageQueue` is called (exactly once) if
  `gLimAddtsSent` is clear, the system is not in scan state and
  `gLimProcessDefdMsgs == true`, and is not called otherwise;
* a `WDA_DELETE_STA_RSP` arriving with SME not offline is never deferred,
  whatever the busy flag;
* while the SME state is offline `defMsgDecision` returns true for every
  message, the firmware responses included, and passes it to `limDeferMsg`;
* when the replay is triggered with `ms` queued and the replay of each entry
  meets no stop condition and takes exactly that entry off the queue, the
  messages handed to `limProcessMessages` are the submitted message followed by
  `ms` in queue order, and the queue ends empty. -/
theorem limMessageProcessor_drain_trigger (env : Env σ) (fuel : Nat) (limMsg : tSirMsgQ)
    (w : World σ) (hmlm : w.st.gLimMlmState ≠ tLimMlmStates.eLIM_MLM_OFFLINE_STATE) :
    ((defMsgDecision env limMsg w).1 = true →
      limMessageProcessor env fuel limMsg w = some (defMsgDecision env limMsg w).2 ∧
      processed (defMsgDecision env limMsg w).2.trace = processed w.trace ∧
      drainCalls (defMsgDecision env limMsg w).2.trace = drainCalls w.trace) ∧
    ((defMsgDecision env limMsg w).1 = false →
      processed (limProcessMessages env limMsg w).2.trace = processed w.trace ++ [limMsg] ∧
      drainCalls (limProcessMessages env limMsg w).2.trace = drainCalls w.trace ∧
      (((limProcessMessages env limMsg w).2.st.gLimAddtsSent = 0 ∧
          limIsSystemInScanState env (limProcessMessages env limMsg w).2.st = false ∧
          (limProcessMessages env limMsg w).2.st.gLimProcessDefdMsgs = 1) →
        limMessageProcessor env fuel limMsg w =
          limProcessDeferredMessageQueue env fuel
            (note Call.limProcessDeferredMessageQueue (limProcessMessages env limMsg w).2) ∧
        ∀ w1 : World σ, limMessageProcessor env fuel limMsg w = some w1 →
          drainCalls w1.trace = drainCalls w.trace + 1) ∧
      (¬ ((limProcessMessages env limMsg w).2.st.gLimAddtsSent = 0 ∧
          limIsSystemInScanState env (limProcessMessages env limMsg w).2.st = false ∧
          (limProcessMessages env limMsg w).2.st.gLimProcessDefdMsgs = 1) →
        limMessageProcessor env fuel limMsg w = some (limProcessMessages env limMsg w).2)) ∧
    (limMsg.type = MsgType.WDA_DELETE_STA_RSP →
      w.st.gLimSmeState ≠ tLimSmeStates.eLIM_SME_OFFLINE_STATE →
      (defMsgDecision env limMsg w).1 = false) ∧
    (∀ ms : List tSirMsgQ,
      (defMsgDecision env limMsg w).1 = false →
      ((limProcessMessages env limMsg w).2.st.gLimAddtsSent = 0 ∧
        limIsSystemInScanState env (limProcessMessages env limMsg w).2.st = false ∧
        (limProcessMessages env limMsg w).2.st.gLimProcessDefdMsgs = 1) →
      (limProcessMessages env limMsg w).2.st.gLimDeferredMsgQ = ms →
      ms.length ≤ fuel →
      (∀ k, k < ms.length →
        drainStops env ((replayOne env)^[k + 1]
          (note Call.limProcessDeferredMessageQueue (limProcessMessages env limMsg w).2)).st
            = false ∧
        ((replayOne env)^[k + 1]
          (note Call.limProcessDeferredMessageQueue
            (limProcessMessages env limMsg w).2)).st.gLimDeferredMsgQ = ms.drop (k + 1)) →
      ∃ w1 : World σ, limMessageProcessor env fuel limMsg w = some w1 ∧
        processed w1.trace = processed w.trace ++ limMsg :: ms ∧
        w1.st.gLimDeferredMsgQ = []) ∧
    (w.st.gLimSmeState = tLimSmeStates.eLIM_SME_OFFLINE_STATE →
      (defMsgDecision env limMsg w).1 = true ∧
      deferCalls (defMsgDecision env limMsg w).2.trace = deferCalls w.trace ++ [limMsg]) := by
  have hmlm1 : ¬ (tLimMlmStates.eLIM_MLM_OFFLINE_STATE = w.st.gLimMlmState) :=
    fun h => hmlm h.symm
  have key : (defMsgDecision env limMsg w).1 = false →
      ((limProcessMessages env limMsg w).2.st.gLimAddtsSent = 0 ∧
        limIsSystemInScanState env (limProcessMessages env limMsg w).2.st = false ∧
        (limProcessMessages env limMsg w).2.st.gLimProcessDefdMsgs = 1) →
      limMessageProcessor env fuel limMsg w =
        limProcessDeferredMessageQueue env fuel
          (note Call.limProcessDeferredMessageQueue (limProcessMessages env limMsg w).2) := by
    intro hd htr
    have h2 := defMsgDecision_snd_of_false env limMsg w hd
    simp [limMessageProcessor, hmlm1, hd, h2, htr.1, htr.2.1, htr.2.2,
      GET_LIM_PROCESS_DEFD_MESGS]
  refine ⟨fun hd => ⟨?_, ?_, ?_⟩, fun hd => ⟨?_, ?_, fun htr => ⟨key hd htr, ?_⟩, fun hno => ?_⟩,
    fun hk hsme => ?_, fun ms hd htr hq hfuel hrun => ?_, fun hsme => ?_⟩
  · simp [limMessageProcessor, hmlm1, hd]
  · rw [defMsgDecision_snd_of_true env limMsg w hd]
    exact deferOrReport_processed env limMsg w
  · rw [defMsgDecision_snd_of_true env limMsg w hd]
    exact deferOrReport_drainCalls env limMsg w
  · exact limProcessMessages_processed env limMsg w
  · exact limProcessMessages_drainCalls env limMsg w
  · intro w1 h1
    rw [key hd htr] at h1
    unfold limProcessDeferredMessageQueue at h1
    have hn : drainCalls
        (note Call.limProcessDeferredMessageQueue (limProcessMessages env limMsg w).2).trace
        = drainCalls w.trace + 1 := by
      have := limProcessMessages_drainCalls env limMsg w
      simp only [note, drainCalls_append, this]
      rfl
    split_ifs at h1
    · rw [drainLoop_drainCalls env fuel _ w1 h1, hn]
    · cases h1
      exact hn
  · have h2 := defMsgDecision_snd_of_false env limMsg w hd
    by_cases ha : (limProcessMessages env limMsg w).2.st.gLimAddtsSent = 0 ∧
        limIsSystemInScanState env (limProcessMessages env limMsg w).2.st = false
    · have hf : ¬ (1 = (limProcessMessages env limMsg w).2.st.gLimProcessDefdMsgs) :=
        fun e => hno ⟨ha.1, ha.2, e.symm⟩
      simp [limMessageProcessor, hmlm1, hd, h2, ha.1, ha.2, hf, GET_LIM_PROCESS_DEFD_MESGS]
    · simp only [limMessageProcessor, if_neg hmlm1, hd, h2, Bool.not_false, if_true, if_neg ha]
  · have hn : notHalResponse env limMsg w.st = false := by
      simp [notHalResponse, hk]
    rw [defMsgDecision_not_deferred env limMsg w hsme (Or.inr (Or.inr (Or.inr hn)))]
  · obtain ⟨w1, h1, hp, hqe⟩ := drain_replays_all env
      (note Call.limProcessDeferredMessageQueue (limProcessMessages env limMsg w).2) ms fuel
      hq hfuel hrun
    refine ⟨w1, ?_, ?_, hqe⟩
    · rw [key hd htr, h1]
    · rw [hp]
      simp [note, processed_append, processed, limProcessMessages_processed]
  · have hdec : defMsgDecision env limMsg w = (true, deferOrReport env limMsg w) := by
      unfold defMsgDecision
      rw [if_pos hsme]
    rw [hdec]
    exact ⟨rfl, deferOrReport_deferCalls env limMsg w⟩

/-- C7, amended, at a concrete input (scenario C of the specification): a
`WDA_DELETE_STA_RSP` arrives while the busy flag is false and three requests are
queued; its handler sets the flag, and the three requests are replayed in their
original order. -/
theorem limMessageProcessor_drain_trigger_witness :
    ∃ w1 : World Unit,
      limMessageProcessor envRsp 3 (msgOf MsgType.WDA_DELETE_STA_RSP)
        ⟨{ stNormal with gLimProcessDefdMsgs := 0, gLimDeferredMsgQ :=
            [msgOf (MsgType.other 1), msgOf (MsgType.other 2), msgOf (MsgType.other 3)] }, []⟩
        = some w1 ∧
      processed w1.trace = processed [] ++ msgOf MsgType.WDA_DELETE_STA_RSP ::
        [msgOf (MsgType.other 1), msgOf (MsgType.other 2), msgOf (MsgType.other 3)] ∧
      w1.st.gLimDeferredMsgQ = [] :=
  (limMessageProcessor_drain_trigger envRsp 3 (msgOf MsgType.WDA_DELETE_STA_RSP)
    ⟨{ stNormal with gLimProcessDefdMsgs := 0, gLimDeferredMsgQ :=
        [msgOf (MsgType.other 1), msgOf (MsgType.other 2), msgOf (MsgType.other 3)] }, []⟩
    (by decide)).2.2.2.1
    [msgOf (MsgType.other 1), msgOf (MsgType.other 2), msgOf (MsgType.other 3)]
    (by decide) (by decide) (by decide) (by decide) (by decide)

end Lim

namespace VosLock

/-! ## Single calls on a free and on a held lock -/

theorem acquire_fresh (bits p : Nat) (ops : List MutexOp) :
    vos_lock_acquire bits ⟨p, false⟩ (some (freshLock ops)) =
      some (VOS_STATUS.VOS_STATUS_SUCCESS,
        some (heldLock (ops ++ [MutexOp.mutex_lock, MutexOp.mutex_is_locked]) p (1 % 2 ^ bits))) := by
  simp [vos_lock_acquire, freshLock, heldLock, mutex_lock, mutex_is_locked, LINUX_LOCK_COOKIE,
    LOCK_RELEASED, LOCK_ACQUIRED, LOCK_DESTROYED]

theorem acquire_held (bits p n : Nat) (ops : List MutexOp) :
    vos_lock_acquire bits ⟨p, false⟩ (some (heldLock ops p n)) =
      some (VOS_STATUS.VOS_STATUS_SUCCESS, some (heldLock ops p ((n + 1) % 2 ^ bits))) := by
  simp [vos_lock_acquire, heldLock, LINUX_LOCK_COOKIE, LOCK_ACQUIRED]

/-- In a field of `bits` bits the increment of the largest count wraps to 0. -/
theorem acquire_wraps (bits p : Nat) (ops : List MutexOp) :
    vos_lock_acquire bits ⟨p, false⟩ (some (heldLock ops p (2 ^ bits - 1))) =
      some (VOS_STATUS.VOS_STATUS_SUCCESS, some (heldLock ops p 0)) := by
  have h : (2 ^ bits - 1 + 1) % 2 ^ bits = 0 := by
    have hpos : 0 < 2 ^ bits := Nat.pow_pos (by norm_num)
    rw [Nat.sub_add_cancel hpos, Nat.mod_self]
  rw [acquire_held, h]

theorem release_held (p n : Nat) (ops : List MutexOp) (hn : 2 ≤ n) :
    vos_lock_release ⟨p, false⟩ (some (heldLock ops p n)) =
      (VOS_STATUS.VOS_STATUS_SUCCESS, some (heldLock ops p (n - 1))) := by
  have h1 : 0 < n := by omega
  have h2 : n - 1 ≠ 0 := by omega
  simp [vos_lock_release, heldLock, LINUX_LOCK_COOKIE, LOCK_ACQUIRED, h1, h2]

theorem release_last (p : Nat) (ops : List MutexOp) :
    vos_lock_release ⟨p, false⟩ (some (heldLock ops p 1)) =
      (VOS_STATUS.VOS_STATUS_SUCCESS, some (freshLock (ops ++ [MutexOp.mutex_unlock]))) := by
  simp [vos_lock_release, heldLock, freshLock, mutex_unlock, LINUX_LOCK_COOKIE, LOCK_ACQUIRED,
    LOCK_RELEASED]

theorem release_fresh (p : Nat) (ops : List MutexOp) (hp : p ≠ 0) :
    vos_lock_release ⟨p, false⟩ (some (freshLock ops)) =
      (VOS_STATUS.VOS_STATUS_E_PERM, some (freshLock ops)) := by
  have hp1 : ¬ (0 = p) := fun h => hp h.symm
  simp [vos_lock_release, freshLock, LINUX_LOCK_COOKIE, hp1]

/-! ## Sequences of calls -/

theorem runCalls_cons (bits : Nat) (t : Task) (op : LockOp) (rest : List (Task × LockOp))
    (lock lock1 lock2 : Option vos_lock_t) (status : VOS_STATUS) (ss : List VOS_STATUS)
    (h1 : callOp bits t op lock = some (status, lock1))
    (h2 : runCalls bits rest lock1 = some (ss, lock2)) :
    runCalls bits ((t, op) :: rest) lock = some (status :: ss, lock2) := by
  simp only [runCalls, h1, h2]

theorem runCalls_append (bits : Nat) (a b : List (Task × LockOp)) :
    ∀ (lock lock1 lock2 : Option vos_lock_t) (s1 s2 : List VOS_STATUS),
      runCalls bits a lock = some (s1, lock1) → runCalls bits b lock1 = some (s2, lock2) →
      runCalls bits (a ++ b) lock = some (s1 ++ s2, lock2) := by
  induction a with
  | nil =>
    intro lock lock1 lock2 s1 s2 h1 h2
    simp only [runCalls, Option.some.injEq, Prod.mk.injEq] at h1
    obtain ⟨rfl, rfl⟩ := h1
    simpa using h2
  | cons c rest ih =>
    intro lock lock1 lock2 s1 s2 h1 h2
    obtain ⟨t, op⟩ := c
    simp only [runCalls] at h1
    cases hc : callOp bits t op lock with
    | none => simp [hc] at h1
    | some r =>
      obtain ⟨status, l1⟩ := r
      simp only [hc] at h1
      cases hr : runCalls bits rest l1 with
      | none => simp [hr] at h1
      | some r2 =>
        obtain ⟨ss, l2⟩ := r2
        simp only [hr, Option.some.injEq, Prod.mk.injEq] at h1
        obtain ⟨rfl, rfl⟩ := h1
        exact runCalls_cons bits t op (rest ++ b) lock l1 lock2 status (ss ++ s2) hc
          (ih l1 l2 lock2 ss s2 hr h2)

theorem run_acquires_held (bits p : Nat) (ops : List MutexOp) :
    ∀ (k j : Nat), j + k < 2 ^ bits →
      runCalls bits (List.replicate k (⟨p, false⟩, LockOp.acquire)) (some (heldLock ops p j)) =
        some (List.replicate k VOS_STATUS.VOS_STATUS_SUCCESS, some (heldLock ops p (j + k))) := by
  intro k
  induction k with
  | zero => intro j _; rfl
  | succ k ih =>
    intro j hj
    have hmod : (j + 1) % 2 ^ bits = j + 1 := Nat.mod_eq_of_lt (by omega)
    have ha : callOp bits ⟨p, false⟩ LockOp.acquire (some (heldLock ops p j)) =
        some (VOS_STATUS.VOS_STATUS_SUCCESS, some (heldLock ops p (j + 1))) := by
      simp only [callOp, acquire_held, hmod]
    have hi := ih (j + 1) (by omega)
    have he : j + 1 + k = j + (k + 1) := by omega
    rw [he] at hi
    exact runCalls_cons bits _ _ _ _ _ _ _ _ ha hi

theorem run_releases_held (bits p : Nat) (ops : List MutexOp) :
    ∀ (k j : Nat), 1 ≤ j →
      runCalls bits (List.replicate k (⟨p, false⟩, LockOp.release))
          (some (heldLock ops p (j + k))) =
        some (List.replicate k VOS_STATUS.VOS_STATUS_SUCCESS, some (heldLock ops p j)) := by
  intro k
  induction k with
  | zero => intro j _; rfl
  | succ k ih =>
    intro j hj
    have hr : callOp bits ⟨p, false⟩ LockOp.release (some (heldLock ops p (j + (k + 1)))) =
        some (VOS_STATUS.VOS_STATUS_SUCCESS, some (heldLock ops p (j + k))) := by
      simp only [callOp, release_held p (j + (k + 1)) ops (by omega)]
      rfl
    exact runCalls_cons bits _ _ _ _ _ _ _ _ hr (ih j hj)

theorem run_acquires_fresh (bits p : Nat) (ops : List MutexOp) (k : Nat) (hk : 1 ≤ k)
    (hbits : k < 2 ^ bits) :
    runCalls bits (List.replicate k (⟨p, false⟩, LockOp.acquire)) (some (freshLock ops)) =
      some (List.replicate k VOS_STATUS.VOS_STATUS_SUCCESS,
        some (heldLock (ops ++ [MutexOp.mutex_lock, MutexOp.mutex_is_locked]) p k)) := by
  obtain ⟨m, rfl⟩ : ∃ m, k = m + 1 := ⟨k - 1, by omega⟩
  have hmod : 1 % 2 ^ bits = 1 := Nat.mod_eq_of_lt (by omega)
  have ha : callOp bits ⟨p, false⟩ LockOp.acquire (some (freshLock ops)) =
      some (VOS_STATUS.VOS_STATUS_SUCCESS,
        some (heldLock (ops ++ [MutexOp.mutex_lock, MutexOp.mutex_is_locked]) p 1)) := by
    simp only [callOp, acquire_fresh, hmod]
  have hi := run_acquires_held bits p (ops ++ [MutexOp.mutex_lock, MutexOp.mutex_is_locked])
    m 1 (by omega)
  rw [Nat.add_comm 1 m] at hi
  exact runCalls_cons bits _ _ _ _ _ _ _ _ ha hi

theorem run_releases_all (bits p : Nat) (ops : List MutexOp) (n : Nat) (hn : 1 ≤ n) :
    runCalls bits (List.replicate n (⟨p, false⟩, LockOp.release)) (some (heldLock ops p n)) =
      some (List.replicate n VOS_STATUS.VOS_STATUS_SUCCESS,
        some (freshLock (ops ++ [MutexOp.mutex_unlock]))) := by
  obtain ⟨m, rfl⟩ : ∃ m, n = m + 1 := ⟨n - 1, by omega⟩
  have h1 := run_releases_held bits p ops m 1 (by omega)
  rw [Nat.add_comm 1 m] at h1
  have hc : callOp bits ⟨p, false⟩ LockOp.release (some (heldLock ops p 1)) =
      some (VOS_STATUS.VOS_STATUS_SUCCESS, some (freshLock (ops ++ [MutexOp.mutex_unlock]))) := by
    simp only [callOp, release_last]
  have h2 : runCalls bits [((⟨p, false⟩ : Task), LockOp.release)] (some (heldLock ops p 1)) =
      some ([VOS_STATUS.VOS_STATUS_SUCCESS], some (freshLock (ops ++ [MutexOp.mutex_unlock]))) :=
    runCalls_cons bits _ _ _ _ _ _ _ _ hc rfl
  have h := runCalls_append bits _ _ _ _ _ _ _ h1 h2
  rw [List.replicate_succ', List.replicate_succ']
  exact h

/-! ## C8: balance of nested acquisitions -/

/-- C8, counterexample (refcount width 8).  (a) For caller identity 0 the
release that follows a matched acquire and release is not rejected: it returns
success and unlocks the underlying mutex once more.  (b) After 256 nested
acquisitions by caller 1 the reference count is 0, not 256; the first release
already leaves the lock Released and the second is rejected.  (c) In interrupt
context the first acquire fails. -/
theorem reentrant_lock_balance_counterexample :
    runCalls 8 [(⟨0, false⟩, LockOp.acquire), (⟨0, false⟩, LockOp.release),
        (⟨0, false⟩, LockOp.release)] (some (freshLock [])) =
      some ([VOS_STATUS.VOS_STATUS_SUCCESS, VOS_STATUS.VOS_STATUS_SUCCESS,
             VOS_STATUS.VOS_STATUS_SUCCESS],
        some (freshLock [MutexOp.mutex_lock, MutexOp.mutex_is_locked, MutexOp.mutex_unlock,
          MutexOp.mutex_unlock])) ∧
    runCalls 8 (List.replicate 256 (⟨1, false⟩, LockOp.acquire)) (some (freshLock [])) =
      some (List.replicate 256 VOS_STATUS.VOS_STATUS_SUCCESS,
        some (heldLock [MutexOp.mutex_lock, MutexOp.mutex_is_locked] 1 0)) ∧
    runCalls 8 [(⟨1, false⟩, LockOp.release), (⟨1, false⟩, LockOp.release)]
        (some (heldLock [MutexOp.mutex_lock, MutexOp.mutex_is_locked] 1 0)) =
      some ([VOS_STATUS.VOS_STATUS_SUCCESS, VOS_STATUS.VOS_STATUS_E_PERM],
        some (freshLock [MutexOp.mutex_lock, MutexOp.mutex_is_locked, MutexOp.mutex_unlock])) ∧
    vos_lock_acquire 8 ⟨1, true⟩ (some (freshLock [])) =
      some (VOS_STATUS.VOS_STATUS_E_FAULT, some (freshLock [])) := by
  refine ⟨by decide, ?_, by decide, by decide⟩
  have h255 := run_acquires_fresh 8 1 [] 255 (by omega) (by norm_num)
  have hc : callOp 8 ⟨1, false⟩ LockOp.acquire
      (some (heldLock ([] ++ [MutexOp.mutex_lock, MutexOp.mutex_is_locked]) 1 255)) =
      some (VOS_STATUS.VOS_STATUS_SUCCESS,
        some (heldLock [MutexOp.mutex_lock, MutexOp.mutex_is_locked] 1 0)) := by
    simp only [callOp, acquire_held]
    rfl
  have h := runCalls_append 8 _ _ _ _ _ _ _ h255 (runCalls_cons 8 _ _ [] _ _ _ _ [] hc rfl)
  rw [← List.replicate_succ', ← List.replicate_succ'] at h
  exact h

/-- C8, amended: for a non-zero caller identity `p` calling outside interrupt
context, a refcount field of `bits` bits and `1 ≤ n < 2 ^ bits`: `vos_lock_init`
on an uninitialised lock yields a Released lock; from it `k` consecutive
acquires (`1 ≤ k ≤ n`) all succeed and leave the lock Acquired with owner `p`
and refcount `k`; after `n` acquires, `j < n` releases all succeed and leave it
Acquired with refcount `n - j`; `n` releases all succeed and leave it Released
with owner 0 and refcount 0; one further release returns `VOS_STATUS_E_PERM`
and leaves the lock, the underlying mutex included, as it was. -/
theorem reentrant_lock_balance (bits n p : Nat) (ops : List MutexOp)
    (hp : p ≠ 0) (hn : 1 ≤ n) (hbits : n < 2 ^ bits) :
    (∀ raw : vos_lock_t, raw.cookie ≠ LINUX_LOCK_COOKIE →
      vos_lock_init ⟨p, false⟩ (some raw) =
        (VOS_STATUS.VOS_STATUS_SUCCESS,
          some (freshLock (raw.m_lock.ops ++ [MutexOp.mutex_init])))) ∧
    (∀ k, 1 ≤ k → k ≤ n →
      runCalls bits (List.replicate k (⟨p, false⟩, LockOp.acquire)) (some (freshLock ops)) =
        some (List.replicate k VOS_STATUS.VOS_STATUS_SUCCESS,
          some (heldLock (ops ++ [MutexOp.mutex_lock, MutexOp.mutex_is_locked]) p k))) ∧
    (∀ j, j < n →
      runCalls bits (List.replicate n (⟨p, false⟩, LockOp.acquire) ++
          List.replicate j (⟨p, false⟩, LockOp.release)) (some (freshLock ops)) =
        some (List.replicate n VOS_STATUS.VOS_STATUS_SUCCESS ++
            List.replicate j VOS_STATUS.VOS_STATUS_SUCCESS,
          some (heldLock (ops ++ [MutexOp.mutex_lock, MutexOp.mutex_is_locked]) p (n - j)))) ∧
    runCalls bits (List.replicate n (⟨p, false⟩, LockOp.acquire) ++
        List.replicate n (⟨p, false⟩, LockOp.release)) (some (freshLock ops)) =
      some (List.replicate n VOS_STATUS.VOS_STATUS_SUCCESS ++
          List.replicate n VOS_STATUS.VOS_STATUS_SUCCESS,
        some (freshLock (ops ++ [MutexOp.mutex_lock, MutexOp.mutex_is_locked] ++
          [MutexOp.mutex_unlock]))) ∧
    runCalls bits ((List.replicate n (⟨p, false⟩, LockOp.acquire) ++
        List.replicate n (⟨p, false⟩, LockOp.release)) ++ [(⟨p, false⟩, LockOp.release)])
        (some (freshLock ops)) =
      some ((List.replicate n VOS_STATUS.VOS_STATUS_SUCCESS ++
          List.replicate n VOS_STATUS.VOS_STATUS_SUCCESS) ++ [VOS_STATUS.VOS_STATUS_E_PERM],
        some (freshLock (ops ++ [MutexOp.mutex_lock, MutexOp.mutex_is_locked] ++
          [MutexOp.mutex_unlock]))) := by
  have hacq := run_acquires_fresh bits p ops n hn hbits
  have hrel := run_releases_all bits p (ops ++ [MutexOp.mutex_lock, MutexOp.mutex_is_locked]) n hn
  have hall := runCalls_append bits _ _ _ _ _ _ _ hacq hrel
  refine ⟨fun raw hraw => ?_, fun k hk1 hk => run_acquires_fresh bits p ops k hk1 (by omega),
    fun j hj => ?_, hall, ?_⟩
  · have hc : ¬ (LINUX_LOCK_COOKIE = raw.cookie) := fun h => hraw h.symm
    simp only [vos_lock_init, if_neg hc]
    rfl
  · have h := run_releases_held bits p (ops ++ [MutexOp.mutex_lock, MutexOp.mutex_is_locked])
      j (n - j) (by omega)
    have he : n - j + j = n := by omega
    rw [he] at h
    exact runCalls_append bits _ _ _ _ _ _ _ hacq h
  · have hc : callOp bits ⟨p, false⟩ LockOp.release
        (some (freshLock (ops ++ [MutexOp.mutex_lock, MutexOp.mutex_is_locked] ++
          [MutexOp.mutex_unlock]))) =
        some (VOS_STATUS.VOS_STATUS_E_PERM,
          some (freshLock (ops ++ [MutexOp.mutex_lock, MutexOp.mutex_is_locked] ++
            [MutexOp.mutex_unlock]))) := by
      simp only [callOp, release_fresh p _ hp]
    exact runCalls_append bits _ _ _ _ _ _ _ hall (runCalls_cons bits _ _ [] _ _ _ _ [] hc rfl)

/-- C8, amended, at the specification's case: caller 7 acquires twice and
releases three times; the third release is rejected. -/
theorem reentrant_lock_balance_witness :
    runCalls 8 ((List.replicate 2 (⟨7, false⟩, LockOp.acquire) ++
        List.replicate 2 (⟨7, false⟩, LockOp.release)) ++ [(⟨7, false⟩, LockOp.release)])
        (some (freshLock [])) =
      some ((List.replicate 2 VOS_STATUS.VOS_STATUS_SUCCESS ++
          List.replicate 2 VOS_STATUS.VOS_STATUS_SUCCESS) ++ [VOS_STATUS.VOS_STATUS_E_PERM],
        some (freshLock ([] ++ [MutexOp.mutex_lock, MutexOp.mutex_is_locked] ++
          [MutexOp.mutex_unlock]))) :=
  (reentrant_lock_balance 8 2 7 [] (by decide) (by decide) (by decide)).2.2.2.2

/-! ## C9: reentrant acquire -/

/-- C9, counterexample (refcount width 8): 255 nested acquisitions by caller 1
lead to an Acquired lock with refcount 255; the next acquire by the owner
returns success but leaves refcount 0: the count did not increase by one. -/
theorem vos_lock_acquire_reentrant_counterexample :
    runCalls 8 (List.replicate 255 (⟨1, false⟩, LockOp.acquire)) (some (freshLock [])) =
      some (List.replicate 255 VOS_STATUS.VOS_STATUS_SUCCESS,
        some (heldLock ([] ++ [MutexOp.mutex_lock, MutexOp.mutex_is_locked]) 1 255)) ∧
    vos_lock_acquire 8 ⟨1, false⟩
        (some (heldLock ([] ++ [MutexOp.mutex_lock, MutexOp.mutex_is_locked]) 1 255)) =
      some (VOS_STATUS.VOS_STATUS_SUCCESS,
        some (heldLock ([] ++ [MutexOp.mutex_lock, MutexOp.mutex_is_locked]) 1 0)) :=
  ⟨run_acquires_fresh 8 1 [] 255 (by omega) (by norm_num), by
    rw [acquire_held]
    rfl⟩

/-- C9, amended: for an initialised lock, a caller outside interrupt context
and a refcount field of `bits` bits that can hold the incremented count
(`refcount + 1 < 2 ^ bits`): if the lock is Acquired and its owner is the
caller, `vos_lock_acquire` returns success, increases refcount by exactly 1 and
changes nothing else (owner, state, cookie and the underlying mutex, on which
no operation is performed; the call does not block); if the lock is Released
(underlying mutex free, refcount 0), it locks the underlying mutex, returns
success and sets owner to the caller, state to Acquired and refcount to 1. -/
theorem vos_lock_acquire_reentrant (bits : Nat) (t : Task) (lock : vos_lock_t)
    (hcookie : lock.cookie = LINUX_LOCK_COOKIE) (hirq : t.in_interrupt = false)
    (hfit : lock.refcount + 1 < 2 ^ bits) :
    (lock.state = LOCK_ACQUIRED → lock.processID = t.pid →
      vos_lock_acquire bits t (some lock) =
        some (VOS_STATUS.VOS_STATUS_SUCCESS,
          some { lock with refcount := lock.refcount + 1 })) ∧
    (lock.state = LOCK_RELEASED → lock.m_lock.locked = false → lock.refcount = 0 →
      vos_lock_acquire bits t (some lock) =
        some (VOS_STATUS.VOS_STATUS_SUCCESS,
          some { lock with
            m_lock := { locked := true,
                        ops := lock.m_lock.ops ++
                          [MutexOp.mutex_lock, MutexOp.mutex_is_locked] },
            processID := t.pid, state := LOCK_ACQUIRED, refcount := 1 })) := by
  have hmod : (lock.refcount + 1) % 2 ^ bits = lock.refcount + 1 := Nat.mod_eq_of_lt hfit
  have hc : ¬ (LINUX_LOCK_COOKIE ≠ lock.cookie) := fun h => h hcookie.symm
  constructor
  · intro hstate howner
    simp only [vos_lock_acquire, if_neg hc, hirq, howner, hstate, hmod]
    simp
  · intro hstate hfree href
    have hns : ¬ (lock.processID = t.pid ∧ lock.state = LOCK_ACQUIRED) := by
      rintro ⟨_, h⟩
      rw [hstate] at h
      exact absurd h (by decide)
    have hnd : LOCK_DESTROYED ≠ lock.state := by
      rw [hstate]
      decide
    have hone : (0 + 1) % 2 ^ bits = 1 := by
      rw [href] at hfit
      exact Nat.mod_eq_of_lt hfit
    simp only [vos_lock_acquire, if_neg hc, hirq, if_neg hns, mutex_lock, hfree,
      mutex_is_locked, href, hone]
    simp [hnd]

/-- C9, amended, at a concrete input: the owner (caller 7) of a lock held once
acquires it again. -/
theorem vos_lock_acquire_reentrant_witness :
    vos_lock_acquire 8 ⟨7, false⟩ (some (heldLock [] 7 1)) =
      some (VOS_STATUS.VOS_STATUS_SUCCESS,
        some { heldLock [] 7 1 with refcount := (heldLock [] 7 1).refcount + 1 }) :=
  (vos_lock_acquire_reentrant 8 ⟨7, false⟩ (heldLock [] 7 1) rfl rfl (by decide)).1 rfl rfl

/-! ## C10: one release -/

/-- C10, counterexample: in interrupt context the release of an initialised,
Acquired lock by its owner (refcount 2) does not return success: it returns
`VOS_STATUS_E_FAULT` and leaves the lock as it is. -/
theorem vos_lock_release_step_counterexample :
    (heldLock [] 1 2).cookie = LINUX_LOCK_COOKIE ∧
    (heldLock [] 1 2).state = LOCK_ACQUIRED ∧
    (heldLock [] 1 2).processID = (⟨1, true⟩ : Task).pid ∧
    1 ≤ (heldLock [] 1 2).refcount ∧
    vos_lock_release ⟨1, true⟩ (some (heldLock [] 1 2)) =
      (VOS_STATUS.VOS_STATUS_E_FAULT, some (heldLock [] 1 2)) := by
  decide

/-- C10, amended: outside interrupt context, for an initialised lock in state
Acquired whose owner is the caller and whose refcount is `n ≥ 1`,
`vos_lock_release` returns success; if `n ≥ 2` only refcount changes, to `n - 1`
(same owner, still Acquired, no operation on the underlying mutex); if `n = 1`
the lock becomes Released with owner 0 and refcount 0 and the underlying mutex
is unlocked exactly once.  In every call of `vos_lock_release` that leaves a
non-zero refcount the underlying mutex is untouched. -/
theorem vos_lock_release_step (t : Task) (lock : vos_lock_t) :
    (lock.cookie = LINUX_LOCK_COOKIE → t.in_interrupt = false →
      lock.state = LOCK_ACQUIRED → lock.processID = t.pid →
      (2 ≤ lock.refcount →
        vos_lock_release t (some lock) =
          (VOS_STATUS.VOS_STATUS_SUCCESS,
            some { lock with refcount := lock.refcount - 1 })) ∧
      (lock.refcount = 1 →
        vos_lock_release t (some lock) =
          (VOS_STATUS.VOS_STATUS_SUCCESS,
            some { lock with
              processID := 0, refcount := 0, state := LOCK_RELEASED,
              m_lock := { locked := false,
                          ops := lock.m_lock.ops ++ [MutexOp.mutex_unlock] } }))) ∧
    (∀ lock1 : vos_lock_t, (vos_lock_release t (some lock)).2 = some lock1 →
      lock1.refcount ≠ 0 → lock1.m_lock = lock.m_lock) := by
  constructor
  · intro hcookie hirq hstate howner
    have hc : ¬ (LINUX_LOCK_COOKIE ≠ lock.cookie) := fun h => h hcookie.symm
    have ho : ¬ (lock.processID ≠ t.pid) := fun h => h howner
    constructor
    · intro hn
      have h1 : lock.refcount > 0 := by omega
      have h2 : lock.refcount - 1 ≠ 0 := by omega
      simp only [vos_lock_release, if_neg hc, hirq, if_neg ho, howner, hstate, and_self,
        if_true, if_pos h1]
      simp [h2]
    · intro hn
      simp only [vos_lock_release, if_neg hc, hirq, if_neg ho, howner, hstate, and_self,
        if_true, hn, mutex_unlock]
      simp
  · intro lock1 h hne
    unfold vos_lock_release at h
    dsimp only at h
    split_ifs at h <;> simp only [Option.some.injEq] at h <;> subst h <;>
      first
        | rfl
        | exact absurd rfl hne

/-- C10, amended, at a concrete input: the owner (caller 7) releases a lock it
holds twice. -/
theorem vos_lock_release_step_witness :
    vos_lock_release ⟨7, false⟩ (some (heldLock [] 7 2)) =
      (VOS_STATUS.VOS_STATUS_SUCCESS,
        some { heldLock [] 7 2 with refcount := (heldLock [] 7 2).refcount - 1 }) :=
  ((vos_lock_release_step ⟨7, false⟩ (heldLock [] 7 2)).1 rfl rfl rfl rfl).1 (by decide)

end VosLock

namespace VosLock

/-! ## Calls on a destroyed lock -/

theorem destroy_success (t : Task) (lock lock1 : vos_lock_t)
    (hd : vos_lock_destroy t (some lock) = (VOS_STATUS.VOS_STATUS_SUCCESS, some lock1)) :
    lock1.cookie = 0 ∧ lock1.state = LOCK_DESTROYED ∧ lock1.processID = 0 ∧
      lock1.refcount = 0 ∧ lock1.m_lock.locked = false := by
  unfold vos_lock_destroy at hd
  dsimp only at hd
  split_ifs at hd <;> simp only [Prod.mk.injEq, Option.some.injEq] at hd
  all_goals first
    | exact absurd hd.1 (by decide)
    | (obtain ⟨_, rfl⟩ := hd
       exact ⟨rfl, rfl, rfl, rfl, rfl⟩)

theorem callOp_uninitialised (bits : Nat) (t : Task) (op : LockOp) (lock : vos_lock_t)
    (hc : lock.cookie ≠ LINUX_LOCK_COOKIE) (hop : op ≠ LockOp.init) :
    callOp bits t op (some lock) = some (VOS_STATUS.VOS_STATUS_E_INVAL, some lock) := by
  have hc1 : LINUX_LOCK_COOKIE ≠ lock.cookie := fun h => hc h.symm
  cases op with
  | init => exact absurd rfl hop
  | acquire => simp only [callOp, vos_lock_acquire, if_pos hc1]
  | release => simp only [callOp, vos_lock_release, if_pos hc1]
  | destroy => simp only [callOp, vos_lock_destroy, if_pos hc1]

theorem runCalls_uninitialised (bits : Nat) (lock : vos_lock_t)
    (hc : lock.cookie ≠ LINUX_LOCK_COOKIE) :
    ∀ calls : List (Task × LockOp), (∀ c ∈ calls, c.2 ≠ LockOp.init) →
      runCalls bits calls (some lock) =
        some (List.replicate calls.length VOS_STATUS.VOS_STATUS_E_INVAL, some lock) := by
  intro calls
  induction calls with
  | nil => intro _; rfl
  | cons c rest ih =>
    intro h
    obtain ⟨t, op⟩ := c
    have hop : op ≠ LockOp.init := h (t, op) (List.mem_cons_self _ _)
    exact runCalls_cons bits t op rest _ _ _ _ _ (callOp_uninitialised bits t op lock hc hop)
      (ih (fun c hcm => h c (List.mem_cons_of_mem _ hcm)))

/-! ## C11: release by a non-owner -/

/-- C11, counterexample: in interrupt context the release of an initialised
lock (owner 1) by caller 2 does not return `VOS_STATUS_E_PERM` but
`VOS_STATUS_E_FAULT`. -/
theorem vos_lock_release_non_owner_counterexample :
    (heldLock [] 1 1).cookie = LINUX_LOCK_COOKIE ∧
    (heldLock [] 1 1).processID ≠ (⟨2, true⟩ : Task).pid ∧
    vos_lock_release ⟨2, true⟩ (some (heldLock [] 1 1)) =
      (VOS_STATUS.VOS_STATUS_E_FAULT, some (heldLock [] 1 1)) := by
  decide

/-- C11, amended: outside interrupt context, for every initialised lock and
every caller whose identity differs from the recorded owner, `vos_lock_release`
returns `VOS_STATUS_E_PERM` and leaves the lock as it was: cookie, state, owner,
refcount and the underlying mutex, on which no operation is performed. -/
theorem vos_lock_release_non_owner (t : Task) (lock : vos_lock_t)
    (hcookie : lock.cookie = LINUX_LOCK_COOKIE) (hirq : t.in_interrupt = false)
    (hne : lock.processID ≠ t.pid) :
    vos_lock_release t (some lock) = (VOS_STATUS.VOS_STATUS_E_PERM, some lock) := by
  have hc : ¬ (LINUX_LOCK_COOKIE ≠ lock.cookie) := fun h => h hcookie.symm
  simp only [vos_lock_release, if_neg hc, hirq, if_pos hne]
  simp

/-- C11, amended, at a concrete input: caller 2 releases a lock held by 1. -/
theorem vos_lock_release_non_owner_witness :
    vos_lock_release ⟨2, false⟩ (some (heldLock [] 1 1)) =
      (VOS_STATUS.VOS_STATUS_E_PERM, some (heldLock [] 1 1)) :=
  vos_lock_release_non_owner ⟨2, false⟩ (heldLock [] 1 1) rfl rfl (by decide)

/-! ## C12: destroy only when released -/

/-- C12, counterexample: in interrupt context `vos_lock_destroy` returns
`VOS_STATUS_E_FAULT` both on a held lock (not `VOS_STATUS_E_BUSY`) and on a
Released lock (not success; the lock stays initialised and Released). -/
theorem vos_lock_destroy_counterexample :
    vos_lock_destroy ⟨1, true⟩ (some (heldLock [] 1 1)) =
      (VOS_STATUS.VOS_STATUS_E_FAULT, some (heldLock [] 1 1)) ∧
    vos_lock_destroy ⟨1, true⟩ (some (freshLock [])) =
      (VOS_STATUS.VOS_STATUS_E_FAULT, some (freshLock [])) := by
  decide

/-- C12, amended: outside interrupt context, for every initialised lock:
if the underlying mutex is locked (the lock is held, by whatever owner),
`vos_lock_destroy` returns `VOS_STATUS_E_BUSY` and changes no field and not the
state of the mutex (the only operation on it is the failed `mutex_trylock`); if
the underlying mutex is free (the lock is Released), it returns success and
leaves cookie 0, state Destroyed, owner 0, refcount 0 and the mutex unlocked. -/
theorem vos_lock_destroy_only_released (t : Task) (lock : vos_lock_t)
    (hcookie : lock.cookie = LINUX_LOCK_COOKIE) (hirq : t.in_interrupt = false) :
    (lock.m_lock.locked = true →
      vos_lock_destroy t (some lock) =
        (VOS_STATUS.VOS_STATUS_E_BUSY,
          some { lock with
            m_lock := { locked := lock.m_lock.locked,
                        ops := lock.m_lock.ops ++ [MutexOp.mutex_trylock] } })) ∧
    (lock.m_lock.locked = false →
      vos_lock_destroy t (some lock) =
        (VOS_STATUS.VOS_STATUS_SUCCESS,
          some { m_lock := { locked := false,
                             ops := lock.m_lock.ops ++
                               [MutexOp.mutex_trylock, MutexOp.mutex_unlock] },
                 cookie := 0, state := LOCK_DESTROYED, processID := 0, refcount := 0 })) := by
  have hc : ¬ (LINUX_LOCK_COOKIE ≠ lock.cookie) := fun h => h hcookie.symm
  constructor
  · intro hl
    simp only [vos_lock_destroy, if_neg hc, hirq, mutex_trylock, hl]
    simp
  · intro hl
    simp only [vos_lock_destroy, if_neg hc, hirq, mutex_trylock, hl, mutex_unlock]
    simp

/-- C12, amended, at a concrete input: destroying a lock held by caller 1
fails with busy. -/
theorem vos_lock_destroy_only_released_witness :
    vos_lock_destroy ⟨1, false⟩ (some (heldLock [] 1 1)) =
      (VOS_STATUS.VOS_STATUS_E_BUSY,
        some { heldLock [] 1 1 with
          m_lock := { locked := (heldLock [] 1 1).m_lock.locked,
                      ops := (heldLock [] 1 1).m_lock.ops ++ [MutexOp.mutex_trylock] } }) :=
  (vos_lock_destroy_only_released ⟨1, false⟩ (heldLock [] 1 1) rfl rfl).1 rfl

/-! ## C13: the Destroyed state -/

/-- C13, counterexample: after a successful `vos_lock_destroy`, a call of
`vos_lock_init` succeeds and moves the lock from Destroyed to Released. -/
theorem destroyed_terminal_counterexample :
    runCalls 8 [(⟨1, false⟩, LockOp.destroy), (⟨1, false⟩, LockOp.init)]
        (some (freshLock [])) =
      some ([VOS_STATUS.VOS_STATUS_SUCCESS, VOS_STATUS.VOS_STATUS_SUCCESS],
        some (freshLock [MutexOp.mutex_trylock, MutexOp.mutex_unlock, MutexOp.mutex_init])) ∧
    (freshLock [MutexOp.mutex_trylock, MutexOp.mutex_unlock, MutexOp.mutex_init]).state =
      LOCK_RELEASED ∧
    LOCK_RELEASED ≠ LOCK_DESTROYED := by
  decide

/-- C13, amended: once `vos_lock_destroy` has succeeded on a lock, the lock is
in the Destroyed state, and every sequence of `vos_lock_acquire`,
`vos_lock_release` and `vos_lock_destroy` calls (any callers, any context)
returns, each call with `VOS_STATUS_E_INVAL`, and leaves the lock as it was,
hence Destroyed; only `vos_lock_init` takes the lock out of that state: called
outside interrupt context it succeeds and leaves it Released. -/
theorem destroyed_until_reinit (bits : Nat) (t : Task) (lock lock1 : vos_lock_t)
    (hd : vos_lock_destroy t (some lock) = (VOS_STATUS.VOS_STATUS_SUCCESS, some lock1)) :
    lock1.state = LOCK_DESTROYED ∧
    (∀ calls : List (Task × LockOp), (∀ c ∈ calls, c.2 ≠ LockOp.init) →
      runCalls bits calls (some lock1) =
        some (List.replicate calls.length VOS_STATUS.VOS_STATUS_E_INVAL, some lock1)) ∧
    (∀ t2 : Task, t2.in_interrupt = false →
      vos_lock_init t2 (some lock1) =
        (VOS_STATUS.VOS_STATUS_SUCCESS,
          some (freshLock (lock1.m_lock.ops ++ [MutexOp.mutex_init])))) := by
  obtain ⟨hcookie, hstate, _, _, _⟩ := destroy_success t lock lock1 hd
  have hc : lock1.cookie ≠ LINUX_LOCK_COOKIE := by
    rw [hcookie]
    decide
  refine ⟨hstate, runCalls_uninitialised bits lock1 hc, fun t2 hirq => ?_⟩
  have hc1 : ¬ (LINUX_LOCK_COOKIE = lock1.cookie) := fun h => hc h.symm
  simp only [vos_lock_init, if_neg hc1, hirq]
  rfl

/-- C13, amended, at a concrete input: after the destroy of a Released lock an
acquire, a release and a destroy all fail and change nothing. -/
theorem destroyed_until_reinit_witness :
    runCalls 8 [(⟨1, false⟩, LockOp.acquire), (⟨2, false⟩, LockOp.release),
        (⟨1, true⟩, LockOp.destroy)]
        (some { m_lock := { locked := false,
                            ops := [MutexOp.mutex_trylock, MutexOp.mutex_unlock] },
                cookie := 0, state := LOCK_DESTROYED, processID := 0, refcount := 0 }) =
      some (List.replicate [((⟨1, false⟩ : Task), LockOp.acquire), (⟨2, false⟩, LockOp.release),
          (⟨1, true⟩, LockOp.destroy)].length VOS_STATUS.VOS_STATUS_E_INVAL,
        some { m_lock := { locked := false,
                           ops := [MutexOp.mutex_trylock, MutexOp.mutex_unlock] },
               cookie := 0, state := LOCK_DESTROYED, processID := 0, refcount := 0 }) :=
  (destroyed_until_reinit 8 ⟨1, false⟩ (freshLock [])
    { m_lock := { locked := false, ops := [MutexOp.mutex_trylock, MutexOp.mutex_unlock] },
      cookie := 0, state := LOCK_DESTROYED, processID := 0, refcount := 0 }
    (by decide)).2.1
    [(⟨1, false⟩, LockOp.acquire), (⟨2, false⟩, LockOp.release), (⟨1, true⟩, LockOp.destroy)]
    (by decide)

/-! ## C14: use after destroy -/

/-- C14: after a successful `vos_lock_destroy`, and before any
re-initialisation, each of `vos_lock_acquire`, `vos_lock_release` and
`vos_lock_destroy`, by any caller in any context, returns
`VOS_STATUS_E_INVAL` and leaves every field of the lock and the underlying
mutex as they were (no operation on the mutex; the acquire does not block). -/
theorem use_after_destroy (bits : Nat) (t t2 : Task) (lock lock1 : vos_lock_t)
    (hd : vos_lock_destroy t (some lock) = (VOS_STATUS.VOS_STATUS_SUCCESS, some lock1)) :
    vos_lock_acquire bits t2 (some lock1) =
      some (VOS_STATUS.VOS_STATUS_E_INVAL, some lock1) ∧
    vos_lock_release t2 (some lock1) = (VOS_STATUS.VOS_STATUS_E_INVAL, some lock1) ∧
    vos_lock_destroy t2 (some lock1) = (VOS_STATUS.VOS_STATUS_E_INVAL, some lock1) := by
  obtain ⟨hcookie, _, _, _, _⟩ := destroy_success t lock lock1 hd
  have hc : LINUX_LOCK_COOKIE ≠ lock1.cookie := by
    rw [hcookie]
    decide
  refine ⟨?_, ?_, ?_⟩
  · simp only [vos_lock_acquire, if_pos hc]
  · simp only [vos_lock_release, if_pos hc]
  · simp only [vos_lock_destroy, if_pos hc]

/-- C14 at a concrete input: caller 1 destroys a Released lock and then tries
to acquire it. -/
theorem use_after_destroy_witness :
    vos_lock_acquire 8 ⟨1, false⟩
        (some { m_lock := { locked := false,
                            ops := [MutexOp.mutex_trylock, MutexOp.mutex_unlock] },
                cookie := 0, state := LOCK_DESTROYED, processID := 0, refcount := 0 }) =
      some (VOS_STATUS.VOS_STATUS_E_INVAL,
        some { m_lock := { locked := false,
                           ops := [MutexOp.mutex_trylock, MutexOp.mutex_unlock] },
               cookie := 0, state := LOCK_DESTROYED, processID := 0, refcount := 0 }) :=
  (use_after_destroy 8 ⟨1, false⟩ ⟨1, false⟩ (freshLock [])
    { m_lock := { locked := false, ops := [MutexOp.mutex_trylock, MutexOp.mutex_unlock] },
      cookie := 0, state := LOCK_DESTROYED, processID := 0, refcount := 0 }
    (by decide)).1

/-! ## C15: double initialisation -/

/-- C15, counterexample: in interrupt context `vos_lock_init` on a lock that is
not initialised does not succeed: it returns `VOS_STATUS_E_FAULT` and leaves
the memory as it was. -/
theorem vos_lock_init_counterexample :
    rawLock.cookie ≠ LINUX_LOCK_COOKIE ∧
    vos_lock_init ⟨1, true⟩ (some rawLock) =
      (VOS_STATUS.VOS_STATUS_E_FAULT, some rawLock) := by
  decide

/-- C15, amended: `vos_lock_init` on a lock that is already initialised and not
yet destroyed (valid cookie, whether Released or Acquired; any context) returns
`VOS_STATUS_E_BUSY` and leaves the lock, the underlying mutex included, as it
was; on a lock that is not initialised, called outside interrupt context, it
returns success with state Released, owner 0, refcount 0 and the mutex
initialised. -/
theorem vos_lock_init_once (t : Task) (lock : vos_lock_t) :
    (lock.cookie = LINUX_LOCK_COOKIE →
      vos_lock_init t (some lock) = (VOS_STATUS.VOS_STATUS_E_BUSY, some lock)) ∧
    (lock.cookie ≠ LINUX_LOCK_COOKIE → t.in_interrupt = false →
      vos_lock_init t (some lock) =
        (VOS_STATUS.VOS_STATUS_SUCCESS,
          some { m_lock := { locked := false,
                             ops := lock.m_lock.ops ++ [MutexOp.mutex_init] },
                 cookie := LINUX_LOCK_COOKIE, state := LOCK_RELEASED,
                 processID := 0, refcount := 0 })) := by
  constructor
  · intro hc
    simp only [vos_lock_init, if_pos hc.symm]
  · intro hc hirq
    have hc1 : ¬ (LINUX_LOCK_COOKIE = lock.cookie) := fun h => hc h.symm
    simp only [vos_lock_init, if_neg hc1, hirq]
    rfl

/-- C15, amended, at a concrete input: initialising a lock held by caller 1 a
second time is rejected. -/
theorem vos_lock_init_once_witness :
    vos_lock_init ⟨1, false⟩ (some (heldLock [] 1 1)) =
      (VOS_STATUS.VOS_STATUS_E_BUSY, some (heldLock [] 1 1)) :=
  (vos_lock_init_once ⟨1, false⟩ (heldLock [] 1 1)).1 rfl

end VosLock

namespace Lim

variable {σ : Type}

theorem limWriteDeferredMsgQ_fail (env : Env σ) (limMsg : tSirMsgQ) (s : LimState σ)
    (h : (limWriteDeferredMsgQ env limMsg s).1 ≠ TxStatus.TX_SUCCESS) :
    (limWriteDeferredMsgQ env limMsg s).2 = s := by
  unfold limWriteDeferredMsgQ at h ⊢
  by_cases hc : env.MAX_DEFERRED_QUEUE_LEN ≤ s.gLimDeferredMsgQ.length ∨
      env.writeRefused s limMsg = true
  · rw [if_pos hc]
  · rw [if_neg hc] at h
    exact (h rfl).elim

theorem limWriteDeferredMsgQ_ok (env : Env σ) (limMsg : tSirMsgQ) (s : LimState σ)
    (h : (limWriteDeferredMsgQ env limMsg s).1 = TxStatus.TX_SUCCESS) :
    (limWriteDeferredMsgQ env limMsg s).2.gLimDeferredMsgQ =
      s.gLimDeferredMsgQ ++ [limMsg] := by
  unfold limWriteDeferredMsgQ at h ⊢
  by_cases hc : env.MAX_DEFERRED_QUEUE_LEN ≤ s.gLimDeferredMsgQ.length ∨
      env.writeRefused s limMsg = true
  · rw [if_pos hc] at h
    exact TxStatus.noConfusion h
  · rw [if_neg hc]

/-! ## C16: a failed deferral is reported -/

/-- C16: whenever `defMsgDecision` decides to defer a message (SME offline, or
outside scan state with the busy flag not true, scan-learn mode 0 and a kind
that is not exempt), it returns true, and: if `limDeferMsg` returns something
other than `TX_SUCCESS`, the calls made are `limDeferMsg`, then the session-state
dump `limLogSessionStates`, then `limHandleDeferMsgError` on the message, each
exactly once, and the deferred queue is unchanged; if `limDeferMsg` succeeds,
the only call is `limDeferMsg` and neither of the two others is made.  In both
cases `limMessageProcessor` (MLM not offline) does not hand the message to
`limProcessMessages`. -/
theorem defMsgDecision_failure_reported (env : Env σ) (limMsg : tSirMsgQ) (w : World σ)
    (hdec : w.st.gLimSmeState = tLimSmeStates.eLIM_SME_OFFLINE_STATE ∨
      (limIsSystemInScanState env w.st = false ∧ w.st.gLimProcessDefdMsgs ≠ 1 ∧
        w.st.gLimSystemInScanLearnMode = 0 ∧ notHalResponse env limMsg w.st = true)) :
    (defMsgDecision env limMsg w).1 = true ∧
    ((limDeferMsg env limMsg w).1 ≠ TxStatus.TX_SUCCESS →
      (defMsgDecision env limMsg w).2.trace =
        w.trace ++ [Call.limDeferMsg limMsg, Call.limLogSessionStates,
          Call.limHandleDeferMsgError limMsg] ∧
      (defMsgDecision env limMsg w).2.st.gLimDeferredMsgQ = w.st.gLimDeferredMsgQ) ∧
    ((limDeferMsg env limMsg w).1 = TxStatus.TX_SUCCESS →
      (defMsgDecision env limMsg w).2.trace = w.trace ++ [Call.limDeferMsg limMsg] ∧
      (defMsgDecision env limMsg w).2.st.gLimDeferredMsgQ =
        w.st.gLimDeferredMsgQ ++ [limMsg]) ∧
    (∀ fuel : Nat, w.st.gLimMlmState ≠ tLimMlmStates.eLIM_MLM_OFFLINE_STATE →
      ∃ w1 : World σ, limMessageProcessor env fuel limMsg w = some w1 ∧
        w1 = (defMsgDecision env limMsg w).2 ∧ processed w1.trace = processed w.trace) := by
  have hd : defMsgDecision env limMsg w = (true, deferOrReport env limMsg w) := by
    unfold defMsgDecision GET_LIM_PROCESS_DEFD_MESGS
    rcases hdec with h | ⟨hscan, hflag, hlearn, hk⟩
    · rw [if_pos h]
    · have hne : (1 != w.st.gLimProcessDefdMsgs) = true := by
        simpa [bne_iff_ne] using fun e : 1 = w.st.gLimProcessDefdMsgs => hflag e.symm
      by_cases hs : w.st.gLimSmeState = tLimSmeStates.eLIM_SME_OFFLINE_STATE
      · rw [if_pos hs]
      · rw [if_neg hs]
        simp [hscan, hne, hlearn, hk]
  refine ⟨by rw [hd], fun hfail => ?_, fun hok => ?_, fun fuel hmlm => ?_⟩
  · rw [hd]
    have hw : (limWriteDeferredMsgQ env limMsg w.st).1 ≠ TxStatus.TX_SUCCESS := hfail
    have hq : (limWriteDeferredMsgQ env limMsg w.st).2 = w.st :=
      limWriteDeferredMsgQ_fail env limMsg w.st hw
    simp only [deferOrReport, if_pos hfail]
    simp [callRelease, note, limDeferMsg, hq]
  · rw [hd]
    have hw : (limWriteDeferredMsgQ env limMsg w.st).1 = TxStatus.TX_SUCCESS := hok
    have hq : (limWriteDeferredMsgQ env limMsg w.st).2.gLimDeferredMsgQ =
        w.st.gLimDeferredMsgQ ++ [limMsg] :=
      limWriteDeferredMsgQ_ok env limMsg w.st hw
    have hnf : ¬ ((limDeferMsg env limMsg w).1 ≠ TxStatus.TX_SUCCESS) := fun h => h hok
    simp only [deferOrReport, if_neg hnf]
    exact ⟨rfl, hq⟩
  · have hmlm1 : ¬ (tLimMlmStates.eLIM_MLM_OFFLINE_STATE = w.st.gLimMlmState) :=
      fun h => hmlm h.symm
    refine ⟨(defMsgDecision env limMsg w).2, ?_, rfl, ?_⟩
    · simp [limMessageProcessor, hmlm1, hd]
    · rw [hd]
      exact deferOrReport_processed env limMsg w

/-- C16 at a concrete input: the busy flag is false and the queue is full (eight
entries); the ninth deferral fails and is reported. -/
theorem defMsgDecision_failure_reported_witness :
    (defMsgDecision envQuiet (msgOf (MsgType.other 100))
      ⟨{ stNormal with gLimProcessDefdMsgs := 0,
                       gLimDeferredMsgQ := List.replicate 8 (msgOf (MsgType.other 1)) }, []⟩).2.trace =
      [] ++ [Call.limDeferMsg (msgOf (MsgType.other 100)), Call.limLogSessionStates,
        Call.limHandleDeferMsgError (msgOf (MsgType.other 100))] ∧
    (defMsgDecision envQuiet (msgOf (MsgType.other 100))
      ⟨{ stNormal with gLimProcessDefdMsgs := 0,
                       gLimDeferredMsgQ := List.replicate 8 (msgOf (MsgType.other 1)) }, []⟩).2.st.gLimDeferredMsgQ
      = List.replicate 8 (msgOf (MsgType.other 1)) :=
  (defMsgDecision_failure_reported envQuiet (msgOf (MsgType.other 100))
    ⟨{ stNormal with gLimProcessDefdMsgs := 0,
                     gLimDeferredMsgQ := List.replicate 8 (msgOf (MsgType.other 1)) }, []⟩
    (Or.inr (by decide))).2.1 (by decide)

/-! ## C17: offline and the deferral decision -/

end Lim

namespace Lim

variable {σ : Type}

/-! ## C18: session resolution -/

/-- C18, counterexample: the registry holds session 7 for the sender of a frame
and no session for its BSSID or destination.  A beacon (packet 8) is handed to
`schBeaconProcess` with session NULL, and an action frame (packet 13) to
`limProcessActionFrameNoSession`: the peer address is not consulted for them. -/
theorem limHandle80211Frames_peer_session_counterexample :
    envPeer.peFindSessionByPeerSta ()
        (envPeer.limGetBDfromRxPacket () 8).hdr.sa = some 7 ∧
      envPeer.peFindSessionByBssid ()
        (envPeer.limGetBDfromRxPacket () 8).hdr.bssId = none ∧
      (envPeer.limGetBDfromRxPacket () 8).hdr.fc.subType = SIR_MAC_MGMT_BEACON ∧
      limHandle80211Frames_session envPeer (frameMsg 8)
        (envPeer.limGetBDfromRxPacket () 8) ⟨stNormal, []⟩ = (some none, ⟨stNormal, []⟩) ∧
      (limHandle80211Frames envPeer (frameMsg 8) ⟨stNormal, []⟩).2.trace =
        [Call.schBeaconProcess 8 none, Call.limPktFree 8 8] ∧
      (envPeer.limGetBDfromRxPacket () 13).hdr.fc.subType = SIR_MAC_MGMT_ACTION ∧
      (limHandle80211Frames envPeer (frameMsg 13) ⟨stNormal, []⟩).2.trace =
        [Call.limProcessActionFrameNoSession 13, Call.limPktFree 13 13] := by
  refine ⟨rfl, rfl, rfl, rfl, rfl, rfl, rfl⟩

/-- C18, amended: the session lookup of `limHandle80211Frames` for a frame that
is not a data frame with the FT flag in an ESE build.  (1) A session whose BSSID
equals the BSSID of the frame is the result.  Without one: (2) for a probe
response, beacon or probe request the result is NULL, whatever the registry
holds for the sender; (3) for an action frame the result is the session whose
BSSID equals the destination address, NULL if there is none; (4) for every other
subtype the result is the session of the sender, and the frame is dropped if
there is none; (5) in a build with 11R an authentication frame is first given to
`limProcessAuthFrameNoSession`, and is dropped if that succeeds.  (6) A frame
with none of the firmware marks goes on to the dispatch with the session found,
and is released at once if it was dropped. -/
theorem limHandle80211Frames_session_priority (env : Env σ) (limMsg : tSirMsgQ)
    (pkt : RxPacketInfo) (w : World σ)
    (hese : ¬ (env.FEATURE_WLAN_ESE_IAPP = true ∧ pkt.hdr.fc.type = SIR_MAC_DATA_FRAME ∧
      pkt.ftDone = true)) :
    (∀ s, env.peFindSessionByBssid w.st.collab pkt.hdr.bssId = some s →
      limHandle80211Frames_session env limMsg pkt w = (some (some s), w)) ∧
    (env.peFindSessionByBssid w.st.collab pkt.hdr.bssId = none →
      (pkt.hdr.fc.subType = SIR_MAC_MGMT_PROBE_RSP ∨ pkt.hdr.fc.subType = SIR_MAC_MGMT_BEACON ∨
        pkt.hdr.fc.subType = SIR_MAC_MGMT_PROBE_REQ) →
      limHandle80211Frames_session env limMsg pkt w = (some none, w)) ∧
    (env.peFindSessionByBssid w.st.collab pkt.hdr.bssId = none →
      pkt.hdr.fc.subType = SIR_MAC_MGMT_ACTION →
      limHandle80211Frames_session env limMsg pkt w =
        (some (env.peFindSessionByBssid w.st.collab pkt.hdr.da), w)) ∧
    (env.peFindSessionByBssid w.st.collab pkt.hdr.bssId = none →
      pkt.hdr.fc.subType ≠ SIR_MAC_MGMT_PROBE_RSP → pkt.hdr.fc.subType ≠ SIR_MAC_MGMT_BEACON →
      pkt.hdr.fc.subType ≠ SIR_MAC_MGMT_PROBE_REQ → pkt.hdr.fc.subType ≠ SIR_MAC_MGMT_ACTION →
      ¬ (env.WLAN_FEATURE_VOWIFI_11R = true ∧ pkt.hdr.fc.subType = SIR_MAC_MGMT_AUTH) →
      limHandle80211Frames_session env limMsg pkt w =
        ((env.peFindSessionByPeerSta w.st.collab pkt.hdr.sa).map some, w)) ∧
    (env.peFindSessionByBssid w.st.collab pkt.hdr.bssId = none →
      env.WLAN_FEATURE_VOWIFI_11R = true → pkt.hdr.fc.subType = SIR_MAC_MGMT_AUTH →
      limHandle80211Frames_session env limMsg pkt w =
        (if env.succeeds (Call.limProcessAuthFrameNoSession pkt.addr limMsg.bodyptr) w.st = true
          then none
          else (env.peFindSessionByPeerSta
            (callHandler env (Call.limProcessAuthFrameNoSession pkt.addr limMsg.bodyptr)
              w).st.collab pkt.hdr.sa).map some,
         callHandler env (Call.limProcessAuthFrameNoSession pkt.addr limMsg.bodyptr) w)) ∧
    (pkt = env.limGetBDfromRxPacket w.st.collab limMsg.bodyptr →
      ¬ (env.FEATURE_WLAN_EXTSCAN = true ∧ (pkt.extscanSrc = true ∨ pkt.epnoSrc = true)) →
      ¬ (env.WLAN_FEATURE_ROAM_SCAN_OFFLOAD = true ∧
          (pkt.roamCandidateInd ≠ 0 ∨ pkt.offloadScanLearn ≠ 0)) →
      limHandle80211Frames env limMsg w =
        match limHandle80211Frames_session env limMsg pkt w with
        | (none, w1) => (false, limPktFree env pkt limMsg w1)
        | (some psessionEntry, w1) =>
          limHandle80211Frames_dispatch env limMsg pkt psessionEntry w1) := by
  refine ⟨fun s hs => ?_, fun hb hsub => ?_, fun hb hsub => ?_,
    fun hb h1 h2 h3 h4 h11 => ?_, fun hb h11 hsub => ?_, fun hp hext hroam => ?_⟩
  · simp only [limHandle80211Frames_session, if_neg hese, hs]
  · have htried : (env.WLAN_FEATURE_VOWIFI_11R &&
        pkt.hdr.fc.subType == SIR_MAC_MGMT_AUTH) = false := by
      rcases hsub with h | h | h <;> rw [h] <;>
        simp [SIR_MAC_MGMT_AUTH, SIR_MAC_MGMT_PROBE_RSP, SIR_MAC_MGMT_BEACON,
          SIR_MAC_MGMT_PROBE_REQ]
    simp only [limHandle80211Frames_session, if_neg hese, hb, htried]
    rcases hsub with h | h | h <;> rw [h] <;>
      simp [SIR_MAC_MGMT_ACTION, SIR_MAC_MGMT_PROBE_RSP, SIR_MAC_MGMT_BEACON,
        SIR_MAC_MGMT_PROBE_REQ]
  · have htried : (env.WLAN_FEATURE_VOWIFI_11R &&
        pkt.hdr.fc.subType == SIR_MAC_MGMT_AUTH) = false := by
      rw [hsub]; simp [SIR_MAC_MGMT_AUTH, SIR_MAC_MGMT_ACTION]
    simp only [limHandle80211Frames_session, if_neg hese, hb, htried]
    rw [hsub]
    simp
  · have htried : (env.WLAN_FEATURE_VOWIFI_11R &&
        pkt.hdr.fc.subType == SIR_MAC_MGMT_AUTH) = false := by
      simpa using h11
    simp only [limHandle80211Frames_session, if_neg hese, hb, htried]
    cases hpeer : env.peFindSessionByPeerSta w.st.collab pkt.hdr.sa <;>
      simp [h1, h2, h3, h4, hpeer]
  · have htried : (env.WLAN_FEATURE_VOWIFI_11R &&
        pkt.hdr.fc.subType == SIR_MAC_MGMT_AUTH) = true := by
      simp [h11, hsub]
    simp only [limHandle80211Frames_session, if_neg hese, hb, htried]
    rw [hsub]
    by_cases hok : env.succeeds (Call.limProcessAuthFrameNoSession pkt.addr limMsg.bodyptr)
        w.st = true
    · simp [hok]
    · cases hpeer : env.peFindSessionByPeerSta
          (callHandler env (Call.limProcessAuthFrameNoSession pkt.addr limMsg.bodyptr)
            w).st.collab pkt.hdr.sa <;>
        simp [hok, hpeer, SIR_MAC_MGMT_AUTH, SIR_MAC_MGMT_ACTION, SIR_MAC_MGMT_PROBE_RSP,
          SIR_MAC_MGMT_BEACON, SIR_MAC_MGMT_PROBE_REQ]
  · subst hp
    have hr1 : ¬ (env.WLAN_FEATURE_ROAM_SCAN_OFFLOAD = true ∧
        (env.limGetBDfromRxPacket w.st.collab limMsg.bodyptr).roamCandidateInd ≠ 0) :=
      fun h => hroam ⟨h.1, Or.inl h.2⟩
    have hr2 : ¬ (env.WLAN_FEATURE_ROAM_SCAN_OFFLOAD = true ∧
        (env.limGetBDfromRxPacket w.st.collab limMsg.bodyptr).offloadScanLearn ≠ 0) :=
      fun h => hroam ⟨h.1, Or.inr h.2⟩
    simp only [limHandle80211Frames, if_neg hext, if_neg hr1, if_neg hr2]

/-- C18 at a concrete input: a deauthentication frame (packet 12) from station
200, with no session for its BSSID, resolves to the sender's session 7. -/
theorem limHandle80211Frames_session_priority_witness :
    ¬ (envPeer.FEATURE_WLAN_ESE_IAPP = true ∧
        (rxFrame 12 SIR_MAC_MGMT_FRAME SIR_MAC_MGMT_DEAUTH).hdr.fc.type = SIR_MAC_DATA_FRAME ∧
        (rxFrame 12 SIR_MAC_MGMT_FRAME SIR_MAC_MGMT_DEAUTH).ftDone = true) ∧
      limHandle80211Frames_session envPeer (frameMsg 12)
        (rxFrame 12 SIR_MAC_MGMT_FRAME SIR_MAC_MGMT_DEAUTH) ⟨stNormal, []⟩ =
        (some (some 7), ⟨stNormal, []⟩) :=
  ⟨by decide,
   (limHandle80211Frames_session_priority envPeer (frameMsg 12)
      (rxFrame 12 SIR_MAC_MGMT_FRAME SIR_MAC_MGMT_DEAUTH) ⟨stNormal, []⟩
      (by decide)).2.2.2.1 rfl (by decide) (by decide) (by decide) (by decide) (by decide)⟩

end Lim

namespace Lim

variable {σ : Type}

/-! ## C19: frames without a session -/

/-- C19, counterexample: management frames of protocol version 0, with an empty
registration list and an empty session registry, received outside scan state.
In a build with `FEATURE_WLAN_EXTSCAN` a beacon (packet 8) marked as coming from
an ext-scan goes to `__limProcessExtScanBeaconProbeRsp`, not to
`schBeaconProcess`; in a build with `WLAN_FEATURE_ROAM_SCAN_OFFLOAD` a probe
request (packet 4) and an action frame (packet 13) marked offload-scan-learn are
released with no handler called. -/
theorem limHandle80211Frames_marked_frame_counterexample :
    ((envExtscan.limGetBDfromRxPacket () 8).hdr.fc =
        ⟨SIR_MAC_PROTOCOL_VERSION, SIR_MAC_MGMT_FRAME, SIR_MAC_MGMT_BEACON⟩ ∧
      stNormal.gLimMgmtFrameRegistratinQueue = [] ∧
      limIsSystemInScanState envExtscan stNormal = false ∧
      (∀ a, envExtscan.peFindSessionByBssid () a = none ∧
        envExtscan.peFindSessionByPeerSta () a = none) ∧
      (limHandle80211Frames envExtscan (frameMsg 8) ⟨stNormal, []⟩).2.trace =
        [Call.limProcessExtScanBeaconProbeRsp 8 SIR_MAC_MGMT_BEACON, Call.limPktFree 8 8]) ∧
    ((envLfr.limGetBDfromRxPacket () 4).hdr.fc =
        ⟨SIR_MAC_PROTOCOL_VERSION, SIR_MAC_MGMT_FRAME, SIR_MAC_MGMT_PROBE_REQ⟩ ∧
      (envLfr.limGetBDfromRxPacket () 13).hdr.fc =
        ⟨SIR_MAC_PROTOCOL_VERSION, SIR_MAC_MGMT_FRAME, SIR_MAC_MGMT_ACTION⟩ ∧
      limIsSystemInScanState envLfr stNormal = false ∧
      (∀ a, envLfr.peFindSessionByBssid () a = none ∧
        envLfr.peFindSessionByPeerSta () a = none) ∧
      (limHandle80211Frames envLfr (frameMsg 4) ⟨stNormal, []⟩).2.trace =
        [Call.limPktFree 4 4] ∧
      (limHandle80211Frames envLfr (frameMsg 13) ⟨stNormal, []⟩).2.trace =
        [Call.limPktFree 13 13]) :=
  ⟨⟨rfl, rfl, rfl, fun _ => ⟨rfl, rfl⟩, rfl⟩, ⟨rfl, rfl, rfl, fun _ => ⟨rfl, rfl⟩, rfl, rfl⟩⟩

/-- C19, amended: a management frame of protocol version 0 that carries none of
the firmware marks acted on in the build (ext-scan or ePNO source, roam
candidate, offload-scan-learn), matches no registration, has no session for its
BSSID, and is received while the classifier for scan state is not in force.  A
beacon goes to `schBeaconProcess`, a probe response to
`limProcessProbeRspFrameNoSession`, a probe request to
`limProcessProbeReqFrame_multiple_BSS`, each with session NULL, and an action
frame with no session for its destination address either goes to
`limProcessActionFrameNoSession`; the handler is the only call before the
release of the buffer, and `*pDeferMsg` is false. -/
theorem limHandle80211Frames_no_session (env : Env σ) (limMsg : tSirMsgQ) (w : World σ)
    (pkt : RxPacketInfo)
    (hpkt : pkt = env.limGetBDfromRxPacket w.st.collab limMsg.bodyptr)
    (hext : ¬ (env.FEATURE_WLAN_EXTSCAN = true ∧ (pkt.extscanSrc = true ∨ pkt.epnoSrc = true)))
    (hroam : ¬ (env.WLAN_FEATURE_ROAM_SCAN_OFFLOAD = true ∧
      (pkt.roamCandidateInd ≠ 0 ∨ pkt.offloadScanLearn ≠ 0)))
    (htype : pkt.hdr.fc.type = SIR_MAC_MGMT_FRAME)
    (hver : pkt.hdr.fc.protVer = SIR_MAC_PROTOCOL_VERSION)
    (hreg : matchRegistration pkt.hdr.fc pkt.payload (pkt.payload.length % 2 ^ 16)
      w.st.gLimMgmtFrameRegistratinQueue = none)
    (hbss : env.peFindSessionByBssid w.st.collab pkt.hdr.bssId = none)
    (hscan : ¬ (w.st.fScanOffload = 0 ∧ limIsSystemInScanState env w.st = true)) :
    (pkt.hdr.fc.subType = SIR_MAC_MGMT_BEACON →
      limHandle80211Frames env limMsg w =
        (false, limPktFree env pkt limMsg
          (callHandler env (Call.schBeaconProcess pkt.addr none) w))) ∧
    (pkt.hdr.fc.subType = SIR_MAC_MGMT_PROBE_RSP →
      limHandle80211Frames env limMsg w =
        (false, limPktFree env pkt limMsg
          (callHandler env (Call.limProcessProbeRspFrameNoSession pkt.addr) w))) ∧
    (pkt.hdr.fc.subType = SIR_MAC_MGMT_PROBE_REQ →
      limHandle80211Frames env limMsg w =
        (false, limPktFree env pkt limMsg
          (callHandler env (Call.limProcessProbeReqFrame_multiple_BSS pkt.addr none) w))) ∧
    (pkt.hdr.fc.subType = SIR_MAC_MGMT_ACTION →
      env.peFindSessionByBssid w.st.collab pkt.hdr.da = none →
      limHandle80211Frames env limMsg w =
        (false, limPktFree env pkt limMsg
          (callHandler env (Call.limProcessActionFrameNoSession pkt.addr) w))) ∧
    (∀ c : Call, (limPktFree env pkt limMsg (callHandler env c w)).trace =
      w.trace ++ [c, Call.limPktFree pkt.addr limMsg.bodyptr]) := by
  have hr1 : ¬ (env.WLAN_FEATURE_ROAM_SCAN_OFFLOAD = true ∧ pkt.roamCandidateInd ≠ 0) :=
    fun h => hroam ⟨h.1, Or.inl h.2⟩
  have hr2 : ¬ (env.WLAN_FEATURE_ROAM_SCAN_OFFLOAD = true ∧ pkt.offloadScanLearn ≠ 0) :=
    fun h => hroam ⟨h.1, Or.inr h.2⟩
  have hese : ¬ (env.FEATURE_WLAN_ESE_IAPP = true ∧ pkt.hdr.fc.type = SIR_MAC_DATA_FRAME ∧
      pkt.ftDone = true) := by
    rw [htype]; simp [SIR_MAC_MGMT_FRAME, SIR_MAC_DATA_FRAME]
  have hmain : limHandle80211Frames env limMsg w =
      match limHandle80211Frames_session env limMsg pkt w with
      | (none, w1) => (false, limPktFree env pkt limMsg w1)
      | (some psessionEntry, w1) =>
        limHandle80211Frames_dispatch env limMsg pkt psessionEntry w1 := by
    subst hpkt
    simp only [limHandle80211Frames, if_neg hext, if_neg hr1, if_neg hr2]
  have hdisp : limHandle80211Frames_dispatch env limMsg pkt none w =
      (false, limPktFree env pkt limMsg
        (limHandle80211Frames_switch env limMsg pkt none w)) := by
    have hreg1 : matchRegistration pkt.hdr.fc pkt.payload (pkt.payload.length % 65536)
        w.st.gLimMgmtFrameRegistratinQueue = none := hreg
    simp [limHandle80211Frames_dispatch, limCheckMgmtRegisteredFrames, hreg1, hver, hscan]
  have hsess : (pkt.hdr.fc.subType = SIR_MAC_MGMT_BEACON ∨
        pkt.hdr.fc.subType = SIR_MAC_MGMT_PROBE_RSP ∨
        pkt.hdr.fc.subType = SIR_MAC_MGMT_PROBE_REQ ∨
        (pkt.hdr.fc.subType = SIR_MAC_MGMT_ACTION ∧
          env.peFindSessionByBssid w.st.collab pkt.hdr.da = none)) →
      limHandle80211Frames_session env limMsg pkt w = (some none, w) := by
    intro hsub
    have htried : (env.WLAN_FEATURE_VOWIFI_11R &&
        pkt.hdr.fc.subType == SIR_MAC_MGMT_AUTH) = false := by
      rcases hsub with h | h | h | ⟨h, _⟩ <;> rw [h] <;>
        simp [SIR_MAC_MGMT_AUTH, SIR_MAC_MGMT_PROBE_RSP, SIR_MAC_MGMT_BEACON,
          SIR_MAC_MGMT_PROBE_REQ, SIR_MAC_MGMT_ACTION]
    simp only [limHandle80211Frames_session, if_neg hese, hbss, htried]
    rcases hsub with h | h | h | ⟨h, hn⟩
    · rw [h]
      simp [SIR_MAC_MGMT_ACTION, SIR_MAC_MGMT_PROBE_RSP, SIR_MAC_MGMT_BEACON,
        SIR_MAC_MGMT_PROBE_REQ]
    · rw [h]
      simp [SIR_MAC_MGMT_ACTION, SIR_MAC_MGMT_PROBE_RSP, SIR_MAC_MGMT_BEACON,
        SIR_MAC_MGMT_PROBE_REQ]
    · rw [h]
      simp [SIR_MAC_MGMT_ACTION, SIR_MAC_MGMT_PROBE_RSP, SIR_MAC_MGMT_BEACON,
        SIR_MAC_MGMT_PROBE_REQ]
    · rw [h]
      simp [hn]
  refine ⟨fun h => ?_, fun h => ?_, fun h => ?_, fun h hda => ?_, fun c => ?_⟩
  · rw [hmain, hsess (Or.inl h)]
    simp only [hdisp]
    subst hpkt
    simp [limHandle80211Frames_switch, htype, h, __limHandleBeacon, SIR_MAC_MGMT_ASSOC_REQ,
      SIR_MAC_MGMT_ASSOC_RSP, SIR_MAC_MGMT_REASSOC_REQ, SIR_MAC_MGMT_REASSOC_RSP,
      SIR_MAC_MGMT_PROBE_REQ, SIR_MAC_MGMT_PROBE_RSP, SIR_MAC_MGMT_BEACON]
  · rw [hmain, hsess (Or.inr (Or.inl h))]
    simp only [hdisp]
    simp [limHandle80211Frames_switch, htype, h, SIR_MAC_MGMT_ASSOC_REQ,
      SIR_MAC_MGMT_ASSOC_RSP, SIR_MAC_MGMT_REASSOC_REQ, SIR_MAC_MGMT_REASSOC_RSP,
      SIR_MAC_MGMT_PROBE_REQ, SIR_MAC_MGMT_PROBE_RSP]
  · rw [hmain, hsess (Or.inr (Or.inr (Or.inl h)))]
    simp only [hdisp]
    simp [limHandle80211Frames_switch, htype, h, SIR_MAC_MGMT_ASSOC_REQ,
      SIR_MAC_MGMT_ASSOC_RSP, SIR_MAC_MGMT_REASSOC_REQ, SIR_MAC_MGMT_REASSOC_RSP,
      SIR_MAC_MGMT_PROBE_REQ]
  · rw [hmain, hsess (Or.inr (Or.inr (Or.inr ⟨h, hda⟩)))]
    simp only [hdisp]
    simp [limHandle80211Frames_switch, htype, h, SIR_MAC_MGMT_ASSOC_REQ,
      SIR_MAC_MGMT_ASSOC_RSP, SIR_MAC_MGMT_REASSOC_REQ, SIR_MAC_MGMT_REASSOC_RSP,
      SIR_MAC_MGMT_PROBE_REQ, SIR_MAC_MGMT_PROBE_RSP, SIR_MAC_MGMT_BEACON,
      SIR_MAC_MGMT_DISASSOC, SIR_MAC_MGMT_AUTH, SIR_MAC_MGMT_DEAUTH, SIR_MAC_MGMT_ACTION]
  · simp [limPktFree, callRelease, callHandler]

/-- C19 at a concrete input: with an empty session registry and no registration
a probe request (packet 4) outside scan state goes to
`limProcessProbeReqFrame_multiple_BSS` with session NULL, and the buffer is
released after it. -/
theorem limHandle80211Frames_no_session_witness :
    (envMgmt.limGetBDfromRxPacket () 4).hdr.fc.subType = SIR_MAC_MGMT_PROBE_REQ ∧
      limHandle80211Frames envMgmt (frameMsg 4) ⟨stNormal, []⟩ =
        (false, limPktFree envMgmt (envMgmt.limGetBDfromRxPacket () 4) (frameMsg 4)
          (callHandler envMgmt
            (Call.limProcessProbeReqFrame_multiple_BSS
              (envMgmt.limGetBDfromRxPacket () 4).addr none) ⟨stNormal, []⟩)) ∧
      (limHandle80211Frames envMgmt (frameMsg 4) ⟨stNormal, []⟩).2.trace =
        [Call.limProcessProbeReqFrame_multiple_BSS 4 none, Call.limPktFree 4 4] :=
  ⟨rfl,
   (limHandle80211Frames_no_session envMgmt (frameMsg 4) ⟨stNormal, []⟩
      (envMgmt.limGetBDfromRxPacket () 4) rfl (by decide) (by decide) rfl rfl rfl rfl
      (by decide)).2.2.1 rfl,
   rfl⟩

end Lim

namespace Lim

variable {σ : Type}

/-! ## C20: frames in scan state -/

/-- C20: `limHandleFramesInScanState`, for every frame and optional session:
(a) a management beacon goes to `limProcessBeaconFrameNoSession` if the session
is NULL and to `limProcessBeaconFrame` with the session otherwise; (b) a probe
response goes to `limProcessProbeRspFrameNoSession` if NULL and to
`limProcessProbeRspFrame` otherwise; (c) a probe request goes to
`limProcessProbeReqFrame_multiple_BSS`; (d) an action frame goes to
`limProcessActionFrameNoSession`; in (a)-(d) `*deferMsg` is false and the one
call after the handler is the release of the frame buffer; (e) for every other
type or subtype `*deferMsg` is true and no call is made at all. -/
theorem limHandleFramesInScanState_routing (env : Env σ) (limMsg : tSirMsgQ)
    (pRxPacketInfo : RxPacketInfo) (psessionEntry : Option Nat) (w : World σ) :
    (pRxPacketInfo.hdr.fc.type = SIR_MAC_MGMT_FRAME →
      pRxPacketInfo.hdr.fc.subType = SIR_MAC_MGMT_BEACON →
      (limHandleFramesInScanState env limMsg pRxPacketInfo psessionEntry w).1 = false ∧
      (limHandleFramesInScanState env limMsg pRxPacketInfo psessionEntry w).2.trace =
        w.trace ++
          [(match psessionEntry with
            | none => Call.limProcessBeaconFrameNoSession pRxPacketInfo.addr
            | some s => Call.limProcessBeaconFrame pRxPacketInfo.addr s),
           Call.limPktFree pRxPacketInfo.addr limMsg.bodyptr]) ∧
    (pRxPacketInfo.hdr.fc.type = SIR_MAC_MGMT_FRAME →
      pRxPacketInfo.hdr.fc.subType = SIR_MAC_MGMT_PROBE_RSP →
      (limHandleFramesInScanState env limMsg pRxPacketInfo psessionEntry w).1 = false ∧
      (limHandleFramesInScanState env limMsg pRxPacketInfo psessionEntry w).2.trace =
        w.trace ++
          [(match psessionEntry with
            | none => Call.limProcessProbeRspFrameNoSession pRxPacketInfo.addr
            | some s => Call.limProcessProbeRspFrame pRxPacketInfo.addr s),
           Call.limPktFree pRxPacketInfo.addr limMsg.bodyptr]) ∧
    (pRxPacketInfo.hdr.fc.type = SIR_MAC_MGMT_FRAME →
      pRxPacketInfo.hdr.fc.subType = SIR_MAC_MGMT_PROBE_REQ →
      (limHandleFramesInScanState env limMsg pRxPacketInfo psessionEntry w).1 = false ∧
      (limHandleFramesInScanState env limMsg pRxPacketInfo psessionEntry w).2.trace =
        w.trace ++
          [Call.limProcessProbeReqFrame_multiple_BSS pRxPacketInfo.addr psessionEntry,
           Call.limPktFree pRxPacketInfo.addr limMsg.bodyptr]) ∧
    (pRxPacketInfo.hdr.fc.type = SIR_MAC_MGMT_FRAME →
      pRxPacketInfo.hdr.fc.subType = SIR_MAC_MGMT_ACTION →
      (limHandleFramesInScanState env limMsg pRxPacketInfo psessionEntry w).1 = false ∧
      (limHandleFramesInScanState env limMsg pRxPacketInfo psessionEntry w).2.trace =
        w.trace ++
          [Call.limProcessActionFrameNoSession pRxPacketInfo.addr,
           Call.limPktFree pRxPacketInfo.addr limMsg.bodyptr]) ∧
    (¬ (pRxPacketInfo.hdr.fc.type = SIR_MAC_MGMT_FRAME ∧
        (pRxPacketInfo.hdr.fc.subType = SIR_MAC_MGMT_BEACON ∨
         pRxPacketInfo.hdr.fc.subType = SIR_MAC_MGMT_PROBE_RSP ∨
         pRxPacketInfo.hdr.fc.subType = SIR_MAC_MGMT_PROBE_REQ ∨
         pRxPacketInfo.hdr.fc.subType = SIR_MAC_MGMT_ACTION)) →
      limHandleFramesInScanState env limMsg pRxPacketInfo psessionEntry w = (true, w)) := by
  refine ⟨fun ht hs => ?_, fun ht hs => ?_, fun ht hs => ?_, fun ht hs => ?_, fun hno => ?_⟩
  · cases psessionEntry <;>
      simp [limHandleFramesInScanState, ht, hs, limPktFree, callRelease, callHandler]
  · cases psessionEntry <;>
      simp [limHandleFramesInScanState, ht, hs, limPktFree, callRelease, callHandler,
        SIR_MAC_MGMT_PROBE_RSP, SIR_MAC_MGMT_BEACON]
  · simp [limHandleFramesInScanState, ht, hs, limPktFree, callRelease, callHandler,
      SIR_MAC_MGMT_PROBE_RSP, SIR_MAC_MGMT_BEACON, SIR_MAC_MGMT_PROBE_REQ]
  · simp [limHandleFramesInScanState, ht, hs, limPktFree, callRelease, callHandler,
      SIR_MAC_MGMT_PROBE_RSP, SIR_MAC_MGMT_BEACON, SIR_MAC_MGMT_PROBE_REQ,
      SIR_MAC_MGMT_ACTION]
  · have h1 : ¬ (pRxPacketInfo.hdr.fc.type = SIR_MAC_MGMT_FRAME ∧
        pRxPacketInfo.hdr.fc.subType = SIR_MAC_MGMT_BEACON) :=
      fun h => hno ⟨h.1, Or.inl h.2⟩
    have h2 : ¬ (pRxPacketInfo.hdr.fc.type = SIR_MAC_MGMT_FRAME ∧
        pRxPacketInfo.hdr.fc.subType = SIR_MAC_MGMT_PROBE_RSP) :=
      fun h => hno ⟨h.1, Or.inr (Or.inl h.2)⟩
    have h3 : ¬ (pRxPacketInfo.hdr.fc.type = SIR_MAC_MGMT_FRAME ∧
        pRxPacketInfo.hdr.fc.subType = SIR_MAC_MGMT_PROBE_REQ) :=
      fun h => hno ⟨h.1, Or.inr (Or.inr (Or.inl h.2))⟩
    have h4 : ¬ (pRxPacketInfo.hdr.fc.type = SIR_MAC_MGMT_FRAME ∧
        pRxPacketInfo.hdr.fc.subType = SIR_MAC_MGMT_ACTION) :=
      fun h => hno ⟨h.1, Or.inr (Or.inr (Or.inr h.2))⟩
    simp only [limHandleFramesInScanState, if_neg h1, if_neg h2, if_neg h3, if_neg h4]

/-- C20 at concrete inputs: in scan state a beacon for session 7 is handled and
its buffer released; a deauthentication frame is left for deferral. -/
theorem limHandleFramesInScanState_routing_witness :
    ((limHandleFramesInScanState envQuiet (msgOf MsgType.SIR_BB_XPORT_MGMT_MSG)
        (rxFrame 5 SIR_MAC_MGMT_FRAME SIR_MAC_MGMT_BEACON) (some 7) ⟨stNormal, []⟩).1 = false ∧
      (limHandleFramesInScanState envQuiet (msgOf MsgType.SIR_BB_XPORT_MGMT_MSG)
        (rxFrame 5 SIR_MAC_MGMT_FRAME SIR_MAC_MGMT_BEACON) (some 7) ⟨stNormal, []⟩).2.trace =
        [] ++
          [(match (some 7 : Option Nat) with
            | none => Call.limProcessBeaconFrameNoSession
                (rxFrame 5 SIR_MAC_MGMT_FRAME SIR_MAC_MGMT_BEACON).addr
            | some s => Call.limProcessBeaconFrame
                (rxFrame 5 SIR_MAC_MGMT_FRAME SIR_MAC_MGMT_BEACON).addr s),
           Call.limPktFree (rxFrame 5 SIR_MAC_MGMT_FRAME SIR_MAC_MGMT_BEACON).addr
             (msgOf MsgType.SIR_BB_XPORT_MGMT_MSG).bodyptr]) ∧
    limHandleFramesInScanState envQuiet (msgOf MsgType.SIR_BB_XPORT_MGMT_MSG)
        (rxFrame 5 SIR_MAC_MGMT_FRAME SIR_MAC_MGMT_DEAUTH) (some 7) ⟨stNormal, []⟩ =
      (true, ⟨stNormal, []⟩) :=
  ⟨(limHandleFramesInScanState_routing envQuiet (msgOf MsgType.SIR_BB_XPORT_MGMT_MSG)
      (rxFrame 5 SIR_MAC_MGMT_FRAME SIR_MAC_MGMT_BEACON) (some 7) ⟨stNormal, []⟩).1 rfl rfl,
   (limHandleFramesInScanState_routing envQuiet (msgOf MsgType.SIR_BB_XPORT_MGMT_MSG)
      (rxFrame 5 SIR_MAC_MGMT_FRAME SIR_MAC_MGMT_DEAUTH) (some 7) ⟨stNormal, []⟩).2.2.2.2
      (by decide)⟩

end Lim

namespace Lim

variable {σ : Type}

theorem limProcessMessages_switch_frame (env : Env σ) (m : tSirMsgQ) (w : World σ)
    (h : m.type = MsgType.SIR_BB_XPORT_MGMT_MSG) :
    limProcessMessages_switch env m w = limProcessMessages_frame env m w := by
  unfold limProcessMessages_switch
  simp only [h]

theorem limProcessMessages_not_mfg (env : Env σ) (m : tSirMsgQ) (w : World σ)
    (h : w.st.gDriverType ≠ eDRIVER_TYPE_MFG) :
    limProcessMessages env m w =
      limProcessMessages_switch env m (note (Call.limProcessMessages m) w) := by
  unfold limProcessMessages
  dsimp only
  rw [if_neg (by simpa [note] using h)]

/-! ## C21: who owns the packet of a received frame -/

/-- C21, counterexample: with the manufacturing driver a received-frame message
with body 5 is neither enqueued nor returned by `vos_pkt_return_packet`: the
dispatcher hands the body to `vos_mem_free` and leaves. -/
theorem limProcessMessages_frame_mfg_counterexample :
    (frameMsg 5).type = MsgType.SIR_BB_XPORT_MGMT_MSG ∧ (frameMsg 5).bodyptr ≠ 0 ∧
    (limProcessMessages envMgmt (frameMsg 5)
        ⟨{ stNormal with gDriverType := eDRIVER_TYPE_MFG }, []⟩).2.trace =
      [Call.limProcessMessages (frameMsg 5), Call.vos_mem_free 5] ∧
    returned (limProcessMessages envMgmt (frameMsg 5)
        ⟨{ stNormal with gDriverType := eDRIVER_TYPE_MFG }, []⟩).2.trace = [] ∧
    (limProcessMessages envMgmt (frameMsg 5)
        ⟨{ stNormal with gDriverType := eDRIVER_TYPE_MFG }, []⟩).2.st.gLimDeferredMsgQ = [] := by
  decide

/-- C21, amended: with a driver that is not the manufacturing driver, for every
`SIR_BB_XPORT_MGMT_MSG` message with a body that is not NULL, exactly one of two
things happens in `limProcessMessages`.  Either the message is enqueued: the
last thing done is a `limDeferMsg` on the message that succeeds, it is the only
one, and `vos_pkt_return_packet` is not called.  Or `vos_pkt_return_packet` is
called exactly once, on the packet, as the last call: then `limDeferMsg` was not
called, or it was called once, failed and left the queue as it was.  The
message itself is left unchanged. -/
theorem limProcessMessages_frame_ownership (env : Env σ) (limMsg : tSirMsgQ) (w : World σ)
    (hmfg : w.st.gDriverType ≠ eDRIVER_TYPE_MFG)
    (htype : limMsg.type = MsgType.SIR_BB_XPORT_MGMT_MSG)
    (hbody : limMsg.bodyptr ≠ 0) :
    (limProcessMessages env limMsg w).1 = limMsg ∧
    ((returned (limProcessMessages env limMsg w).2.trace = returned w.trace ∧
        deferCalls (limProcessMessages env limMsg w).2.trace = deferCalls w.trace ++ [limMsg] ∧
        ∃ w1 : World σ, (limDeferMsg env limMsg w1).1 = TxStatus.TX_SUCCESS ∧
          (limProcessMessages env limMsg w).2 = (limDeferMsg env limMsg w1).2 ∧
          (limProcessMessages env limMsg w).2.st.gLimDeferredMsgQ =
            w1.st.gLimDeferredMsgQ ++ [limMsg]) ∨
     (returned (limProcessMessages env limMsg w).2.trace =
          returned w.trace ++ [limMsg.bodyptr] ∧
        (∃ w1 : World σ, (limProcessMessages env limMsg w).2 =
          callRelease env (Call.vos_pkt_return_packet limMsg.bodyptr) w1) ∧
        (deferCalls (limProcessMessages env limMsg w).2.trace = deferCalls w.trace ∨
          (deferCalls (limProcessMessages env limMsg w).2.trace =
              deferCalls w.trace ++ [limMsg] ∧
            ∃ w1 : World σ, (limDeferMsg env limMsg w1).1 ≠ TxStatus.TX_SUCCESS ∧
              (limProcessMessages env limMsg w).2.st.gLimDeferredMsgQ =
                w1.st.gLimDeferredMsgQ)))) ∧
    returned w.trace ≠ returned w.trace ++ [limMsg.bodyptr] := by
  rw [limProcessMessages_not_mfg env limMsg w hmfg,
    limProcessMessages_switch_frame env limMsg _ htype]
  have hret0 : returned (note (Call.limProcessMessages limMsg) w).trace = returned w.trace := by
    simp [note, returned_append, returned]
  have hdef0 : deferCalls (note (Call.limProcessMessages limMsg) w).trace =
      deferCalls w.trace := by
    simp [note, deferCalls_append, deferCalls]
  generalize note (Call.limProcessMessages limMsg) w = w0 at hret0 hdef0 ⊢
  refine ⟨?_, ?_, ?_⟩
  · unfold limProcessMessages_frame
    rw [if_neg hbody]
    dsimp only
    repeat' split
    all_goals rfl
  · unfold limProcessMessages_frame
    rw [if_neg hbody]
    dsimp only
    cases hpeek : env.WDA_DS_PeekRxPacketInfo w0.st.collab limMsg.bodyptr with
    | none =>
      right
      dsimp only
      refine ⟨?_, ⟨_, rfl⟩, Or.inl ?_⟩
      · simp [callRelease, returned_append, returned, hret0]
      · simp [callRelease, deferCalls_append, deferCalls, hdef0]
    | some bd =>
      dsimp only
      have hg := grows_limHandle80211Frames env _ { limMsg with bodyptr := bd } w0
        (grows_refl _ _)
      have hret := returned_of_grows _ _ hg
      have hdef := deferCalls_of_grows _ _ hg
      rw [hret0] at hret
      rw [hdef0] at hdef
      generalize limHandle80211Frames env { limMsg with bodyptr := bd } w0 = r at hret hdef ⊢
      by_cases hr : r.1 = true
      · rw [if_pos hr]
        by_cases hd : (limDeferMsg env limMsg r.2).1 ≠ TxStatus.TX_SUCCESS
        · rw [if_pos hd]
          right
          refine ⟨?_, ⟨_, rfl⟩, Or.inr ⟨?_, _, hd, ?_⟩⟩
          · simp [callRelease, note, limDeferMsg, returned_append, returned, hret]
          · simp [callRelease, note, limDeferMsg, deferCalls_append, deferCalls, hdef]
          · have hq := limWriteDeferredMsgQ_fail env limMsg _ hd
            simp only [callRelease, note, limDeferMsg]
            rw [hq]
        · rw [if_neg hd]
          left
          have hok : (limDeferMsg env limMsg r.2).1 = TxStatus.TX_SUCCESS := by
            by_contra hc
            exact hd hc
          refine ⟨?_, ?_, _, hok, rfl, ?_⟩
          · simp [limDeferMsg, returned_append, returned, hret]
          · simp [limDeferMsg, deferCalls_append, deferCalls, hdef]
          · exact limWriteDeferredMsgQ_ok env limMsg _ hok
      · rw [if_neg hr]
        right
        refine ⟨?_, ⟨_, rfl⟩, Or.inl ?_⟩
        · simp [callRelease, returned_append, returned, hret]
        · simp [callRelease, deferCalls_append, deferCalls, hdef]
  · intro h
    have := congrArg List.length h
    simp at this

/-- C21 at a concrete input: outside scan state a beacon in packet 8 is handled
and the packet is returned once. -/
theorem limProcessMessages_frame_ownership_witness :
    (limProcessMessages envMgmt (frameMsg 8) ⟨stNormal, []⟩).1 = frameMsg 8 ∧
    (limProcessMessages envMgmt (frameMsg 8) ⟨stNormal, []⟩).2.trace =
      [Call.limProcessMessages (frameMsg 8), Call.schBeaconProcess 8 none,
       Call.limPktFree 8 8, Call.vos_pkt_return_packet 8] :=
  ⟨(limProcessMessages_frame_ownership envMgmt (frameMsg 8) ⟨stNormal, []⟩
      (by decide) rfl (by decide)).1, by decide⟩

end Lim

namespace Lim

variable {σ : Type}

theorem limProcessMessages_switch_heartbeat (env : Env σ) (m : tSirMsgQ) (w : World σ)
    (h : m.type = MsgType.SIR_LIM_HEART_BEAT_TIMEOUT) :
    limProcessMessages_switch env m w =
      if w.st.psOffloadEnabled ≠ 0 then
        if m.bodyptr = 0 then
          (m, w)
        else
          (m, callHandler env (Call.limHandleHeartBeatTimeoutForSession m.bodyptr)
            (callHandler env (Call.limResetHBPktCount m.bodyptr) w))
      else if limIsSystemInScanState env w.st then
        if (limDeferMsg env m w).1 ≠ TxStatus.TX_SUCCESS then
          (m, note Call.limLogSessionStates (limDeferMsg env m w).2)
        else
          (m, (limDeferMsg env m w).2)
      else if m.bodyptr = 0 then
        (m, callHandler env Call.limHandleHeartBeatTimeout w)
      else
        (m, callHandler env (Call.limHandleHeartBeatTimeoutForSession m.bodyptr) w) := by
  unfold limProcessMessages_switch
  simp only [h]

/-! ## C22: a heartbeat timeout in scan state -/

/-- C22, counterexample: with power-save offload enabled, a heartbeat timeout
for session 7 dispatched in scan state is not passed to `limDeferMsg`: the
packet count is reset and `limHandleHeartBeatTimeoutForSession` runs.  With the
manufacturing driver it is not passed to `limDeferMsg` either: the body is
freed. -/
theorem limProcessMessages_heartbeat_offload_counterexample :
    limIsSystemInScanState envScan
        { stNormal with gLimSmeState := tLimSmeStates.other 3, psOffloadEnabled := 1 } = true ∧
    (limProcessMessages envScan { msgOf MsgType.SIR_LIM_HEART_BEAT_TIMEOUT with bodyptr := 7 }
        ⟨{ stNormal with gLimSmeState := tLimSmeStates.other 3, psOffloadEnabled := 1 },
          []⟩).2.trace =
      [Call.limProcessMessages { msgOf MsgType.SIR_LIM_HEART_BEAT_TIMEOUT with bodyptr := 7 },
       Call.limResetHBPktCount 7, Call.limHandleHeartBeatTimeoutForSession 7] ∧
    (limProcessMessages envScan { msgOf MsgType.SIR_LIM_HEART_BEAT_TIMEOUT with bodyptr := 7 }
        ⟨{ stNormal with gLimSmeState := tLimSmeStates.other 3, psOffloadEnabled := 1 },
          []⟩).2.st.gLimDeferredMsgQ = [] ∧
    (limProcessMessages envScan { msgOf MsgType.SIR_LIM_HEART_BEAT_TIMEOUT with bodyptr := 7 }
        ⟨{ stNormal with
            gLimSmeState := tLimSmeStates.other 3
            gDriverType := eDRIVER_TYPE_MFG }, []⟩).2.trace =
      [Call.limProcessMessages { msgOf MsgType.SIR_LIM_HEART_BEAT_TIMEOUT with bodyptr := 7 },
       Call.vos_mem_free 7] := by
  decide

/-- C22, amended: with a driver that is not the manufacturing driver and
power-save offload disabled, a `SIR_LIM_HEART_BEAT_TIMEOUT` event dispatched by
`limProcessMessages` in scan state is passed to `limDeferMsg` exactly once and
no heartbeat handler is invoked: the calls made are the entry, `limDeferMsg` on
the event and, if the write failed, `limLogSessionStates`. -/
theorem limProcessMessages_heartbeat_scan (env : Env σ) (limMsg : tSirMsgQ) (w : World σ)
    (hmfg : w.st.gDriverType ≠ eDRIVER_TYPE_MFG)
    (hps : w.st.psOffloadEnabled = 0)
    (htype : limMsg.type = MsgType.SIR_LIM_HEART_BEAT_TIMEOUT)
    (hscan : limIsSystemInScanState env w.st = true) :
    (limProcessMessages env limMsg w).1 = limMsg ∧
    deferCalls (limProcessMessages env limMsg w).2.trace = deferCalls w.trace ++ [limMsg] ∧
    ((limProcessMessages env limMsg w).2.trace =
        w.trace ++ [Call.limProcessMessages limMsg, Call.limDeferMsg limMsg] ∨
      (limProcessMessages env limMsg w).2.trace =
        w.trace ++ [Call.limProcessMessages limMsg, Call.limDeferMsg limMsg,
          Call.limLogSessionStates]) := by
  rw [limProcessMessages_not_mfg env limMsg w hmfg,
    limProcessMessages_switch_heartbeat env limMsg _ htype]
  have hps1 : ¬ ((note (Call.limProcessMessages limMsg) w).st.psOffloadEnabled ≠ 0) := by
    simp [note, hps]
  have hscan1 : limIsSystemInScanState env (note (Call.limProcessMessages limMsg) w).st = true := by
    simpa [note] using hscan
  rw [if_neg hps1, if_pos hscan1]
  by_cases hd : (limDeferMsg env limMsg (note (Call.limProcessMessages limMsg) w)).1 ≠
      TxStatus.TX_SUCCESS
  · rw [if_pos hd]
    refine ⟨rfl, ?_, Or.inr ?_⟩
    · simp [note, limDeferMsg, deferCalls_append, deferCalls]
    · simp [note, limDeferMsg]
  · rw [if_neg hd]
    refine ⟨rfl, ?_, Or.inl ?_⟩
    · simp [note, limDeferMsg, deferCalls_append, deferCalls]
    · simp [note, limDeferMsg]

/-- C22 at a concrete input: a heartbeat timeout for session 7 in scan state,
power-save offload disabled, is deferred. -/
theorem limProcessMessages_heartbeat_scan_witness :
    deferCalls (limProcessMessages envScan
        { msgOf MsgType.SIR_LIM_HEART_BEAT_TIMEOUT with bodyptr := 7 }
        ⟨{ stNormal with gLimSmeState := tLimSmeStates.other 3 }, []⟩).2.trace =
      deferCalls [] ++ [{ msgOf MsgType.SIR_LIM_HEART_BEAT_TIMEOUT with bodyptr := 7 }] :=
  (limProcessMessages_heartbeat_scan envScan
    { msgOf MsgType.SIR_LIM_HEART_BEAT_TIMEOUT with bodyptr := 7 }
    ⟨{ stNormal with gLimSmeState := tLimSmeStates.other 3 }, []⟩
    (by decide) rfl rfl (by decide)).2.1

/-! ## C23: which heartbeat handler runs -/

/-- C23, counterexample: with power-save offload enabled, a heartbeat timeout
that carries no session, dispatched outside scan state, is not deferred and no
handler runs: neither `limHandleHeartBeatTimeout` nor
`limHandleHeartBeatTimeoutForSession`.  With the manufacturing driver a
heartbeat timeout for session 7 is not deferred and reaches no handler: the body
is freed. -/
theorem limProcessMessages_heartbeat_no_handler_counterexample :
    (msgOf MsgType.SIR_LIM_HEART_BEAT_TIMEOUT).bodyptr = 0 ∧
    limProcessMessages envQuiet (msgOf MsgType.SIR_LIM_HEART_BEAT_TIMEOUT)
        ⟨{ stNormal with psOffloadEnabled := 1 }, []⟩ =
      (msgOf MsgType.SIR_LIM_HEART_BEAT_TIMEOUT,
        ⟨{ stNormal with psOffloadEnabled := 1 },
          [Call.limProcessMessages (msgOf MsgType.SIR_LIM_HEART_BEAT_TIMEOUT)]⟩) ∧
    (limProcessMessages envQuiet { msgOf MsgType.SIR_LIM_HEART_BEAT_TIMEOUT with bodyptr := 7 }
        ⟨{ stNormal with gDriverType := eDRIVER_TYPE_MFG }, []⟩).2.trace =
      [Call.limProcessMessages { msgOf MsgType.SIR_LIM_HEART_BEAT_TIMEOUT with bodyptr := 7 },
       Call.vos_mem_free 7] := by
  decide

/-- C23, amended: with a driver that is not the manufacturing driver, a
`SIR_LIM_HEART_BEAT_TIMEOUT` event that is not deferred is routed as follows.
With power-save offload disabled (then outside scan state): the only call is
`limHandleHeartBeatTimeoutForSession` with the carried session when `bodyptr` is
not NULL, and `limHandleHeartBeatTimeout` when it is NULL.  With power-save
offload enabled (in any state): with a session, `limResetHBPktCount` and then
`limHandleHeartBeatTimeoutForSession` are called on it; without one, no handler
is called at all. -/
theorem limProcessMessages_heartbeat_routing (env : Env σ) (limMsg : tSirMsgQ) (w : World σ)
    (hmfg : w.st.gDriverType ≠ eDRIVER_TYPE_MFG)
    (htype : limMsg.type = MsgType.SIR_LIM_HEART_BEAT_TIMEOUT) :
    (w.st.psOffloadEnabled = 0 → limIsSystemInScanState env w.st = false →
      (limMsg.bodyptr ≠ 0 →
        limProcessMessages env limMsg w =
          (limMsg, callHandler env (Call.limHandleHeartBeatTimeoutForSession limMsg.bodyptr)
            (note (Call.limProcessMessages limMsg) w))) ∧
      (limMsg.bodyptr = 0 →
        limProcessMessages env limMsg w =
          (limMsg, callHandler env Call.limHandleHeartBeatTimeout
            (note (Call.limProcessMessages limMsg) w)))) ∧
    (w.st.psOffloadEnabled ≠ 0 →
      (limMsg.bodyptr ≠ 0 →
        limProcessMessages env limMsg w =
          (limMsg, callHandler env (Call.limHandleHeartBeatTimeoutForSession limMsg.bodyptr)
            (callHandler env (Call.limResetHBPktCount limMsg.bodyptr)
              (note (Call.limProcessMessages limMsg) w)))) ∧
      (limMsg.bodyptr = 0 →
        limProcessMessages env limMsg w =
          (limMsg, note (Call.limProcessMessages limMsg) w))) := by
  rw [limProcessMessages_not_mfg env limMsg w hmfg,
    limProcessMessages_switch_heartbeat env limMsg _ htype]
  refine ⟨fun hps hscan => ?_, fun hps => ?_⟩
  · have hps1 : ¬ ((note (Call.limProcessMessages limMsg) w).st.psOffloadEnabled ≠ 0) := by
      simp [note, hps]
    have hscan1 : ¬ (limIsSystemInScanState env
        (note (Call.limProcessMessages limMsg) w).st = true) := by
      simp [note, hscan]
    rw [if_neg hps1, if_neg hscan1]
    exact ⟨fun hb => by rw [if_neg hb], fun hb => by rw [if_pos hb]⟩
  · have hps1 : (note (Call.limProcessMessages limMsg) w).st.psOffloadEnabled ≠ 0 := by
      simpa [note] using hps
    rw [if_pos hps1]
    exact ⟨fun hb => by rw [if_neg hb], fun hb => by rw [if_pos hb]⟩

/-- C23 at a concrete input: outside scan state, power-save offload disabled, a
heartbeat timeout for session 7 goes to the handler of the session. -/
theorem limProcessMessages_heartbeat_routing_witness :
    limProcessMessages envQuiet { msgOf MsgType.SIR_LIM_HEART_BEAT_TIMEOUT with bodyptr := 7 }
        ⟨stNormal, []⟩ =
      ({ msgOf MsgType.SIR_LIM_HEART_BEAT_TIMEOUT with bodyptr := 7 },
        callHandler envQuiet
          (Call.limHandleHeartBeatTimeoutForSession
            ({ msgOf MsgType.SIR_LIM_HEART_BEAT_TIMEOUT with bodyptr := 7 } : tSirMsgQ).bodyptr)
          (note (Call.limProcessMessages
            { msgOf MsgType.SIR_LIM_HEART_BEAT_TIMEOUT with bodyptr := 7 }) ⟨stNormal, []⟩)) :=
  ((limProcessMessages_heartbeat_routing envQuiet
    { msgOf MsgType.SIR_LIM_HEART_BEAT_TIMEOUT with bodyptr := 7 } ⟨stNormal, []⟩
    (by decide) rfl).1 rfl rfl).1 (by decide)

end Lim

namespace Lim

variable {σ : Type}

theorem limProcessMessages_switch_response (env : Env σ) (m : tSirMsgQ) (w : World σ)
    (f : Handler) (h : responseHandlerOf m.type = some f) :
    limProcessMessages_switch env m w = halResponseHandler env f m w := by
  obtain ⟨type, reserved, bodyptr, bodyval⟩ := m
  cases type <;> dsimp only [responseHandlerOf] at h <;> cases h <;> rfl

theorem limProcessMessages_switch_oem (env : Env σ) (m : tSirMsgQ) (w : World σ)
    (h : m.type = MsgType.WDA_START_OEM_DATA_RSP) (hoem : env.FEATURE_OEM_DATA_SUPPORT = true) :
    limProcessMessages_switch env m w =
      ({ m with bodyptr := 0 }, limProcessOemDataRsp env m.bodyptr w) := by
  unfold limProcessMessages_switch
  simp only [h, hoem, if_true]

/-! ## C24: firmware responses and the busy flag -/

/-- C24, counterexample: with the manufacturing driver a delete-station response
that arrives while the busy flag is false is freed and the flag stays false. -/
theorem limProcessMessages_response_mfg_counterexample :
    (limProcessMessages envQuiet (msgOf MsgType.WDA_DELETE_STA_RSP)
        ⟨{ stNormal with gDriverType := eDRIVER_TYPE_MFG, gLimProcessDefdMsgs := 0 },
          []⟩).2.trace =
      [Call.limProcessMessages (msgOf MsgType.WDA_DELETE_STA_RSP), Call.vos_mem_free 0] ∧
    (limProcessMessages envQuiet (msgOf MsgType.WDA_DELETE_STA_RSP)
        ⟨{ stNormal with gDriverType := eDRIVER_TYPE_MFG, gLimProcessDefdMsgs := 0 },
          []⟩).2.st.gLimProcessDefdMsgs = 0 := by
  decide

/-- C24, amended: with a driver that is not the manufacturing driver, for a firmware
round-trip response (add or delete station, add or delete BSS, set or remove
key, ADDBA; the OEM-data response in a build with OEM-data support), whatever
its body holds: the first thing done after the entry is to set
`gLimProcessDefdMsgs` to true; the rest of the handler (for the OEM-data
response: the post of `LIM_MLM_OEM_DATA_CNF`) runs in a state in which the flag
is true; and the flag is true after `limProcessMessages` if that rest does not
write it. -/
theorem limProcessMessages_response_sets_flag (env : Env σ) (limMsg : tSirMsgQ) (w : World σ)
    (hmfg : w.st.gDriverType ≠ eDRIVER_TYPE_MFG) :
    (SET_LIM_PROCESS_DEFD_MESGS 1 (note (Call.limProcessMessages limMsg) w)).st.gLimProcessDefdMsgs
      = 1 ∧
    (∀ f : Handler, responseHandlerOf limMsg.type = some f →
      limProcessMessages env limMsg w =
        callMsgHandler env f limMsg
          (SET_LIM_PROCESS_DEFD_MESGS 1 (note (Call.limProcessMessages limMsg) w)) ∧
      ((env.msgHandler f limMsg
          (SET_LIM_PROCESS_DEFD_MESGS 1
            (note (Call.limProcessMessages limMsg) w)).st).2.gLimProcessDefdMsgs =
          (SET_LIM_PROCESS_DEFD_MESGS 1
            (note (Call.limProcessMessages limMsg) w)).st.gLimProcessDefdMsgs →
        (limProcessMessages env limMsg w).2.st.gLimProcessDefdMsgs = 1)) ∧
    (limMsg.type = MsgType.WDA_START_OEM_DATA_RSP → env.FEATURE_OEM_DATA_SUPPORT = true →
      limProcessMessages env limMsg w =
        ({ limMsg with bodyptr := 0 },
          callHandler env (Call.limPostSmeMessage MsgType.LIM_MLM_OEM_DATA_CNF limMsg.bodyptr)
            (SET_LIM_PROCESS_DEFD_MESGS 1 (note (Call.limProcessMessages limMsg) w))) ∧
      ((env.handler (Call.limPostSmeMessage MsgType.LIM_MLM_OEM_DATA_CNF limMsg.bodyptr)
          (SET_LIM_PROCESS_DEFD_MESGS 1
            (note (Call.limProcessMessages limMsg) w)).st).gLimProcessDefdMsgs =
          (SET_LIM_PROCESS_DEFD_MESGS 1
            (note (Call.limProcessMessages limMsg) w)).st.gLimProcessDefdMsgs →
        (limProcessMessages env limMsg w).2.st.gLimProcessDefdMsgs = 1)) := by
  refine ⟨rfl, fun f hf => ?_, fun ht hoem => ?_⟩
  · rw [limProcessMessages_not_mfg env limMsg w hmfg,
      limProcessMessages_switch_response env limMsg _ f hf]
    refine ⟨rfl, fun hkeep => ?_⟩
    simp only [halResponseHandler, callMsgHandler]
    rw [hkeep]
    rfl
  · rw [limProcessMessages_not_mfg env limMsg w hmfg,
      limProcessMessages_switch_oem env limMsg _ ht hoem]
    refine ⟨rfl, fun hkeep => ?_⟩
    simp only [limProcessOemDataRsp, callHandler]
    rw [hkeep]
    rfl

/-- C24, amended, at a concrete input: a delete-station response arriving while the busy
flag is false leaves the flag true. -/
theorem limProcessMessages_response_sets_flag_witness :
    (limProcessMessages envQuiet (msgOf MsgType.WDA_DELETE_STA_RSP)
        ⟨{ stNormal with gLimProcessDefdMsgs := 0 }, []⟩).2.st.gLimProcessDefdMsgs = 1 :=
  ((limProcessMessages_response_sets_flag envQuiet (msgOf MsgType.WDA_DELETE_STA_RSP)
      ⟨{ stNormal with gLimProcessDefdMsgs := 0 }, []⟩ (by decide)).2.1
    Handler.limProcessMlmDelStaRsp rfl).2 rfl

end Lim

namespace Lim

variable {σ : Type}

/-! ## C25: requests of the upper layer -/

/-- C25 fails as stated: in scan state, with the manufacturing driver, a join
request handed to the dispatcher is freed and nothing else is called: it is not
passed to `limDeferMsg`.  And with the production driver and the eight slots of
the deferred queue taken, the join request is passed to `limDeferMsg`, the write
fails, the failure is reported and the body freed: the queue is as it was, so
the request is not retained and no replay will run its handler. -/
theorem limProcessMessages_join_counterexample :
    limIsSystemInScanState envScan
      { stNormal with gDriverType := eDRIVER_TYPE_MFG, gLimSmeState := tLimSmeStates.other 3 } =
        true ∧
    limProcessMessages envScan { msgOf MsgType.eWNI_SME_JOIN_REQ with bodyptr := 7 }
        ⟨{ stNormal with
            gDriverType := eDRIVER_TYPE_MFG
            gLimSmeState := tLimSmeStates.other 3 }, []⟩ =
      (msgOf MsgType.eWNI_SME_JOIN_REQ,
        ⟨{ stNormal with
            gDriverType := eDRIVER_TYPE_MFG
            gLimSmeState := tLimSmeStates.other 3 },
          [Call.limProcessMessages { msgOf MsgType.eWNI_SME_JOIN_REQ with bodyptr := 7 },
           Call.vos_mem_free 7]⟩) ∧
    limProcessMessages envScan { msgOf MsgType.eWNI_SME_JOIN_REQ with bodyptr := 7 }
        ⟨{ stNormal with
            gLimSmeState := tLimSmeStates.other 3
            gLimDeferredMsgQ := List.replicate 8 (msgOf (MsgType.other 1)) }, []⟩ =
      (msgOf MsgType.eWNI_SME_JOIN_REQ,
        ⟨{ stNormal with
            gLimSmeState := tLimSmeStates.other 3
            gLimDeferredMsgQ := List.replicate 8 (msgOf (MsgType.other 1)) },
          [Call.limProcessMessages { msgOf MsgType.eWNI_SME_JOIN_REQ with bodyptr := 7 },
           Call.limDeferMsg { msgOf MsgType.eWNI_SME_JOIN_REQ with bodyptr := 7 },
           Call.limLogSessionStates, Call.vos_mem_free 7]⟩) := by
  refine ⟨by decide, by decide, by decide⟩

/-- C25, amended: for every message and state, `limProcessNormalHddMsg` passes the
message to `limDeferMsg` if and only if (`gLimAddtsSent` is set or the system is
in scan state) and not (the global role is AP, BT-AMP AP, BT-AMP STA or unknown
and the kind is one of `START_BSS_REQ`, `STOP_BSS_REQ`, `SWITCH_CHL_REQ`,
`SWITCH_CHL_CB_PRIMARY_REQ`, `SWITCH_CHL_CB_SECONDARY_REQ`).  When it does,
`limProcessSmeReqMessages` is not called: the calls are `limDeferMsg` and, if the
write failed, `limLogSessionStates` and the release of the body.  Otherwise
`limDeferMsg` is not called and `limProcessSmeReqMessages` is called exactly
once, followed by the release of the body if it returned true.  In particular a
join request handed over in scan state is passed to `limDeferMsg` in every role,
and with a driver that is not the manufacturing driver the dispatcher hands
every join request to this function.  A message passed to `limDeferMsg` is
appended to the deferred queue, unchanged, when the queue has a free slot and
the write is not refused; otherwise the queue is left as it was, the failure is
reported and the body of the message freed.  With the manufacturing driver the
dispatcher frees the body of the message and calls nothing else. -/
theorem limProcessNormalHddMsg_rule (env : Env σ) (pLimMsg : tSirMsgQ) (fRspReqd : Bool)
    (w : World σ) :
    (((w.st.gLimAddtsSent ≠ 0 ∨ limIsSystemInScanState env w.st = true) ∧
        ¬ ((w.st.gLimSystemRole = tLimSystemRole.eLIM_AP_ROLE ∨
            w.st.gLimSystemRole = tLimSystemRole.eLIM_BT_AMP_AP_ROLE ∨
            w.st.gLimSystemRole = tLimSystemRole.eLIM_BT_AMP_STA_ROLE ∨
            w.st.gLimSystemRole = tLimSystemRole.eLIM_UNKNOWN_ROLE) ∧
           (pLimMsg.type = MsgType.eWNI_SME_START_BSS_REQ ∨
            pLimMsg.type = MsgType.eWNI_SME_STOP_BSS_REQ ∨
            pLimMsg.type = MsgType.eWNI_SME_SWITCH_CHL_REQ ∨
            pLimMsg.type = MsgType.eWNI_SME_SWITCH_CHL_CB_SECONDARY_REQ ∨
            pLimMsg.type = MsgType.eWNI_SME_SWITCH_CHL_CB_PRIMARY_REQ))) →
      deferCalls (limProcessNormalHddMsg env pLimMsg fRspReqd w).2.trace =
        deferCalls w.trace ++ [pLimMsg] ∧
      ((limProcessNormalHddMsg env pLimMsg fRspReqd w).2.trace =
          w.trace ++ [Call.limDeferMsg pLimMsg] ∨
        (limProcessNormalHddMsg env pLimMsg fRspReqd w).2.trace =
          w.trace ++ [Call.limDeferMsg pLimMsg, Call.limLogSessionStates,
            Call.vos_mem_free pLimMsg.bodyptr])) ∧
    (¬ ((w.st.gLimAddtsSent ≠ 0 ∨ limIsSystemInScanState env w.st = true) ∧
        ¬ ((w.st.gLimSystemRole = tLimSystemRole.eLIM_AP_ROLE ∨
            w.st.gLimSystemRole = tLimSystemRole.eLIM_BT_AMP_AP_ROLE ∨
            w.st.gLimSystemRole = tLimSystemRole.eLIM_BT_AMP_STA_ROLE ∨
            w.st.gLimSystemRole = tLimSystemRole.eLIM_UNKNOWN_ROLE) ∧
           (pLimMsg.type = MsgType.eWNI_SME_START_BSS_REQ ∨
            pLimMsg.type = MsgType.eWNI_SME_STOP_BSS_REQ ∨
            pLimMsg.type = MsgType.eWNI_SME_SWITCH_CHL_REQ ∨
            pLimMsg.type = MsgType.eWNI_SME_SWITCH_CHL_CB_SECONDARY_REQ ∨
            pLimMsg.type = MsgType.eWNI_SME_SWITCH_CHL_CB_PRIMARY_REQ))) →
      deferCalls (limProcessNormalHddMsg env pLimMsg fRspReqd w).2.trace = deferCalls w.trace ∧
      ((limProcessNormalHddMsg env pLimMsg fRspReqd w).2.trace =
          w.trace ++ [Call.handler Handler.limProcessSmeReqMessages pLimMsg] ∨
        ∃ p : Nat, (limProcessNormalHddMsg env pLimMsg fRspReqd w).2.trace =
          w.trace ++ [Call.handler Handler.limProcessSmeReqMessages pLimMsg,
            Call.vos_mem_free p])) ∧
    (pLimMsg.type = MsgType.eWNI_SME_JOIN_REQ → limIsSystemInScanState env w.st = true →
      deferCalls (limProcessNormalHddMsg env pLimMsg fRspReqd w).2.trace =
        deferCalls w.trace ++ [pLimMsg] ∧
      ((limProcessNormalHddMsg env pLimMsg fRspReqd w).2.trace =
          w.trace ++ [Call.limDeferMsg pLimMsg] ∨
        (limProcessNormalHddMsg env pLimMsg fRspReqd w).2.trace =
          w.trace ++ [Call.limDeferMsg pLimMsg, Call.limLogSessionStates,
            Call.vos_mem_free pLimMsg.bodyptr])) ∧
    (pLimMsg.type = MsgType.eWNI_SME_JOIN_REQ → w.st.gDriverType ≠ eDRIVER_TYPE_MFG →
      limProcessMessages env pLimMsg w =
        limProcessNormalHddMsg env pLimMsg false (note (Call.limProcessMessages pLimMsg) w)) ∧
    (((w.st.gLimAddtsSent ≠ 0 ∨ limIsSystemInScanState env w.st = true) ∧
        ¬ ((w.st.gLimSystemRole = tLimSystemRole.eLIM_AP_ROLE ∨
            w.st.gLimSystemRole = tLimSystemRole.eLIM_BT_AMP_AP_ROLE ∨
            w.st.gLimSystemRole = tLimSystemRole.eLIM_BT_AMP_STA_ROLE ∨
            w.st.gLimSystemRole = tLimSystemRole.eLIM_UNKNOWN_ROLE) ∧
           (pLimMsg.type = MsgType.eWNI_SME_START_BSS_REQ ∨
            pLimMsg.type = MsgType.eWNI_SME_STOP_BSS_REQ ∨
            pLimMsg.type = MsgType.eWNI_SME_SWITCH_CHL_REQ ∨
            pLimMsg.type = MsgType.eWNI_SME_SWITCH_CHL_CB_SECONDARY_REQ ∨
            pLimMsg.type = MsgType.eWNI_SME_SWITCH_CHL_CB_PRIMARY_REQ))) →
      (¬ (env.MAX_DEFERRED_QUEUE_LEN ≤ w.st.gLimDeferredMsgQ.length ∨
          env.writeRefused w.st pLimMsg = true) →
        limProcessNormalHddMsg env pLimMsg fRspReqd w =
          (pLimMsg,
            ⟨{ w.st with gLimDeferredMsgQ := w.st.gLimDeferredMsgQ ++ [pLimMsg] },
              w.trace ++ [Call.limDeferMsg pLimMsg]⟩)) ∧
      ((env.MAX_DEFERRED_QUEUE_LEN ≤ w.st.gLimDeferredMsgQ.length ∨
          env.writeRefused w.st pLimMsg = true) →
        (limProcessNormalHddMsg env pLimMsg fRspReqd w).1 = { pLimMsg with bodyptr := 0 } ∧
        (limProcessNormalHddMsg env pLimMsg fRspReqd w).2.st.gLimDeferredMsgQ =
          w.st.gLimDeferredMsgQ ∧
        (limProcessNormalHddMsg env pLimMsg fRspReqd w).2.trace =
          w.trace ++ [Call.limDeferMsg pLimMsg, Call.limLogSessionStates,
            Call.vos_mem_free pLimMsg.bodyptr])) ∧
    (w.st.gDriverType = eDRIVER_TYPE_MFG →
      limProcessMessages env pLimMsg w =
        ({ pLimMsg with bodyptr := 0 },
          callRelease env (Call.vos_mem_free pLimMsg.bodyptr)
            (note (Call.limProcessMessages pLimMsg) w))) := by
  have hdefer : ((w.st.gLimAddtsSent ≠ 0 ∨ limIsSystemInScanState env w.st = true) ∧
        ¬ ((w.st.gLimSystemRole = tLimSystemRole.eLIM_AP_ROLE ∨
            w.st.gLimSystemRole = tLimSystemRole.eLIM_BT_AMP_AP_ROLE ∨
            w.st.gLimSystemRole = tLimSystemRole.eLIM_BT_AMP_STA_ROLE ∨
            w.st.gLimSystemRole = tLimSystemRole.eLIM_UNKNOWN_ROLE) ∧
           (pLimMsg.type = MsgType.eWNI_SME_START_BSS_REQ ∨
            pLimMsg.type = MsgType.eWNI_SME_STOP_BSS_REQ ∨
            pLimMsg.type = MsgType.eWNI_SME_SWITCH_CHL_REQ ∨
            pLimMsg.type = MsgType.eWNI_SME_SWITCH_CHL_CB_SECONDARY_REQ ∨
            pLimMsg.type = MsgType.eWNI_SME_SWITCH_CHL_CB_PRIMARY_REQ))) →
      deferCalls (limProcessNormalHddMsg env pLimMsg fRspReqd w).2.trace =
        deferCalls w.trace ++ [pLimMsg] ∧
      ((limProcessNormalHddMsg env pLimMsg fRspReqd w).2.trace =
          w.trace ++ [Call.limDeferMsg pLimMsg] ∨
        (limProcessNormalHddMsg env pLimMsg fRspReqd w).2.trace =
          w.trace ++ [Call.limDeferMsg pLimMsg, Call.limLogSessionStates,
            Call.vos_mem_free pLimMsg.bodyptr]) := by
    rintro ⟨h1, h2⟩
    unfold limProcessNormalHddMsg
    dsimp only
    rw [if_neg h2, if_pos ⟨h1, rfl⟩]
    by_cases hd : (limDeferMsg env pLimMsg w).1 ≠ TxStatus.TX_SUCCESS
    · rw [if_pos hd]
      refine ⟨?_, Or.inr ?_⟩
      · simp [freeBodyptr, callRelease, note, limDeferMsg, deferCalls_append, deferCalls]
      · simp [freeBodyptr, callRelease, note, limDeferMsg]
    · rw [if_neg hd]
      refine ⟨?_, Or.inl ?_⟩
      · simp [limDeferMsg, deferCalls_append, deferCalls]
      · simp [limDeferMsg]
  refine ⟨hdefer, ?_, ?_, ?_, ?_, ?_⟩
  · intro hno
    have hcond : ¬ ((w.st.gLimAddtsSent ≠ 0 ∨ limIsSystemInScanState env w.st = true) ∧
        (if (w.st.gLimSystemRole = tLimSystemRole.eLIM_AP_ROLE ∨
            w.st.gLimSystemRole = tLimSystemRole.eLIM_BT_AMP_AP_ROLE ∨
            w.st.gLimSystemRole = tLimSystemRole.eLIM_BT_AMP_STA_ROLE ∨
            w.st.gLimSystemRole = tLimSystemRole.eLIM_UNKNOWN_ROLE) ∧
           (pLimMsg.type = MsgType.eWNI_SME_START_BSS_REQ ∨
            pLimMsg.type = MsgType.eWNI_SME_STOP_BSS_REQ ∨
            pLimMsg.type = MsgType.eWNI_SME_SWITCH_CHL_REQ ∨
            pLimMsg.type = MsgType.eWNI_SME_SWITCH_CHL_CB_SECONDARY_REQ ∨
            pLimMsg.type = MsgType.eWNI_SME_SWITCH_CHL_CB_PRIMARY_REQ) then false
          else true) = true) := by
      rintro ⟨h1, h2⟩
      refine hno ⟨h1, fun hex => ?_⟩
      rw [if_pos hex] at h2
      exact Bool.false_ne_true h2
    unfold limProcessNormalHddMsg
    dsimp only
    rw [if_neg hcond]
    cases fRspReqd <;> simp only [Bool.false_eq_true, if_false, if_true] <;> split
    all_goals first
      | (refine ⟨?_, Or.inl ?_⟩
         · simp [callMsgHandler, deferCalls_append, deferCalls]
         · simp [callMsgHandler])
      | (refine ⟨?_, Or.inr ?_⟩
         · simp [freeBodyptr, callRelease, callMsgHandler, deferCalls_append, deferCalls]
         · simp only [freeBodyptr, callRelease, callMsgHandler, List.append_assoc,
             List.singleton_append]
           exact ⟨_, rfl⟩)
  · intro hjoin hscan
    refine hdefer ⟨Or.inr hscan, ?_⟩
    rintro ⟨_, h | h | h | h | h⟩ <;> rw [hjoin] at h <;> exact absurd h (by decide)
  · intro hjoin hmfg
    rw [limProcessMessages_not_mfg env pLimMsg w hmfg]
    unfold limProcessMessages_switch
    simp only [hjoin]
  · rintro ⟨h1, h2⟩
    constructor
    · intro hfree
      unfold limProcessNormalHddMsg
      dsimp only
      rw [if_neg h2, if_pos ⟨h1, rfl⟩]
      simp [limDeferMsg, limWriteDeferredMsgQ, hfree]
    · intro hfull
      unfold limProcessNormalHddMsg
      dsimp only
      rw [if_neg h2, if_pos ⟨h1, rfl⟩]
      simp [limDeferMsg, limWriteDeferredMsgQ, hfull, freeBodyptr, callRelease, note]
  · intro hmfg
    unfold limProcessMessages
    dsimp only
    rw [if_pos (by simpa [note] using hmfg)]

/-- C25, amended, at a concrete input: a join request handed over in scan state, role
STA, is passed to `limDeferMsg`. -/
theorem limProcessNormalHddMsg_rule_witness :
    deferCalls (limProcessNormalHddMsg envScan (msgOf MsgType.eWNI_SME_JOIN_REQ) false
        ⟨{ stNormal with gLimSmeState := tLimSmeStates.other 3 }, []⟩).2.trace =
      deferCalls [] ++ [msgOf MsgType.eWNI_SME_JOIN_REQ] :=
  ((limProcessNormalHddMsg_rule envScan (msgOf MsgType.eWNI_SME_JOIN_REQ) false
    ⟨{ stNormal with gLimSmeState := tLimSmeStates.other 3 }, []⟩).2.2.1 rfl (by decide)).1

end Lim

namespace Lim

variable {σ : Type}

set_option maxHeartbeats 4000000 in
theorem limProcessMessages_switch_noCase (env : Env σ) (m : tSirMsgQ) (w : World σ)
    (h : noCase env m.type = true) :
    limProcessMessages_switch env m w = freeBodyptr env m w := by
  obtain ⟨type, reserved, bodyptr, bodyval⟩ := m
  cases type <;> dsimp only [noCase] at h <;> first
    | exact absurd h Bool.false_ne_true
    | rfl
    | (unfold limProcessMessages_switch
       simp only [Bool.not_eq_true'] at h
       simp [h])

/-! ## C26: kinds without a case -/

/-- C26: with a driver that is not the manufacturing driver, for every message
whose kind has no case in the `switch`, `limProcessMessages` frees the body
exactly once and sets `bodyptr` to NULL; the entry and the `vos_mem_free` are the
only calls, so no handler is invoked; the deferred queue, the global states, the
busy flag, `gLimAddtsSent` and the scan-learn mode are left as they were. -/
theorem limProcessMessages_unknown_kind (env : Env σ) (limMsg : tSirMsgQ) (w : World σ)
    (hmfg : w.st.gDriverType ≠ eDRIVER_TYPE_MFG)
    (hkind : noCase env limMsg.type = true) :
    (limProcessMessages env limMsg w).1 = { limMsg with bodyptr := 0 } ∧
    (limProcessMessages env limMsg w).2.trace =
      w.trace ++ [Call.limProcessMessages limMsg, Call.vos_mem_free limMsg.bodyptr] ∧
    freed (limProcessMessages env limMsg w).2.trace = freed w.trace ++ [limMsg.bodyptr] ∧
    (limProcessMessages env limMsg w).2.st.gLimDeferredMsgQ = w.st.gLimDeferredMsgQ ∧
    (limProcessMessages env limMsg w).2.st.gLimSmeState = w.st.gLimSmeState ∧
    (limProcessMessages env limMsg w).2.st.gLimMlmState = w.st.gLimMlmState ∧
    (limProcessMessages env limMsg w).2.st.gLimProcessDefdMsgs = w.st.gLimProcessDefdMsgs ∧
    (limProcessMessages env limMsg w).2.st.gLimAddtsSent = w.st.gLimAddtsSent ∧
    (limProcessMessages env limMsg w).2.st.gLimSystemInScanLearnMode =
      w.st.gLimSystemInScanLearnMode := by
  rw [limProcessMessages_not_mfg env limMsg w hmfg,
    limProcessMessages_switch_noCase env limMsg _ hkind]
  refine ⟨rfl, ?_, ?_, rfl, rfl, rfl, rfl, rfl, rfl⟩
  · simp [freeBodyptr, callRelease, note]
  · simp [freeBodyptr, callRelease, note, freed_append, freed]

/-- C26 at a concrete input: a message of the unknown kind 100 with body 9. -/
theorem limProcessMessages_unknown_kind_witness :
    (limProcessMessages envQuiet { msgOf (MsgType.other 100) with bodyptr := 9 }
        ⟨stNormal, []⟩).2.trace =
      [] ++ [Call.limProcessMessages { msgOf (MsgType.other 100) with bodyptr := 9 },
        Call.vos_mem_free
          ({ msgOf (MsgType.other 100) with bodyptr := 9 } : tSirMsgQ).bodyptr] :=
  (limProcessMessages_unknown_kind envQuiet { msgOf (MsgType.other 100) with bodyptr := 9 }
    ⟨stNormal, []⟩ (by decide) rfl).2.1

end Lim

namespace Lim

variable {σ : Type}

/-! ## C27: a message that arrives without its body -/

/-- C27: a message of kind `eWNI_SME_ABORT_REMAIN_ON_CHAN_IND` whose `bodyptr` is
NULL, with the production driver: the case reads `pMbMsg->sessionId` through the
NULL pointer, so the checked dispatcher does not return.  A received frame with
a NULL body is tested first, as the claim says: the dispatcher returns, only the
entry is in the log (no frame handler, no deferral, no packet returned), and the
deferred queue is as before. -/
theorem limProcessMessages_null_body_fault :
    limProcessMessages_checked envQuiet (msgOf MsgType.eWNI_SME_ABORT_REMAIN_ON_CHAN_IND)
        ⟨stNormal, []⟩ = none ∧
    (msgOf MsgType.eWNI_SME_ABORT_REMAIN_ON_CHAN_IND).bodyptr = 0 ∧
    (limProcessMessages_checked envQuiet (frameMsg 0) ⟨stNormal, []⟩).map
        (fun r => (r.1, r.2.trace, r.2.st.gLimDeferredMsgQ)) =
      some (frameMsg 0, [Call.limProcessMessages (frameMsg 0)], []) := by
  refine ⟨rfl, rfl, rfl⟩

/-! ## C28: interrupt notifications -/

/-- C28 fails as stated: an invalid-key interrupt notification with body 5 and
the production driver.  Nothing is freed and the message still holds its body:
the log has the entry alone. -/
theorem limProcessMessages_interrupt_counterexample :
    (limProcessMessages envQuiet
        { msgOf MsgType.SIR_LIM_INV_KEY_INTERRUPT_MSG with bodyptr := 5 }
        ⟨stNormal, []⟩).1.bodyptr = 5 ∧
    freed (limProcessMessages envQuiet
        { msgOf MsgType.SIR_LIM_INV_KEY_INTERRUPT_MSG with bodyptr := 5 }
        ⟨stNormal, []⟩).2.trace = [] := by
  refine ⟨rfl, rfl⟩

/-- C28, amended: for the four interrupt notifications the dispatcher takes no
action when the driver is not the manufacturing driver: the message keeps its
body, the state is as before, and the entry is the only addition to the log.
With the manufacturing driver the body is freed and `bodyptr` set to NULL, as
for every kind. -/
theorem limProcessMessages_interrupt_no_action (env : Env σ) (limMsg : tSirMsgQ)
    (w : World σ)
    (hkind : limMsg.type = MsgType.SIR_LIM_RETRY_INTERRUPT_MSG ∨
      limMsg.type = MsgType.SIR_LIM_INV_KEY_INTERRUPT_MSG ∨
      limMsg.type = MsgType.SIR_LIM_KEY_ID_INTERRUPT_MSG ∨
      limMsg.type = MsgType.SIR_LIM_REPLAY_THRES_INTERRUPT_MSG) :
    limProcessMessages env limMsg w =
      if w.st.gDriverType = eDRIVER_TYPE_MFG then
        ({ limMsg with bodyptr := 0 },
          callRelease env (Call.vos_mem_free limMsg.bodyptr)
            (note (Call.limProcessMessages limMsg) w))
      else
        (limMsg, note (Call.limProcessMessages limMsg) w) := by
  unfold limProcessMessages
  dsimp only
  have hst : (note (Call.limProcessMessages limMsg) w).st = w.st := rfl
  rw [hst]
  split
  · rfl
  · unfold limProcessMessages_switch
    rcases hkind with h | h | h | h <;> simp only [h]

/-- C28 at a concrete input: a retry interrupt notification with body 7 and the
production driver comes back as it was, with the entry alone in the log. -/
theorem limProcessMessages_interrupt_no_action_witness :
    limProcessMessages envQuiet { msgOf MsgType.SIR_LIM_RETRY_INTERRUPT_MSG with bodyptr := 7 }
        ⟨stNormal, []⟩ =
      ({ msgOf MsgType.SIR_LIM_RETRY_INTERRUPT_MSG with bodyptr := 7 },
        ⟨stNormal, [Call.limProcessMessages
          { msgOf MsgType.SIR_LIM_RETRY_INTERRUPT_MSG with bodyptr := 7 }]⟩) :=
  (limProcessMessages_interrupt_no_action envQuiet
    { msgOf MsgType.SIR_LIM_RETRY_INTERRUPT_MSG with bodyptr := 7 } ⟨stNormal, []⟩
    (Or.inl rfl)).trans rfl

end Lim

namespace Lim

variable {σ : Type}

/-! ## C29: who releases the body -/

theorem deferCalls_skip_notDefer (c : Call) (rest : List Call) (h : c.notDefer = true) :
    deferCalls (c :: rest) = deferCalls rest := by
  cases c <;> first | rfl | exact absurd h Bool.false_ne_true

end Lim

namespace Lim

variable {σ : Type}

/-! ## C30: the stop-scan request -/

/-- C30 fails as stated in its last part: with scans offloaded, the abort-scan
operation where the post fails (status `eHAL_STATUS_FAILURE`) and the one where
it succeeds (status `eHAL_STATUS_SUCCESS`) leave the same state, and the
dispatcher hands the same message back for `eWNI_SME_SCAN_ABORT_IND`: the status
does not reach the caller. -/
theorem limProcessAbortScanInd_status_counterexample :
    (limSendStopScanOffloadReq envQuiet 0 ⟨stOffload, []⟩).1 = eHalStatus.eHAL_STATUS_FAILURE ∧
    (limSendStopScanOffloadReq envPostOk 0 ⟨stOffload, []⟩).1 = eHalStatus.eHAL_STATUS_SUCCESS ∧
    (limProcessAbortScanInd envQuiet 0 ⟨stOffload, []⟩).st =
      (limProcessAbortScanInd envPostOk 0 ⟨stOffload, []⟩).st ∧
    (limProcessMessages envQuiet { msgOf MsgType.eWNI_SME_SCAN_ABORT_IND with bodyptr := 9 }
        ⟨stOffload, []⟩).1 =
      (limProcessMessages envPostOk { msgOf MsgType.eWNI_SME_SCAN_ABORT_IND with bodyptr := 9 }
        ⟨stOffload, []⟩).1 ∧
    (limProcessMessages envQuiet { msgOf MsgType.eWNI_SME_SCAN_ABORT_IND with bodyptr := 9 }
        ⟨stOffload, []⟩).2.st =
      (limProcessMessages envPostOk { msgOf MsgType.eWNI_SME_SCAN_ABORT_IND with bodyptr := 9 }
        ⟨stOffload, []⟩).2.st := by
  refine ⟨rfl, rfl, rfl, rfl, rfl⟩

/-- C30, amended: `limSendStopScanOffloadReq` returns `eHAL_STATUS_SUCCESS` if
and only if the allocation gave a buffer and `wdaPostCtrlMsg` succeeded, and
`eHAL_STATUS_FAILURE` otherwise.  When the allocation fails nothing is posted.
Otherwise `wdaPostCtrlMsg` is called once, with type `WDA_STOP_SCAN_OFFLOAD_REQ`,
the buffer, and the given session id; when it succeeds nothing is freed, and when
it fails the buffer is freed once, after the post.  `limProcessAbortScanInd`,
with scans offloaded (after the diagnostic event of a build with
`FEATURE_WLAN_DIAG_SUPPORT_LIM` and after `limAbortBackgroundScan`), keeps the
state that call leaves and drops its status. -/
theorem limSendStopScanOffloadReq_rule (env : Env σ) (SessionId : Nat) (w : World σ) :
    ((limSendStopScanOffloadReq env SessionId w).1 = eHalStatus.eHAL_STATUS_SUCCESS ↔
      ∃ p, env.vos_mem_malloc w.st.collab = some p ∧
        env.succeeds (Call.wdaPostCtrlMsg MsgType.WDA_STOP_SCAN_OFFLOAD_REQ p 0 SessionId)
          (callRelease env (Call.vos_mem_malloc (some p)) w).st = true) ∧
    ((limSendStopScanOffloadReq env SessionId w).1 ≠ eHalStatus.eHAL_STATUS_SUCCESS →
      (limSendStopScanOffloadReq env SessionId w).1 = eHalStatus.eHAL_STATUS_FAILURE) ∧
    (env.vos_mem_malloc w.st.collab = none →
      (limSendStopScanOffloadReq env SessionId w).2.trace =
        w.trace ++ [Call.vos_mem_malloc none]) ∧
    (∀ p, env.vos_mem_malloc w.st.collab = some p →
      env.succeeds (Call.wdaPostCtrlMsg MsgType.WDA_STOP_SCAN_OFFLOAD_REQ p 0 SessionId)
        (callRelease env (Call.vos_mem_malloc (some p)) w).st = true →
      (limSendStopScanOffloadReq env SessionId w).2.trace =
        w.trace ++ [Call.vos_mem_malloc (some p),
          Call.wdaPostCtrlMsg MsgType.WDA_STOP_SCAN_OFFLOAD_REQ p 0 SessionId]) ∧
    (∀ p, env.vos_mem_malloc w.st.collab = some p →
      env.succeeds (Call.wdaPostCtrlMsg MsgType.WDA_STOP_SCAN_OFFLOAD_REQ p 0 SessionId)
        (callRelease env (Call.vos_mem_malloc (some p)) w).st ≠ true →
      (limSendStopScanOffloadReq env SessionId w).2.trace =
        w.trace ++ [Call.vos_mem_malloc (some p),
          Call.wdaPostCtrlMsg MsgType.WDA_STOP_SCAN_OFFLOAD_REQ p 0 SessionId,
          Call.vos_mem_free p]) ∧
    (∀ w1 : World σ,
      w1 = callHandler env (Call.plain Handler.limAbortBackgroundScan)
        (if env.FEATURE_WLAN_DIAG_SUPPORT_LIM then
          callRelease env (Call.plain Handler.limDiagEventReport) w
        else w) →
      w1.st.fScanOffload ≠ 0 →
      limProcessAbortScanInd env SessionId w =
        (limSendStopScanOffloadReq env SessionId w1).2) := by
  refine ⟨?_, ?_, ?_, ?_, ?_, ?_⟩
  · unfold limSendStopScanOffloadReq
    dsimp only
    cases hm : env.vos_mem_malloc w.st.collab with
    | none => simp
    | some p =>
      dsimp only
      split
      · rename_i hs
        simp [hs]
      · rename_i hs
        simp [hs]
  · intro h
    cases hr : (limSendStopScanOffloadReq env SessionId w).1 with
    | eHAL_STATUS_SUCCESS => exact absurd hr h
    | eHAL_STATUS_FAILURE => rfl
  · intro hm
    unfold limSendStopScanOffloadReq
    simp [hm, callRelease]
  · intro p hm hs
    unfold limSendStopScanOffloadReq
    simp only [hm]
    rw [if_pos hs]
    simp [callRelease, callHandler]
  · intro p hm hs
    unfold limSendStopScanOffloadReq
    simp only [hm]
    rw [if_neg hs]
    simp [callRelease, callHandler]
  · intro w1 hw hf
    subst hw
    unfold limProcessAbortScanInd
    dsimp only
    rw [if_pos hf]

/-- C30 at a concrete input: the post fails, so the buffer at 4096 is freed once,
after the one post. -/
theorem limSendStopScanOffloadReq_rule_witness :
    (limSendStopScanOffloadReq envQuiet 3 ⟨stOffload, []⟩).2.trace =
      [] ++ [Call.vos_mem_malloc (some 4096),
        Call.wdaPostCtrlMsg MsgType.WDA_STOP_SCAN_OFFLOAD_REQ 4096 0 3,
        Call.vos_mem_free 4096] :=
  (limSendStopScanOffloadReq_rule envQuiet 3 ⟨stOffload, []⟩).2.2.2.2.1 4096 rfl (by decide)

end Lim

namespace Lim

variable {σ : Type}

/-! ## C31: beacons outside scan state -/

/-- C31 fails as stated: in a build with `WLAN_FEATURE_ROAM_SCAN_OFFLOAD`, outside
scan state, a beacon (packet 8) that the firmware marks as offload-scan-learn
and whose BSSID belongs to session 7, in SME state normal, goes to
`schBeaconProcess` without session: the session is not looked up. -/
theorem limHandleBeacon_marked_counterexample :
    envLfrSession.peFindSessionByBssid ()
      (envLfrSession.limGetBDfromRxPacket () 8).hdr.bssId = some 7 ∧
    (envLfrSession.session () 7).limSmeState = tLimSmeStates.eLIM_SME_NORMAL_STATE ∧
    limIsSystemInScanState envLfrSession stNormal = false ∧
    (limHandle80211Frames envLfrSession (frameMsg 8) ⟨stNormal, []⟩).2.trace =
      [Call.schBeaconProcess 8 none, Call.limPktFree 8 8] := by
  decide

/-- C31, amended: `__limHandleBeacon` calls exactly one handler, chosen by the
session it is given: `schBeaconProcess` without session when the session is
NULL, `schBeaconProcess` with the session when the SME state of the session is
link-established or normal, and `limProcessBeaconFrame` with the session in
every other state.  In `limHandle80211Frames` the session of a beacon is the one
that has its BSSID, NULL if there is none; a beacon marked offload-scan-learn
(in a build with `WLAN_FEATURE_ROAM_SCAN_OFFLOAD`) is given the NULL session
without a lookup.  A management beacon that reaches the `switch` (it was not
taken by a registration, has the protocol version, and the scan-state classifier
is not in force) goes to `__limHandleBeacon` with its session, `*pDeferMsg`
stays false, and the frame buffer is released once, right after the handler. -/
theorem limHandleBeacon_routing (env : Env σ) (limMsg : tSirMsgQ)
    (psessionEntry : Option Nat) (w : World σ) (pkt : RxPacketInfo)
    (hpkt : pkt = env.limGetBDfromRxPacket w.st.collab limMsg.bodyptr) :
    (psessionEntry = none →
      __limHandleBeacon env limMsg psessionEntry w =
        callHandler env (Call.schBeaconProcess pkt.addr none) w) ∧
    (∀ s, psessionEntry = some s →
      ((env.session w.st.collab s).limSmeState = tLimSmeStates.eLIM_SME_LINK_EST_STATE ∨
        (env.session w.st.collab s).limSmeState = tLimSmeStates.eLIM_SME_NORMAL_STATE) →
      __limHandleBeacon env limMsg psessionEntry w =
        callHandler env (Call.schBeaconProcess pkt.addr (some s)) w) ∧
    (∀ s, psessionEntry = some s →
      ¬ ((env.session w.st.collab s).limSmeState = tLimSmeStates.eLIM_SME_LINK_EST_STATE ∨
        (env.session w.st.collab s).limSmeState = tLimSmeStates.eLIM_SME_NORMAL_STATE) →
      __limHandleBeacon env limMsg psessionEntry w =
        callHandler env (Call.limProcessBeaconFrame pkt.addr s) w) ∧
    (∃ c : Call, __limHandleBeacon env limMsg psessionEntry w = callHandler env c w ∧
      (limPktFree env pkt limMsg (__limHandleBeacon env limMsg psessionEntry w)).trace =
        w.trace ++ [c, Call.limPktFree pkt.addr limMsg.bodyptr]) ∧
    (∀ (frame : RxPacketInfo) (w0 : World σ),
      frame.hdr.fc.type = SIR_MAC_MGMT_FRAME →
      frame.hdr.fc.subType = SIR_MAC_MGMT_BEACON →
      (limCheckMgmtRegisteredFrames env frame psessionEntry w0).1 = false →
      (limCheckMgmtRegisteredFrames env frame psessionEntry w0).2 = w →
      frame.hdr.fc.protVer = SIR_MAC_PROTOCOL_VERSION →
      ¬ (w.st.fScanOffload = 0 ∧ limIsSystemInScanState env w.st = true) →
      limHandle80211Frames_dispatch env limMsg frame psessionEntry w0 =
        (false, limPktFree env frame limMsg (__limHandleBeacon env limMsg psessionEntry w))) ∧
    (∀ frame : RxPacketInfo, frame.hdr.fc.subType = SIR_MAC_MGMT_BEACON →
      ¬ (env.FEATURE_WLAN_ESE_IAPP = true ∧ frame.hdr.fc.type = SIR_MAC_DATA_FRAME ∧
        frame.ftDone = true) →
      limHandle80211Frames_session env limMsg frame w =
        (some (env.peFindSessionByBssid w.st.collab frame.hdr.bssId), w)) ∧
    (¬ (env.FEATURE_WLAN_EXTSCAN = true ∧ (pkt.extscanSrc = true ∨ pkt.epnoSrc = true)) →
      env.WLAN_FEATURE_ROAM_SCAN_OFFLOAD = true → pkt.roamCandidateInd = 0 →
      pkt.offloadScanLearn ≠ 0 → pkt.hdr.fc.subType = SIR_MAC_MGMT_BEACON →
      limHandle80211Frames env limMsg w =
        (false, limPktFree env pkt limMsg (__limHandleBeacon env limMsg none w))) := by
  subst hpkt
  refine ⟨?_, ?_, ?_, ?_, ?_, ?_, ?_⟩
  · intro h
    subst h
    rfl
  · intro s h hst
    subst h
    unfold __limHandleBeacon
    dsimp only
    rw [if_pos hst]
  · intro s h hst
    subst h
    unfold __limHandleBeacon
    dsimp only
    rw [if_neg hst]
  · cases psessionEntry with
    | none => exact ⟨_, rfl, by simp [limPktFree, callRelease, callHandler, __limHandleBeacon]⟩
    | some s =>
      unfold __limHandleBeacon
      dsimp only
      split
      · exact ⟨_, rfl, by simp [limPktFree, callRelease, callHandler]⟩
      · exact ⟨_, rfl, by simp [limPktFree, callRelease, callHandler]⟩
  · intro frame w0 htype hsub hreg hw hver hscan
    subst hw
    unfold limHandle80211Frames_dispatch
    dsimp only
    rw [hreg]
    simp only [Bool.false_eq_true, if_false]
    rw [if_neg (by simpa using hver), if_neg hscan]
    unfold limHandle80211Frames_switch
    simp [htype, hsub, SIR_MAC_MGMT_BEACON, SIR_MAC_MGMT_ASSOC_REQ, SIR_MAC_MGMT_ASSOC_RSP,
      SIR_MAC_MGMT_REASSOC_REQ, SIR_MAC_MGMT_REASSOC_RSP, SIR_MAC_MGMT_PROBE_REQ,
      SIR_MAC_MGMT_PROBE_RSP]
  · intro frame hsub hiapp
    unfold limHandle80211Frames_session
    dsimp only
    rw [if_neg hiapp]
    cases hb : env.peFindSessionByBssid w.st.collab frame.hdr.bssId with
    | some s => rfl
    | none =>
      simp [hsub, SIR_MAC_MGMT_BEACON, SIR_MAC_MGMT_AUTH, SIR_MAC_MGMT_ACTION,
        SIR_MAC_MGMT_PROBE_RSP, SIR_MAC_MGMT_PROBE_REQ]
  · intro hext hroam hcand hlearn hsub
    unfold limHandle80211Frames
    dsimp only
    rw [if_neg hext, if_neg (fun hc => hc.2 hcand), if_pos ⟨hroam, hlearn⟩, if_pos hsub]

/-- C31 at a concrete input: outside scan state, a beacon in packet 8 for which
no session is found goes to `schBeaconProcess` without session. -/
theorem limHandleBeacon_routing_witness :
    __limHandleBeacon envMgmt (frameMsg 8) none ⟨stNormal, []⟩ =
      callHandler envMgmt
        (Call.schBeaconProcess (envMgmt.limGetBDfromRxPacket () 8).addr none)
        ⟨stNormal, []⟩ :=
  (limHandleBeacon_routing envMgmt (frameMsg 8) none ⟨stNormal, []⟩
    (envMgmt.limGetBDfromRxPacket () 8) rfl).1 rfl

end Lim

namespace aniGlobal

/-! ## C32: the NSS fields -/

theorem field_eq (x k : Nat) : (x >>> k) &&& 0x3 = (x / 2 ^ k) % 4 := by
  rw [Nat.shiftRight_eq_div_pow]
  exact Nat.and_pow_two_sub_one_eq_mod _ 2

theorem nssAt_range (pos x : Nat) : nssAt pos x = 1 ∨ nssAt pos x = 2 ∨ nssAt pos x = 3 := by
  unfold nssAt
  have h : (x / 2 ^ pos) % 4 < 4 := Nat.mod_lt _ (by decide)
  split <;> omega

/-- C32: every macro returns a value in {1, 2, 3}: the two-bit field it reads
when that is not zero, and 1 otherwise.  The macros for STA, SAP, P2P_GO,
P2P_CLIENT and OCB read the field at the documented position.  `CFG_P2P_DEV_NSS`
reads bits 8-9, `CFG_IBSS_NSS` bits 10-11 and `CFG_TDLS_NSS` bits 12-13, where
the comment documents 12-13, 8-9 and 10-11: for `x = 0x0300` the documented IBSS
field is 3 and `CFG_IBSS_NSS` gives 1; for `x = 0x0C00` the documented TDLS
field is 3 and `CFG_TDLS_NSS` gives 1; for `x = 0x3000` the documented
P2P_DEVICE field is 3 and `CFG_P2P_DEV_NSS` gives 1. -/
theorem CFG_NSS_positions :
    (∀ x : Nat,
      CFG_STA_NSS x = nssAt 0 x ∧ CFG_SAP_NSS x = nssAt 2 x ∧ CFG_P2P_GO_NSS x = nssAt 4 x ∧
      CFG_P2P_CLI_NSS x = nssAt 6 x ∧ CFG_P2P_DEV_NSS x = nssAt 8 x ∧
      CFG_IBSS_NSS x = nssAt 10 x ∧ CFG_TDLS_NSS x = nssAt 12 x ∧ CFG_OCB_NSS x = nssAt 14 x) ∧
    (∀ (p : Persona) (x : Nat), nssMacro p x = 1 ∨ nssMacro p x = 2 ∨ nssMacro p x = 3) ∧
    (documentedBit Persona.IBSS = 8 ∧ nssAt 8 0x0300 = 3 ∧ nssMacro Persona.IBSS 0x0300 = 1) ∧
    (documentedBit Persona.TDLS = 10 ∧ nssAt 10 0x0C00 = 3 ∧
      nssMacro Persona.TDLS 0x0C00 = 1) ∧
    (documentedBit Persona.P2P_DEVICE = 12 ∧ nssAt 12 0x3000 = 3 ∧
      nssMacro Persona.P2P_DEVICE 0x3000 = 1) := by
  have key : ∀ x : Nat,
      CFG_STA_NSS x = nssAt 0 x ∧ CFG_SAP_NSS x = nssAt 2 x ∧ CFG_P2P_GO_NSS x = nssAt 4 x ∧
      CFG_P2P_CLI_NSS x = nssAt 6 x ∧ CFG_P2P_DEV_NSS x = nssAt 8 x ∧
      CFG_IBSS_NSS x = nssAt 10 x ∧ CFG_TDLS_NSS x = nssAt 12 x ∧
      CFG_OCB_NSS x = nssAt 14 x := by
    intro x
    unfold CFG_STA_NSS CFG_SAP_NSS CFG_P2P_GO_NSS CFG_P2P_CLI_NSS CFG_P2P_DEV_NSS
      CFG_IBSS_NSS CFG_TDLS_NSS CFG_OCB_NSS nssAt
    rw [field_eq x 0, field_eq x 2, field_eq x 4, field_eq x 6, field_eq x 8, field_eq x 10,
      field_eq x 12, field_eq x 14]
    exact ⟨rfl, rfl, rfl, rfl, rfl, rfl, rfl, rfl⟩
  refine ⟨key, ?_, by decide, by decide, by decide⟩
  intro p x
  obtain ⟨h1, h2, h3, h4, h5, h6, h7, h8⟩ := key x
  cases p <;> simp only [nssMacro]
  · rw [h1]; exact nssAt_range _ _
  · rw [h2]; exact nssAt_range _ _
  · rw [h3]; exact nssAt_range _ _
  · rw [h4]; exact nssAt_range _ _
  · rw [h6]; exact nssAt_range _ _
  · rw [h7]; exact nssAt_range _ _
  · rw [h5]; exact nssAt_range _ _
  · rw [h8]; exact nssAt_range _ _

end aniGlobal

namespace Lim

variable {σ : Type}

/-! ## C33: the filter of registered frames -/

theorem isMgmtWildcard_iff (fc : tSirMacFrameCtl) (r : tLimMgmtFrameRegistration) :
    isMgmtWildcard fc r = true ↔
      (((r.frameType >>> 2) &&& 0x03) = SIR_MAC_MGMT_FRAME ∧ fc.type = SIR_MAC_MGMT_FRAME ∧
        ((r.frameType >>> 4) &&& 0x0f) = SIR_MAC_MGMT_RESERVED15) := by
  simp [isMgmtWildcard, and_assoc]

/-- The loop of `limCheckMgmtRegisteredFrames` finds the first entry that
matches in the sense of `registrationMatches`. -/
theorem matchRegistration_eq_find (fc : tSirMacFrameCtl) (pBody : List Nat) (framelen : Nat)
    (regs : List tLimMgmtFrameRegistration) :
    matchRegistration fc pBody framelen regs =
      regs.find? (registrationMatches fc pBody framelen) := by
  induction regs with
  | nil => rfl
  | cons r rest ih =>
    unfold matchRegistration
    rw [List.find?_cons]
    by_cases hw : ((r.frameType >>> 2) &&& 0x03) = SIR_MAC_MGMT_FRAME ∧
        fc.type = SIR_MAC_MGMT_FRAME ∧
        ((r.frameType >>> 4) &&& 0x0f) = SIR_MAC_MGMT_RESERVED15
    · rw [if_pos hw]
      have : registrationMatches fc pBody framelen r = true := by
        simp [registrationMatches, (isMgmtWildcard_iff fc r).mpr hw]
      rw [this]
    · rw [if_neg hw]
      have hwf : isMgmtWildcard fc r = false := by
        cases h : isMgmtWildcard fc r with
        | false => rfl
        | true => exact absurd ((isMgmtWildcard_iff fc r).mp h) hw
      by_cases ht : r.frameType = ((fc.type <<< 2) ||| (fc.subType <<< 4))
      · rw [if_pos ht]
        by_cases hl : r.matchLen > 0
        · rw [if_pos hl]
          by_cases hf : r.matchLen ≤ framelen
          · rw [if_pos hf]
            cases hc : vos_mem_compare r.matchData pBody r.matchLen with
            | true =>
              have : registrationMatches fc pBody framelen r = true := by
                unfold vos_mem_compare at hc
                simp [registrationMatches, hwf, ht, hf, hc]
              simp [this]
            | false =>
              have : registrationMatches fc pBody framelen r = false := by
                unfold vos_mem_compare at hc
                have hl0 : r.matchLen ≠ 0 := by omega
                simp [registrationMatches, hwf, ht, hf, hc, hl0]
              simp [this, ih]
          · rw [if_neg hf]
            have : registrationMatches fc pBody framelen r = false := by
              have hl0 : r.matchLen ≠ 0 := by omega
              simp [registrationMatches, hwf, ht, hf, hl0]
            simp [this, ih]
        · rw [if_neg hl]
          have hl0 : r.matchLen = 0 := by omega
          have : registrationMatches fc pBody framelen r = true := by
            simp [registrationMatches, hwf, ht, hl0]
          rw [this]
      · rw [if_neg ht]
        have : registrationMatches fc pBody framelen r = false := by
          simp [registrationMatches, hwf, ht]
        simp [this, ih]

/-- A registration that is not a wildcard and whose `matchLen` exceeds the
payload length in 16 bits does not match: with that registration alone nothing
is sent and the result is FALSE. -/
theorem limCheckMgmtRegisteredFrames_short (env : Env σ) (pBd : RxPacketInfo)
    (payload : List Nat) (psessionEntry : Option Nat) (w : World σ)
    (r : tLimMgmtFrameRegistration)
    (hw : isMgmtWildcard pBd.hdr.fc r = false)
    (hlen : payload.length % 2 ^ 16 < r.matchLen)
    (hq : w.st.gLimMgmtFrameRegistratinQueue = [r]) :
    limCheckMgmtRegisteredFrames env { pBd with payload := payload } psessionEntry w =
      (false, w) := by
  have hl0 : r.matchLen ≠ 0 := by omega
  have hle : ¬ r.matchLen ≤ payload.length % 2 ^ 16 := by omega
  have hm : registrationMatches pBd.hdr.fc payload (payload.length % 2 ^ 16) r = false := by
    unfold registrationMatches
    rw [hw, decide_eq_false hl0, decide_eq_false hle]
    simp
  unfold limCheckMgmtRegisteredFrames
  dsimp only
  rw [matchRegistration_eq_find, hq, List.find?_cons, hm]
  rfl

/-- C33 fails as stated: a wildcard registration (frame type 0xF0: type MGMT,
subtype RESERVED15) whose `matchLen` is 4 matches a management frame with an
empty payload: the frame is indicated to SME.  And the length compared with
`matchLen` is the payload length in 16 bits: a beacon with a payload of 65536
zero bytes is not matched by a registration for beacons with `matchLen` 1 and
`matchData` zero, which meets the rule of the claim. -/
theorem limCheckMgmtRegisteredFrames_wildcard_counterexample :
    (⟨0xF0, 4, [1, 2, 3, 4], 9⟩ : tLimMgmtFrameRegistration).matchLen >
      (rxFrame 8 SIR_MAC_MGMT_FRAME SIR_MAC_MGMT_BEACON).payload.length ∧
    matchRegistration (rxFrame 8 SIR_MAC_MGMT_FRAME SIR_MAC_MGMT_BEACON).hdr.fc
      (rxFrame 8 SIR_MAC_MGMT_FRAME SIR_MAC_MGMT_BEACON).payload
      ((rxFrame 8 SIR_MAC_MGMT_FRAME SIR_MAC_MGMT_BEACON).payload.length % 2 ^ 16)
      [⟨0xF0, 4, [1, 2, 3, 4], 9⟩] = some ⟨0xF0, 4, [1, 2, 3, 4], 9⟩ ∧
    (limCheckMgmtRegisteredFrames envMgmt (rxFrame 8 SIR_MAC_MGMT_FRAME SIR_MAC_MGMT_BEACON)
        none
        ⟨{ stNormal with gLimMgmtFrameRegistratinQueue := [⟨0xF0, 4, [1, 2, 3, 4], 9⟩] },
          []⟩).2.trace =
      [Call.limSendSmeMgmtFrameInd SIR_MAC_MGMT_BEACON 8 24 9 1 none] ∧
    registrationMatches (rxFrame 8 SIR_MAC_MGMT_FRAME SIR_MAC_MGMT_BEACON).hdr.fc
      (List.replicate 65536 0) (List.replicate 65536 0).length ⟨0x80, 1, [0], 9⟩ = true ∧
    limCheckMgmtRegisteredFrames envMgmt
        { rxFrame 8 SIR_MAC_MGMT_FRAME SIR_MAC_MGMT_BEACON with
          payload := List.replicate 65536 0 }
        none ⟨{ stNormal with gLimMgmtFrameRegistratinQueue := [⟨0x80, 1, [0], 9⟩] }, []⟩ =
      (false, ⟨{ stNormal with gLimMgmtFrameRegistratinQueue := [⟨0x80, 1, [0], 9⟩] }, []⟩) := by
  refine ⟨by decide, by decide, by decide, ?_, ?_⟩
  · rw [List.length_replicate]
    have ht : List.take 1 (List.replicate 65536 0) = [0] := by
      rw [List.take_replicate]
      rfl
    unfold registrationMatches
    rw [ht]
    decide
  · exact limCheckMgmtRegisteredFrames_short envMgmt
      (rxFrame 8 SIR_MAC_MGMT_FRAME SIR_MAC_MGMT_BEACON) (List.replicate 65536 0) none _
      ⟨0x80, 1, [0], 9⟩ (by decide)
      (by
        rw [List.length_replicate]
        decide) rfl

/-- C33, amended: `limCheckMgmtRegisteredFrames` scans the registrations in
order and stops at the first entry that is a management wildcard or has
`frameType` equal to `(fc.type << 2) | (fc.subType << 4)` and (`matchLen == 0`,
or `matchLen` at most the payload length taken modulo `2 ^ 16`, as the 16-bit
local `framelen` holds it, and the first `matchLen` payload bytes equal to
`matchData`); an entry with `matchLen` greater than that length matches only as
a wildcard.  If there is such an entry the frame is indicated to
SME exactly once and the result is TRUE iff that entry is not the wildcard; then
`limHandle80211Frames` goes on to its checks and handlers for a wildcard, and
for any other match only releases the buffer.  With no such entry the result is
FALSE and nothing is sent. -/
theorem limCheckMgmtRegisteredFrames_rule (env : Env σ) (pBd : RxPacketInfo)
    (psessionEntry : Option Nat) (w : World σ) (limMsg : tSirMsgQ) :
    (∀ regs : List tLimMgmtFrameRegistration,
      matchRegistration pBd.hdr.fc pBd.payload (pBd.payload.length % 2 ^ 16) regs =
        regs.find? (registrationMatches pBd.hdr.fc pBd.payload (pBd.payload.length % 2 ^ 16))) ∧
    (∀ r : tLimMgmtFrameRegistration, r.matchLen > pBd.payload.length % 2 ^ 16 →
      registrationMatches pBd.hdr.fc pBd.payload (pBd.payload.length % 2 ^ 16) r = true →
      isMgmtWildcard pBd.hdr.fc r = true) ∧
    (w.st.gLimMgmtFrameRegistratinQueue.find?
        (registrationMatches pBd.hdr.fc pBd.payload (pBd.payload.length % 2 ^ 16)) = none →
      limCheckMgmtRegisteredFrames env pBd psessionEntry w = (false, w)) ∧
    (∀ r : tLimMgmtFrameRegistration,
      w.st.gLimMgmtFrameRegistratinQueue.find?
        (registrationMatches pBd.hdr.fc pBd.payload (pBd.payload.length % 2 ^ 16)) = some r →
      limCheckMgmtRegisteredFrames env pBd psessionEntry w =
        (!isMgmtWildcard pBd.hdr.fc r,
          callHandler env
            (Call.limSendSmeMgmtFrameInd pBd.hdr.fc.subType pBd.addr
              (pBd.payload.length + sizeof_tSirMacMgmtHdr) r.sessionId pBd.channel
              psessionEntry) w)) ∧
    ((limCheckMgmtRegisteredFrames env pBd psessionEntry w).1 = true →
      limHandle80211Frames_dispatch env limMsg pBd psessionEntry w =
        (false, limPktFree env pBd limMsg
          (limCheckMgmtRegisteredFrames env pBd psessionEntry w).2)) := by
  refine ⟨fun regs => matchRegistration_eq_find _ _ _ regs, ?_, ?_, ?_, ?_⟩
  · intro r hlen hm
    have hl0 : r.matchLen ≠ 0 := by omega
    have hle : ¬ r.matchLen ≤ pBd.payload.length % 2 ^ 16 := by omega
    cases hw : isMgmtWildcard pBd.hdr.fc r with
    | true => rfl
    | false =>
      unfold registrationMatches at hm
      rw [hw, decide_eq_false hl0, decide_eq_false hle] at hm
      simp at hm
  · intro hnone
    unfold limCheckMgmtRegisteredFrames
    dsimp only
    rw [matchRegistration_eq_find, hnone]
  · intro r hsome
    unfold limCheckMgmtRegisteredFrames
    dsimp only
    rw [matchRegistration_eq_find, hsome]
    dsimp only
    cases hw : isMgmtWildcard pBd.hdr.fc r with
    | true =>
      rw [if_pos ((isMgmtWildcard_iff _ r).mp hw)]
      rfl
    | false =>
      rw [if_neg (fun h => by
        have := (isMgmtWildcard_iff _ r).mpr h
        rw [hw] at this
        exact Bool.false_ne_true this)]
      rfl
  · intro h
    unfold limHandle80211Frames_dispatch
    dsimp only
    rw [if_pos h]

/-- C33 at a concrete input: a registration for beacons (frame type 0x80) with
`matchLen == 0` takes a beacon: it is indicated to SME once and the result is
TRUE. -/
theorem limCheckMgmtRegisteredFrames_rule_witness :
    limCheckMgmtRegisteredFrames envMgmt (rxFrame 8 SIR_MAC_MGMT_FRAME SIR_MAC_MGMT_BEACON)
        none ⟨{ stNormal with gLimMgmtFrameRegistratinQueue := [⟨0x80, 0, [], 9⟩] }, []⟩ =
      (!isMgmtWildcard (rxFrame 8 SIR_MAC_MGMT_FRAME SIR_MAC_MGMT_BEACON).hdr.fc
          ⟨0x80, 0, [], 9⟩,
        callHandler envMgmt
          (Call.limSendSmeMgmtFrameInd
            (rxFrame 8 SIR_MAC_MGMT_FRAME SIR_MAC_MGMT_BEACON).hdr.fc.subType
            (rxFrame 8 SIR_MAC_MGMT_FRAME SIR_MAC_MGMT_BEACON).addr
            ((rxFrame 8 SIR_MAC_MGMT_FRAME SIR_MAC_MGMT_BEACON).payload.length +
              sizeof_tSirMacMgmtHdr)
            (⟨0x80, 0, [], 9⟩ : tLimMgmtFrameRegistration).sessionId
            (rxFrame 8 SIR_MAC_MGMT_FRAME SIR_MAC_MGMT_BEACON).channel none)
          ⟨{ stNormal with gLimMgmtFrameRegistratinQueue := [⟨0x80, 0, [], 9⟩] }, []⟩) :=
  (limCheckMgmtRegisteredFrames_rule envMgmt
    (rxFrame 8 SIR_MAC_MGMT_FRAME SIR_MAC_MGMT_BEACON) none
    ⟨{ stNormal with gLimMgmtFrameRegistratinQueue := [⟨0x80, 0, [], 9⟩] }, []⟩
    (frameMsg 8)).2.2.2.1 ⟨0x80, 0, [], 9⟩ (by decide)

end Lim

namespace VosLock

/-! ## C34: the state invariant of a lock -/

theorem acquired_ne_released : LOCK_ACQUIRED ≠ LOCK_RELEASED := by decide

theorem acquired_ne_destroyed : LOCK_ACQUIRED ≠ LOCK_DESTROYED := by decide

theorem released_ne_acquired : LOCK_RELEASED ≠ LOCK_ACQUIRED := by decide

theorem released_ne_destroyed : LOCK_RELEASED ≠ LOCK_DESTROYED := by decide

theorem destroyed_ne_released : LOCK_DESTROYED ≠ LOCK_RELEASED := by decide

theorem destroyed_ne_acquired : LOCK_DESTROYED ≠ LOCK_ACQUIRED := by decide

theorem zero_ne_cookie : (0 : Nat) ≠ LINUX_LOCK_COOKIE := by decide

theorem lockInv_init (t : Task) (raw : vos_lock_t)
    (h : (vos_lock_init t (some raw)).1 = VOS_STATUS.VOS_STATUS_SUCCESS) :
    ∃ l, (vos_lock_init t (some raw)).2 = some l ∧ lockInv l := by
  unfold vos_lock_init at h ⊢
  dsimp only at h ⊢
  split at h
  · cases h
  · split at h
    · cases h
    · rename_i h1 h2
      rw [if_neg h1, if_neg h2]
      exact ⟨_, rfl, by simp [lockInv, LOCK_RELEASED, LOCK_ACQUIRED, LOCK_DESTROYED]⟩

theorem lockInv_step_init (t : Task) (l : vos_lock_t) (h : lockInv l) :
    ∃ l1, (vos_lock_init t (some l)).2 = some l1 ∧ lockInv l1 := by
  unfold vos_lock_init
  dsimp only
  split
  · exact ⟨l, rfl, h⟩
  · split
    · exact ⟨l, rfl, h⟩
    · exact ⟨_, rfl, by simp [lockInv, LOCK_RELEASED, LOCK_ACQUIRED, LOCK_DESTROYED]⟩

theorem lockInv_step_acquire (bits : Nat) (t : Task) (l : vos_lock_t)
    (r : VOS_STATUS × Option vos_lock_t) (h : lockInv l) (hb : l.refcount + 1 < 2 ^ bits)
    (hr : vos_lock_acquire bits t (some l) = some r) :
    r.1 ≠ VOS_STATUS.VOS_STATUS_E_FAILURE ∧ ∃ l1, r.2 = some l1 ∧ lockInv l1 := by
  have hinv := h
  obtain ⟨h1, h2, h3, h4⟩ := h
  unfold vos_lock_acquire at hr
  dsimp only at hr
  by_cases hc : LINUX_LOCK_COOKIE ≠ l.cookie
  · rw [if_pos hc] at hr
    cases hr
    exact ⟨by simp, l, rfl, hinv⟩
  rw [if_neg hc] at hr
  have hcookie : l.cookie = LINUX_LOCK_COOKIE := by
    by_contra hne
    exact hc (fun e => hne e.symm)
  by_cases hi : t.in_interrupt = true
  · rw [if_pos hi] at hr
    cases hr
    exact ⟨by simp, l, rfl, hinv⟩
  rw [if_neg hi] at hr
  by_cases hown : l.processID = t.pid ∧ l.state = LOCK_ACQUIRED
  · rw [if_pos hown] at hr
    cases hr
    refine ⟨by simp, _, rfl, ?_⟩
    rw [Nat.mod_eq_of_lt hb]
    refine ⟨fun _ => Or.inr hown.2, ?_, ?_, ?_⟩
    · intro hs
      have hs1 : l.state = LOCK_RELEASED := hs
      rw [hown.2] at hs1
      exact absurd hs1 (by decide)
    · intro _
      exact ⟨Nat.le_add_left 1 _, (h3 hown.2).2⟩
    · intro hs
      have hs1 : l.state = LOCK_DESTROYED := hs
      rw [hown.2] at hs1
      exact absurd hs1 (by decide)
  rw [if_neg hown] at hr
  by_cases hl : l.m_lock.locked = true
  · simp [mutex_lock, hl] at hr
  · have hml : mutex_lock l.m_lock =
        some { locked := true, ops := l.m_lock.ops ++ [MutexOp.mutex_lock] } := by
      unfold mutex_lock
      rw [if_neg hl]
    rw [hml] at hr
    simp only [mutex_is_locked, if_true, Nat.one_ne_zero, if_false] at hr
    have hd : LOCK_DESTROYED ≠ l.state := by
      rcases h1 hcookie with hs | hs <;> rw [hs] <;> decide
    rw [if_pos hd] at hr
    cases hr
    refine ⟨by simp, _, rfl, ?_⟩
    rw [Nat.mod_eq_of_lt hb]
    refine ⟨fun _ => Or.inr rfl, ?_, ?_, ?_⟩
    · intro hs
      exact absurd hs acquired_ne_released
    · intro _
      exact ⟨Nat.le_add_left 1 _, rfl⟩
    · intro hs
      exact absurd hs acquired_ne_destroyed

theorem lockInv_step_release (t : Task) (l : vos_lock_t) (h : lockInv l) :
    ∃ l1, (vos_lock_release t (some l)).2 = some l1 ∧ lockInv l1 := by
  have hinv := h
  obtain ⟨h1, h2, h3, h4⟩ := h
  unfold vos_lock_release
  dsimp only
  by_cases hc : LINUX_LOCK_COOKIE ≠ l.cookie
  · rw [if_pos hc]
    exact ⟨l, rfl, hinv⟩
  rw [if_neg hc]
  have hcookie : l.cookie = LINUX_LOCK_COOKIE := by
    by_contra hne
    exact hc (fun e => hne e.symm)
  by_cases hi : t.in_interrupt = true
  · rw [if_pos hi]
    exact ⟨l, rfl, hinv⟩
  rw [if_neg hi]
  by_cases hp : l.processID ≠ t.pid
  · rw [if_pos hp]
    exact ⟨l, rfl, hinv⟩
  rw [if_neg hp]
  have released : ∀ (x : vos_lock_t),
      lockInv { x with processID := 0, refcount := 0, state := LOCK_RELEASED,
                       m_lock := mutex_unlock x.m_lock } := by
    intro x
    refine ⟨fun _ => Or.inl rfl, fun _ => ⟨rfl, rfl⟩, ?_, ?_⟩
    · intro hs
      exact absurd hs released_ne_acquired
    · intro hs
      exact absurd hs released_ne_destroyed
  by_cases hown : l.processID = t.pid ∧ l.state = LOCK_ACQUIRED
  · rw [if_pos hown]
    have hpos : l.refcount > 0 := (h3 hown.2).1
    rw [if_pos hpos]
    by_cases hz : ({ l with refcount := l.refcount - 1 } : vos_lock_t).refcount ≠ 0
    · rw [if_pos hz]
      refine ⟨_, rfl, fun _ => Or.inr hown.2, ?_, ?_, ?_⟩
      · intro hs
        have hs1 : l.state = LOCK_RELEASED := hs
        rw [hown.2] at hs1
        exact absurd hs1 (by decide)
      · intro _
        have hz1 : l.refcount - 1 ≠ 0 := hz
        exact ⟨by show 1 ≤ l.refcount - 1; omega, (h3 hown.2).2⟩
      · intro hs
        have hs1 : l.state = LOCK_DESTROYED := hs
        rw [hown.2] at hs1
        exact absurd hs1 (by decide)
    · rw [if_neg hz]
      exact ⟨_, rfl, released _⟩
  · rw [if_neg hown]
    by_cases hz : l.refcount ≠ 0
    · rw [if_pos hz]
      exact ⟨l, rfl, hinv⟩
    · rw [if_neg hz]
      exact ⟨_, rfl, released _⟩

theorem lockInv_step_destroy (t : Task) (l : vos_lock_t) (h : lockInv l) :
    ∃ l1, (vos_lock_destroy t (some l)).2 = some l1 ∧ lockInv l1 := by
  have hinv := h
  obtain ⟨h1, h2, h3, h4⟩ := h
  unfold vos_lock_destroy
  dsimp only
  by_cases hc : LINUX_LOCK_COOKIE ≠ l.cookie
  · rw [if_pos hc]
    exact ⟨l, rfl, hinv⟩
  rw [if_neg hc]
  by_cases hi : t.in_interrupt = true
  · rw [if_pos hi]
    exact ⟨l, rfl, hinv⟩
  rw [if_neg hi]
  by_cases hl : l.m_lock.locked = true
  · have hr : (mutex_trylock l.m_lock).1 = 0 := by
      unfold mutex_trylock
      rw [if_pos hl]
    rw [if_pos hr]
    refine ⟨_, rfl, h1, h2, ?_, h4⟩
    intro hs
    refine ⟨(h3 hs).1, ?_⟩
    unfold mutex_trylock
    rw [if_pos hl]
    exact hl
  · have hr : ¬ (mutex_trylock l.m_lock).1 = 0 := by
      unfold mutex_trylock
      rw [if_neg hl]
      exact Nat.one_ne_zero
    rw [if_neg hr]
    refine ⟨_, rfl, ?_, ?_, ?_, fun _ => rfl⟩
    · intro hs
      exact absurd hs zero_ne_cookie
    · intro hs
      exact absurd hs destroyed_ne_released
    · intro hs
      exact absurd hs destroyed_ne_acquired

theorem acquire_never_fails (bits : Nat) (t : Task) (l : vos_lock_t)
    (r : VOS_STATUS × Option vos_lock_t) (h : lockInv l)
    (hr : vos_lock_acquire bits t (some l) = some r) :
    r.1 ≠ VOS_STATUS.VOS_STATUS_E_FAILURE := by
  unfold vos_lock_acquire at hr
  dsimp only at hr
  by_cases hc : LINUX_LOCK_COOKIE ≠ l.cookie
  · rw [if_pos hc] at hr
    cases hr
    simp
  rw [if_neg hc] at hr
  have hcookie : l.cookie = LINUX_LOCK_COOKIE := by
    by_contra hne
    exact hc (fun e => hne e.symm)
  by_cases hi : t.in_interrupt = true
  · rw [if_pos hi] at hr
    cases hr
    simp
  rw [if_neg hi] at hr
  by_cases hown : l.processID = t.pid ∧ l.state = LOCK_ACQUIRED
  · rw [if_pos hown] at hr
    cases hr
    simp
  rw [if_neg hown] at hr
  by_cases hl : l.m_lock.locked = true
  · simp [mutex_lock, hl] at hr
  · have hml : mutex_lock l.m_lock =
        some { locked := true, ops := l.m_lock.ops ++ [MutexOp.mutex_lock] } := by
      unfold mutex_lock
      rw [if_neg hl]
    rw [hml] at hr
    simp only [mutex_is_locked, if_true, Nat.one_ne_zero, if_false] at hr
    have hd : LOCK_DESTROYED ≠ l.state := by
      rcases h.1 hcookie with hs | hs <;> rw [hs] <;> decide
    rw [if_pos hd] at hr
    cases hr
    simp

/-- The invariant is kept along a run that does not wrap the reference count. -/
theorem lockInv_run (bits : Nat) :
    ∀ (calls : List (Task × LockOp)) (l : vos_lock_t) (statuses : List VOS_STATUS)
      (lock : Option vos_lock_t), lockInv l → staysBelow bits calls (some l) = true →
      runCalls bits calls (some l) = some (statuses, lock) →
      ∃ l1, lock = some l1 ∧ lockInv l1 := by
  intro calls
  induction calls with
  | nil =>
    intro l statuses lock h _ hrun
    simp only [runCalls, Option.some.injEq, Prod.mk.injEq] at hrun
    exact ⟨l, hrun.2.symm, h⟩
  | cons c rest ih =>
    intro l statuses lock h hb hrun
    obtain ⟨t, op⟩ := c
    have step : ∀ r, callOp bits t op (some l) = some r → ∃ l1, r.2 = some l1 ∧ lockInv l1 := by
      intro r hr
      cases op with
      | init =>
        simp only [callOp, Option.some.injEq] at hr
        subst hr
        exact lockInv_step_init t l h
      | acquire =>
        have hlt : l.refcount + 1 < 2 ^ bits := by
          simp only [staysBelow, Bool.and_eq_true, decide_eq_true_eq] at hb
          exact hb.1
        exact (lockInv_step_acquire bits t l r h hlt hr).2
      | release =>
        simp only [callOp, Option.some.injEq] at hr
        subst hr
        exact lockInv_step_release t l h
      | destroy =>
        simp only [callOp, Option.some.injEq] at hr
        subst hr
        exact lockInv_step_destroy t l h
    cases hc : callOp bits t op (some l) with
    | none => simp [runCalls, hc] at hrun
    | some r =>
      obtain ⟨status, lock1⟩ := r
      obtain ⟨l1, hl1, hinv1⟩ := step _ hc
      have hl1s : lock1 = some l1 := hl1
      subst hl1s
      have hb1 : staysBelow bits rest (some l1) = true := by
        simp only [staysBelow, hc, Bool.and_eq_true] at hb
        exact hb.2
      cases hrest : runCalls bits rest (some l1) with
      | none => simp [runCalls, hc, hrest] at hrun
      | some rr =>
        obtain ⟨sts, lock2⟩ := rr
        simp only [runCalls, hc, hrest, Option.some.injEq, Prod.mk.injEq] at hrun
        obtain ⟨_, hlock⟩ := hrun
        subst hlock
        exact ih l1 sts lock2 hinv1 hb1 hrest

/-- C34: every lock state reached from a successful `vos_lock_init` by a
sequence of `vos_lock_init` / `vos_lock_acquire` / `vos_lock_release` /
`vos_lock_destroy` calls of arbitrary callers, in which no acquisition wraps the
reference count (fewer than `2^bits` nested acquisitions), satisfies: a valid
cookie implies state Released or Acquired; Released implies reference count 0
and owner 0; Acquired implies reference count at least 1 and a locked mutex;
Destroyed implies cookie 0.  On such a state `vos_lock_acquire` never returns
`VOS_STATUS_E_FAILURE`: its branch for a destroyed lock is not taken. -/
theorem lock_state_invariant (bits : Nat) (t0 : Task) (raw : vos_lock_t)
    (calls : List (Task × LockOp)) (statuses : List VOS_STATUS) (lock : Option vos_lock_t)
    (hinit : (vos_lock_init t0 (some raw)).1 = VOS_STATUS.VOS_STATUS_SUCCESS)
    (hdepth : staysBelow bits calls (vos_lock_init t0 (some raw)).2 = true)
    (hrun : runCalls bits calls (vos_lock_init t0 (some raw)).2 = some (statuses, lock)) :
    ∃ l : vos_lock_t, lock = some l ∧
      (l.cookie = LINUX_LOCK_COOKIE → l.state = LOCK_RELEASED ∨ l.state = LOCK_ACQUIRED) ∧
      (l.state = LOCK_RELEASED → l.refcount = 0 ∧ l.processID = 0) ∧
      (l.state = LOCK_ACQUIRED → 1 ≤ l.refcount ∧ l.m_lock.locked = true) ∧
      (l.state = LOCK_DESTROYED → l.cookie = 0) ∧
      (∀ (t : Task) (r : VOS_STATUS × Option vos_lock_t),
        vos_lock_acquire bits t (some l) = some r →
        r.1 ≠ VOS_STATUS.VOS_STATUS_E_FAILURE) ∧
      (l.cookie = LINUX_LOCK_COOKIE → l.state ≠ LOCK_DESTROYED) := by
  obtain ⟨l0, hl0, hinv0⟩ := lockInv_init t0 raw hinit
  rw [hl0] at hdepth hrun
  obtain ⟨l, hl, hinv⟩ := lockInv_run bits calls l0 statuses lock hinv0 hdepth hrun
  refine ⟨l, hl, hinv.1, hinv.2.1, hinv.2.2.1, hinv.2.2.2, ?_, ?_⟩
  · intro t r hr
    exact acquire_never_fails bits t l r hinv hr
  · intro hc hs
    have := hinv.2.2.2 hs
    rw [hc] at this
    exact absurd this (by decide)

/-- C34 at a concrete input: task 5 initialises a lock, acquires it twice,
releases it once, and task 6 tries to destroy it: the lock is Acquired with
reference count 1. -/
theorem lock_state_invariant_witness :
    ∃ l : vos_lock_t,
      (some (heldLock
        [MutexOp.mutex_init, MutexOp.mutex_lock, MutexOp.mutex_is_locked,
          MutexOp.mutex_trylock] 5 1) : Option vos_lock_t) = some l ∧
      (l.cookie = LINUX_LOCK_COOKIE → l.state = LOCK_RELEASED ∨ l.state = LOCK_ACQUIRED) ∧
      (l.state = LOCK_RELEASED → l.refcount = 0 ∧ l.processID = 0) ∧
      (l.state = LOCK_ACQUIRED → 1 ≤ l.refcount ∧ l.m_lock.locked = true) ∧
      (l.state = LOCK_DESTROYED → l.cookie = 0) ∧
      (∀ (t : Task) (r : VOS_STATUS × Option vos_lock_t),
        vos_lock_acquire 8 t (some l) = some r →
        r.1 ≠ VOS_STATUS.VOS_STATUS_E_FAILURE) ∧
      (l.cookie = LINUX_LOCK_COOKIE → l.state ≠ LOCK_DESTROYED) :=
  lock_state_invariant 8 ⟨5, false⟩ rawLock
    [(⟨5, false⟩, LockOp.acquire), (⟨5, false⟩, LockOp.acquire), (⟨5, false⟩, LockOp.release),
      (⟨6, false⟩, LockOp.destroy)]
    [VOS_STATUS.VOS_STATUS_SUCCESS, VOS_STATUS.VOS_STATUS_SUCCESS,
      VOS_STATUS.VOS_STATUS_SUCCESS, VOS_STATUS.VOS_STATUS_E_BUSY]
    (some (heldLock
      [MutexOp.mutex_init, MutexOp.mutex_lock, MutexOp.mutex_is_locked,
        MutexOp.mutex_trylock] 5 1))
    (by decide) (by decide) (by decide)

end VosLock

namespace Lim

variable {σ : Type}

/-! ## C35: submissions while SME is offline -/

theorem deferOrReport_states (env : Env σ) (limMsg : tSirMsgQ) (w : World σ) :
    (deferOrReport env limMsg w).st.gLimSmeState = w.st.gLimSmeState ∧
    (deferOrReport env limMsg w).st.gLimMlmState = w.st.gLimMlmState := by
  unfold deferOrReport limDeferMsg limWriteDeferredMsgQ
  dsimp only
  split <;> split <;> exact ⟨rfl, rfl⟩

theorem limMessageProcessor_sme_offline (env : Env σ) (fuel : Nat) (limMsg : tSirMsgQ)
    (w : World σ) (hsme : w.st.gLimSmeState = tLimSmeStates.eLIM_SME_OFFLINE_STATE)
    (hmlm : w.st.gLimMlmState ≠ tLimMlmStates.eLIM_MLM_OFFLINE_STATE) :
    limMessageProcessor env fuel limMsg w = some (deferOrReport env limMsg w) := by
  unfold limMessageProcessor
  rw [if_neg (fun e => hmlm e.symm)]
  unfold defMsgDecision
  rw [if_pos hsme]
  rfl

/-- C35: while `gLimSmeState == eLIM_SME_OFFLINE_STATE` and
`gLimMlmState != eLIM_MLM_OFFLINE_STATE`, every message submitted to
`limMessageProcessor`, of whatever kind (the listed firmware responses
included), is passed to `limDeferMsg` exactly once; neither `limProcessMessages`
nor `limProcessDeferredMessageQueue` is called, and the global states are left
as they were.  Hence any sequence of submissions from such a state defers every
message, returns with whatever fuel, and processes nothing. -/
theorem limMessageProcessor_sme_offline_starves (env : Env σ) (fuel : Nat) (w : World σ)
    (hsme : w.st.gLimSmeState = tLimSmeStates.eLIM_SME_OFFLINE_STATE)
    (hmlm : w.st.gLimMlmState ≠ tLimMlmStates.eLIM_MLM_OFFLINE_STATE) :
    (∀ limMsg : tSirMsgQ, ∃ w1 : World σ,
      limMessageProcessor env fuel limMsg w = some w1 ∧
      deferCalls w1.trace = deferCalls w.trace ++ [limMsg] ∧
      processed w1.trace = processed w.trace ∧
      drainCalls w1.trace = drainCalls w.trace ∧
      w1.st.gLimSmeState = tLimSmeStates.eLIM_SME_OFFLINE_STATE ∧
      w1.st.gLimMlmState = w.st.gLimMlmState) ∧
    (∀ ms : List tSirMsgQ, ∃ w1 : World σ,
      submitAll env fuel ms w = some w1 ∧
      deferCalls w1.trace = deferCalls w.trace ++ ms ∧
      processed w1.trace = processed w.trace ∧
      drainCalls w1.trace = drainCalls w.trace ∧
      w1.st.gLimSmeState = tLimSmeStates.eLIM_SME_OFFLINE_STATE) := by
  have one : ∀ (w : World σ) (limMsg : tSirMsgQ),
      w.st.gLimSmeState = tLimSmeStates.eLIM_SME_OFFLINE_STATE →
      w.st.gLimMlmState ≠ tLimMlmStates.eLIM_MLM_OFFLINE_STATE →
      ∃ w1 : World σ,
        limMessageProcessor env fuel limMsg w = some w1 ∧
        deferCalls w1.trace = deferCalls w.trace ++ [limMsg] ∧
        processed w1.trace = processed w.trace ∧
        drainCalls w1.trace = drainCalls w.trace ∧
        w1.st.gLimSmeState = tLimSmeStates.eLIM_SME_OFFLINE_STATE ∧
        w1.st.gLimMlmState = w.st.gLimMlmState := by
    intro w limMsg hs hm
    refine ⟨deferOrReport env limMsg w, limMessageProcessor_sme_offline env fuel limMsg w hs hm,
      deferOrReport_deferCalls env limMsg w, deferOrReport_processed env limMsg w,
      deferOrReport_drainCalls env limMsg w, ?_, (deferOrReport_states env limMsg w).2⟩
    rw [(deferOrReport_states env limMsg w).1, hs]
  refine ⟨fun limMsg => one w limMsg hsme hmlm, ?_⟩
  intro ms
  induction ms generalizing w with
  | nil => exact ⟨w, rfl, by simp, rfl, rfl, hsme⟩
  | cons m rest ih =>
    obtain ⟨w1, hrun, hd, hp, hc, hs1, hm1⟩ := one w m hsme hmlm
    obtain ⟨w2, hrun2, hd2, hp2, hc2, hs2⟩ := ih w1 hs1 (by rw [hm1]; exact hmlm)
    refine ⟨w2, ?_, ?_, ?_, ?_, hs2⟩
    · simp only [submitAll, hrun]
      exact hrun2
    · rw [hd2, hd]
      simp
    · rw [hp2, hp]
    · rw [hc2, hc]

/-- C35 at a concrete input: with SME offline, a delete-station response (a
listed firmware response) and a scan request are both deferred and nothing is
processed. -/
theorem limMessageProcessor_sme_offline_starves_witness :
    ∃ w1 : World Unit,
      submitAll envQuiet 0 [msgOf MsgType.WDA_DELETE_STA_RSP, msgOf MsgType.eWNI_SME_SCAN_REQ]
        ⟨{ stNormal with gLimSmeState := tLimSmeStates.eLIM_SME_OFFLINE_STATE }, []⟩ =
        some w1 ∧
      deferCalls w1.trace =
        deferCalls [] ++ [msgOf MsgType.WDA_DELETE_STA_RSP, msgOf MsgType.eWNI_SME_SCAN_REQ] ∧
      processed w1.trace = processed [] ∧
      drainCalls w1.trace = drainCalls [] ∧
      w1.st.gLimSmeState = tLimSmeStates.eLIM_SME_OFFLINE_STATE :=
  (limMessageProcessor_sme_offline_starves envQuiet 0
    ⟨{ stNormal with gLimSmeState := tLimSmeStates.eLIM_SME_OFFLINE_STATE }, []⟩
    rfl (by decide)).2 [msgOf MsgType.WDA_DELETE_STA_RSP, msgOf MsgType.eWNI_SME_SCAN_REQ]

end Lim

namespace Lim

variable {σ : Type}

/-! ## C36: the replay loop ends -/

theorem quiet_callHandler (env : Env σ) (tr : List Call) (q : Nat × Nat) (c : Call) (w : World σ)
    (hc : c.notDefer = true) (h : quiet env tr q w) : quiet env tr q (callHandler env c w) :=
  And.intro (grows_callHandler _ env tr c w hc h.1)
    (And.intro (fun hE => Nat.le_trans (hE.1 c w.st) (h.2.1 hE))
      (fun hT => Nat.le_trans (hT.1 c w.st) (h.2.2 hT)))

theorem quiet_callRelease (env : Env σ) (tr : List Call) (q : Nat × Nat) (c : Call) (w : World σ)
    (hc : c.notDefer = true) (h : quiet env tr q w) : quiet env tr q (callRelease env c w) :=
  And.intro (grows_callRelease _ env tr c w hc h.1) h.2

theorem quiet_note (env : Env σ) (tr : List Call) (q : Nat × Nat) (c : Call) (w : World σ)
    (hc : c.notDefer = true) (h : quiet env tr q w) : quiet env tr q (note c w) :=
  And.intro (grows_note _ tr c w hc h.1) h.2

theorem quiet_callMsgHandler (env : Env σ) (tr : List Call) (q : Nat × Nat) (f : Handler)
    (m : tSirMsgQ) (w : World σ) (h : quiet env tr q w) :
    quiet env tr q (callMsgHandler env f m w).2 :=
  And.intro (grows_callMsgHandler _ env tr f m w rfl h.1)
    (And.intro (fun hE => Nat.le_trans (hE.2 f m w.st) (h.2.1 hE))
      (fun hT => Nat.le_trans (hT.2 f m w.st) (h.2.2 hT)))

theorem quiet_ite (env : Env σ) (tr : List Call) (q : Nat × Nat) (c : Prop) [Decidable c]
    (a b : World σ) (ha : quiet env tr q a) (hb : quiet env tr q b) :
    quiet env tr q (if c then a else b) := by
  split <;> assumption

theorem quiet_limPktFree (env : Env σ) (tr : List Call) (q : Nat × Nat) (pkt : RxPacketInfo)
    (m : tSirMsgQ) (w : World σ) (h : quiet env tr q w) :
    quiet env tr q (limPktFree env pkt m w) :=
  quiet_callRelease env tr q _ w rfl h

theorem quiet___limHandleBeacon (env : Env σ) (tr : List Call) (q : Nat × Nat) (m : tSirMsgQ)
    (psessionEntry : Option Nat) (w : World σ) (h : quiet env tr q w) :
    quiet env tr q (__limHandleBeacon env m psessionEntry w) := by
  unfold __limHandleBeacon
  dsimp only
  repeat' split
  all_goals exact quiet_callHandler env tr q _ w rfl h

theorem quiet_limHandleFramesInScanState (env : Env σ) (tr : List Call) (q : Nat × Nat)
    (m : tSirMsgQ) (pkt : RxPacketInfo) (psessionEntry : Option Nat) (w : World σ)
    (h : quiet env tr q w) :
    quiet env tr q (limHandleFramesInScanState env m pkt psessionEntry w).2 := by
  unfold limHandleFramesInScanState
  dsimp only
  repeat' split
  all_goals first
    | exact h
    | exact quiet_limPktFree env tr q _ _ _ (quiet_callHandler env tr q _ w rfl h)

theorem quiet_limHandleUnknownA2IndexFrames (env : Env σ) (tr : List Call) (q : Nat × Nat)
    (pkt : RxPacketInfo) (psessionEntry : Nat) (w : World σ) (h : quiet env tr q w) :
    quiet env tr q (limHandleUnknownA2IndexFrames env pkt psessionEntry w) := by
  unfold limHandleUnknownA2IndexFrames
  dsimp only
  repeat' split
  all_goals repeat' first
    | exact h
    | refine quiet_callHandler env tr q _ _ rfl ?_

theorem quiet_limCheckMgmtRegisteredFrames (env : Env σ) (tr : List Call) (q : Nat × Nat)
    (pkt : RxPacketInfo) (psessionEntry : Option Nat) (w : World σ) (h : quiet env tr q w) :
    quiet env tr q (limCheckMgmtRegisteredFrames env pkt psessionEntry w).2 := by
  unfold limCheckMgmtRegisteredFrames
  dsimp only
  repeat' split
  all_goals first
    | exact h
    | exact quiet_callHandler env tr q _ w rfl h

theorem quiet_limHandle80211Frames_session (env : Env σ) (tr : List Call) (q : Nat × Nat)
    (m : tSirMsgQ) (pkt : RxPacketInfo) (w : World σ) (h : quiet env tr q w) :
    quiet env tr q (limHandle80211Frames_session env m pkt w).2 := by
  unfold limHandle80211Frames_session
  dsimp only
  repeat' split
  all_goals repeat' first
    | exact h
    | refine quiet_callHandler env tr q _ _ rfl ?_

theorem quiet_limHandle80211Frames_switch (env : Env σ) (tr : List Call) (q : Nat × Nat)
    (m : tSirMsgQ) (pkt : RxPacketInfo) (psessionEntry : Option Nat) (w : World σ)
    (h : quiet env tr q w) :
    quiet env tr q (limHandle80211Frames_switch env m pkt psessionEntry w) := by
  cases psessionEntry <;> unfold limHandle80211Frames_switch <;> dsimp only <;>
    repeat' first
      | exact h
      | exact quiet___limHandleBeacon env tr q _ _ w h
      | exact quiet_limHandleUnknownA2IndexFrames env tr q _ _ w h
      | refine quiet_callHandler env tr q _ _ rfl ?_
      | refine quiet_ite env tr q _ _ _ ?_ ?_

theorem quiet_limHandle80211Frames_dispatch (env : Env σ) (tr : List Call) (q : Nat × Nat)
    (m : tSirMsgQ) (pkt : RxPacketInfo) (psessionEntry : Option Nat) (w : World σ)
    (h : quiet env tr q w) :
    quiet env tr q (limHandle80211Frames_dispatch env m pkt psessionEntry w).2 := by
  have hr := quiet_limCheckMgmtRegisteredFrames env tr q pkt psessionEntry w h
  unfold limHandle80211Frames_dispatch
  dsimp only
  repeat' split
  all_goals first
    | exact quiet_limPktFree env tr q _ _ _ hr
    | exact quiet_limHandleFramesInScanState env tr q _ _ _ _ hr
    | exact quiet_limPktFree env tr q _ _ _
        (quiet_limHandle80211Frames_switch env tr q _ _ _ _ hr)

theorem quiet_limHandle80211Frames (env : Env σ) (tr : List Call) (q : Nat × Nat) (m : tSirMsgQ)
    (w : World σ) (h : quiet env tr q w) :
    quiet env tr q (limHandle80211Frames env m w).2 := by
  have hs := quiet_limHandle80211Frames_session env tr q m
    (env.limGetBDfromRxPacket w.st.collab m.bodyptr) w h
  unfold limHandle80211Frames
  dsimp only
  repeat' split
  all_goals first
    | exact quiet_limPktFree env tr q _ _ _ h
    | exact quiet_limPktFree env tr q _ _ _ (quiet_callHandler env tr q _ w rfl h)
    | exact quiet_limPktFree env tr q _ _ _ (quiet___limHandleBeacon env tr q _ _ w h)
    | (rename_i heq
       rw [heq] at hs
       first
         | exact quiet_limPktFree env tr q _ _ _ hs
         | exact quiet_limHandle80211Frames_dispatch env tr q _ _ _ _ hs)

/-- The classifier asks for deferral only from the scan-state classifier, which
runs in scan state and makes no call. -/
theorem limHandle80211Frames_defer_scan (env : Env σ) (m : tSirMsgQ) (w : World σ)
    (h : (limHandle80211Frames env m w).1 = true) :
    limIsSystemInScanState env (limHandle80211Frames env m w).2.st = true := by
  have hscanState : ∀ (pkt : RxPacketInfo) (ps : Option Nat) (w1 : World σ),
      (limHandleFramesInScanState env m pkt ps w1).1 = true →
      (limHandleFramesInScanState env m pkt ps w1).2 = w1 := by
    intro pkt ps w1
    unfold limHandleFramesInScanState
    dsimp only
    repeat' split
    all_goals first
      | (intro hh; exact absurd hh Bool.false_ne_true)
      | (intro _; rfl)
  have hdispatch : ∀ (pkt : RxPacketInfo) (ps : Option Nat) (w1 : World σ),
      (limHandle80211Frames_dispatch env m pkt ps w1).1 = true →
      limIsSystemInScanState env (limHandle80211Frames_dispatch env m pkt ps w1).2.st = true := by
    intro pkt ps w1
    unfold limHandle80211Frames_dispatch
    dsimp only
    split
    · intro hh; exact absurd hh Bool.false_ne_true
    · split
      · intro hh; exact absurd hh Bool.false_ne_true
      · split
        · rename_i hsc
          intro hh
          rw [hscanState _ _ _ hh]
          exact hsc.2
        · intro hh; exact absurd hh Bool.false_ne_true
  revert h
  unfold limHandle80211Frames
  dsimp only
  repeat' split
  all_goals first
    | (intro hh; exact absurd hh Bool.false_ne_true)
    | exact hdispatch _ _ _

end Lim

namespace Lim

variable {σ : Type}

theorem quiet_freeBodyptr (env : Env σ) (tr : List Call) (q : Nat × Nat) (m : tSirMsgQ)
    (w : World σ) (h : quiet env tr q w) : quiet env tr q (freeBodyptr env m w).2 :=
  quiet_callRelease env tr q _ w rfl h

theorem quiet_handOverBody (env : Env σ) (tr : List Call) (q : Nat × Nat) (f : Handler)
    (m : tSirMsgQ) (w : World σ) (h : quiet env tr q w) :
    quiet env tr q (handOverBody env f m w).2 :=
  quiet_callHandler env tr q _ w rfl h

theorem quiet_halResponseHandler (env : Env σ) (tr : List Call) (q : Nat × Nat) (f : Handler)
    (m : tSirMsgQ) (w : World σ) (h : quiet env tr q w) :
    quiet env tr q (halResponseHandler env f m w).2 :=
  quiet_callMsgHandler env tr q f m (SET_LIM_PROCESS_DEFD_MESGS 1 w) h

theorem quiet_limProcessOemDataRsp (env : Env σ) (tr : List Call) (q : Nat × Nat) (body : Nat)
    (w : World σ) (h : quiet env tr q w) :
    quiet env tr q (limProcessOemDataRsp env body w) :=
  quiet_callHandler env tr q _ (SET_LIM_PROCESS_DEFD_MESGS 1 w) rfl h

theorem quiet_limSendStopScanOffloadReq (env : Env σ) (tr : List Call) (q : Nat × Nat)
    (SessionId : Nat) (w : World σ) (h : quiet env tr q w) :
    quiet env tr q (limSendStopScanOffloadReq env SessionId w).2 := by
  unfold limSendStopScanOffloadReq
  dsimp only
  cases env.vos_mem_malloc w.st.collab <;> dsimp only <;>
    repeat' first
      | exact h
      | refine quiet_callHandler env tr q _ _ rfl ?_
      | refine quiet_callRelease env tr q _ _ rfl ?_
      | split

theorem quiet_limProcessAbortScanInd (env : Env σ) (tr : List Call) (q : Nat × Nat)
    (SessionId : Nat) (w : World σ) (h : quiet env tr q w) :
    quiet env tr q (limProcessAbortScanInd env SessionId w) := by
  have h1 : quiet env tr q
      (callHandler env (Call.plain Handler.limAbortBackgroundScan)
        (if env.FEATURE_WLAN_DIAG_SUPPORT_LIM then
          callRelease env (Call.plain Handler.limDiagEventReport) w
        else w)) := by
    refine quiet_callHandler env tr q _ _ rfl ?_
    refine quiet_ite env tr q _ _ _ ?_ h
    exact quiet_callRelease env tr q _ _ rfl h
  unfold limProcessAbortScanInd
  dsimp only
  generalize callHandler env (Call.plain Handler.limAbortBackgroundScan)
    (if env.FEATURE_WLAN_DIAG_SUPPORT_LIM then
      callRelease env (Call.plain Handler.limDiagEventReport) w
    else w) = w1 at h1 ⊢
  repeat' first
    | exact h1
    | refine quiet_limSendStopScanOffloadReq env tr q _ _ ?_
    | refine quiet_callHandler env tr q _ _ rfl ?_
    | refine quiet_ite env tr q _ _ _ ?_ ?_

theorem quiet_q2qLoop (env : Env σ) (tr : List Call) (q : Nat × Nat) (m : tSirMsgQ) :
    ∀ (rounds i : Nat) (w w1 : World σ), q2qLoop env m rounds i w = some w1 →
      quiet env tr q w → quiet env tr q w1 := by
  intro rounds
  induction rounds with
  | zero =>
    intro i w w1 hl
    rw [q2qLoop_zero] at hl
    cases hl
  | succ n ih =>
    intro i w w1 hl h
    unfold q2qLoop at hl
    dsimp only at hl
    by_cases hi : i < w.st.maxBssId
    · rw [if_pos hi] at hl
      cases hf : env.pe_find_session_by_sme_session_id w.st.collab
          (env.load w.st.collab m.bodyptr (BodyField.byte i)) with
      | none =>
        rw [hf] at hl
        exact ih _ _ _ hl h
      | some session_entry =>
        rw [hf] at hl
        dsimp only at hl
        by_cases hd : env.channelIsDfs
            (callRelease env (Call.fn Handler.sap_advertise_avoid_ch_ie session_entry)
              w).st.collab session_entry = true
        · rw [if_pos hd] at hl
          exact ih _ _ _ hl (quiet_callRelease env tr q _ _ rfl h)
        · rw [if_neg hd] at hl
          exact ih _ _ _ hl (quiet_callHandler env tr q _ _ rfl
            (quiet_callHandler env tr q _ _ rfl (quiet_callRelease env tr q _ _ rfl h)))
    · rw [if_neg hi] at hl
      cases hl
      exact h

theorem drainStops_limDeferMsg (env : Env σ) (m : tSirMsgQ) (w : World σ) :
    drainStops env (limDeferMsg env m w).2.st = drainStops env w.st := by
  unfold limDeferMsg limWriteDeferredMsgQ
  dsimp only
  split <;> rfl

/-- The shape shared by the deferring branches: after `limDeferMsg`, whether or
not it succeeded, the stop condition of the replay loop is what it was. -/
theorem stepRule_deferred (env : Env σ) (tr : List Call) (q : Nat × Nat) (m limMsg : tSirMsgQ)
    (w : World σ) (hs : drainStops env w.st = true) :
    stepRule env tr q
      (if (limDeferMsg env m w).1 ≠ TxStatus.TX_SUCCESS then
        (limMsg, note Call.limLogSessionStates (limDeferMsg env m w).2)
      else
        (limMsg, (limDeferMsg env m w).2)) := by
  refine Or.inr ?_
  split
  · exact (drainStops_limDeferMsg env m w).trans hs
  · exact (drainStops_limDeferMsg env m w).trans hs

theorem stepRule_limProcessNormalHddMsg (env : Env σ) (tr : List Call) (q : Nat × Nat)
    (m : tSirMsgQ) (fRspReqd : Bool) (w : World σ) (h : quiet env tr q w) :
    stepRule env tr q (limProcessNormalHddMsg env m fRspReqd w) := by
  have key : ∀ b : Bool, stepRule env tr q
      (if (w.st.gLimAddtsSent ≠ 0 ∨ limIsSystemInScanState env w.st = true) ∧ b = true then
        (if (limDeferMsg env m w).1 ≠ TxStatus.TX_SUCCESS then
          freeBodyptr env m (note Call.limLogSessionStates (limDeferMsg env m w).2)
        else
          (m, (limDeferMsg env m w).2))
      else
        (if env.succeeds (Call.handler Handler.limProcessSmeReqMessages m)
            (if fRspReqd then { w with st := { w.st with gLimRspReqd := 1 } } else w).st = true then
          freeBodyptr env
            (callMsgHandler env Handler.limProcessSmeReqMessages m
              (if fRspReqd then { w with st := { w.st with gLimRspReqd := 1 } } else w)).1
            (callMsgHandler env Handler.limProcessSmeReqMessages m
              (if fRspReqd then { w with st := { w.st with gLimRspReqd := 1 } } else w)).2
        else
          callMsgHandler env Handler.limProcessSmeReqMessages m
            (if fRspReqd then { w with st := { w.st with gLimRspReqd := 1 } } else w))) := by
    intro b
    have hw1 : quiet env tr q
        (if fRspReqd then { w with st := { w.st with gLimRspReqd := 1 } } else w) := by
      cases fRspReqd
      · exact h
      · exact h
    by_cases hc : (w.st.gLimAddtsSent ≠ 0 ∨ limIsSystemInScanState env w.st = true) ∧ b = true
    · rw [if_pos hc]
      have hs : drainStops env w.st = true := by
        rcases hc.1 with ha | hscan
        · exact drainStops_of env w.st (Or.inr (Or.inr ha))
        · exact drainStops_of env w.st (Or.inl hscan)
      refine Or.inr ?_
      by_cases hd : (limDeferMsg env m w).1 ≠ TxStatus.TX_SUCCESS
      · rw [if_pos hd]
        exact (drainStops_limDeferMsg env m w).trans hs
      · rw [if_neg hd]
        exact (drainStops_limDeferMsg env m w).trans hs
    · rw [if_neg hc]
      refine Or.inl ?_
      generalize (if fRspReqd then
        ({ w with st := { w.st with gLimRspReqd := 1 } } : World σ) else w) = w1 at hw1 ⊢
      by_cases hsucc : env.succeeds (Call.handler Handler.limProcessSmeReqMessages m) w1.st = true
      · rw [if_pos hsucc]
        exact quiet_freeBodyptr env tr q _ _ (quiet_callMsgHandler env tr q _ _ _ hw1)
      · rw [if_neg hsucc]
        exact quiet_callMsgHandler env tr q _ _ _ hw1
  exact key _

theorem stepRule_limProcessMessages_frame (env : Env σ) (tr : List Call) (q : Nat × Nat)
    (m : tSirMsgQ) (w : World σ) (h : quiet env tr q w) :
    stepRule env tr q (limProcessMessages_frame env m w) := by
  unfold limProcessMessages_frame
  dsimp only
  by_cases hb : m.bodyptr = 0
  · rw [if_pos hb]
    exact Or.inl h
  · rw [if_neg hb]
    cases env.WDA_DS_PeekRxPacketInfo w.st.collab m.bodyptr with
    | none => exact Or.inl (quiet_callRelease env tr q _ w rfl h)
    | some bd =>
      dsimp only
      by_cases hd : (limHandle80211Frames env { m with bodyptr := bd } w).1 = true
      · rw [if_pos hd]
        refine Or.inr ?_
        have hs : drainStops env (limHandle80211Frames env { m with bodyptr := bd } w).2.st =
            true :=
          drainStops_of env _ (Or.inl (limHandle80211Frames_defer_scan env _ w hd))
        by_cases hx : (limDeferMsg env m
            (limHandle80211Frames env { m with bodyptr := bd } w).2).1 ≠ TxStatus.TX_SUCCESS
        · rw [if_pos hx]
          exact (drainStops_limDeferMsg env m _).trans hs
        · rw [if_neg hx]
          exact (drainStops_limDeferMsg env m _).trans hs
      · rw [if_neg hd]
        exact Or.inl (quiet_callRelease env tr q _ _ rfl
          (quiet_limHandle80211Frames env tr q _ w h))

set_option maxHeartbeats 4000000 in
theorem stepRule_limProcessMessages_switch (env : Env σ) (tr : List Call) (q : Nat × Nat)
    (m : tSirMsgQ) (w : World σ) (h : quiet env tr q w) :
    stepRule env tr q (limProcessMessages_switch env m w) := by
  obtain ⟨type, reserved, bodyptr, bodyval⟩ := m
  cases type
  case SIR_CFG_PARAM_UPDATE_IND =>
    unfold limProcessMessages_switch
    dsimp only
    split
    · rename_i hscan
      exact stepRule_deferred env tr q _ _ w (drainStops_of env w.st (Or.inl hscan))
    · exact Or.inl (quiet_callHandler env tr q _ w rfl h)
  case SIR_LIM_HEART_BEAT_TIMEOUT =>
    unfold limProcessMessages_switch
    dsimp only
    split
    · split
      · exact Or.inl h
      · exact Or.inl (quiet_callHandler env tr q _ _ rfl (quiet_callHandler env tr q _ w rfl h))
    · split
      · rename_i hscan
        exact stepRule_deferred env tr q _ _ w (drainStops_of env w.st (Or.inl hscan))
      · split
        · exact Or.inl (quiet_callHandler env tr q _ w rfl h)
        · exact Or.inl (quiet_callHandler env tr q _ w rfl h)
  all_goals unfold limProcessMessages_switch
  all_goals dsimp only
  all_goals repeat' first
    | exact h
    | exact stepRule_limProcessNormalHddMsg env tr q _ _ _ h
    | exact stepRule_limProcessMessages_frame env tr q _ _ h
    | exact quiet_q2qLoop env tr q _ _ _ w _ (by assumption) h
    | split
    | refine Or.inl ?_
    | refine quiet_freeBodyptr env tr q _ _ ?_
    | refine quiet_handOverBody env tr q _ _ _ ?_
    | refine quiet_halResponseHandler env tr q _ _ _ ?_
    | refine quiet_limProcessOemDataRsp env tr q _ _ ?_
    | refine quiet_limProcessAbortScanInd env tr q _ _ ?_
    | refine quiet_callMsgHandler env tr q _ _ _ ?_
    | refine quiet_callHandler env tr q _ _ rfl ?_
    | refine quiet_callRelease env tr q _ _ rfl ?_

theorem stepRule_limProcessMessages (env : Env σ) (q : Nat × Nat) (m : tSirMsgQ) (w : World σ)
    (hq : w.st.gLimDeferredMsgQ.length ≤ q.1) (ht : w.st.maxBssId ≤ q.2) :
    stepRule env w.trace q (limProcessMessages env m w) := by
  have h0 : quiet env w.trace q (note (Call.limProcessMessages m) w) :=
    And.intro (grows_note _ w.trace _ w rfl (grows_refl _ _))
      (And.intro (fun _ => hq) (fun _ => ht))
  unfold limProcessMessages
  dsimp only
  split
  · exact Or.inl (quiet_callRelease env w.trace q _ _ rfl h0)
  · exact stepRule_limProcessMessages_switch env w.trace q m _ h0

end Lim

namespace Lim

variable {σ : Type}

theorem deferCalls_of_notDefer (tr tr1 : List Call) (h : grows Call.notDefer tr tr1) :
    deferCalls tr1 = deferCalls tr :=
  reader_of_grows deferCalls Call.notDefer deferCalls_append rfl deferCalls_skip_notDefer
    tr tr1 h

/-- A pass of the dispatcher that called `limDeferMsg` ends in a state in which
the replay loop stops. -/
theorem limProcessMessages_redefer_stops (env : Env σ) (m : tSirMsgQ) (w : World σ)
    (h : deferCalls (limProcessMessages env m w).2.trace ≠ deferCalls w.trace) :
    drainStops env (limProcessMessages env m w).2.st = true := by
  rcases stepRule_limProcessMessages env (w.st.gLimDeferredMsgQ.length, w.st.maxBssId) m w
    (Nat.le_refl _) (Nat.le_refl _) with hq | hs
  · exact absurd (deferCalls_of_notDefer _ _ hq.1) h
  · exact hs

end Lim

namespace Lim

variable {σ : Type}

theorem noaLoop_zero (env : Env σ) (c : σ) (maxBssId i : Nat) :
    noaLoop env c maxBssId 0 i = none := rfl

/-- With fewer than 256 entries in the session table, the loop of the NOA cases
leaves within 256 tests of its condition. -/
theorem noaLoop_leaves (env : Env σ) (c : σ) (maxBssId : Nat) (hm : maxBssId < 256) :
    ∀ (rounds i : Nat), i ≤ 255 → 256 - i ≤ rounds →
      (noaLoop env c maxBssId rounds i).isSome = true := by
  intro rounds
  induction rounds with
  | zero => intro i hi hr; omega
  | succ n ih =>
    intro i hi hr
    unfold noaLoop
    by_cases h1 : i < maxBssId
    · rw [if_pos h1]
      by_cases hg : env.p2pGoSession c i = true
      · rw [if_pos hg]
        rfl
      · rw [if_neg hg]
        have e : (i + 1) % 2 ^ 8 = i + 1 := Nat.mod_eq_of_lt (by omega)
        rw [e]
        exact ih (i + 1) (by omega) (by omega)
    · rw [if_neg h1]
      rfl

/-- With 256 entries or more and no valid session with persona
`VOS_P2P_GO_MODE` among the first 256, the loop of the NOA cases never leaves:
its index wraps to 0 before it reaches `maxBssId`. -/
theorem noaLoop_never (env : Env σ) (c : σ) (maxBssId : Nat) (hm : 256 ≤ maxBssId)
    (hgo : ∀ i, i < 256 → env.p2pGoSession c i = false) :
    ∀ (rounds i : Nat), i < 256 → noaLoop env c maxBssId rounds i = none := by
  intro rounds
  induction rounds with
  | zero => intro i _; rfl
  | succ n ih =>
    intro i hi
    unfold noaLoop
    rw [if_pos (by omega : i < maxBssId), hgo i hi]
    exact ih _ (Nat.mod_lt _ (by decide))

/-- With handlers that do not raise `maxBssId` and fewer than 256 entries in the
session table, the loop of `WDA_UPDATE_Q2Q_IE_IND` leaves within 256 tests of
its condition. -/
theorem q2qLoop_leaves (env : Env σ) (hT : keepsTable env) (m : tSirMsgQ) :
    ∀ (rounds i : Nat) (w : World σ), w.st.maxBssId < 256 → i ≤ 255 → 256 - i ≤ rounds →
      (q2qLoop env m rounds i w).isSome = true := by
  intro rounds
  induction rounds with
  | zero => intro i w _ hi hr; omega
  | succ n ih =>
    intro i w hw hi hr
    unfold q2qLoop
    dsimp only
    by_cases h1 : i < w.st.maxBssId
    · rw [if_pos h1]
      have e : (i + 1) % 2 ^ 8 = i + 1 := Nat.mod_eq_of_lt (by omega)
      rw [e]
      cases env.pe_find_session_by_sme_session_id w.st.collab
          (env.load w.st.collab m.bodyptr (BodyField.byte i)) with
      | none => exact ih (i + 1) w hw (by omega) (by omega)
      | some session_entry =>
        dsimp only
        have h2 : (callRelease env (Call.fn Handler.sap_advertise_avoid_ch_ie session_entry)
            w).st.maxBssId < 256 := hw
        split
        · exact ih (i + 1) _ h2 (by omega) (by omega)
        · refine ih (i + 1) _ ?_ (by omega) (by omega)
          exact Nat.lt_of_le_of_lt (hT.1 _ _) (Nat.lt_of_le_of_lt (hT.1 _ _) h2)
    · rw [if_neg h1]
      rfl

/-- With handlers that do not raise `maxBssId`, a pass of the dispatcher that
starts with fewer than 256 entries in the session table returns. -/
theorem limProcessMessages_returns_small (env : Env σ) (hT : keepsTable env) (m : tSirMsgQ)
    (w : World σ) (hw : w.st.maxBssId < 256) : limProcessMessages_returns env m w = true := by
  unfold limProcessMessages_returns
  dsimp only
  split
  · rfl
  · split
    · exact noaLoop_leaves env _ _ (Nat.lt_of_le_of_lt (hT.1 _ _) hw) 256 0 (by omega)
        (by omega)
    · exact noaLoop_leaves env _ _ hw 256 0 (by omega) (by omega)
    · split
      · exact q2qLoop_leaves env hT m 256 0 _ hw (by omega) (by omega)
      · rfl
    · rfl

theorem drainLoop_strict_nil (env : Env σ) (fuel : Nat) (w : World σ)
    (hq : w.st.gLimDeferredMsgQ = []) : drainLoop_strict env fuel w = some w := by
  cases fuel <;> simp [drainLoop_strict, limReadDeferredMsgQ, hq]

theorem drainLoop_strict_zero (env : Env σ) (w : World σ)
    (hq : w.st.gLimDeferredMsgQ ≠ []) : drainLoop_strict env 0 w = none := by
  cases hl : w.st.gLimDeferredMsgQ with
  | nil => exact absurd hl hq
  | cons m rest => simp [drainLoop_strict, limReadDeferredMsgQ, hl]

theorem drainLoop_strict_succ (env : Env σ) (fuel : Nat) (w : World σ) (m : tSirMsgQ)
    (rest : List tSirMsgQ) (hq : w.st.gLimDeferredMsgQ = m :: rest) :
    drainLoop_strict env (fuel + 1) w =
      if limProcessMessages_returns env m
          { w with st := { w.st with gLimDeferredMsgQ := rest } } = true then
        (if drainStops env (replayOne env w).st then some (replayOne env w)
         else drainLoop_strict env fuel (replayOne env w))
      else none := by
  simp [drainLoop_strict, replayOne, limReadDeferredMsgQ, hq]

/-- With handlers that neither enqueue nor raise `maxBssId`, and fewer than 256
entries in the session table, the replay loop returns when it has fuel for the
entries queued at entry, and replays at most that many. -/
theorem drainLoop_terminates (env : Env σ) (hE : noEnqueue env) (hT : keepsTable env) :
    ∀ (fuel : Nat) (w : World σ), w.st.maxBssId < 256 → w.st.gLimDeferredMsgQ.length ≤ fuel →
      ∃ w1 : World σ, drainLoop_strict env fuel w = some w1 ∧ drainLoop env fuel w = some w1 ∧
        (processed w1.trace).length ≤
          (processed w.trace).length + w.st.gLimDeferredMsgQ.length := by
  intro fuel
  induction fuel with
  | zero =>
    intro w _ hlen
    have hq : w.st.gLimDeferredMsgQ = [] := List.length_eq_zero.mp (Nat.le_zero.mp hlen)
    exact ⟨w, drainLoop_strict_nil env 0 w hq, drainLoop_nil env 0 w hq, Nat.le_add_right _ _⟩
  | succ fuel ih =>
    intro w hw hlen
    cases hq : w.st.gLimDeferredMsgQ with
    | nil =>
      exact ⟨w, drainLoop_strict_nil env _ w hq, drainLoop_nil env _ w hq,
        Nat.le_add_right _ _⟩
    | cons m rest =>
      have hne : w.st.gLimDeferredMsgQ ≠ [] := by
        rw [hq]
        exact List.cons_ne_nil _ _
      have hp : processed (replayOne env w).trace = processed w.trace ++ [m] :=
        replayOne_processed env w m rest hq
      have hret : limProcessMessages_returns env m
          { w with st := { w.st with gLimDeferredMsgQ := rest } } = true :=
        limProcessMessages_returns_small env hT m _ hw
      rw [drainLoop_strict_succ env fuel w m rest hq, if_pos hret,
        drainLoop_succ env fuel w hne]
      by_cases hs : drainStops env (replayOne env w).st = true
      · rw [if_pos hs, if_pos hs]
        refine ⟨_, rfl, rfl, ?_⟩
        rw [hp]
        simp only [List.length_append, List.length_singleton, List.length_cons,
          List.length_nil]
        omega
      · rw [if_neg hs, if_neg hs]
        have hstep := stepRule_limProcessMessages env (rest.length, w.st.maxBssId) m
          { w with st := { w.st with gLimDeferredMsgQ := rest } } (Nat.le_refl _)
          (Nat.le_refl _)
        have e := replayOne_cons env w m rest hq
        rcases hstep with hquiet | hstop
        · have h1 : (replayOne env w).st.gLimDeferredMsgQ.length ≤ rest.length := by
            rw [e]
            exact hquiet.2.1 hE
          have h2 : (replayOne env w).st.maxBssId < 256 := by
            rw [e]
            exact Nat.lt_of_le_of_lt (hquiet.2.2 hT) hw
          have hlen1 : (replayOne env w).st.gLimDeferredMsgQ.length ≤ fuel := by
            rw [hq] at hlen
            simp only [List.length_cons] at hlen
            omega
          obtain ⟨w1, hrun, hrun1, hcount⟩ := ih (replayOne env w) h2 hlen1
          refine ⟨w1, hrun, hrun1, ?_⟩
          rw [hp] at hcount
          simp only [List.length_append, List.length_singleton, List.length_cons,
            List.length_nil] at hcount ⊢
          omega
        · have hstop1 : drainStops env (replayOne env w).st = true := by
            rw [e]
            exact hstop
          exact absurd hstop1 hs

/-- C36 fails as stated: the handlers of `envQuiet` do not enqueue, and with a
session table of 256 entries, none a P2P GO session, and a
`WDA_P2P_NOA_ATTR_IND` at the head of the deferred queue, the replay loop does
not return, whatever the fuel: the 8-bit index of the loop over the session
table wraps to 0 before it reaches `maxBssId`, for any number of rounds. -/
theorem limProcessDeferredMessageQueue_table_counterexample :
    noEnqueue envQuiet ∧
    (∀ rounds : Nat, noaLoop envQuiet () 256 rounds 0 = none) ∧
    (∀ fuel : Nat,
      limProcessDeferredMessageQueue_strict envQuiet fuel
        ⟨{ stNormal with
            maxBssId := 256
            gLimDeferredMsgQ := [msgOf MsgType.WDA_P2P_NOA_ATTR_IND] }, []⟩ = none) := by
  have hnever : ∀ rounds : Nat, noaLoop envQuiet () 256 rounds 0 = none := fun rounds =>
    noaLoop_never envQuiet () 256 (Nat.le_refl _) (fun _ _ => rfl) rounds 0 (by decide)
  refine ⟨⟨fun _ _ => Nat.le_refl _, fun _ _ _ => Nat.le_refl _⟩, hnever, fun fuel => ?_⟩
  have hret : limProcessMessages_returns envQuiet (msgOf MsgType.WDA_P2P_NOA_ATTR_IND)
      ⟨{ stNormal with maxBssId := 256, gLimDeferredMsgQ := [] }, []⟩ = false := by
    unfold limProcessMessages_returns
    dsimp only
    rw [if_neg (by decide)]
    show (noaLoop envQuiet () 256 256 0).isSome = false
    rw [hnever 256]
    rfl
  unfold limProcessDeferredMessageQueue_strict
  rw [if_pos (by decide)]
  cases fuel with
  | zero => exact drainLoop_strict_zero envQuiet _ (by decide)
  | succ fuel =>
    rw [drainLoop_strict_succ envQuiet fuel _ (msgOf MsgType.WDA_P2P_NOA_ATTR_IND) [] rfl]
    rw [if_neg]
    rw [hret]
    decide

/-- C36, amended: whenever `limProcessMessages` calls `limDeferMsg` (the paths
for `SIR_CFG_PARAM_UPDATE_IND` and `SIR_LIM_HEART_BEAT_TIMEOUT` in scan state,
for `limProcessNormalHddMsg` in scan state or with `gLimAddtsSent` set, and for
a received frame the scan-state classifier wants deferred), the stop condition
of the replay loop holds in the state it leaves; so a replay pass that defers
its entry again is the last pass of the loop.  With handlers that neither
enqueue nor raise `maxBssId`, and a session table of fewer than 256 entries, one
call of `limProcessDeferredMessageQueue` given fuel for the entries queued at
entry returns (every replay returns from its loop over the session table), and
has made at most as many passes as the queue held at entry. -/
theorem limProcessDeferredMessageQueue_terminates (env : Env σ) :
    (∀ (m : tSirMsgQ) (w : World σ),
      deferCalls (limProcessMessages env m w).2.trace ≠ deferCalls w.trace →
      drainStops env (limProcessMessages env m w).2.st = true) ∧
    (∀ (fuel : Nat) (w : World σ), w.st.gLimDeferredMsgQ ≠ [] →
      deferCalls (replayOne env w).trace ≠ deferCalls w.trace →
      limProcessDeferredMessageQueue env (fuel + 1) w = some (replayOne env w)) ∧
    (noEnqueue env → keepsTable env → ∀ (fuel : Nat) (w : World σ),
      w.st.maxBssId < 256 → w.st.gLimDeferredMsgQ.length ≤ fuel →
      ∃ w1 : World σ, limProcessDeferredMessageQueue_strict env fuel w = some w1 ∧
        limProcessDeferredMessageQueue env fuel w = some w1 ∧
        (processed w1.trace).length ≤
          (processed w.trace).length + w.st.gLimDeferredMsgQ.length) := by
  refine ⟨limProcessMessages_redefer_stops env, ?_, ?_⟩
  · intro fuel w hne hdef
    cases hq : w.st.gLimDeferredMsgQ with
    | nil => exact absurd hq hne
    | cons m rest =>
      have hpos : w.st.gLimDeferredMsgQ.length > 0 := by
        rw [hq]
        simp
      unfold limProcessDeferredMessageQueue
      rw [if_pos hpos, drainLoop_succ env fuel w hne]
      have hs : drainStops env (replayOne env w).st = true := by
        rw [replayOne_cons env w m rest hq] at hdef ⊢
        exact limProcessMessages_redefer_stops env m _ hdef
      rw [if_pos hs]
  · intro hE hT fuel w hw hlen
    unfold limProcessDeferredMessageQueue_strict limProcessDeferredMessageQueue
    by_cases hpos : w.st.gLimDeferredMsgQ.length > 0
    · rw [if_pos hpos, if_pos hpos]
      exact drainLoop_terminates env hE hT fuel w hw hlen
    · rw [if_neg hpos, if_neg hpos]
      exact ⟨w, rfl, rfl, Nat.le_add_right _ _⟩

/-- C36 at a concrete input: in scan state the queue holds a scan request and a
configuration update; the replay of the scan request defers it again and the
loop ends after that one pass.  And with the handlers of `envQuiet`, a session
table of 4 entries and two unknown events queued, a call with fuel 2 returns
after at most two passes. -/
theorem limProcessDeferredMessageQueue_terminates_witness :
    limProcessDeferredMessageQueue envScan (0 + 1)
        ⟨{ stNormal with
            gLimSmeState := tLimSmeStates.other 3
            gLimDeferredMsgQ :=
              [msgOf MsgType.eWNI_SME_SCAN_REQ, msgOf MsgType.SIR_CFG_PARAM_UPDATE_IND] }, []⟩ =
      some (replayOne envScan
        ⟨{ stNormal with
            gLimSmeState := tLimSmeStates.other 3
            gLimDeferredMsgQ :=
              [msgOf MsgType.eWNI_SME_SCAN_REQ, msgOf MsgType.SIR_CFG_PARAM_UPDATE_IND] }, []⟩) ∧
    ∃ w1 : World Unit,
      limProcessDeferredMessageQueue_strict envQuiet 2
        ⟨{ stNormal with
            gLimDeferredMsgQ := [msgOf (MsgType.other 1), msgOf (MsgType.other 2)] }, []⟩ =
        some w1 ∧
      limProcessDeferredMessageQueue envQuiet 2
        ⟨{ stNormal with
            gLimDeferredMsgQ := [msgOf (MsgType.other 1), msgOf (MsgType.other 2)] }, []⟩ =
        some w1 ∧
      (processed w1.trace).length ≤ (processed ([] : List Call)).length + 2 :=
  ⟨(limProcessDeferredMessageQueue_terminates envScan).2.1 0
    ⟨{ stNormal with
        gLimSmeState := tLimSmeStates.other 3
        gLimDeferredMsgQ :=
          [msgOf MsgType.eWNI_SME_SCAN_REQ, msgOf MsgType.SIR_CFG_PARAM_UPDATE_IND] }, []⟩
    (by decide) (by decide),
   (limProcessDeferredMessageQueue_terminates envQuiet).2.2
    ⟨fun _ _ => Nat.le_refl _, fun _ _ _ => Nat.le_refl _⟩
    ⟨fun _ _ => Nat.le_refl _, fun _ _ _ => Nat.le_refl _⟩ 2
    ⟨{ stNormal with
        gLimDeferredMsgQ := [msgOf (MsgType.other 1), msgOf (MsgType.other 2)] }, []⟩
    (by decide) (by decide)⟩

end Lim

namespace Lim

variable {σ : Type}

/-! ## C37: the first replay, and scan-learn mode -/

theorem drainLoop_extends (env : Env σ) :
    ∀ (fuel : Nat) (w w1 : World σ), drainLoop env fuel w = some w1 →
      ∃ more : List tSirMsgQ, processed w1.trace = processed w.trace ++ more := by
  intro fuel
  induction fuel with
  | zero =>
    intro w w1 h
    cases hq : w.st.gLimDeferredMsgQ with
    | nil =>
      rw [drainLoop_nil env 0 w hq] at h
      cases h
      exact ⟨[], by simp⟩
    | cons m rest => simp [drainLoop, limReadDeferredMsgQ, hq] at h
  | succ fuel ih =>
    intro w w1 h
    cases hq : w.st.gLimDeferredMsgQ with
    | nil =>
      rw [drainLoop_nil env _ w hq] at h
      cases h
      exact ⟨[], by simp⟩
    | cons m rest =>
      have hne : w.st.gLimDeferredMsgQ ≠ [] := by
        rw [hq]
        exact List.cons_ne_nil _ _
      have hp := replayOne_processed env w m rest hq
      rw [drainLoop_succ env fuel w hne] at h
      by_cases hs : drainStops env (replayOne env w).st = true
      · rw [if_pos hs] at h
        cases h
        exact ⟨[m], hp⟩
      · rw [if_neg hs] at h
        obtain ⟨more, hmore⟩ := ih _ _ h
        exact ⟨m :: more, by rw [hmore, hp]; simp⟩

/-- C37: on an empty queue `limProcessDeferredMessageQueue` does nothing.  On a
queue with head `m` it replays `m` whatever the mode flags are at entry: the stop
condition is tested only after the replay, in the state the replay left.  If
`gLimSystemInScanLearnMode` is not zero after the first replay the call ends
there, with exactly that one entry replayed, whatever the scan state, the busy
flag and `gLimAddtsSent` are.  The drain trigger of `limMessageProcessor` does
not look at `gLimSystemInScanLearnMode`: after a message was processed it calls
the replay whenever `gLimAddtsSent` is clear, the system is not in scan state
and the busy flag is true. -/
theorem limProcessDeferredMessageQueue_first_replay (env : Env σ) (fuel : Nat) (w : World σ) :
    (w.st.gLimDeferredMsgQ = [] → limProcessDeferredMessageQueue env fuel w = some w) ∧
    (∀ (m : tSirMsgQ) (rest : List tSirMsgQ), w.st.gLimDeferredMsgQ = m :: rest →
      limProcessDeferredMessageQueue env (fuel + 1) w =
        (if drainStops env (replayOne env w).st then some (replayOne env w)
         else drainLoop env fuel (replayOne env w)) ∧
      processed (replayOne env w).trace = processed w.trace ++ [m] ∧
      (∀ w1 : World σ, limProcessDeferredMessageQueue env (fuel + 1) w = some w1 →
        ∃ more : List tSirMsgQ, processed w1.trace = processed w.trace ++ m :: more)) ∧
    (∀ (m : tSirMsgQ) (rest : List tSirMsgQ), w.st.gLimDeferredMsgQ = m :: rest →
      (replayOne env w).st.gLimSystemInScanLearnMode ≠ 0 →
      limProcessDeferredMessageQueue env (fuel + 1) w = some (replayOne env w) ∧
      processed (replayOne env w).trace = processed w.trace ++ [m]) ∧
    (∀ limMsg : tSirMsgQ,
      w.st.gLimMlmState ≠ tLimMlmStates.eLIM_MLM_OFFLINE_STATE →
      (defMsgDecision env limMsg w).1 = false →
      (limProcessMessages env limMsg w).2.st.gLimAddtsSent = 0 →
      limIsSystemInScanState env (limProcessMessages env limMsg w).2.st = false →
      (limProcessMessages env limMsg w).2.st.gLimProcessDefdMsgs = 1 →
      limMessageProcessor env fuel limMsg w =
        limProcessDeferredMessageQueue env fuel
          (note Call.limProcessDeferredMessageQueue (limProcessMessages env limMsg w).2)) := by
  have first : ∀ (m : tSirMsgQ) (rest : List tSirMsgQ), w.st.gLimDeferredMsgQ = m :: rest →
      limProcessDeferredMessageQueue env (fuel + 1) w =
        (if drainStops env (replayOne env w).st then some (replayOne env w)
         else drainLoop env fuel (replayOne env w)) := by
    intro m rest hq
    have hne : w.st.gLimDeferredMsgQ ≠ [] := by
      rw [hq]
      exact List.cons_ne_nil _ _
    have hpos : w.st.gLimDeferredMsgQ.length > 0 := by
      rw [hq]
      simp
    unfold limProcessDeferredMessageQueue
    rw [if_pos hpos, drainLoop_succ env fuel w hne]
  refine ⟨?_, ?_, ?_, ?_⟩
  · intro hq
    unfold limProcessDeferredMessageQueue
    rw [hq]
    simp
  · intro m rest hq
    refine ⟨first m rest hq, replayOne_processed env w m rest hq, ?_⟩
    intro w1 h
    rw [first m rest hq] at h
    by_cases hs : drainStops env (replayOne env w).st = true
    · rw [if_pos hs] at h
      cases h
      exact ⟨[], replayOne_processed env w m rest hq⟩
    · rw [if_neg hs] at h
      obtain ⟨more, hmore⟩ := drainLoop_extends env fuel _ _ h
      exact ⟨more, by rw [hmore, replayOne_processed env w m rest hq]; simp⟩
  · intro m rest hq hlearn
    refine ⟨?_, replayOne_processed env w m rest hq⟩
    rw [first m rest hq]
    have hs : drainStops env (replayOne env w).st = true := by
      unfold drainStops
      simp [hlearn]
    rw [if_pos hs]
  · intro limMsg hmlm hd haddts hscan hflag
    have hw := defMsgDecision_snd_of_false env limMsg w hd
    unfold limMessageProcessor
    rw [if_neg (fun e => hmlm e.symm)]
    dsimp only
    rw [hd, hw]
    simp only [Bool.not_false, if_true]
    rw [if_pos ⟨haddts, hscan⟩]
    unfold GET_LIM_PROCESS_DEFD_MESGS
    rw [if_pos hflag.symm]

/-- C37 at a concrete input: two unknown events are queued; the busy flag is
true, the system is not in scan state and no ADDTS is outstanding, but
`gLimSystemInScanLearnMode` is 1: the call replays the first entry only. -/
theorem limProcessDeferredMessageQueue_first_replay_witness :
    limProcessDeferredMessageQueue envQuiet (0 + 1)
        ⟨{ stNormal with
            gLimSystemInScanLearnMode := 1
            gLimDeferredMsgQ := [msgOf (MsgType.other 1), msgOf (MsgType.other 2)] }, []⟩ =
      some (replayOne envQuiet
        ⟨{ stNormal with
            gLimSystemInScanLearnMode := 1
            gLimDeferredMsgQ := [msgOf (MsgType.other 1), msgOf (MsgType.other 2)] }, []⟩) ∧
    processed (replayOne envQuiet
        ⟨{ stNormal with
            gLimSystemInScanLearnMode := 1
            gLimDeferredMsgQ := [msgOf (MsgType.other 1), msgOf (MsgType.other 2)] }, []⟩).trace =
      processed [] ++ [msgOf (MsgType.other 1)] :=
  (limProcessDeferredMessageQueue_first_replay envQuiet 0
    ⟨{ stNormal with
        gLimSystemInScanLearnMode := 1
        gLimDeferredMsgQ := [msgOf (MsgType.other 1), msgOf (MsgType.other 2)] }, []⟩).2.2.1
    (msgOf (MsgType.other 1)) [msgOf (MsgType.other 2)] rfl (by decide)

end Lim

namespace Lim

variable {σ : Type}

/-! ## C38: scan offload and the deferral of frames -/

theorem pktFrees_append (a b : List Call) : pktFrees (a ++ b) = pktFrees a ++ pktFrees b := by
  induction a with
  | nil => rfl
  | cons c rest ih =>
    cases c <;> first
      | exact ih
      | exact congrArg (List.cons _) ih

theorem pktFrees_skip (c : Call) (rest : List Call) (h : c.notPktFree = true) :
    pktFrees (c :: rest) = pktFrees rest := by
  cases c <;> first | rfl | exact absurd h Bool.false_ne_true

theorem pktFrees_of_grows (tr tr1 : List Call) (h : grows Call.notPktFree tr tr1) :
    pktFrees tr1 = pktFrees tr :=
  reader_of_grows pktFrees Call.notPktFree pktFrees_append rfl pktFrees_skip tr tr1 h

theorem notPktFree___limHandleBeacon (env : Env σ) (tr : List Call) (m : tSirMsgQ)
    (psessionEntry : Option Nat) (w : World σ) (h : grows Call.notPktFree tr w.trace) :
    grows Call.notPktFree tr (__limHandleBeacon env m psessionEntry w).trace := by
  unfold __limHandleBeacon
  dsimp only
  repeat' split
  all_goals exact grows_callHandler _ env tr _ w rfl h

theorem notPktFree_limHandleUnknownA2IndexFrames (env : Env σ) (tr : List Call)
    (pkt : RxPacketInfo) (psessionEntry : Nat) (w : World σ)
    (h : grows Call.notPktFree tr w.trace) :
    grows Call.notPktFree tr (limHandleUnknownA2IndexFrames env pkt psessionEntry w).trace := by
  unfold limHandleUnknownA2IndexFrames
  dsimp only
  repeat' split
  all_goals repeat' first
    | exact h
    | refine grows_callHandler _ env tr _ _ rfl ?_

theorem notPktFree_limCheckMgmtRegisteredFrames (env : Env σ) (tr : List Call)
    (pkt : RxPacketInfo) (psessionEntry : Option Nat) (w : World σ)
    (h : grows Call.notPktFree tr w.trace) :
    grows Call.notPktFree tr (limCheckMgmtRegisteredFrames env pkt psessionEntry w).2.trace := by
  unfold limCheckMgmtRegisteredFrames
  dsimp only
  repeat' split
  all_goals first
    | exact h
    | exact grows_callHandler _ env tr _ w rfl h

theorem notPktFree_limHandle80211Frames_session (env : Env σ) (tr : List Call) (m : tSirMsgQ)
    (pkt : RxPacketInfo) (w : World σ) (h : grows Call.notPktFree tr w.trace) :
    grows Call.notPktFree tr (limHandle80211Frames_session env m pkt w).2.trace := by
  unfold limHandle80211Frames_session
  dsimp only
  repeat' split
  all_goals repeat' first
    | exact h
    | refine grows_callHandler _ env tr _ _ rfl ?_

theorem notPktFree_limHandle80211Frames_switch (env : Env σ) (tr : List Call) (m : tSirMsgQ)
    (pkt : RxPacketInfo) (psessionEntry : Option Nat) (w : World σ)
    (h : grows Call.notPktFree tr w.trace) :
    grows Call.notPktFree tr (limHandle80211Frames_switch env m pkt psessionEntry w).trace := by
  cases psessionEntry <;> unfold limHandle80211Frames_switch <;> dsimp only <;>
    repeat' first
      | exact h
      | exact notPktFree___limHandleBeacon env tr _ _ w h
      | exact notPktFree_limHandleUnknownA2IndexFrames env tr _ _ w h
      | refine grows_callHandler _ env tr _ _ rfl ?_
      | refine grows_ite _ tr _ _ _ ?_ ?_

theorem fScanOffload_limCheckMgmtRegisteredFrames (env : Env σ)
    (hoff : ∀ (c : Call) (s : LimState σ), (env.handler c s).fScanOffload = s.fScanOffload)
    (pkt : RxPacketInfo) (psessionEntry : Option Nat) (w : World σ) :
    (limCheckMgmtRegisteredFrames env pkt psessionEntry w).2.st.fScanOffload =
      w.st.fScanOffload := by
  unfold limCheckMgmtRegisteredFrames
  dsimp only
  repeat' split
  all_goals first
    | rfl
    | exact hoff _ _

theorem fScanOffload_limHandle80211Frames_session (env : Env σ)
    (hoff : ∀ (c : Call) (s : LimState σ), (env.handler c s).fScanOffload = s.fScanOffload)
    (m : tSirMsgQ) (pkt : RxPacketInfo) (w : World σ) :
    (limHandle80211Frames_session env m pkt w).2.st.fScanOffload = w.st.fScanOffload := by
  unfold limHandle80211Frames_session
  dsimp only
  repeat' split
  all_goals first
    | rfl
    | exact hoff _ _

/-- The paths of `limHandle80211Frames_dispatch` other than the scan-state
classifier end with the release of the buffer. -/
theorem limHandle80211Frames_dispatch_released (env : Env σ) (tr : List Call) (m : tSirMsgQ)
    (pkt : RxPacketInfo) (psessionEntry : Option Nat) (w : World σ)
    (h : grows Call.notPktFree tr w.trace)
    (hscan : ¬ ((limCheckMgmtRegisteredFrames env pkt psessionEntry w).2.st.fScanOffload = 0 ∧
      limIsSystemInScanState env
        (limCheckMgmtRegisteredFrames env pkt psessionEntry w).2.st = true)) :
    ∃ w1 : World σ,
      limHandle80211Frames_dispatch env m pkt psessionEntry w =
        (false, limPktFree env pkt m w1) ∧
      grows Call.notPktFree tr w1.trace := by
  have hr := notPktFree_limCheckMgmtRegisteredFrames env tr pkt psessionEntry w h
  unfold limHandle80211Frames_dispatch
  dsimp only
  by_cases h1 : (limCheckMgmtRegisteredFrames env pkt psessionEntry w).1 = true
  · rw [if_pos h1]
    exact ⟨_, rfl, hr⟩
  · rw [if_neg h1]
    by_cases h2 : pkt.hdr.fc.protVer ≠ SIR_MAC_PROTOCOL_VERSION
    · rw [if_pos h2]
      exact ⟨_, rfl, hr⟩
    · rw [if_neg h2, if_neg hscan]
      exact ⟨_, rfl, notPktFree_limHandle80211Frames_switch env tr _ _ _ _ hr⟩

theorem limHandle80211Frames_released (env : Env σ)
    (hoff : ∀ (c : Call) (s : LimState σ), (env.handler c s).fScanOffload = s.fScanOffload)
    (limMsg : tSirMsgQ) (w : World σ) (hf : w.st.fScanOffload ≠ 0) :
    ∃ w1 : World σ,
      limHandle80211Frames env limMsg w =
        (false, limPktFree env (env.limGetBDfromRxPacket w.st.collab limMsg.bodyptr) limMsg w1) ∧
      grows Call.notPktFree w.trace w1.trace := by
  have h0 : grows Call.notPktFree w.trace w.trace := grows_refl _ _
  have hs := notPktFree_limHandle80211Frames_session env w.trace limMsg
    (env.limGetBDfromRxPacket w.st.collab limMsg.bodyptr) w h0
  have hfs := fScanOffload_limHandle80211Frames_session env hoff limMsg
    (env.limGetBDfromRxPacket w.st.collab limMsg.bodyptr) w
  unfold limHandle80211Frames
  dsimp only
  repeat' split
  all_goals first
    | exact ⟨_, rfl, h0⟩
    | exact ⟨_, rfl, grows_callHandler _ env _ _ w rfl h0⟩
    | exact ⟨_, rfl, notPktFree___limHandleBeacon env _ _ _ w h0⟩
    | (rename_i heq
       rw [heq] at hs hfs
       first
         | exact ⟨_, rfl, hs⟩
         | (refine limHandle80211Frames_dispatch_released env _ _ _ _ _ hs ?_
            intro hc
            rw [fScanOffload_limCheckMgmtRegisteredFrames env hoff, hfs] at hc
            exact hf hc.1))

/-- C38: let the handlers leave `fScanOffload` alone.  Whenever `fScanOffload`
is not zero, for every received frame and every state, scan state included,
`limHandle80211Frames` leaves `*pDeferMsg` false and releases the frame buffer
with `limPktFree` exactly once, as its last call.  The scan-state classifier is
reached only past the registered-frame and version checks, with `fScanOffload`
zero and the system in scan state: in every other case
`limHandle80211Frames_dispatch` ends at the release. -/
theorem limHandle80211Frames_scan_offload (env : Env σ) (limMsg : tSirMsgQ) (w : World σ)
    (hoff : ∀ (c : Call) (s : LimState σ), (env.handler c s).fScanOffload = s.fScanOffload)
    (hf : w.st.fScanOffload ≠ 0) :
    (limHandle80211Frames env limMsg w).1 = false ∧
    pktFrees (limHandle80211Frames env limMsg w).2.trace =
      pktFrees w.trace ++
        [((env.limGetBDfromRxPacket w.st.collab limMsg.bodyptr).addr, limMsg.bodyptr)] ∧
    (∃ w1 : World σ, (limHandle80211Frames env limMsg w).2 =
      limPktFree env (env.limGetBDfromRxPacket w.st.collab limMsg.bodyptr) limMsg w1) ∧
    (∀ (pkt : RxPacketInfo) (psessionEntry : Option Nat) (w0 : World σ),
      ¬ ((limCheckMgmtRegisteredFrames env pkt psessionEntry w0).2.st.fScanOffload = 0 ∧
        limIsSystemInScanState env
          (limCheckMgmtRegisteredFrames env pkt psessionEntry w0).2.st = true) →
      limHandle80211Frames_dispatch env limMsg pkt psessionEntry w0 =
        (false, limPktFree env pkt limMsg
          (if (limCheckMgmtRegisteredFrames env pkt psessionEntry w0).1 = true ∨
              pkt.hdr.fc.protVer ≠ SIR_MAC_PROTOCOL_VERSION then
            (limCheckMgmtRegisteredFrames env pkt psessionEntry w0).2
          else
            limHandle80211Frames_switch env limMsg pkt psessionEntry
              (limCheckMgmtRegisteredFrames env pkt psessionEntry w0).2))) ∧
    (∀ (pkt : RxPacketInfo) (psessionEntry : Option Nat) (w0 : World σ),
      (limCheckMgmtRegisteredFrames env pkt psessionEntry w0).1 = false →
      pkt.hdr.fc.protVer = SIR_MAC_PROTOCOL_VERSION →
      (limCheckMgmtRegisteredFrames env pkt psessionEntry w0).2.st.fScanOffload = 0 →
      limIsSystemInScanState env
        (limCheckMgmtRegisteredFrames env pkt psessionEntry w0).2.st = true →
      limHandle80211Frames_dispatch env limMsg pkt psessionEntry w0 =
        limHandleFramesInScanState env limMsg pkt psessionEntry
          (limCheckMgmtRegisteredFrames env pkt psessionEntry w0).2) := by
  obtain ⟨w1, hres, hg⟩ := limHandle80211Frames_released env hoff limMsg w hf
  refine ⟨?_, ?_, ⟨w1, ?_⟩, ?_, ?_⟩
  · rw [hres]
  · rw [hres]
    simp only [limPktFree, callRelease, pktFrees_append]
    rw [pktFrees_of_grows _ _ hg]
    rfl
  · rw [hres]
  · intro pkt ps w0 hscan
    unfold limHandle80211Frames_dispatch
    dsimp only
    by_cases h1 : (limCheckMgmtRegisteredFrames env pkt ps w0).1 = true
    · rw [if_pos h1, if_pos (Or.inl h1)]
    · rw [if_neg h1]
      by_cases h2 : pkt.hdr.fc.protVer ≠ SIR_MAC_PROTOCOL_VERSION
      · rw [if_pos h2, if_pos (Or.inr h2)]
      · rw [if_neg h2, if_neg hscan, if_neg (by
          intro hc
          rcases hc with hc | hc
          · exact h1 hc
          · exact h2 hc)]
  · intro pkt ps w0 h1 h2 h3 h4
    unfold limHandle80211Frames_dispatch
    dsimp only
    rw [h1]
    simp only [Bool.false_eq_true, if_false]
    rw [if_neg (by simpa using h2), if_pos ⟨h3, h4⟩]

/-- C38 at a concrete input: with scan offload, a disassociation frame (packet
10) is not deferred and its buffer is released once. -/
theorem limHandle80211Frames_scan_offload_witness :
    (limHandle80211Frames envMgmt (frameMsg 10)
        ⟨{ stNormal with fScanOffload := 1 }, []⟩).1 = false ∧
    pktFrees (limHandle80211Frames envMgmt (frameMsg 10)
        ⟨{ stNormal with fScanOffload := 1 }, []⟩).2.trace =
      pktFrees [] ++ [((envMgmt.limGetBDfromRxPacket () (frameMsg 10).bodyptr).addr,
        (frameMsg 10).bodyptr)] :=
  ⟨(limHandle80211Frames_scan_offload envMgmt (frameMsg 10)
      ⟨{ stNormal with fScanOffload := 1 }, []⟩ (fun _ _ => rfl) (by decide)).1,
   (limHandle80211Frames_scan_offload envMgmt (frameMsg 10)
      ⟨{ stNormal with fScanOffload := 1 }, []⟩ (fun _ _ => rfl) (by decide)).2.1⟩

end Lim

namespace Lim

variable {σ : Type}

/-! ## C39: frames of session-bound subtypes without a session -/

/-- C39 fails as stated: in a build with `FEATURE_WLAN_ESE` and without
`FEATURE_WLAN_ESE_UPLOAD`, a data frame of subtype 0 marked FT-done, for which
no session is found by BSSID or by source address, received in scan state
without scan offload: `*pDeferMsg` is true and the buffer is not released. -/
theorem limHandle80211Frames_iapp_counterexample :
    (envIapp.limGetBDfromRxPacket () 16).hdr.fc.subType = 0 ∧
    envIapp.peFindSessionByBssid () (envIapp.limGetBDfromRxPacket () 16).hdr.bssId = none ∧
    envIapp.peFindSessionByPeerSta () (envIapp.limGetBDfromRxPacket () 16).hdr.sa = none ∧
    limHandle80211Frames envIapp (frameMsg 16)
        ⟨{ stNormal with gLimSmeState := tLimSmeStates.other 3 }, []⟩ =
      (true, ⟨{ stNormal with gLimSmeState := tLimSmeStates.other 3 }, []⟩) := by
  decide

/-- C39, amended: for every received frame, other than a data frame marked
FT-done in a build with `FEATURE_WLAN_ESE` and without `FEATURE_WLAN_ESE_UPLOAD`,
whose subtype is none of probe response, beacon, probe request, action, whose
BSSID matches no session and whose source address matches no session,
`limHandle80211Frames` leaves `*pDeferMsg` false and releases the buffer once, as
its last call; before that it makes at most one call, which is not the handler
of a subtype and not the indication of a registered frame: the session-less
pre-auth processing `limProcessAuthFrameNoSession` (for an authentication frame
in a build with `WLAN_FEATURE_VOWIFI_11R`), or the indication
`limSendSmeCandidateFoundInd` for a frame the firmware marks as roam candidate
(in a build with `WLAN_FEATURE_ROAM_SCAN_OFFLOAD`). -/
theorem limHandle80211Frames_sessionless_drop (env : Env σ) (limMsg : tSirMsgQ) (w : World σ)
    (pkt : RxPacketInfo)
    (hpkt : pkt = env.limGetBDfromRxPacket w.st.collab limMsg.bodyptr)
    (hiapp : ¬ (env.FEATURE_WLAN_ESE_IAPP = true ∧ pkt.hdr.fc.type = SIR_MAC_DATA_FRAME ∧
      pkt.ftDone = true))
    (hsub : pkt.hdr.fc.subType ≠ SIR_MAC_MGMT_PROBE_RSP ∧
      pkt.hdr.fc.subType ≠ SIR_MAC_MGMT_BEACON ∧
      pkt.hdr.fc.subType ≠ SIR_MAC_MGMT_PROBE_REQ ∧
      pkt.hdr.fc.subType ≠ SIR_MAC_MGMT_ACTION)
    (hbss : env.peFindSessionByBssid w.st.collab pkt.hdr.bssId = none)
    (hsa : ∀ w1 : World σ,
      (w1 = w ∨ w1 = callHandler env
        (Call.limProcessAuthFrameNoSession pkt.addr limMsg.bodyptr) w) →
      env.peFindSessionByPeerSta w1.st.collab pkt.hdr.sa = none) :
    (limHandle80211Frames env limMsg w).1 = false ∧
    ∃ w1 : World σ,
      (limHandle80211Frames env limMsg w).2 = limPktFree env pkt limMsg w1 ∧
      (w1 = w ∨
        (env.WLAN_FEATURE_VOWIFI_11R = true ∧ pkt.hdr.fc.subType = SIR_MAC_MGMT_AUTH ∧
          w1 = callHandler env (Call.limProcessAuthFrameNoSession pkt.addr limMsg.bodyptr) w) ∨
        (env.WLAN_FEATURE_ROAM_SCAN_OFFLOAD = true ∧ pkt.roamCandidateInd ≠ 0 ∧
          w1 = callHandler env (Call.limSendSmeCandidateFoundInd pkt.sessionId) w)) := by
  subst hpkt
  have hsess : ∃ w1 : World σ,
      limHandle80211Frames_session env limMsg
        (env.limGetBDfromRxPacket w.st.collab limMsg.bodyptr) w = (none, w1) ∧
      (w1 = w ∨
        (env.WLAN_FEATURE_VOWIFI_11R = true ∧
          (env.limGetBDfromRxPacket w.st.collab limMsg.bodyptr).hdr.fc.subType =
            SIR_MAC_MGMT_AUTH ∧
          w1 = callHandler env
            (Call.limProcessAuthFrameNoSession
              (env.limGetBDfromRxPacket w.st.collab limMsg.bodyptr).addr limMsg.bodyptr) w)) := by
    unfold limHandle80211Frames_session
    dsimp only
    rw [if_neg hiapp, hbss]
    dsimp only
    by_cases htried : (env.WLAN_FEATURE_VOWIFI_11R &&
        (env.limGetBDfromRxPacket w.st.collab limMsg.bodyptr).hdr.fc.subType ==
          SIR_MAC_MGMT_AUTH) = true
    · have h11 : env.WLAN_FEATURE_VOWIFI_11R = true ∧
          (env.limGetBDfromRxPacket w.st.collab limMsg.bodyptr).hdr.fc.subType =
            SIR_MAC_MGMT_AUTH := by
        simpa using htried
      by_cases hok : env.succeeds
          (Call.limProcessAuthFrameNoSession
            (env.limGetBDfromRxPacket w.st.collab limMsg.bodyptr).addr limMsg.bodyptr)
          w.st = true
      · rw [if_pos ⟨htried, hok⟩]
        exact ⟨_, rfl, Or.inr ⟨h11.1, h11.2, rfl⟩⟩
      · rw [if_neg (fun hc => hok hc.2)]
        rw [htried]
        simp only [if_true]
        rw [if_pos hsub, hsa _ (Or.inr rfl)]
        exact ⟨_, rfl, Or.inr ⟨h11.1, h11.2, rfl⟩⟩
    · rw [if_neg (fun hc => htried hc.1)]
      have hfalse : (env.WLAN_FEATURE_VOWIFI_11R &&
          (env.limGetBDfromRxPacket w.st.collab limMsg.bodyptr).hdr.fc.subType ==
            SIR_MAC_MGMT_AUTH) = false := by
        cases hb : (env.WLAN_FEATURE_VOWIFI_11R &&
          (env.limGetBDfromRxPacket w.st.collab limMsg.bodyptr).hdr.fc.subType ==
            SIR_MAC_MGMT_AUTH) with
        | false => rfl
        | true => exact absurd hb htried
      rw [hfalse]
      simp only [Bool.false_eq_true, if_false]
      rw [if_pos hsub, hsa _ (Or.inl rfl)]
      exact ⟨_, rfl, Or.inl rfl⟩
  obtain ⟨w1, hs1, hw1⟩ := hsess
  unfold limHandle80211Frames
  dsimp only
  by_cases hext : env.FEATURE_WLAN_EXTSCAN = true ∧
      ((env.limGetBDfromRxPacket w.st.collab limMsg.bodyptr).extscanSrc = true ∨
        (env.limGetBDfromRxPacket w.st.collab limMsg.bodyptr).epnoSrc = true)
  · rw [if_pos hext, if_neg (fun hc => by
      rcases hc with hc | hc
      · exact hsub.2.1 hc
      · exact hsub.1 hc)]
    exact ⟨rfl, w, rfl, Or.inl rfl⟩
  · rw [if_neg hext]
    by_cases hcand : env.WLAN_FEATURE_ROAM_SCAN_OFFLOAD = true ∧
        (env.limGetBDfromRxPacket w.st.collab limMsg.bodyptr).roamCandidateInd ≠ 0
    · rw [if_pos hcand]
      exact ⟨rfl, _, rfl, Or.inr (Or.inr ⟨hcand.1, hcand.2, rfl⟩)⟩
    · rw [if_neg hcand]
      by_cases hlearn : env.WLAN_FEATURE_ROAM_SCAN_OFFLOAD = true ∧
          (env.limGetBDfromRxPacket w.st.collab limMsg.bodyptr).offloadScanLearn ≠ 0
      · rw [if_pos hlearn, if_neg hsub.2.1, if_neg hsub.1]
        exact ⟨rfl, w, rfl, Or.inl rfl⟩
      · rw [if_neg hlearn, hs1]
        dsimp only
        refine ⟨rfl, w1, rfl, ?_⟩
        rcases hw1 with h | h
        · exact Or.inl h
        · exact Or.inr (Or.inl h)

/-- C39 at a concrete input: a disassociation frame (packet 10) for which no
session is found is released at once. -/
theorem limHandle80211Frames_sessionless_drop_witness :
    (limHandle80211Frames envMgmt (frameMsg 10) ⟨stNormal, []⟩).1 = false ∧
    (limHandle80211Frames envMgmt (frameMsg 10) ⟨stNormal, []⟩).2.trace =
      [Call.limPktFree 10 10] :=
  ⟨(limHandle80211Frames_sessionless_drop envMgmt (frameMsg 10) ⟨stNormal, []⟩
      (envMgmt.limGetBDfromRxPacket () 10) rfl (by decide) (by decide) rfl
      (fun _ _ => rfl)).1,
   rfl⟩

end Lim

namespace Lim

variable {σ : Type}

/-! ## C40: frames with another protocol version -/

/-- C40 fails as stated: in a build with `WLAN_FEATURE_ROAM_SCAN_OFFLOAD`, a
beacon (packet 8) with protocol version 1 that the firmware marks as
offload-scan-learn goes to `schBeaconProcess`; and in a build with
`WLAN_FEATURE_VOWIFI_11R`, an authentication frame (packet 11) with protocol
version 1 for which no session is found goes to `limProcessAuthFrameNoSession`.
No registration is in force in either case. -/
theorem limHandle80211Frames_version_counterexample :
    (envLfrV1.limGetBDfromRxPacket () 8).hdr.fc.protVer ≠ SIR_MAC_PROTOCOL_VERSION ∧
    (limHandle80211Frames envLfrV1 (frameMsg 8) ⟨stNormal, []⟩).2.trace =
      [Call.schBeaconProcess 8 none, Call.limPktFree 8 8] ∧
    (envV1.limGetBDfromRxPacket () 11).hdr.fc.protVer ≠ SIR_MAC_PROTOCOL_VERSION ∧
    (limHandle80211Frames { envV1 with WLAN_FEATURE_VOWIFI_11R := true } (frameMsg 11)
        ⟨stNormal, []⟩).2.trace =
      [Call.limProcessAuthFrameNoSession 11 11, Call.limPktFree 11 11] := by
  decide

/-- C40, amended: for every received frame whose protocol version is not
`SIR_MAC_PROTOCOL_VERSION` and that carries none of the marks of the firmware
acted on in the build (ext-scan or ePNO source with `FEATURE_WLAN_EXTSCAN`; roam
candidate or offload-scan-learn with `WLAN_FEATURE_ROAM_SCAN_OFFLOAD`),
`limHandle80211Frames` leaves `*pDeferMsg` false and releases the buffer once, as
its last call, without the `switch` on the subtype and without the scan-state
classifier.  The calls before the release are at most: the session-less pre-auth
processing of the session lookup (`limProcessAuthFrameNoSession`, only with
`WLAN_FEATURE_VOWIFI_11R`), and the indication to SME of
`limCheckMgmtRegisteredFrames`, which runs before the version check. -/
theorem limHandle80211Frames_bad_version (env : Env σ) (limMsg : tSirMsgQ) (w : World σ)
    (pkt : RxPacketInfo)
    (hpkt : pkt = env.limGetBDfromRxPacket w.st.collab limMsg.bodyptr)
    (hext : ¬ (env.FEATURE_WLAN_EXTSCAN = true ∧ (pkt.extscanSrc = true ∨ pkt.epnoSrc = true)))
    (hroam : ¬ (env.WLAN_FEATURE_ROAM_SCAN_OFFLOAD = true ∧
      (pkt.roamCandidateInd ≠ 0 ∨ pkt.offloadScanLearn ≠ 0)))
    (hver : pkt.hdr.fc.protVer ≠ SIR_MAC_PROTOCOL_VERSION) :
    (limHandle80211Frames env limMsg w).1 = false ∧
    ((limHandle80211Frames env limMsg w).2 =
        limPktFree env pkt limMsg (limHandle80211Frames_session env limMsg pkt w).2 ∨
      ∃ psessionEntry : Option Nat,
        (limHandle80211Frames env limMsg w).2 =
          limPktFree env pkt limMsg
            (limCheckMgmtRegisteredFrames env pkt psessionEntry
              (limHandle80211Frames_session env limMsg pkt w).2).2) ∧
    ((limHandle80211Frames_session env limMsg pkt w).2 = w ∨
      (env.WLAN_FEATURE_VOWIFI_11R = true ∧
        (limHandle80211Frames_session env limMsg pkt w).2 =
          callHandler env (Call.limProcessAuthFrameNoSession pkt.addr limMsg.bodyptr) w)) ∧
    (∀ (psessionEntry : Option Nat) (w1 : World σ),
      (limCheckMgmtRegisteredFrames env pkt psessionEntry w1).2 = w1 ∨
      ∃ r : tLimMgmtFrameRegistration,
        (limCheckMgmtRegisteredFrames env pkt psessionEntry w1).2 =
          callHandler env
            (Call.limSendSmeMgmtFrameInd pkt.hdr.fc.subType pkt.addr
              (pkt.payload.length + sizeof_tSirMacMgmtHdr) r.sessionId pkt.channel
              psessionEntry) w1) := by
  subst hpkt
  refine ⟨?_, ?_, ?_, ?_⟩
  · unfold limHandle80211Frames
    dsimp only
    rw [if_neg hext, if_neg (fun hc => hroam ⟨hc.1, Or.inl hc.2⟩),
      if_neg (fun hc => hroam ⟨hc.1, Or.inr hc.2⟩)]
    split
    · rfl
    · unfold limHandle80211Frames_dispatch
      dsimp only
      split
      · rfl
      · rfl
  · unfold limHandle80211Frames
    dsimp only
    rw [if_neg hext, if_neg (fun hc => hroam ⟨hc.1, Or.inl hc.2⟩),
      if_neg (fun hc => hroam ⟨hc.1, Or.inr hc.2⟩)]
    split
    · rename_i w1 heq
      rw [heq]
      exact Or.inl rfl
    · rename_i ps w1 heq
      rw [heq]
      refine Or.inr ⟨ps, ?_⟩
      unfold limHandle80211Frames_dispatch
      dsimp only
      split
      · rfl
      · rfl
  · unfold limHandle80211Frames_session
    dsimp only
    cases h11 : env.WLAN_FEATURE_VOWIFI_11R with
    | true =>
      repeat' split
      all_goals first
        | exact Or.inl rfl
        | exact Or.inr ⟨rfl, rfl⟩
    | false =>
      simp only [Bool.false_and, Bool.false_eq_true, false_and, if_false]
      repeat' split
      all_goals exact Or.inl rfl
  · intro ps w1
    unfold limCheckMgmtRegisteredFrames
    dsimp only
    split
    · exact Or.inl rfl
    · rename_i r _
      refine Or.inr ⟨r, ?_⟩
      split <;> rfl

/-- C40 at a concrete input: a disassociation frame (packet 10) with protocol
version 1, whose peer has session 7, matches no registration: it is released
and no handler is called. -/
theorem limHandle80211Frames_bad_version_witness :
    (limHandle80211Frames
        { envV1 with peFindSessionByPeerSta := fun _ a => if a = 200 then some 7 else none }
        (frameMsg 10) ⟨stNormal, []⟩).1 = false ∧
    (limHandle80211Frames
        { envV1 with peFindSessionByPeerSta := fun _ a => if a = 200 then some 7 else none }
        (frameMsg 10) ⟨stNormal, []⟩).2.trace = [Call.limPktFree 10 10] :=
  ⟨(limHandle80211Frames_bad_version
      { envV1 with peFindSessionByPeerSta := fun _ a => if a = 200 then some 7 else none }
      (frameMsg 10) ⟨stNormal, []⟩ (envV1.limGetBDfromRxPacket () 10) rfl
      (by decide) (by decide) (by decide)).1,
   rfl⟩

end Lim
